import Mathlib

/-!
# ReSTIR_PT host-side orchestration: a shallow embedding

Lean model of the host-side C++ of the ReSTIR_PT repository (Falcor):

* `ScreenSpaceReSTIR` (`Source/Falcor/Experimental/ScreenSpaceReSTIR/ScreenSpaceReSTIR.{h,cpp}`):
  light-selection sample counts, light-sample bit layout, the per-frame ReSTIR-DI dispatch
  sequence with its frame-index uniforms and buffer bindings, the ReSTIR-GI update and the
  reservoir indices of `setShaderData`, the neighbor-offset table;
* `ScreenSpaceReSTIRPass`
  (`Source/RenderPasses/ScreenSpaceReSTIRPass/ScreenSpaceReSTIRPass.cpp`): the options object
  shared by the pass and its instances through `parseDictionary`, `setScene` and `updateDict`;
* `RenderContext` (`Source/Falcor/Core/API/D3D12/D3D12RenderContext.cpp`): `blit` with the
  cached uniforms of the shared blit data, `prepareForDraw` and the draw entry points,
  `resolveSubresource` and `resolveResource`;
* `ReSTIRPTPass` (`Source/RenderPasses/ReSTIRPTPass/ReSTIRPTPass.{h,cpp}`): `validateOptions`,
  the command sequence of `execute`, and the scripting dictionary (`parseDictionary`,
  `getScriptingDictionary`);
* `NDSDFGrid` (`Source/Falcor/Scene/SDFs/NormalizedDenseSDFGrid/NDSDFGrid.cpp`): the index
  arithmetic of `setValuesInternal`.

Conventions.  `uint32_t` values are natural numbers, arithmetic that can wrap is reduced
modulo `2 ^ 32` explicitly.  `float` values are rationals (`ℚ`); the arithmetic of the light
selection rounds every result to the nearest single-precision number (`roundF32`), elsewhere
the operations are exact.  A `float` that the code tests and that may be an infinity or NaN
(the roughness threshold of `validateOptions`) is a `FloatValue`.  A C++ `throw` is
`Except.error`.  GPU work that a function records is returned as a list of commands, in
recording order.
-/

namespace Falcor

/-! ## Machine integers -/

/-- Number of values of a `uint32_t`. -/
def u32 : Nat := 2 ^ 32

/-- Addition of `uint32_t`. -/
def addU32 (a b : Nat) : Nat := (a + b) % u32

/-- Subtraction of `uint32_t` (wraps around below zero). -/
def subU32 (a b : Nat) : Nat := (a % u32 + (u32 - b % u32)) % u32

/-- Multiplication of `uint32_t`. -/
def mulU32 (a b : Nat) : Nat := (a * b) % u32

/-! ## Single-precision floats -/

/-- Rounding of a rational to the nearest integer, a tie going to the even one. -/
def roundToEven (m : ℚ) : ℤ :=
  if m - ⌊m⌋ < 1 / 2 then ⌊m⌋
  else if 1 / 2 < m - ⌊m⌋ then ⌊m⌋ + 1
  else if ⌊m⌋ % 2 = 0 then ⌊m⌋ else ⌊m⌋ + 1

/-- The binary exponent at which a `float` represents `x`: the integer part of the binary
logarithm of `|x|`, and -126 (the exponent of the subnormal numbers) below `2 ^ (-126)`. -/
def exponentF32 (x : ℚ) : ℤ := max (Int.log 2 |x|) (-126)

/-- Rounding to the nearest `float` (IEEE 754 binary32: 24 significant bits), a tie going to
the even significand; this is what the float unit does to the exact result of an operation.
Magnitudes of `2 ^ 128` and more, which round to an infinity, are outside the model. -/
def roundF32 (x : ℚ) : ℚ :=
  roundToEven (x / 2 ^ (exponentF32 x - 23)) * 2 ^ (exponentF32 x - 23)

/-- Addition of `float`. -/
def addF32 (a b : ℚ) : ℚ := roundF32 (a + b)

/-- Multiplication of `float`. -/
def mulF32 (a b : ℚ) : ℚ := roundF32 (a * b)

/-- Division of `float`. -/
def divF32 (a b : ℚ) : ℚ := roundF32 (a / b)

/-- The conversion of a `uint32_t` to `float` (rounds from `2 ^ 24` upwards). -/
def floatOfU32 (n : Nat) : ℚ := roundF32 n

/-- The conversion `(uint32_t)std::floor(x)` of a non-negative float.  A value of `2 ^ 32` or
more has no `uint32_t` value and C++ leaves its conversion undefined; the largest `uint32_t` is
taken there. -/
def floorU32 (x : ℚ) : Nat :=
  if Rat.floor x < 2 ^ 32 then (Rat.floor x).toNat else 2 ^ 32 - 1

/-- A value of type `float` with its special values: a number, an infinity, or NaN. -/
inductive FloatValue where
  | num (x : ℚ)
  | posInf
  | negInf
  | nan
  deriving DecidableEq

namespace FloatValue

/-- The comparison `a < b` of `float`: false when an operand is NaN. -/
def lt : FloatValue → FloatValue → Bool
  | num x, num y => decide (x < y)
  | num _, posInf => true
  | negInf, num _ => true
  | negInf, posInf => true
  | _, _ => false

/-- The function `max(a, b)`, which is `a < b ? b : a`. -/
def max (a b : FloatValue) : FloatValue := if lt a b then b else a

/-- The function `min(a, b)`, which is `b < a ? b : a`. -/
def min (a b : FloatValue) : FloatValue := if lt b a then b else a

/-- The function `clamp(x, minVal, maxVal)`, which is `min(max(x, minVal), maxVal)`. -/
def clamp (x minVal maxVal : FloatValue) : FloatValue := min (max x minVal) maxVal

/-- The value is a number of the interval [0, 1]. -/
def InUnitInterval : FloatValue → Prop
  | num x => 0 ≤ x ∧ x ≤ 1
  | _ => False

end FloatValue

/-! ## Light selection (`ScreenSpaceReSTIR.h`, `mLightSelectionProbabilities`) -/

/-- The anonymous struct `mLightSelectionProbabilities`. -/
structure LightSelectionProbabilities where
  envLight : ℚ := 0
  emissiveLights : ℚ := 0
  analyticLights : ℚ := 0

/-- The method `getSampleCount(totalCount)`: the triple
`(envCount, emissiveCount, analyticCount)`.  In `envLight * totalCount` the count is converted
to `float` and the product is a `float` product. -/
def getSampleCount (p : LightSelectionProbabilities) (totalCount : Nat) : Nat × Nat × Nat :=
  let envCount := floorU32 (mulF32 p.envLight (floatOfU32 totalCount))
  let emissiveCount := floorU32 (mulF32 p.emissiveLights (floatOfU32 totalCount))
  let analyticCount := floorU32 (mulF32 p.analyticLights (floatOfU32 totalCount))
  if envCount > 0 then
    (subU32 (subU32 totalCount emissiveCount) analyticCount, emissiveCount, analyticCount)
  else if emissiveCount > 0 then
    (envCount, subU32 (subU32 totalCount envCount) analyticCount, analyticCount)
  else if analyticCount > 0 then
    (envCount, emissiveCount, subU32 (subU32 totalCount envCount) emissiveCount)
  else
    (envCount, emissiveCount, analyticCount)

/-- The tail of `prepareLighting` ("Compute light selection probabilities"): the weight of a
category counts only when its alias table exists, and the three are divided by their sum when
that sum is positive; the sum and the quotients are `float` operations. -/
def computeLightSelectionProbabilities (hasEnvTable hasEmissiveTable hasAnalyticTable : Bool)
    (envLightWeight emissiveLightWeight analyticLightWeight : ℚ) : LightSelectionProbabilities :=
  let envLight := if hasEnvTable then envLightWeight else 0
  let emissiveLights := if hasEmissiveTable then emissiveLightWeight else 0
  let analyticLights := if hasAnalyticTable then analyticLightWeight else 0
  let total := addF32 (addF32 envLight emissiveLights) analyticLights
  if total > 0 then
    { envLight := divF32 envLight total
      emissiveLights := divF32 emissiveLights total
      analyticLights := divF32 analyticLights total }
  else
    { envLight := envLight, emissiveLights := emissiveLights, analyticLights := analyticLights }

/-- The sample counts as the specification words them: every category receives
`floor(probability * totalCount)` (of the exact product), except the last category, in the
order env, emissive, analytic, whose probability is nonzero; that one receives `totalCount`
minus the other two. -/
def specSampleCount (p : LightSelectionProbabilities) (totalCount : Nat) : Nat × Nat × Nat :=
  let envCount := floorU32 (p.envLight * totalCount)
  let emissiveCount := floorU32 (p.emissiveLights * totalCount)
  let analyticCount := floorU32 (p.analyticLights * totalCount)
  if p.analyticLights ≠ 0 then
    (envCount, emissiveCount, totalCount - envCount - emissiveCount)
  else if p.emissiveLights ≠ 0 then
    (envCount, totalCount - envCount - analyticCount, analyticCount)
  else if p.envLight ≠ 0 then
    (totalCount - emissiveCount - analyticCount, emissiveCount, analyticCount)
  else
    (envCount, emissiveCount, analyticCount)

/-- The probabilities that weights of 0.3 and 0.7 for the environment map and the emissive
lights give without analytic lights: the `float` values nearest to 0.3 and 0.7, whose `float`
sum is 1. -/
def threeAndSevenTenths : LightSelectionProbabilities :=
  { envLight := 5033165 / 16777216, emissiveLights := 11744051 / 16777216, analyticLights := 0 }

/-! ## Light-sample bit layout (`ScreenSpaceReSTIR::getLightsDefines`) -/

/-- The loop `while (count > 0) { ++indexBits; count >>= 1; }`, returning `indexBits`. -/
def countBits (count indexBits : Nat) : Nat :=
  if 0 < count then countBits (count >>> 1) (indexBits + 1) else indexBits
termination_by count
decreasing_by
  simp only [Nat.shiftRight_eq_div_pow, pow_one]
  omega

/-- The lambda `computeIndexPositionBits(aliasTable, indexBits, positionBits)`.  The alias table
is given by its `getCount()`, `none` being the null pointer; the result is the pair
`(indexBits, positionBits)` after the call. -/
def computeIndexPositionBits (aliasTable : Option Nat) (indexBits positionBits : Nat) :
    Except String (Nat × Nat) :=
  match aliasTable with
  | none => .ok (indexBits, positionBits)
  | some count =>
    let indexBits := countBits count 0
    let indexBits := if indexBits &&& 1 ≠ 0 then indexBits + 1 else indexBits
    if indexBits ≥ 30 then .error "Count too large to be represented in 30 bits"
    else .ok (indexBits, 30 - indexBits)

/-- The six bit-width defines that `getLightsDefines` emits. -/
structure LightsDefines where
  envIndexBits : Nat
  envPositionBits : Nat
  emissiveIndexBits : Nat
  emissivePositionBits : Nat
  analyticIndexBits : Nat
  analyticPositionBits : Nat
  deriving DecidableEq, Repr

/-- The bit-width part of `getLightsDefines`, for the three alias tables of the instance. -/
def getLightsDefines (mpEnvLightAliasTable mpEmissiveLightAliasTable
    mpAnalyticLightAliasTable : Option Nat) : Except String LightsDefines := do
  let (envIndexBits, envPositionBits) ← computeIndexPositionBits mpEnvLightAliasTable 26 4
  let (emissiveIndexBits, emissivePositionBits) ←
    computeIndexPositionBits mpEmissiveLightAliasTable 22 8
  let (analyticIndexBits, analyticPositionBits) ←
    computeIndexPositionBits mpAnalyticLightAliasTable 14 16
  pure { envIndexBits := envIndexBits, envPositionBits := envPositionBits
         emissiveIndexBits := emissiveIndexBits, emissivePositionBits := emissivePositionBits
         analyticIndexBits := analyticIndexBits, analyticPositionBits := analyticPositionBits }

/-- Rounding up to the next even number. -/
def roundUpEven (n : Nat) : Nat := if n % 2 = 1 then n + 1 else n

/-! ## The `ScreenSpaceReSTIR` instance (`ScreenSpaceReSTIR.{h,cpp}`) -/

/-- The fields of `ScreenSpaceReSTIR::Options` that the host-side control flow reads. -/
structure Options where
  useReSTIRDI : Bool := true
  useReSTIRGI : Bool := false
  envLightWeight : ℚ := 1
  emissiveLightWeight : ℚ := 1
  analyticLightWeight : ℚ := 1
  useLocalEmissiveTriangles : Bool := false
  lightTileCount : Nat := 128
  lightTileSize : Nat := 1024
  useTemporalResampling : Bool := true
  useSpatialResampling : Bool := true
  spatialIterations : Nat := 1
  enabled : Bool := true
  reSTIRGIReservoirCount : Nat := 1
  reSTIRGIUseReSTIRN : Bool := true

/-- A GPU buffer or texture object: its identity and its element count (texel count for a
texture).  A null `SharedPtr` is `none`. -/
structure Resource where
  id : Nat
  elementCount : Nat
  deriving DecidableEq, Repr

/-- What `prepareLighting` reads from the scene in one frame. -/
structure Scene where
  /-- The flag `RenderSettingsChanged` of `getUpdates()`. -/
  renderSettingsChanged : Bool := false
  /-- The flag `LightCountChanged` of `getUpdates()`. -/
  lightCountChanged : Bool := false
  useEnvLight : Bool := false
  envMapWidth : Nat := 0
  envMapHeight : Nat := 0
  envMapChannelCount : Nat := 4
  /-- The render setting `getRenderSettings().useEmissiveLights`. -/
  useEmissiveLights : Bool := false
  /-- The light collection: `getActiveLightCount()`. -/
  activeLightCount : Nat := 0
  /-- The light collection: `getTotalLightCount()`. -/
  totalLightCount : Nat := 0
  /-- The light collection: `getMeshLightTriangles().size()`. -/
  meshLightTriangleCount : Nat := 0
  useAnalyticLights : Bool := false
  /-- Number of scene lights with `isActive()`. -/
  activeAnalyticLightCount : Nat := 0

/-- The defines of the `GenerateLightTiles` program set by `updatePrograms`. -/
structure GenerateLightTilesDefines where
  lightTileCount : Nat
  lightTileSize : Nat
  envLightSampleCount : Nat
  emissiveLightSampleCount : Nat
  analyticLightSampleCount : Nat
  deriving DecidableEq, Repr

/-- A compute dispatch recorded by the ReSTIR-DI pipeline, with the uniforms and buffer
bindings the host sets for it. -/
inductive Dispatch where
  | giClearReservoirs (frameCount : Nat)
  | updateEmissiveTriangles (triangleCount : Nat)
  | generateLightTiles (frameIndex : Nat)
  | initialResampling (frameIndex : Nat) (reservoirs : Option Resource)
  | temporalResampling (frameIndex : Nat) (reservoirs prevReservoirs : Option Resource)
  | spatialResampling (frameIndex : Nat) (reservoirs prevReservoirs : Option Resource)
  | evaluateFinalSamples (reservoirs : Option Resource)
  deriving DecidableEq, Repr

/-- The `frameIndex` uniform of a dispatch, for the passes that bind one. -/
def Dispatch.frameIndex? : Dispatch → Option Nat
  | .generateLightTiles f => some f
  | .initialResampling f _ => some f
  | .temporalResampling f _ _ => some f
  | .spatialResampling f _ _ => some f
  | _ => none

/-- Whether a dispatch is the temporal-resampling pass. -/
def Dispatch.isTemporal : Dispatch → Bool
  | .temporalResampling _ _ _ => true
  | _ => false

/-- The mutable members of a `ScreenSpaceReSTIR` instance.  An alias table is represented by
its entry count (one entry per weight it was built from), a null pointer by `none`. -/
structure ScreenSpaceReSTIR where
  mOptions : Options := {}
  mFrameDim : Nat × Nat := (0, 0)
  mFrameIndex : Nat := 0
  mReSTIRInstanceIndex : Nat := 0
  mNumReSTIRInstances : Nat := 1
  mpEnvLightLuminance : Option Resource := none
  mpEmissiveTriangles : Option Resource := none
  mpEnvLightAliasTable : Option Nat := none
  mpEmissiveLightAliasTable : Option Nat := none
  mpAnalyticLightAliasTable : Option Nat := none
  mpSurfaceData : Option Resource := none
  mpPrevSurfaceData : Option Resource := none
  mpFinalSamples : Option Resource := none
  mpNormalDepthTexture : Option (Resource × Nat × Nat) := none
  mpPrevNormalDepthTexture : Option (Resource × Nat × Nat) := none
  mpDebugOutputTexture : Option (Resource × Nat × Nat) := none
  mpLightTileData : Option Resource := none
  mpReservoirs : Option Resource := none
  mpPrevReservoirs : Option Resource := none
  mpGIInitialSamples : Option Resource := none
  mpGIReservoirs0 : Option Resource := none
  mpGIReservoirs1 : Option Resource := none
  mRecompile : Bool := true
  mRequestReallocate : Bool := false
  mResetTemporalReservoirs : Bool := true
  mCurRISPass : Nat := 0
  mTotalRISPasses : Nat := 0
  mLightSelectionProbabilities : LightSelectionProbabilities := {}
  /-- Defines last given to the `GenerateLightTiles` program. -/
  generateLightTilesDefines : Option GenerateLightTilesDefines := none
  /-- Bit-width defines last given to the programs. -/
  lightsDefines : Option LightsDefines := none
  /-- Identity of the next object the device creates. -/
  nextResourceId : Nat := 0

/-- The constructor: everything at its member initialiser, `mFrameIndex` starting at the
instance index. -/
def ScreenSpaceReSTIR.create (options : Options) (numReSTIRInstances ReSTIRInstanceID : Nat) :
    ScreenSpaceReSTIR :=
  { mOptions := options
    mNumReSTIRInstances := numReSTIRInstances % u32
    mReSTIRInstanceIndex := ReSTIRInstanceID % u32
    mFrameIndex := ReSTIRInstanceID % u32 }

namespace ScreenSpaceReSTIR

/-- The method `resetReservoirCount()`. -/
def resetReservoirCount (s : ScreenSpaceReSTIR) : ScreenSpaceReSTIR :=
  { s with mRecompile := true, mFrameIndex := 0 }

/-- The method `enablePass(enabled)`. -/
def enablePass (s : ScreenSpaceReSTIR) (enabled : Bool) : ScreenSpaceReSTIR :=
  { s with mOptions := { s.mOptions with enabled := enabled } }

/-- The object a member pointer holds after "create it if `needed`": a new object of
`elementCount` elements, or the current one. -/
def createIf (needed : Bool) (current : Option Resource) (elementCount : Nat)
    (s : ScreenSpaceReSTIR) : Option Resource :=
  if needed then some { id := s.nextResourceId, elementCount := elementCount } else current

/-- The identity of the next object after "create it if `needed`". -/
def nextIdAfter (needed : Bool) (s : ScreenSpaceReSTIR) : Nat :=
  if needed then s.nextResourceId + 1 else s.nextResourceId

/-- Whether a buffer pointer is null or the buffer has fewer than `elementCount` elements. -/
def tooSmall (current : Option Resource) (elementCount : Nat) : Bool :=
  match current with
  | none => true
  | some b => b.elementCount < elementCount

/-- Whether a buffer pointer is null or the buffer does not have `elementCount` elements. -/
def wrongSize (current : Option Resource) (elementCount : Nat) : Bool :=
  match current with
  | none => true
  | some b => b.elementCount ≠ elementCount

/-- Whether a texture pointer is null or the texture does not have the frame size. -/
def wrongDim (current : Option (Resource × Nat × Nat)) (frameDim : Nat × Nat) : Bool :=
  match current with
  | none => true
  | some t => t.2.1 ≠ frameDim.1 || t.2.2 ≠ frameDim.2

/-- The texture a member pointer holds after "create a 2D texture of the frame size if
`needed`". -/
def createTextureIf (needed : Bool) (current : Option (Resource × Nat × Nat))
    (s : ScreenSpaceReSTIR) : Option (Resource × Nat × Nat) :=
  if needed then
    some ({ id := s.nextResourceId, elementCount := s.mFrameDim.1 * s.mFrameDim.2 },
      s.mFrameDim.1, s.mFrameDim.2)
  else current

/-- The block "Create light tile buffers" of `prepareResources`. -/
def createLightTileData (s : ScreenSpaceReSTIR) : ScreenSpaceReSTIR :=
  let elementCount := mulU32 s.mOptions.lightTileCount s.mOptions.lightTileSize
  let needed := tooSmall s.mpLightTileData elementCount
  { s with mpLightTileData := createIf needed s.mpLightTileData elementCount s
           nextResourceId := nextIdAfter needed s }

/-- The statement of `prepareResources` that creates `mpSurfaceData`. -/
def createSurfaceData (s : ScreenSpaceReSTIR) : ScreenSpaceReSTIR :=
  let elementCount := mulU32 s.mFrameDim.1 s.mFrameDim.2
  let needed := tooSmall s.mpSurfaceData elementCount
  { s with mpSurfaceData := createIf needed s.mpSurfaceData elementCount s
           nextResourceId := nextIdAfter needed s }

/-- The statement of `prepareResources` that creates `mpPrevSurfaceData`. -/
def createPrevSurfaceData (s : ScreenSpaceReSTIR) : ScreenSpaceReSTIR :=
  let elementCount := mulU32 s.mFrameDim.1 s.mFrameDim.2
  let needed := tooSmall s.mpPrevSurfaceData elementCount
  { s with mpPrevSurfaceData := createIf needed s.mpPrevSurfaceData elementCount s
           nextResourceId := nextIdAfter needed s }

/-- The statement of `prepareResources` that creates `mpReservoirs`. -/
def createReservoirs (s : ScreenSpaceReSTIR) : ScreenSpaceReSTIR :=
  let elementCount := mulU32 s.mFrameDim.1 s.mFrameDim.2
  let needed := tooSmall s.mpReservoirs elementCount || s.mRequestReallocate
  { s with mpReservoirs := createIf needed s.mpReservoirs elementCount s
           nextResourceId := nextIdAfter needed s }

/-- The statement of `prepareResources` that creates `mpPrevReservoirs`. -/
def createPrevReservoirs (s : ScreenSpaceReSTIR) : ScreenSpaceReSTIR :=
  let elementCount := mulU32 s.mFrameDim.1 s.mFrameDim.2
  let needed := tooSmall s.mpPrevReservoirs elementCount || s.mRequestReallocate
  { s with mpPrevReservoirs := createIf needed s.mpPrevReservoirs elementCount s
           nextResourceId := nextIdAfter needed s }

/-- The statement of `prepareResources` that creates `mpFinalSamples`, and the reset of
`mRequestReallocate` after it. -/
def createFinalSamples (s : ScreenSpaceReSTIR) : ScreenSpaceReSTIR :=
  let elementCount := mulU32 s.mFrameDim.1 s.mFrameDim.2
  let needed := tooSmall s.mpFinalSamples elementCount || s.mRequestReallocate
  { s with mpFinalSamples := createIf needed s.mpFinalSamples elementCount s
           nextResourceId := nextIdAfter needed s
           mRequestReallocate := false }

/-- The statement of `prepareResources` that creates `mpGIInitialSamples`. -/
def createGIInitialSamples (s : ScreenSpaceReSTIR) : ScreenSpaceReSTIR :=
  let elementCount := mulU32 s.mFrameDim.1 s.mFrameDim.2
  let initialReservoirCount :=
    if s.mOptions.reSTIRGIUseReSTIRN then mulU32 elementCount s.mOptions.reSTIRGIReservoirCount
    else elementCount
  let needed := wrongSize s.mpGIInitialSamples initialReservoirCount
  { s with mpGIInitialSamples := createIf needed s.mpGIInitialSamples initialReservoirCount s
           nextResourceId := nextIdAfter needed s }

/-- The loop of `prepareResources` over `mpGIReservoirs[i]`, iteration `i = 0`. -/
def createGIReservoirs0 (s : ScreenSpaceReSTIR) : ScreenSpaceReSTIR :=
  let elementCount := mulU32 s.mFrameDim.1 s.mFrameDim.2
  let reservoirCount := mulU32 (mulU32 elementCount 2) s.mOptions.reSTIRGIReservoirCount
  let needed := wrongSize s.mpGIReservoirs0 reservoirCount
  { s with mpGIReservoirs0 := createIf needed s.mpGIReservoirs0 reservoirCount s
           nextResourceId := nextIdAfter needed s }

/-- The loop of `prepareResources` over `mpGIReservoirs[i]`, iteration `i = 1`. -/
def createGIReservoirs1 (s : ScreenSpaceReSTIR) : ScreenSpaceReSTIR :=
  let elementCount := mulU32 s.mFrameDim.1 s.mFrameDim.2
  let reservoirCount := mulU32 (mulU32 elementCount 2) s.mOptions.reSTIRGIReservoirCount
  let needed := wrongSize s.mpGIReservoirs1 reservoirCount
  { s with mpGIReservoirs1 := createIf needed s.mpGIReservoirs1 reservoirCount s
           nextResourceId := nextIdAfter needed s }

/-- The statement of `prepareResources` that creates `mpNormalDepthTexture`. -/
def createNormalDepthTexture (s : ScreenSpaceReSTIR) : ScreenSpaceReSTIR :=
  let needed := wrongDim s.mpNormalDepthTexture s.mFrameDim
  { s with mpNormalDepthTexture := createTextureIf needed s.mpNormalDepthTexture s
           nextResourceId := nextIdAfter needed s }

/-- The statement of `prepareResources` that creates `mpPrevNormalDepthTexture`. -/
def createPrevNormalDepthTexture (s : ScreenSpaceReSTIR) : ScreenSpaceReSTIR :=
  let needed := wrongDim s.mpPrevNormalDepthTexture s.mFrameDim
  { s with mpPrevNormalDepthTexture := createTextureIf needed s.mpPrevNormalDepthTexture s
           nextResourceId := nextIdAfter needed s }

/-- The block "Create debug texture" of `prepareResources`. -/
def createDebugOutputTexture (s : ScreenSpaceReSTIR) : ScreenSpaceReSTIR :=
  let needed := wrongDim s.mpDebugOutputTexture s.mFrameDim
  { s with mpDebugOutputTexture := createTextureIf needed s.mpDebugOutputTexture s
           nextResourceId := nextIdAfter needed s }

/-- The method `prepareResources`: its statements in source order. -/
def prepareResources (s : ScreenSpaceReSTIR) : ScreenSpaceReSTIR :=
  createDebugOutputTexture (createPrevNormalDepthTexture (createNormalDepthTexture
    (createGIReservoirs1 (createGIReservoirs0 (createGIInitialSamples (createFinalSamples
      (createPrevReservoirs (createReservoirs (createPrevSurfaceData (createSurfaceData
        (createLightTileData s)))))))))))

/-- The method `beginFrame`. -/
def beginFrame (s : ScreenSpaceReSTIR) (frameDim : Nat × Nat) : ScreenSpaceReSTIR :=
  if s.mOptions.enabled then prepareResources { s with mFrameDim := frameDim }
  else s

/-- The method `endFrame`: advance the frame index by the instance count and exchange the
surface-data and reservoir buffers. -/
def endFrame (s : ScreenSpaceReSTIR) : ScreenSpaceReSTIR :=
  if s.mOptions.enabled then
    { s with
      mFrameIndex := addU32 s.mFrameIndex s.mNumReSTIRInstances
      mpSurfaceData := s.mpPrevSurfaceData
      mpPrevSurfaceData := s.mpSurfaceData
      mpReservoirs := s.mpPrevReservoirs
      mpPrevReservoirs := s.mpReservoirs }
  else s

/-- First block of `prepareLighting`, "Setup alias table for env light".
`computeEnvLightLuminance` throws on an env map whose channel count is not 1, 3 or 4; this is the
one exception of the block that the model raises (read-back and alias-table construction are
calls into code outside these files). -/
def prepareEnvLight (scene : Scene) (s : ScreenSpaceReSTIR) : Except String ScreenSpaceReSTIR :=
  if scene.useEnvLight then
    if s.mpEnvLightLuminance.isNone || s.mpEnvLightAliasTable.isNone then
      if scene.envMapChannelCount = 1 ∨ scene.envMapChannelCount = 3
          ∨ scene.envMapChannelCount = 4 then
        let texelCount := mulU32 scene.envMapWidth scene.envMapHeight
        pure { s with
          mpEnvLightLuminance := some { id := s.nextResourceId, elementCount := texelCount }
          nextResourceId := s.nextResourceId + 1
          mpEnvLightAliasTable := some texelCount
          mRecompile := true }
      else
        throw "Invalid number of channels in env map"
    else pure s
  else
    if s.mpEnvLightLuminance.isSome then
      pure { s with mpEnvLightLuminance := none, mpEnvLightAliasTable := none
                    mRecompile := true }
    else pure s

/-- Second block of `prepareLighting`, "Setup alias table for emissive lights". -/
def prepareEmissiveLights (scene : Scene) (s : ScreenSpaceReSTIR) : ScreenSpaceReSTIR :=
  if scene.useEmissiveLights then
    if s.mpEmissiveLightAliasTable.isNone then
      if scene.activeLightCount > 0 then
        { s with
          mpEmissiveTriangles :=
            some { id := s.nextResourceId, elementCount := scene.totalLightCount }
          nextResourceId := s.nextResourceId + 1
          mpEmissiveLightAliasTable := some scene.meshLightTriangleCount
          mRecompile := true }
      else s
    else s
  else
    if s.mpEmissiveTriangles.isSome then
      { s with mpEmissiveTriangles := none, mpEmissiveLightAliasTable := none
               mRecompile := true }
    else s

/-- Third block of `prepareLighting`, "Setup alias table for analytic lights". -/
def prepareAnalyticLights (scene : Scene) (s : ScreenSpaceReSTIR) : ScreenSpaceReSTIR :=
  if scene.useAnalyticLights then
    let s := if scene.lightCountChanged then { s with mpAnalyticLightAliasTable := none } else s
    if s.mpAnalyticLightAliasTable.isNone then
      if scene.activeAnalyticLightCount ≠ 0 then
        { s with mpAnalyticLightAliasTable := some scene.activeAnalyticLightCount
                 mRecompile := true }
      else s
    else s
  else
    if s.mpAnalyticLightAliasTable.isSome then
      { s with mpAnalyticLightAliasTable := none, mRecompile := true }
    else s

/-- Last block of `prepareLighting`, "Compute light selection probabilities". -/
def prepareLightSelection (s : ScreenSpaceReSTIR) : ScreenSpaceReSTIR :=
  { s with
    mLightSelectionProbabilities :=
      computeLightSelectionProbabilities s.mpEnvLightAliasTable.isSome
        s.mpEmissiveLightAliasTable.isSome s.mpAnalyticLightAliasTable.isSome
        s.mOptions.envLightWeight s.mOptions.emissiveLightWeight s.mOptions.analyticLightWeight }

/-- The method `prepareLighting`: (re)build or drop the three alias tables, then compute the
light selection probabilities. -/
def prepareLighting (scene : Scene) (s : ScreenSpaceReSTIR) : Except String ScreenSpaceReSTIR := do
  let s := if scene.renderSettingsChanged then { s with mRecompile := true } else s
  let s ← prepareEnvLight scene s
  let s := prepareEmissiveLights scene s
  let s := prepareAnalyticLights scene s
  pure (prepareLightSelection s)

/-- The method `updatePrograms`: nothing unless `mRecompile`; otherwise the defines are
recomputed (`getLightsDefines` may throw), `mRecompile` is cleared and
`mResetTemporalReservoirs` is set. -/
def updatePrograms (s : ScreenSpaceReSTIR) : Except String ScreenSpaceReSTIR :=
  if !s.mRecompile then pure s
  else do
    let lightsDefines ← getLightsDefines s.mpEnvLightAliasTable s.mpEmissiveLightAliasTable
      s.mpAnalyticLightAliasTable
    let sampleCount := getSampleCount s.mLightSelectionProbabilities s.mOptions.lightTileSize
    pure { s with
      lightsDefines := some lightsDefines
      generateLightTilesDefines := some
        { lightTileCount := s.mOptions.lightTileCount
          lightTileSize := s.mOptions.lightTileSize
          envLightSampleCount := sampleCount.1
          emissiveLightSampleCount := sampleCount.2.1
          analyticLightSampleCount := sampleCount.2.2 }
      mRecompile := false
      mResetTemporalReservoirs := true }

/-- The expression `mTotalRISPasses * mFrameIndex + mCurRISPass` bound as `frameIndex`
(evaluated in `uint32_t`). -/
def frameIndexUniform (s : ScreenSpaceReSTIR) : Nat :=
  addU32 (mulU32 s.mTotalRISPasses s.mFrameIndex) s.mCurRISPass

/-- The method `reSTIRGIClearPass`. -/
def reSTIRGIClearPass (s : ScreenSpaceReSTIR) : ScreenSpaceReSTIR × List Dispatch :=
  (s, [.giClearReservoirs s.mFrameIndex])

/-- The method `updateEmissiveTriangles`. -/
def updateEmissiveTriangles (s : ScreenSpaceReSTIR) : ScreenSpaceReSTIR × List Dispatch :=
  match s.mpEmissiveTriangles with
  | none => (s, [])
  | some triangles =>
    if !s.mOptions.useLocalEmissiveTriangles then (s, [])
    else (s, [.updateEmissiveTriangles triangles.elementCount])

/-- The method `generateLightTiles`. -/
def generateLightTiles (s : ScreenSpaceReSTIR) : ScreenSpaceReSTIR × List Dispatch :=
  ({ s with mCurRISPass := s.mCurRISPass + 2 }, [.generateLightTiles s.frameIndexUniform])

/-- The method `initialResampling`. -/
def initialResampling (s : ScreenSpaceReSTIR) : ScreenSpaceReSTIR × List Dispatch :=
  ({ s with mCurRISPass := s.mCurRISPass + 1 },
    [.initialResampling s.frameIndexUniform s.mpReservoirs])

/-- The method `temporalResampling`. -/
def temporalResampling (s : ScreenSpaceReSTIR) : ScreenSpaceReSTIR × List Dispatch :=
  if s.mResetTemporalReservoirs then
    ({ s with mResetTemporalReservoirs := false }, [])
  else if !s.mOptions.useTemporalResampling then (s, [])
  else
    ({ s with mCurRISPass := s.mCurRISPass + 1 },
      [.temporalResampling s.frameIndexUniform s.mpReservoirs s.mpPrevReservoirs])

/-- The loop of `spatialResampling`, `n` iterations being left. -/
def spatialResamplingLoop : Nat → ScreenSpaceReSTIR → ScreenSpaceReSTIR × List Dispatch
  | 0, s => (s, [])
  | n + 1, s =>
    let s := { s with mpReservoirs := s.mpPrevReservoirs, mpPrevReservoirs := s.mpReservoirs }
    let d := Dispatch.spatialResampling s.frameIndexUniform s.mpReservoirs s.mpPrevReservoirs
    let s := { s with mCurRISPass := s.mCurRISPass + 1 }
    let r := spatialResamplingLoop n s
    (r.1, d :: r.2)

/-- The method `spatialResampling`. -/
def spatialResampling (s : ScreenSpaceReSTIR) : ScreenSpaceReSTIR × List Dispatch :=
  if !s.mOptions.useSpatialResampling then (s, [])
  else spatialResamplingLoop s.mOptions.spatialIterations s

/-- The method `evaluateFinalSamples`. -/
def evaluateFinalSamples (s : ScreenSpaceReSTIR) : ScreenSpaceReSTIR × List Dispatch :=
  (s, [.evaluateFinalSamples s.mpReservoirs])

/-- The body of `updateReSTIRDI` after `updatePrograms`: the optional ReSTIR-GI clear pass, then,
with `useReSTIRDI`, the six ReSTIR-DI stages in order. -/
def recordPasses (s : ScreenSpaceReSTIR) : ScreenSpaceReSTIR × List Dispatch :=
  let (s, dClear) := if s.mOptions.useReSTIRGI then reSTIRGIClearPass s else (s, [])
  if !s.mOptions.useReSTIRDI then (s, dClear)
  else
    let (s, dEmissive) := updateEmissiveTriangles s
    let (s, dTiles) := generateLightTiles s
    let (s, dInitial) := initialResampling s
    let (s, dTemporal) := temporalResampling s
    let (s, dSpatial) := spatialResampling s
    let (s, dFinal) := evaluateFinalSamples s
    (s, dClear ++ dEmissive ++ dTiles ++ dInitial ++ dTemporal ++ dSpatial ++ dFinal)

/-- The method `updateReSTIRDI`: the state after the call and the dispatches it recorded, or
the exception that `prepareLighting` / `updatePrograms` threw (before any dispatch). -/
def updateReSTIRDI (scene : Scene) (s : ScreenSpaceReSTIR) :
    Except String (ScreenSpaceReSTIR × List Dispatch) :=
  if s.mOptions.enabled then do
    let s := { s with mTotalRISPasses := addU32 (2 + 1 + 1) s.mOptions.spatialIterations
                      mCurRISPass := 0 }
    let s ← prepareLighting scene s
    let s ← updatePrograms s
    pure (recordPasses s)
  else
    pure ({ s with mRecompile := false }, [])

end ScreenSpaceReSTIR

/-- One rendered frame as the instance sees it: the options as edited since the last frame
(`mOptions` is shared with the owning pass and the UI) and the scene of this frame. -/
structure FrameInput where
  options : Options
  frameDim : Nat × Nat := (1, 1)
  scene : Scene := {}

/-- One frame of an instance, as `ScreenSpaceReSTIRPass::execute` drives it: the options of
the frame are in place, then `beginFrame`, `updateReSTIRDI`, `endFrame`.  Returns the
dispatches that `updateReSTIRDI` recorded. -/
def runFrame (inp : FrameInput) (s : ScreenSpaceReSTIR) :
    Except String (ScreenSpaceReSTIR × List Dispatch) := do
  let s := { s with mOptions := inp.options }
  let s := s.beginFrame inp.frameDim
  let (s, ds) ← s.updateReSTIRDI inp.scene
  pure (s.endFrame, ds)

/-- A run of consecutive frames: all dispatches recorded, in recording order, and the final
state; an exception ends the run (no state is left, the dispatches of the earlier frames
stay). -/
def runFrames : List FrameInput → ScreenSpaceReSTIR → List Dispatch × Option ScreenSpaceReSTIR
  | [], s => ([], some s)
  | inp :: rest, s =>
    match runFrame inp s with
    | .error _ => ([], none)
    | .ok (s, ds) =>
      let r := runFrames rest s
      (ds ++ r.1, r.2)

/-- The `frameIndex` uniforms of a list of dispatches, in recording order. -/
def frameIndexUniforms (ds : List Dispatch) : List Nat :=
  ds.filterMap Dispatch.frameIndex?

/-- The dispatches a call recorded: those it returns, none when it threw (the exceptions of
`updateReSTIRDI` are raised before the first dispatch). -/
def dispatchesOf (r : Except String (ScreenSpaceReSTIR × List Dispatch)) : List Dispatch :=
  match r with
  | .ok p => p.2
  | .error _ => []

/-! ## `RenderContext::blit` (`D3D12RenderContext.cpp`) -/

/-- The enumeration `Sampler::ReductionMode`. -/
inductive ReductionMode where
  | Standard | Comparison | Min | Max
  deriving DecidableEq, Repr

/-- The enumeration `Sampler::Filter`. -/
inductive Filter where
  | Point | Linear
  deriving DecidableEq, Repr

/-- The enumeration `Resource::Type`. -/
inductive ResourceType where
  | Buffer | Texture1D | Texture2D | Texture3D | TextureCube | Texture2DMultisample
  deriving DecidableEq, Repr

/-- A `float2`. -/
structure Float2 where
  x : ℚ
  y : ℚ
  deriving DecidableEq

/-- A `float4`. -/
structure Float4 where
  x : ℚ
  y : ℚ
  z : ℚ
  w : ℚ
  deriving DecidableEq

/-- A `uint4` rectangle: `(x, y)` is the first corner, `(z, w)` the corner past the last. -/
structure UInt4 where
  x : Nat
  y : Nat
  z : Nat
  w : Nat
  deriving DecidableEq, Repr

/-- What `blit` reads from the resource behind a view.  `getWidth` and `getHeight` are the
texture's accessors by mip level, `integerFormat` is `isIntegerFormat(getFormat())`; for a
resource of type `Buffer` the texture members are unused. -/
structure Texture where
  id : Nat
  type : ResourceType
  getWidth : Nat → Nat
  getHeight : Nat → Nat
  mipCount : Nat
  arraySize : Nat
  sampleCount : Nat
  integerFormat : Bool

/-- The struct `ResourceViewInfo`. -/
structure ResourceViewInfo where
  mostDetailedMip : Nat
  mipCount : Nat
  firstArraySlice : Nat
  arraySize : Nat
  deriving DecidableEq, Repr

/-- A shader-resource or render-target view: its resource and its view info. -/
structure View where
  resource : Texture
  viewInfo : ResourceViewInfo

/-- The six samplers that `RenderContextApiData::init` creates. -/
inductive Sampler where
  | pLinearSampler | pPointSampler
  | pLinearMinSampler | pPointMinSampler
  | pLinearMaxSampler | pPointMaxSampler
  deriving DecidableEq, Repr

/-- A `GraphicsState::Viewport` (depth range is always `0 .. 1` here). -/
structure Viewport where
  originX : ℚ
  originY : ℚ
  width : ℚ
  height : ℚ
  deriving DecidableEq

/-- The shared `sApiData.blitData`: the cached values (`prev...`), and the state of the blit
pass that they mirror: program defines, bound samplers, constant buffer `BlitParamsCB`,
colour target, source view and viewport. -/
structure BlitData where
  defineSampleCount : Nat
  defineComplexBlit : Bool
  defineSrcInt : Bool
  defineDstInt : Bool
  gSampler : Option Sampler
  gSamplerRGBA : Fin 4 → Option Sampler
  gOffset : Float2
  gScale : Float2
  gCompTransform : Fin 4 → Float4
  prevSrcRectOffset : Float2
  prevSrcReftScale : Float2
  prevComponentsTransform : Fin 4 → Float4
  /-- Colour target 0 of `pFbo`: texture id, mip level, first array slice, array size. -/
  colorTarget : Option (Nat × Nat × Nat × Nat)
  /-- The view bound at `texBindLoc` (its resource id and view info). -/
  gTex : Option (Nat × ResourceViewInfo)
  viewport : Option Viewport

/-- A variable of the constant buffer `BlitParamsCB`. -/
inductive BlitVar where
  | gOffset | gScale | gCompTransform (i : Fin 4)
  deriving DecidableEq

/-- What a call of `blit` records: a raw resource copy, a write to the constant buffer, or the
execution of the blit shader pass (with the pass state it runs with). -/
inductive BlitCommand where
  | copyResource (dst src : Nat)
  | setVariable (var : BlitVar) (value : List ℚ)
  | execute (pass : BlitData)

/-- Whether a command is a raw resource copy. -/
def BlitCommand.isCopy : BlitCommand → Bool
  | .copyResource _ _ => true
  | _ => false

/-- Whether a command executes the shader pass. -/
def BlitCommand.isExecute : BlitCommand → Bool
  | .execute _ => true
  | _ => false

/-- Outcome of a `blit` that returns: the shared blit data afterwards, the commands recorded,
and whether every `assert` on the way held (an `assert` is not a `throw`). -/
structure BlitResult where
  blitData : BlitData
  commands : List BlitCommand
  assertsHold : Bool := true

/-- The lambda `isFullView(view, tex)`. -/
def isFullView (view : View) : Bool :=
  view.viewInfo.mostDetailedMip == 0 && view.viewInfo.firstArraySlice == 0 &&
    view.viewInfo.mipCount == view.resource.mipCount &&
    view.viewInfo.arraySize == view.resource.arraySize

/-- The i-th vector of the identity basis: `float4(1,0,0,0)`, `float4(0,1,0,0)`, ... -/
def identityTransform (i : Fin 4) : Float4 :=
  { x := if i = 0 then 1 else 0, y := if i = 1 then 1 else 0
    z := if i = 2 then 1 else 0, w := if i = 3 then 1 else 0 }

/-- The value of `complexBlit`. -/
def isComplexBlit (componentsReduction : Fin 4 → ReductionMode)
    (componentsTransform : Fin 4 → Float4) : Bool :=
  !(componentsReduction 0 == .Standard && componentsReduction 1 == .Standard &&
    componentsReduction 2 == .Standard && componentsReduction 3 == .Standard &&
    componentsTransform 0 == identityTransform 0 && componentsTransform 1 == identityTransform 1 &&
    componentsTransform 2 == identityTransform 2 && componentsTransform 3 == identityTransform 3)

/-- The sampler chosen for one component of a complex blit. -/
def usedSampler (filter : Filter) (reduction : ReductionMode) : Sampler :=
  if reduction = .Min then
    (if filter = .Linear then .pLinearMinSampler else .pPointMinSampler)
  else if reduction = .Max then
    (if filter = .Linear then .pLinearMaxSampler else .pPointMaxSampler)
  else (if filter = .Linear then .pLinearSampler else .pPointSampler)

/-- The loop "Parameters for complex blit" over the components `i = 0 .. 3`: a transform that
differs from the cached one is written to the constant buffer and cached. -/
def updateComponentsTransform (componentsTransform : Fin 4 → Float4) :
    List (Fin 4) → BlitData → BlitData × List BlitCommand
  | [], b => (b, [])
  | i :: rest, b =>
    if b.prevComponentsTransform i ≠ componentsTransform i then
      let t := componentsTransform i
      let b := { b with
        gCompTransform := Function.update b.gCompTransform i t
        prevComponentsTransform := Function.update b.prevComponentsTransform i t }
      let r := updateComponentsTransform componentsTransform rest b
      (r.1, .setVariable (.gCompTransform i) [t.x, t.y, t.z, t.w] :: r.2)
    else updateComponentsTransform componentsTransform rest b

/-- The size `(getWidth(mip), getHeight(mip))` of a view's resource at the view's most
detailed mip. -/
def viewSize (view : View) : Nat × Nat :=
  (view.resource.getWidth view.viewInfo.mostDetailedMip,
    view.resource.getHeight view.viewInfo.mostDetailedMip)

/-- The clamping `rect.z = min(rect.z, size.x); rect.w = min(rect.w, size.y)`. -/
def clampRect (rect : UInt4) (size : Nat × Nat) : UInt4 :=
  { rect with z := min rect.z size.1, w := min rect.w size.2 }

/-- The test `srcRect.x >= srcRect.z || srcRect.y >= srcRect.w || dstRect.x >= dstRect.z ||
dstRect.y >= dstRect.w` on the clamped rectangles. -/
def isDegenerate (srcRect dstRect : UInt4) : Bool :=
  decide (srcRect.x ≥ srcRect.z) || decide (srcRect.y ≥ srcRect.w) ||
    decide (dstRect.x ≥ dstRect.z) || decide (dstRect.y ≥ dstRect.w)

/-- The values `srcFullRect` / `dstFullRect` for a clamped rectangle. -/
def isFullRect (rect : UInt4) (size : Nat × Nat) : Bool :=
  rect.x == 0 && rect.y == 0 && rect.z == size.1 && rect.w == size.2

/-- The value of `fullCopy`, on the clamped rectangles. -/
def isFullCopy (compareDesc : Texture → Texture → Bool) (pSrc pDst : View)
    (srcRect dstRect : UInt4) (componentsReduction : Fin 4 → ReductionMode)
    (componentsTransform : Fin 4 → Float4) : Bool :=
  !isComplexBlit componentsReduction componentsTransform &&
    isFullView pSrc && isFullRect srcRect (viewSize pSrc) &&
    isFullView pDst && isFullRect dstRect (viewSize pDst) &&
    compareDesc pSrc.resource pDst.resource

/-- The branch `if (complexBlit) ... else ...` of `blit` that binds the samplers and, for a
complex blit, updates the component transforms: the blit data, the constant-buffer writes and
whether the two `assert`s of the complex branch held. -/
def bindSamplers (b : BlitData) (sampleCount : Nat) (filter : Filter)
    (componentsReduction : Fin 4 → ReductionMode) (componentsTransform : Fin 4 → Float4) :
    BlitData × List BlitCommand × Bool :=
  if isComplexBlit componentsReduction componentsTransform then
    let asserts := decide (sampleCount ≤ 1) &&
      decide (∀ i : Fin 4, componentsReduction i ≠ .Comparison)
    let b := { b with gSamplerRGBA := fun i => some (usedSampler filter (componentsReduction i)) }
    let r := updateComponentsTransform componentsTransform [0, 1, 2, 3] b
    (r.1, r.2, asserts)
  else
    let sampler := if filter = .Linear then Sampler.pLinearSampler else Sampler.pPointSampler
    ({ b with gSampler := some sampler }, [], true)

/-- The value of `srcRectOffset`. -/
def srcRectOffset (srcRect : UInt4) (srcSize : Nat × Nat) : Float2 :=
  if !isFullRect srcRect srcSize then
    { x := (srcRect.x : ℚ) / srcSize.1, y := (srcRect.y : ℚ) / srcSize.2 }
  else { x := 0, y := 0 }

/-- The value of `srcRectScale`. -/
def srcRectScale (srcRect : UInt4) (srcSize : Nat × Nat) : Float2 :=
  if !isFullRect srcRect srcSize then
    { x := (subU32 srcRect.z srcRect.x : ℚ) / srcSize.1
      y := (subU32 srcRect.w srcRect.y : ℚ) / srcSize.2 }
  else { x := 1, y := 1 }

/-- The value of `dstViewport`. -/
def dstViewport (dstRect : UInt4) (dstSize : Nat × Nat) : Viewport :=
  if !isFullRect dstRect dstSize then
    { originX := dstRect.x, originY := dstRect.y
      width := subU32 dstRect.z dstRect.x, height := subU32 dstRect.w dstRect.y }
  else { originX := 0, originY := 0, width := dstSize.1, height := dstSize.2 }

/-- The statement `if (srcRectOffset != blitData.prevSrcRectOffset) ...`. -/
def updateOffset (offset : Float2) (b : BlitData) : BlitData × List BlitCommand :=
  if offset ≠ b.prevSrcRectOffset then
    ({ b with gOffset := offset, prevSrcRectOffset := offset },
      [.setVariable .gOffset [offset.x, offset.y]])
  else (b, [])

/-- The statement `if (srcRectScale != blitData.prevSrcReftScale) ...`. -/
def updateScale (scale : Float2) (b : BlitData) : BlitData × List BlitCommand :=
  if scale ≠ b.prevSrcReftScale then
    ({ b with gScale := scale, prevSrcReftScale := scale },
      [.setVariable .gScale [scale.x, scale.y]])
  else (b, [])

/-- The shader path of `blit`, from "Configure program" to the end; the rectangles are the
clamped ones. -/
def blitShaderPath (blitData : BlitData) (pSrc pDst : View) (srcRect dstRect : UInt4)
    (filter : Filter)
    (componentsReduction : Fin 4 → ReductionMode) (componentsTransform : Fin 4 → Float4) :
    BlitResult :=
  let sampleCount := pSrc.resource.sampleCount
  -- Configure program.
  let b := { blitData with
    defineSampleCount := sampleCount
    defineComplexBlit := isComplexBlit componentsReduction componentsTransform
    defineSrcInt := pSrc.resource.integerFormat
    defineDstInt := pDst.resource.integerFormat }
  let r1 := bindSamplers b sampleCount filter componentsReduction componentsTransform
  -- Update buffer/state
  let r2 := updateOffset (srcRectOffset srcRect (viewSize pSrc)) r1.1
  let r3 := updateScale (srcRectScale srcRect (viewSize pSrc)) r2.1
  let b := { r3.1 with
    colorTarget := some (pDst.resource.id, pDst.viewInfo.mostDetailedMip,
      pDst.viewInfo.firstArraySlice, pDst.viewInfo.arraySize)
    gTex := some (pSrc.resource.id, pSrc.viewInfo)
    viewport := some (dstViewport dstRect (viewSize pDst)) }
  -- Execute, then release the resources we bound
  { blitData := { b with gTex := none }
    commands := r1.2.1 ++ r2.2 ++ r3.2 ++ [.execute b]
    assertsHold := r1.2.2 }

/-- The method `RenderContext::blit(pSrc, pDst, srcRect, dstRect, filter,
componentsReduction, componentsTransform)` on the shared `blitData`.  `compareDesc` is
`Texture::compareDesc`, which lives outside this file. -/
def blit (compareDesc : Texture → Texture → Bool) (blitData : BlitData) (pSrc pDst : View)
    (srcRect dstRect : UInt4) (filter : Filter)
    (componentsReduction : Fin 4 → ReductionMode) (componentsTransform : Fin 4 → Float4) :
    Except String BlitResult :=
  -- Fetch textures from views.
  if pSrc.resource.type = .Buffer ∨ pDst.resource.type = .Buffer then
    throw "RenderContext::blit does not support buffers"
  else
    -- Clamp rectangles to the dimensions of the source/dest views.
    let srcRect := clampRect srcRect (viewSize pSrc)
    let dstRect := clampRect dstRect (viewSize pDst)
    if isDegenerate srcRect dstRect then
      -- No blit necessary
      pure { blitData := blitData, commands := [] }
    else
      -- Determine the type of blit.
      let sampleCount := pSrc.resource.sampleCount
      let complexBlit := isComplexBlit componentsReduction componentsTransform
      -- Take fast path to copy the entire resource if possible.
      if isFullCopy compareDesc pSrc pDst srcRect dstRect componentsReduction
          componentsTransform then
        pure { blitData := blitData
               commands := [.copyResource pDst.resource.id pSrc.resource.id] }
      -- Complex blit doesn't work with multi-sampled textures.
      else if complexBlit && decide (sampleCount > 1) then
        throw "RenderContext::blit() does not support sample count > 1 for complex blit"
      -- Validate source format.
      else if pSrc.resource.integerFormat && decide (sampleCount > 1) then
        throw "RenderContext::blit() requires non-integer source format for multi-sampled textures"
      else if pSrc.resource.integerFormat && complexBlit then
        throw "RenderContext::blit() requires non-integer source format for complex blit"
      -- Blit does not support texture arrays or mip maps.
      else if !(pSrc.viewInfo.arraySize == 1 && pSrc.viewInfo.mipCount == 1) ||
          !(pDst.viewInfo.arraySize == 1 && pDst.viewInfo.mipCount == 1) then
        throw "RenderContext::blit() does not support texture arrays or mip maps"
      else
        pure (blitShaderPath blitData pSrc pDst srcRect dstRect filter
          componentsReduction componentsTransform)

/-- The shared blit data as `RenderContextApiData::init` leaves it: defines `SAMPLE_COUNT=1`,
`COMPLEX_BLIT=0`, `SRC_INT=0`, `DST_INT=0`, cached offset and scale `float2(-1)`, cached and
written component transforms the identity basis, nothing bound.  The constant-buffer variables
`gOffset` and `gScale`, which `init` does not write, are taken as zero. -/
def BlitData.init : BlitData :=
  { defineSampleCount := 1
    defineComplexBlit := false
    defineSrcInt := false
    defineDstInt := false
    gSampler := none
    gSamplerRGBA := fun _ => none
    gOffset := { x := 0, y := 0 }
    gScale := { x := 0, y := 0 }
    gCompTransform := identityTransform
    prevSrcRectOffset := { x := -1, y := -1 }
    prevSrcReftScale := { x := -1, y := -1 }
    prevComponentsTransform := identityTransform
    colorTarget := none
    gTex := none
    viewport := none }

/-- The seven-argument overload's defaults, used by the five-argument `blit`: all reductions
`Standard`. -/
def standardReduction : Fin 4 → ReductionMode := fun _ => .Standard

/-- The five-argument overload `blit(pSrc, pDst, srcRect, dstRect, filter)`. -/
def blitBasic (compareDesc : Texture → Texture → Bool) (blitData : BlitData) (pSrc pDst : View)
    (srcRect dstRect : UInt4) (filter : Filter) : Except String BlitResult :=
  blit compareDesc blitData pSrc pDst srcRect dstRect filter standardReduction identityTransform

/-! ## Concrete inputs of the worked examples -/

/-- A `Texture::compareDesc` for the worked examples: equality of the description members that
this model carries. -/
def compareModelDesc (a b : Texture) : Bool :=
  a.type == b.type && a.getWidth 0 == b.getWidth 0 && a.getHeight 0 == b.getHeight 0 &&
    a.mipCount == b.mipCount && a.arraySize == b.arraySize && a.sampleCount == b.sampleCount &&
    a.integerFormat == b.integerFormat

/-- An 8x8 single-mip 2D texture of a float format, with the given identity. -/
def floatTexture8 (id : Nat) : Texture :=
  { id := id, type := .Texture2D, getWidth := fun mip => if mip = 0 then 8 else 0
    getHeight := fun mip => if mip = 0 then 8 else 0
    mipCount := 1, arraySize := 1, sampleCount := 1, integerFormat := false }

/-- An 8x8 four-sample 2D texture of an integer format, with the given identity. -/
def multisampledIntegerTexture8 (id : Nat) : Texture :=
  { id := id, type := .Texture2DMultisample, getWidth := fun mip => if mip = 0 then 8 else 0
    getHeight := fun mip => if mip = 0 then 8 else 0
    mipCount := 1, arraySize := 1, sampleCount := 4, integerFormat := true }

/-- The view of one mip and one array slice, starting at mip 0 and slice 0. -/
def singleSubresourceView (resource : Texture) : View :=
  { resource := resource
    viewInfo := { mostDetailedMip := 0, mipCount := 1, firstArraySlice := 0, arraySize := 1 } }

/-- A component reduction that takes the minimum in the red channel. -/
def minRedReduction : Fin 4 → ReductionMode :=
  fun i => if i = 0 then .Min else .Standard

/-! ## Vocabulary of the frame-index proofs -/

/-- Two instance states agree on what steers the pass counter and the frame index. -/
def Keeps (s s' : ScreenSpaceReSTIR) : Prop :=
  s'.mOptions = s.mOptions ∧ s'.mFrameIndex = s.mFrameIndex ∧
  s'.mNumReSTIRInstances = s.mNumReSTIRInstances ∧ s'.mTotalRISPasses = s.mTotalRISPasses

/-- The dispatches of `r` carry strictly increasing frame-index uniforms, all inside the window
that starts at the pass counter of `s` and ends before the pass counter of the state after. -/
def InWindow (s : ScreenSpaceReSTIR) (r : ScreenSpaceReSTIR × List Dispatch) : Prop :=
  Keeps s r.1 ∧ s.mCurRISPass ≤ r.1.mCurRISPass ∧
  (frameIndexUniforms r.2).Pairwise (· < ·) ∧
  ∀ u ∈ frameIndexUniforms r.2,
    s.mTotalRISPasses * s.mFrameIndex + s.mCurRISPass ≤ u ∧
    u < s.mTotalRISPasses * s.mFrameIndex + r.1.mCurRISPass

/-! ## ReSTIR-GI update and the reservoir pair (`ScreenSpaceReSTIR.cpp`) -/

/-- What `updateReSTIRGI` records on the render context: the GI resampling dispatch with the
frame index and the textures and reservoir buffers bound to it, and the blit of one normal/depth
texture into another. -/
inductive GIRecord where
  | giResampling (frameIndex : Nat) (normalDepth prevNormalDepth : Option (Resource × Nat × Nat))
      (prevReservoirs reservoirs : Option Resource)
  | blit (src dst : Option (Resource × Nat × Nat))
  deriving DecidableEq, Repr

namespace ScreenSpaceReSTIR

/-- The element `mpGIReservoirs[i]` of the two-element member array. -/
def mpGIReservoirs (s : ScreenSpaceReSTIR) (i : Nat) : Option Resource :=
  if i = 0 then s.mpGIReservoirs0 else s.mpGIReservoirs1

/-- The method `updateReSTIRGI`: with `useReSTIRGI` on an enabled instance, one GI resampling
dispatch, then `blit(mpNormalDepthTexture->getSRV(), mpPrevNormalDepthTexture->getRTV())`.  No
member modelled here is assigned (the call also stores the camera position and matrix of the
frame).  The division is that of `uint32_t`, with `mNumReSTIRInstances` nonzero. -/
def updateReSTIRGI (s : ScreenSpaceReSTIR) : ScreenSpaceReSTIR × List GIRecord :=
  if !s.mOptions.useReSTIRGI then (s, [])
  else if s.mOptions.enabled then
    let round := subU32 s.mFrameIndex s.mReSTIRInstanceIndex / s.mNumReSTIRInstances
    (s, [.giResampling s.mFrameIndex s.mpNormalDepthTexture s.mpPrevNormalDepthTexture
           (s.mpGIReservoirs (addU32 round 0 % 2)) (s.mpGIReservoirs (addU32 round 1 % 2)),
         .blit s.mpNormalDepthTexture s.mpPrevNormalDepthTexture])
  else (s, [])

end ScreenSpaceReSTIR

/-- The device hands out every object once: the two reservoir buffers of the instance, where
they exist, were created before `nextResourceId`, and they are two different objects. -/
def ReservoirIdsValid (s : ScreenSpaceReSTIR) : Prop :=
  (∀ r, s.mpReservoirs = some r → r.id < s.nextResourceId) ∧
  (∀ r, s.mpPrevReservoirs = some r → r.id < s.nextResourceId) ∧
  (∀ r p, s.mpReservoirs = some r → s.mpPrevReservoirs = some p → r.id ≠ p.id)

/-- The state of a frame after `beginFrame`, as `runFrame` reaches it. -/
def frameStart (inp : FrameInput) (s : ScreenSpaceReSTIR) : ScreenSpaceReSTIR :=
  ScreenSpaceReSTIR.beginFrame { s with mOptions := inp.options } inp.frameDim

/-- The single instance of a pass, created with `options`, after the `beginFrame` of its first
frame, of 4x2 pixels. -/
def firstFrameInstance (options : Options) : ScreenSpaceReSTIR :=
  (ScreenSpaceReSTIR.create options 1 0).beginFrame (4, 2)

/-- A step leaves both reservoir pointers in place and takes no identity back from the
device. -/
def KeepsReservoirs (s s' : ScreenSpaceReSTIR) : Prop :=
  s'.mpReservoirs = s.mpReservoirs ∧ s'.mpPrevReservoirs = s.mpPrevReservoirs ∧
  s.nextResourceId ≤ s'.nextResourceId

/-- A step leaves the two reservoir pointers in place or exchanges them, and creates no
object. -/
def KeepsOrSwapsReservoirs (s s' : ScreenSpaceReSTIR) : Prop :=
  ((s'.mpReservoirs = s.mpReservoirs ∧ s'.mpPrevReservoirs = s.mpPrevReservoirs) ∨
   (s'.mpReservoirs = s.mpPrevReservoirs ∧ s'.mpPrevReservoirs = s.mpReservoirs)) ∧
  s'.nextResourceId = s.nextResourceId

/-- The state and the dispatches of a frame that returns (the input state and no dispatch for
a frame that throws). -/
def frameResult (inp : FrameInput) (s : ScreenSpaceReSTIR) : ScreenSpaceReSTIR × List Dispatch :=
  match runFrame inp s with
  | .ok r => r
  | .error _ => (s, [])

/-- A frame of 1x1 pixels with the default options and scene, two spatial iterations. -/
def twoIterationsFrame : FrameInput := { options := { spatialIterations := 2 } }

/-! ## Draws and resolves of `RenderContext` (`D3D12RenderContext.cpp`) -/

/-- The values of `Resource::State` that the draw and resolve paths request. -/
inductive ResourceState where
  | VertexBuffer | IndexBuffer | RenderTarget | DepthStencil | IndirectArg
  | ResolveSource | ResolveDest
  deriving DecidableEq, Repr

/-- What the draw and resolve paths put on the command list of the context, in recording
order.  `resourceBarrier r st` is the call `resourceBarrier(r, st)` of the copy context (its body
is outside these files): the transition of resource `r` to state `st`, which records the barrier
unless the resource is in that state already.  Resources, variable blocks and pipeline state
objects are named by their identity. -/
inductive ContextCommand where
  | resourceBarrier (resource : Nat) (state : ResourceState)
  | setGraphicsRootSignatureEmpty
  | iaSetPrimitiveTopology (topology : Nat)
  | iaSetVertexBuffers (buffers : List (Option Nat))
  | iaSetIndexBuffer (buffer : Option Nat)
  | omSetRenderTargets (colorTextures : List (Option Nat)) (depthStencilTexture : Option Nat)
  | setSamplePositions (sampleCount pixelCount positionCount : Nat)
  | rsSetViewports (viewport : Viewport)
  | rsSetScissorRects (scissor : UInt4)
  | setPipelineState (gso : Nat)
  | omSetBlendFactor (factor : Float4)
  | omSetStencilRef (stencilRef : Nat)
  | drawInstanced (vertexCount instanceCount startVertexLocation startInstanceLocation : Nat)
  | drawIndexedInstanced (indexCount instanceCount startIndexLocation : Nat)
      (baseVertexLocation : Int) (startInstanceLocation : Nat)
  | executeIndirect (indexed : Bool) (maxCommandCount argBuffer argBufferOffset : Nat)
      (countBuffer : Option Nat) (countBufferOffset : Nat)
  | resolveSubresource (dst dstSubresource src srcSubresource : Nat)
  deriving DecidableEq

/-- The bits of `StateBindFlags` that `prepareForDraw` tests (`mBindFlags`, all set by
default). -/
structure StateBindFlags where
  vars : Bool := true
  topology : Bool := true
  vao : Bool := true
  fbo : Bool := true
  samplePositions : Bool := true
  viewports : Bool := true
  scissors : Bool := true
  pipelineState : Bool := true
  deriving DecidableEq

/-- A vertex array object: its vertex buffers slot by slot (a null buffer is `none`), its index
buffer and its primitive topology. -/
structure Vao where
  vertexBuffers : List (Option Nat) := []
  indexBuffer : Option Nat := none
  primitiveTopology : Nat := 0
  deriving DecidableEq

/-- A frame buffer object: the textures of its `getMaxColorTargetCount()` colour slots in
order (an empty slot is `none`), its depth-stencil texture and its sample positions. -/
structure Fbo where
  colorTextures : List (Option Nat) := []
  depthStencilTexture : Option Nat := none
  sampleCount : Nat := 1
  samplePositionsPixelCount : Nat := 0
  samplePositionCount : Nat := 0
  deriving DecidableEq

/-- What `prepareForDraw` reads from the `GraphicsState`.  The Vao is not null: the function
asserts it.  `gso` names the pipeline state object that `getGSO(pVars)` returns. -/
structure GraphicsState where
  vao : Vao := {}
  fbo : Option Fbo := none
  viewport : Viewport := ⟨0, 0, 0, 0⟩
  scissor : UInt4 := ⟨0, 0, 0, 0⟩
  blendFactor : Option Float4 := none
  stencilRef : Option Nat := none
  gso : Nat := 0

/-- The members of a `RenderContext` that the draw and resolve paths use, and its command
list. -/
structure RenderContext where
  mBindFlags : StateBindFlags := {}
  mCommandsPending : Bool := false
  mpLastBoundGraphicsVars : Option Nat := none
  commandList : List ContextCommand := []

namespace RenderContext

/-- Recording one command on the command list. -/
def record (ctx : RenderContext) (c : ContextCommand) : RenderContext :=
  { ctx with commandList := ctx.commandList ++ [c] }

/-- The call `resourceBarrier(resource, state)`. -/
def resourceBarrier (ctx : RenderContext) (resource : Nat) (state : ResourceState) :
    RenderContext :=
  ctx.record (.resourceBarrier resource state)

/-- The loop of `D3D12SetVao` over the vertex buffers. -/
def vertexBufferBarriers : List (Option Nat) → RenderContext → RenderContext
  | [], ctx => ctx
  | none :: rest, ctx => vertexBufferBarriers rest ctx
  | some pVB :: rest, ctx => vertexBufferBarriers rest (ctx.resourceBarrier pVB .VertexBuffer)

/-- The static function `D3D12SetVao(pCtx, pList, pVao)`. -/
def D3D12SetVao (ctx : RenderContext) (pVao : Option Vao) : RenderContext :=
  match pVao with
  | some vao =>
    let ctx := vertexBufferBarriers vao.vertexBuffers ctx
    let ctx := match vao.indexBuffer with
      | some pIB => ctx.resourceBarrier pIB .IndexBuffer
      | none => ctx
    (ctx.record (.iaSetVertexBuffers vao.vertexBuffers)).record (.iaSetIndexBuffer vao.indexBuffer)
  | none => (ctx.record (.iaSetVertexBuffers [])).record (.iaSetIndexBuffer none)

/-- The loop of `D3D12SetFbo` over the colour targets. -/
def colorTargetBarriers : List (Option Nat) → RenderContext → RenderContext
  | [], ctx => ctx
  | none :: rest, ctx => colorTargetBarriers rest ctx
  | some pTexture :: rest, ctx =>
    colorTargetBarriers rest (ctx.resourceBarrier pTexture .RenderTarget)

/-- The static function `D3D12SetFbo(pCtx, pFbo)`. -/
def D3D12SetFbo (ctx : RenderContext) (pFbo : Option Fbo) : RenderContext :=
  match pFbo with
  | some fbo =>
    let ctx := colorTargetBarriers fbo.colorTextures ctx
    let ctx := match fbo.depthStencilTexture with
      | some pTexture => ctx.resourceBarrier pTexture .DepthStencil
      | none => ctx
    ctx.record (.omSetRenderTargets fbo.colorTextures fbo.depthStencilTexture)
  | none => ctx.record (.omSetRenderTargets [] none)

/-- The static function `D3D12SetSamplePositions(pList, pFbo)`; `featureSupported` is what the
device reports for programmable sample positions. -/
def D3D12SetSamplePositions (featureSupported : Bool) (ctx : RenderContext)
    (pFbo : Option Fbo) : RenderContext :=
  match pFbo with
  | none => ctx
  | some fbo =>
    if featureSupported then
      if fbo.samplePositionCount ≠ 0 then
        ctx.record (.setSamplePositions fbo.sampleCount fbo.samplePositionsPixelCount
          fbo.samplePositionCount)
      else ctx.record (.setSamplePositions 0 0 0)
    else ctx

/-- The block of `prepareForDraw` under `is_set(StateBindFlags::Vars, mBindFlags)`: the
context afterwards, and `false` when the block ends in `return false`.  `applyGraphicsVars` is
the member function of that name (its body is outside these files), given the variable block and
the pipeline state object whose root signature it binds against; it returns the context as it
leaves it and its result. -/
def applyVars (applyGraphicsVars : RenderContext → Nat → Nat → RenderContext × Bool)
    (ctx : RenderContext) (pState : GraphicsState) (pVars : Option Nat) :
    RenderContext × Bool :=
  if ctx.mBindFlags.vars then
    match pVars with
    | some vars =>
      let r := applyGraphicsVars ctx vars pState.gso
      if r.2 == false then (r.1, false)
      else ({ r.1 with mpLastBoundGraphicsVars := pVars }, true)
    | none =>
      ({ ctx.record .setGraphicsRootSignatureEmpty with mpLastBoundGraphicsVars := pVars }, true)
  else (ctx, true)

/-- The statement of `prepareForDraw` under the bind flag `Topology`. -/
def bindTopology (ctx : RenderContext) (pState : GraphicsState) : RenderContext :=
  if ctx.mBindFlags.topology then
    ctx.record (.iaSetPrimitiveTopology pState.vao.primitiveTopology)
  else ctx

/-- The statement of `prepareForDraw` under the bind flag `Vao`. -/
def bindVao (ctx : RenderContext) (pState : GraphicsState) : RenderContext :=
  if ctx.mBindFlags.vao then D3D12SetVao ctx (some pState.vao) else ctx

/-- The statement of `prepareForDraw` under the bind flag `Fbo`. -/
def bindFbo (ctx : RenderContext) (pState : GraphicsState) : RenderContext :=
  if ctx.mBindFlags.fbo then D3D12SetFbo ctx pState.fbo else ctx

/-- The statement of `prepareForDraw` under the bind flag `SamplePositions`. -/
def bindSamplePositions (featureSupported : Bool) (ctx : RenderContext)
    (pState : GraphicsState) : RenderContext :=
  if ctx.mBindFlags.samplePositions then D3D12SetSamplePositions featureSupported ctx pState.fbo
  else ctx

/-- The statement of `prepareForDraw` under the bind flag `Viewports`. -/
def bindViewports (ctx : RenderContext) (pState : GraphicsState) : RenderContext :=
  if ctx.mBindFlags.viewports then ctx.record (.rsSetViewports pState.viewport) else ctx

/-- The statement of `prepareForDraw` under the bind flag `Scissors`. -/
def bindScissors (ctx : RenderContext) (pState : GraphicsState) : RenderContext :=
  if ctx.mBindFlags.scissors then ctx.record (.rsSetScissorRects pState.scissor) else ctx

/-- The statement of `prepareForDraw` under the bind flag `PipelineState`. -/
def bindPipelineState (ctx : RenderContext) (pState : GraphicsState) : RenderContext :=
  if ctx.mBindFlags.pipelineState then ctx.record (.setPipelineState pState.gso) else ctx

/-- The statements of `prepareForDraw` from the topology to the pipeline state, in source
order. -/
def bindFlagged (featureSupported : Bool) (ctx : RenderContext) (pState : GraphicsState) :
    RenderContext :=
  bindPipelineState (bindScissors (bindViewports (bindSamplePositions featureSupported
    (bindFbo (bindVao (bindTopology ctx pState) pState) pState) pState) pState) pState) pState

/-- The end of `prepareForDraw`: blend factor, stencil reference, `mCommandsPending`. -/
def bindBlendStencil (ctx : RenderContext) (pState : GraphicsState) : RenderContext :=
  let ctx := match pState.blendFactor with
    | some factor => ctx.record (.omSetBlendFactor factor)
    | none => ctx
  let ctx := ctx.record (.omSetStencilRef (pState.stencilRef.getD 0))
  { ctx with mCommandsPending := true }

/-- The method `prepareForDraw(pState, pVars)`: the context afterwards and the result. -/
def prepareForDraw (applyGraphicsVars : RenderContext → Nat → Nat → RenderContext × Bool)
    (featureSupported : Bool) (ctx : RenderContext) (pState : GraphicsState)
    (pVars : Option Nat) : RenderContext × Bool :=
  let r := applyVars applyGraphicsVars ctx pState pVars
  if r.2 == false then (r.1, false)
  else (bindBlendStencil (bindFlagged featureSupported r.1 pState) pState, true)

/-- The method `drawInstanced`. -/
def drawInstanced (applyGraphicsVars : RenderContext → Nat → Nat → RenderContext × Bool)
    (featureSupported : Bool) (ctx : RenderContext) (pState : GraphicsState)
    (pVars : Option Nat)
    (vertexCount instanceCount startVertexLocation startInstanceLocation : Nat) :
    RenderContext :=
  let r := prepareForDraw applyGraphicsVars featureSupported ctx pState pVars
  if r.2 == false then r.1
  else r.1.record
    (.drawInstanced vertexCount instanceCount startVertexLocation startInstanceLocation)

/-- The method `draw`. -/
def draw (applyGraphicsVars : RenderContext → Nat → Nat → RenderContext × Bool)
    (featureSupported : Bool) (ctx : RenderContext) (pState : GraphicsState)
    (pVars : Option Nat) (vertexCount startVertexLocation : Nat) : RenderContext :=
  drawInstanced applyGraphicsVars featureSupported ctx pState pVars vertexCount 1
    startVertexLocation 0

/-- The method `drawIndexedInstanced`. -/
def drawIndexedInstanced
    (applyGraphicsVars : RenderContext → Nat → Nat → RenderContext × Bool)
    (featureSupported : Bool) (ctx : RenderContext) (pState : GraphicsState)
    (pVars : Option Nat) (indexCount instanceCount startIndexLocation : Nat)
    (baseVertexLocation : Int) (startInstanceLocation : Nat) : RenderContext :=
  let r := prepareForDraw applyGraphicsVars featureSupported ctx pState pVars
  if r.2 == false then r.1
  else r.1.record (.drawIndexedInstanced indexCount instanceCount startIndexLocation
    baseVertexLocation startInstanceLocation)

/-- The method `drawIndexed`. -/
def drawIndexed (applyGraphicsVars : RenderContext → Nat → Nat → RenderContext × Bool)
    (featureSupported : Bool) (ctx : RenderContext) (pState : GraphicsState)
    (pVars : Option Nat) (indexCount startIndexLocation : Nat) (baseVertexLocation : Int) :
    RenderContext :=
  drawIndexedInstanced applyGraphicsVars featureSupported ctx pState pVars indexCount 1
    startIndexLocation baseVertexLocation 0

/-- The function `drawIndirectCommon`; `indexed` tells which of the two command signatures
(`pDrawCommandSig`, `pDrawIndexCommandSig`) is passed. -/
def drawIndirectCommon (ctx : RenderContext) (indexed : Bool)
    (maxCommandCount pArgBuffer argBufferOffset : Nat) (pCountBuffer : Option Nat)
    (countBufferOffset : Nat) : RenderContext :=
  let ctx := ctx.resourceBarrier pArgBuffer .IndirectArg
  let ctx := match pCountBuffer with
    | some countBuffer =>
      if countBuffer ≠ pArgBuffer then ctx.resourceBarrier countBuffer .IndirectArg else ctx
    | none => ctx
  ctx.record (.executeIndirect indexed maxCommandCount pArgBuffer argBufferOffset pCountBuffer
    countBufferOffset)

/-- The method `drawIndirect`. -/
def drawIndirect (applyGraphicsVars : RenderContext → Nat → Nat → RenderContext × Bool)
    (featureSupported : Bool) (ctx : RenderContext) (pState : GraphicsState)
    (pVars : Option Nat) (maxCommandCount pArgBuffer argBufferOffset : Nat)
    (pCountBuffer : Option Nat) (countBufferOffset : Nat) : RenderContext :=
  let r := prepareForDraw applyGraphicsVars featureSupported ctx pState pVars
  if r.2 == false then r.1
  else drawIndirectCommon r.1 false maxCommandCount pArgBuffer argBufferOffset pCountBuffer
    countBufferOffset

/-- The method `drawIndexedIndirect`. -/
def drawIndexedIndirect (applyGraphicsVars : RenderContext → Nat → Nat → RenderContext × Bool)
    (featureSupported : Bool) (ctx : RenderContext) (pState : GraphicsState)
    (pVars : Option Nat) (maxCommandCount pArgBuffer argBufferOffset : Nat)
    (pCountBuffer : Option Nat) (countBufferOffset : Nat) : RenderContext :=
  let r := prepareForDraw applyGraphicsVars featureSupported ctx pState pVars
  if r.2 == false then r.1
  else drawIndirectCommon r.1 true maxCommandCount pArgBuffer argBufferOffset pCountBuffer
    countBufferOffset

/-- The method `resolveSubresource(pSrc, srcSubresource, pDst, dstSubresource)`. -/
def resolveSubresource (ctx : RenderContext) (pSrc : Texture) (srcSubresource : Nat)
    (pDst : Texture) (dstSubresource : Nat) : RenderContext :=
  { ctx.record (.resolveSubresource pDst.id dstSubresource pSrc.id srcSubresource) with
    mCommandsPending := true }

/-- The loop of `resolveResource`: subresources `s`, `s + 1`, ... below `subresourceCount`,
`n` of them being left. -/
def resolveLoop (pSrc pDst : Texture) : Nat → Nat → RenderContext → RenderContext
  | 0, _, ctx => ctx
  | n + 1, s, ctx => resolveLoop pSrc pDst n (s + 1) (ctx.resolveSubresource pSrc s pDst s)

/-- The method `resolveResource(pSrc, pDst)`; a mismatch of mip count or array size is only
logged. -/
def resolveResource (ctx : RenderContext) (pSrc pDst : Texture) : RenderContext :=
  let ctx := ctx.resourceBarrier pSrc.id .ResolveSource
  let ctx := ctx.resourceBarrier pDst.id .ResolveDest
  let subresourceCount := mulU32 pSrc.mipCount pSrc.arraySize
  resolveLoop pSrc pDst subresourceCount 0 ctx

end RenderContext

/-- The six draw entry points of `RenderContext` with the arguments that follow `pState` and
`pVars`. -/
inductive DrawCall where
  | draw (vertexCount startVertexLocation : Nat)
  | drawInstanced (vertexCount instanceCount startVertexLocation startInstanceLocation : Nat)
  | drawIndexed (indexCount startIndexLocation : Nat) (baseVertexLocation : Int)
  | drawIndexedInstanced (indexCount instanceCount startIndexLocation : Nat)
      (baseVertexLocation : Int) (startInstanceLocation : Nat)
  | drawIndirect (maxCommandCount pArgBuffer argBufferOffset : Nat)
      (pCountBuffer : Option Nat) (countBufferOffset : Nat)
  | drawIndexedIndirect (maxCommandCount pArgBuffer argBufferOffset : Nat)
      (pCountBuffer : Option Nat) (countBufferOffset : Nat)

/-- Calling the entry point a `DrawCall` names. -/
def DrawCall.run (applyGraphicsVars : RenderContext → Nat → Nat → RenderContext × Bool)
    (featureSupported : Bool) (ctx : RenderContext) (pState : GraphicsState)
    (pVars : Option Nat) : DrawCall → RenderContext
  | .draw a b => ctx.draw applyGraphicsVars featureSupported pState pVars a b
  | .drawInstanced a b c d =>
    ctx.drawInstanced applyGraphicsVars featureSupported pState pVars a b c d
  | .drawIndexed a b c => ctx.drawIndexed applyGraphicsVars featureSupported pState pVars a b c
  | .drawIndexedInstanced a b c d e =>
    ctx.drawIndexedInstanced applyGraphicsVars featureSupported pState pVars a b c d e
  | .drawIndirect a b c d e =>
    ctx.drawIndirect applyGraphicsVars featureSupported pState pVars a b c d e
  | .drawIndexedIndirect a b c d e =>
    ctx.drawIndexedIndirect applyGraphicsVars featureSupported pState pVars a b c d e

/-- The draw command on the command list that the entry point records last. -/
def DrawCall.command : DrawCall → ContextCommand
  | .draw a b => .drawInstanced a 1 b 0
  | .drawInstanced a b c d => .drawInstanced a b c d
  | .drawIndexed a b c => .drawIndexedInstanced a 1 b c 0
  | .drawIndexedInstanced a b c d e => .drawIndexedInstanced a b c d e
  | .drawIndirect a b c d e => .executeIndirect false a b c d e
  | .drawIndexedIndirect a b c d e => .executeIndirect true a b c d e

/-- Whether a command is one of the draw commands. -/
def ContextCommand.isDraw : ContextCommand → Bool
  | .drawInstanced _ _ _ _ => true
  | .drawIndexedInstanced _ _ _ _ _ => true
  | .executeIndirect _ _ _ _ _ _ => true
  | _ => false

/-- A step records the commands `cs` after those already on the list, and leaves the bind
flags as they are. -/
def Appends (ctx ctx' : RenderContext) (cs : List ContextCommand) : Prop :=
  ctx'.commandList = ctx.commandList ++ cs ∧ ctx'.mBindFlags = ctx.mBindFlags

/-- An `applyGraphicsVars` that binds without recording and succeeds. -/
def applyGraphicsVarsOk (ctx : RenderContext) (_vars _gso : Nat) : RenderContext × Bool :=
  (ctx, true)

/-- An `applyGraphicsVars` that fails (as without a root signature). -/
def applyGraphicsVarsFails (ctx : RenderContext) (_vars _gso : Nat) : RenderContext × Bool :=
  (ctx, false)

/-- A graphics state with vertex buffers 1 and 2 (slot 1 empty), index buffer 3, colour
texture 4 in slot 0 and depth-stencil texture 5. -/
def exampleGraphicsState : GraphicsState :=
  { vao := { vertexBuffers := [some 1, none, some 2], indexBuffer := some 3 }
    fbo := some { colorTextures := [some 4, none], depthStencilTexture := some 5 } }

/-! ## `ReSTIRPTPass` (`ReSTIRPTPass.{h,cpp}`) -/

/-- The values of `TexLODMode` that `ReSTIRPTPass.cpp` names. -/
inductive TexLODMode where
  | Mip0 | RayCones | RayDiffs
  deriving DecidableEq, Repr

/-- The enum `PathSamplingMode`. -/
inductive PathSamplingMode where
  | ReSTIR | PathReuse | PathTracing
  deriving DecidableEq, Repr

/-- The enum `ShiftMapping`. -/
inductive ShiftMapping where
  | Reconnection | RandomReplay | Hybrid
  deriving DecidableEq, Repr

/-- The enum `ReSTIRMISKind`. -/
inductive ReSTIRMISKind where
  | Constant | Talbot | Pairwise | ConstantBinary | ConstantBiased
  deriving DecidableEq, Repr

/-- The fields of `ReSTIRPTPass::StaticParams` that `validateOptions` and `execute` read or
write, at their member initialisers (`-1` of a `uint32_t` is `2 ^ 32 - 1`). -/
structure StaticParams where
  samplesPerPixel : Nat := 1
  candidateSamples : Nat := 1
  maxSurfaceBounces : Nat := 9
  maxDiffuseBounces : Nat := 4294967295
  maxSpecularBounces : Nat := 4294967295
  maxTransmissionBounces : Nat := 4294967295
  maxTransmissionReflectionDepth : Nat := 0
  maxTransmissionRefractionDepth : Nat := 0
  primaryLodMode : TexLODMode := .Mip0
  spatialMisKind : ReSTIRMISKind := .Pairwise
  temporalMisKind : ReSTIRMISKind := .Talbot
  shiftStrategy : ShiftMapping := .Hybrid
  pathSamplingMode : PathSamplingMode := .ReSTIR
  deriving DecidableEq, Repr

/-- The members of a `ReSTIRPTPass` that `validateOptions` and the control flow of `execute`
read or write.  `specularRoughnessThreshold` is the field of `mParams` (its initialiser is
outside these files, 1/4 is taken here); `hasScene` tells whether `mpScene` is non-null.  The
pixel statistics and pixel debugging helpers, the random seed and the frame counter of `mParams`
are left out. -/
structure ReSTIRPTPass where
  mStaticParams : StaticParams := {}
  specularRoughnessThreshold : FloatValue := .num (1 / 4)
  hasScene : Bool := true
  mOptionsChanged : Bool := false
  mEnableTemporalReuse : Bool := true
  mEnableSpatialReuse : Bool := true
  mNumSpatialRounds : Int := 1
  mReservoirFrameCount : Int := 0
  deriving DecidableEq

/-- What `execute` reads from outside the pass in one frame: whether the render data holds the
debug and time outputs, whether `prepareLighting` reports a change, and whether binding the
emissive light sampler works (`false`: the pass has such a sampler and its `setShaderData`
returns false). -/
structure PTFrame where
  hasOutputDebug : Bool := false
  hasOutputTime : Bool := false
  lightingChanged : Bool := false
  emissiveSamplerBinds : Bool := true
  deriving DecidableEq

/-- The buffers and textures that the commands of `execute` name. -/
inductive PTBuffer where
  | mpOutputReservoirs
  | mpTemporalReservoirs (restir_i : Nat)
  | mpTemporalVBuffer
  | kInputVBuffer
  | kOutputDebug
  | kOutputColor
  | kOutputTime
  | mpCounters
  deriving DecidableEq, Repr

/-- The compute pass that `PathReusePass` runs. -/
inductive ReusePass where
  | temporalReuse | spatialReuse | computePathReuseMISWeights
  deriving DecidableEq, Repr

/-- What `execute` records on the render context.  A dispatch carries the values the host
binds for it: `tracePass` the `gSppId` and `isLastRound` of the path tracer block; the retrace
and reuse passes their `restir_i`, round, the buffers bound as `outputReservoirs` and
`temporalReservoirs` (`none`: not assigned in this call), and `gIsLastRound`. -/
inductive PTCommand where
  | clearUAV (target : PTBuffer)
  | generatePaths (sampleId : Int)
  | tracePass (gSppId : Nat) (isLastRound : Bool)
  | pathRetrace (temporalReuse : Bool) (restir_i : Nat) (spatialRoundId : Int)
      (boundOutput boundTemporal : PTBuffer)
  | pathReuse (pass : ReusePass) (restir_i : Nat) (spatialRoundId : Int)
      (boundOutput : PTBuffer) (boundTemporal : Option PTBuffer) (gIsLastRound : Bool)
  | copyResource (dst src : PTBuffer)
  deriving DecidableEq, Repr

namespace ReSTIRPTPass

/-- The lambda `clampBounces` of `validateOptions`. -/
def clampBounces (kMaxBounces bounces : Nat) : Nat :=
  if bounces > kMaxBounces then kMaxBounces else bounces

/-- First statement of `validateOptions`: the roughness threshold.  The test is
`threshold < 0.f || threshold > 1.f`; `clamp` (declared outside these files) is
`min(max(x, minVal), maxVal)`. -/
def validateRoughness (s : ReSTIRPTPass) : ReSTIRPTPass :=
  if s.specularRoughnessThreshold.lt (.num 0) || (FloatValue.num 1).lt s.specularRoughnessThreshold
  then
    { s with specularRoughnessThreshold :=
        FloatValue.clamp s.specularRoughnessThreshold (.num 0) (.num 1) }
  else s

/-- Second statement of `validateOptions`: `samplesPerPixel`, with
`std::clamp(v, lo, hi) = v < lo ? lo : hi < v ? hi : v`. -/
def validateSamplesPerPixel (kMaxSamplesPerPixel : Nat) (s : ReSTIRPTPass) : ReSTIRPTPass :=
  if s.mStaticParams.samplesPerPixel < 1 ∨ s.mStaticParams.samplesPerPixel > kMaxSamplesPerPixel
  then
    { s with mStaticParams := { s.mStaticParams with
        samplesPerPixel :=
          if s.mStaticParams.samplesPerPixel < 1 then 1
          else if kMaxSamplesPerPixel < s.mStaticParams.samplesPerPixel then kMaxSamplesPerPixel
          else s.mStaticParams.samplesPerPixel } }
  else s

/-- The four calls of `clampBounces` in `validateOptions`. -/
def validateBounces (kMaxBounces : Nat) (s : ReSTIRPTPass) : ReSTIRPTPass :=
  { s with mStaticParams := { s.mStaticParams with
      maxSurfaceBounces := clampBounces kMaxBounces s.mStaticParams.maxSurfaceBounces
      maxDiffuseBounces := clampBounces kMaxBounces s.mStaticParams.maxDiffuseBounces
      maxSpecularBounces := clampBounces kMaxBounces s.mStaticParams.maxSpecularBounces
      maxTransmissionBounces := clampBounces kMaxBounces s.mStaticParams.maxTransmissionBounces } }

/-- The statement of `validateOptions` that raises `maxSurfaceBounces` to `minSurfaceBounces`. -/
def validateSurfaceBounces (s : ReSTIRPTPass) : ReSTIRPTPass :=
  let minSurfaceBounces := max s.mStaticParams.maxDiffuseBounces
    (max s.mStaticParams.maxSpecularBounces s.mStaticParams.maxTransmissionBounces)
  { s with mStaticParams := { s.mStaticParams with
      maxSurfaceBounces := max s.mStaticParams.maxSurfaceBounces minSurfaceBounces } }

/-- The two statements of `validateOptions` on the transmission depths. -/
def validateTransmissionDepths (s : ReSTIRPTPass) : ReSTIRPTPass :=
  { s with mStaticParams := { s.mStaticParams with
      maxTransmissionReflectionDepth :=
        if s.mStaticParams.maxTransmissionReflectionDepth > s.mStaticParams.maxTransmissionBounces
        then s.mStaticParams.maxTransmissionBounces
        else s.mStaticParams.maxTransmissionReflectionDepth
      maxTransmissionRefractionDepth :=
        if s.mStaticParams.maxTransmissionRefractionDepth > s.mStaticParams.maxTransmissionBounces
        then s.mStaticParams.maxTransmissionBounces
        else s.mStaticParams.maxTransmissionRefractionDepth } }

/-- Last statement of `validateOptions`: the texture LOD mode. -/
def validateLodMode (s : ReSTIRPTPass) : ReSTIRPTPass :=
  if s.mStaticParams.primaryLodMode = .RayCones then
    { s with mStaticParams := { s.mStaticParams with primaryLodMode := .Mip0 } }
  else s

/-- The method `validateOptions`, its statements in source order.  The constants
`kMaxSamplesPerPixel` and `kMaxBounces` are declared outside these files. -/
def validateOptions (kMaxSamplesPerPixel kMaxBounces : Nat) (s : ReSTIRPTPass) : ReSTIRPTPass :=
  validateLodMode (validateTransmissionDepths (validateSurfaceBounces
    (validateBounces kMaxBounces (validateSamplesPerPixel kMaxSamplesPerPixel
      (validateRoughness s)))))

end ReSTIRPTPass

/-- The bounds that the specification states for a validated option set. -/
def OptionsValid (kMaxSamplesPerPixel kMaxBounces : Nat) (s : ReSTIRPTPass) : Prop :=
  1 ≤ s.mStaticParams.samplesPerPixel ∧ s.mStaticParams.samplesPerPixel ≤ kMaxSamplesPerPixel ∧
  s.mStaticParams.maxSurfaceBounces ≤ kMaxBounces ∧
  s.mStaticParams.maxDiffuseBounces ≤ kMaxBounces ∧
  s.mStaticParams.maxSpecularBounces ≤ kMaxBounces ∧
  s.mStaticParams.maxTransmissionBounces ≤ kMaxBounces ∧
  max s.mStaticParams.maxDiffuseBounces
    (max s.mStaticParams.maxSpecularBounces s.mStaticParams.maxTransmissionBounces)
      ≤ s.mStaticParams.maxSurfaceBounces ∧
  s.mStaticParams.maxTransmissionReflectionDepth ≤ s.mStaticParams.maxTransmissionBounces ∧
  s.mStaticParams.maxTransmissionRefractionDepth ≤ s.mStaticParams.maxTransmissionBounces ∧
  s.specularRoughnessThreshold.InUnitInterval

/-- An option set as a script can leave it: 0 samples per pixel, 300 surface bounces, the
other bounce limits at `uint32_t(-1)`, transmission depths 7 and 500, roughness threshold 3/2. -/
def outOfRangeOptions : ReSTIRPTPass :=
  { mStaticParams :=
      { samplesPerPixel := 0, maxSurfaceBounces := 300, maxTransmissionReflectionDepth := 7
        maxTransmissionRefractionDepth := 500 }
    specularRoughnessThreshold := .num (3 / 2) }

/-- A pass at its member initialisers whose roughness threshold is NaN, as after a script has
passed `float('nan')` under the key `specularRoughnessThreshold`. -/
def nanRoughnessOptions : ReSTIRPTPass := { specularRoughnessThreshold := .nan }
/-! ## `ReSTIRPTPass::execute` -/

namespace ReSTIRPTPass

/-- The method `beginFrame`: the pass afterwards, the commands recorded and the result.  An
options change resets the reservoir history; without a scene the colour output is cleared and
the result is `false`. -/
def beginFrame (s : ReSTIRPTPass) (frame : PTFrame) : ReSTIRPTPass × List PTCommand × Bool :=
  let s := if s.mOptionsChanged then { s with mReservoirFrameCount := 0 } else s
  let clearDebug := if frame.hasOutputDebug then [PTCommand.clearUAV .kOutputDebug] else []
  if !s.hasScene then (s, clearDebug ++ [PTCommand.clearUAV .kOutputColor], false)
  else
    let s := if s.mOptionsChanged || frame.lightingChanged then
        { s with mOptionsChanged := false } else s
    (s, clearDebug, true)

/-- The statements of `execute` between `beginFrame` and the loop that adjust the options to
the path sampling mode and the shift strategy. -/
def adjustOptions (s : ReSTIRPTPass) : ReSTIRPTPass :=
  let s := if s.mStaticParams.pathSamplingMode ≠ .ReSTIR then
      { s with mStaticParams := { s.mStaticParams with candidateSamples := 1 } } else s
  let s := if s.mStaticParams.pathSamplingMode = .PathReuse then
      { s with mStaticParams := { s.mStaticParams with shiftStrategy := .Reconnection }
               mEnableSpatialReuse := true } else s
  if s.mStaticParams.shiftStrategy = .Hybrid then
    { s with mStaticParams := { s.mStaticParams with
        spatialMisKind := .Pairwise, temporalMisKind := .Talbot } }
  else s

/-- The method `preparePathTracer`, as far as it can throw: binding the emissive light
sampler in `setShaderData`. -/
def preparePathTracer (frame : PTFrame) : Except String Unit :=
  if frame.emissiveSamplerBinds then pure () else throw "Failed to bind emissive light sampler"

/-- The method `PathRetracePass(restir_i, temporalReuse, spatialRoundId)`: one dispatch.  The
round identifier is never negative here, so `%` is the remainder of C++. -/
def PathRetracePass (restir_i : Nat) (temporalReuse : Bool) (spatialRoundId : Int) : PTCommand :=
  .pathRetrace temporalReuse restir_i spatialRoundId
    (if spatialRoundId % 2 = 1 then .mpTemporalReservoirs restir_i else .mpOutputReservoirs)
    (if spatialRoundId % 2 = 0 then .mpTemporalReservoirs restir_i else .mpOutputReservoirs)

/-- The method `PathReusePass(restir_i, isTemporalReuse, spatialRoundId, isLastRound)`: one
dispatch.  A round identifier of -1 selects the MIS weight computation, which runs as round 0
of sub-sample 0. -/
def PathReusePass (s : ReSTIRPTPass) (restir_i : Nat) (isTemporalReuse : Bool)
    (spatialRoundId : Int) (isLastRound : Bool) : PTCommand :=
  let isPathReuseMISWeightComputation : Bool := spatialRoundId == -1
  let pass : ReusePass :=
    if isPathReuseMISWeightComputation then .computePathReuseMISWeights
    else if isTemporalReuse then .temporalReuse else .spatialReuse
  let spatialRoundId := if isPathReuseMISWeightComputation then 0 else spatialRoundId
  let restir_i := if isPathReuseMISWeightComputation then 0 else restir_i
  .pathReuse pass restir_i spatialRoundId
    (if spatialRoundId % 2 = 1 then .mpTemporalReservoirs restir_i else .mpOutputReservoirs)
    (if s.mStaticParams.pathSamplingMode = .PathReuse then none
     else if !isPathReuseMISWeightComputation then
       some (if spatialRoundId % 2 = 0 then .mpTemporalReservoirs restir_i
             else .mpOutputReservoirs)
     else none)
    (s.mStaticParams.pathSamplingMode == .PathReuse || isLastRound)

/-- The temporal part of a sub-sample ("Launch restir merge pass"). -/
def temporalStage (s : ReSTIRPTPass) (skipTemporalReuse : Bool) (restir_i : Nat) :
    List PTCommand :=
  if s.mStaticParams.pathSamplingMode = .ReSTIR then
    if s.mEnableTemporalReuse && !skipTemporalReuse then
      (if s.mStaticParams.shiftStrategy = .Hybrid then [PathRetracePass restir_i true 0]
       else []) ++
      [s.PathReusePass restir_i true 0 (!s.mEnableSpatialReuse)]
    else []
  else if s.mStaticParams.pathSamplingMode = .PathReuse then
    [s.PathReusePass restir_i false (-1) false]
  else []

/-- One iteration of the loop over `spatialRoundId`. -/
def spatialRound (s : ReSTIRPTPass) (restir_i : Nat) (spatialRoundId : Nat) : List PTCommand :=
  (if s.mStaticParams.shiftStrategy = .Hybrid then
    [PathRetracePass restir_i false spatialRoundId] else []) ++
  [s.PathReusePass restir_i false spatialRoundId
    (decide ((spatialRoundId : Int) = s.mNumSpatialRounds - 1))]

/-- The spatial part of a sub-sample: the loop
`for (int spatialRoundId = 0; spatialRoundId < mNumSpatialRounds; spatialRoundId++)`. -/
def spatialStage (s : ReSTIRPTPass) (restir_i : Nat) : List PTCommand :=
  if s.mEnableSpatialReuse then
    (List.range s.mNumSpatialRounds.toNat).flatMap (s.spatialRound restir_i)
  else []

/-- The copies at the end of a sub-sample (`mNumSpatialRounds % 2 == 0` holds for the same
numbers under the remainder of C++ and under `%`). -/
def temporalCopies (s : ReSTIRPTPass) (numPasses restir_i : Nat) : List PTCommand :=
  if s.mEnableTemporalReuse && s.mStaticParams.pathSamplingMode == .ReSTIR then
    (if !s.mEnableSpatialReuse || s.mNumSpatialRounds % 2 == 0 then
      [PTCommand.copyResource (.mpTemporalReservoirs restir_i) .mpOutputReservoirs] else []) ++
    (if restir_i = numPasses - 1 then
      [PTCommand.copyResource .mpTemporalVBuffer .kInputVBuffer] else [])
  else []

/-- The body of the loop of `execute` for sub-sample `restir_i`: the pass afterwards and the
commands recorded, or the exception of `preparePathTracer`. -/
def subSample (frame : PTFrame) (skipTemporalReuse : Bool) (numPasses restir_i : Nat)
    (s : ReSTIRPTPass) : Except String (ReSTIRPTPass × List PTCommand) := do
  preparePathTracer frame
  let clears :=
    (if frame.hasOutputTime then [PTCommand.clearUAV .kOutputTime] else []) ++
    [PTCommand.clearUAV .mpCounters]
  let trace :=
    (if restir_i = 0 then [PTCommand.generatePaths 0] else []) ++
    [PTCommand.tracePass restir_i (!s.mEnableSpatialReuse && !s.mEnableTemporalReuse)]
  if s.mStaticParams.pathSamplingMode ≠ .PathTracing then
    let reuse := s.temporalStage skipTemporalReuse restir_i ++ s.spatialStage restir_i
    let s' := if restir_i = numPasses - 1 then
        { s with mReservoirFrameCount := s.mReservoirFrameCount + 1 } else s
    pure (s', clears ++ trace ++ reuse ++ s'.temporalCopies numPasses restir_i)
  else
    pure (s, clears ++ trace)

/-- The loop `for (uint32_t restir_i = 0; restir_i < numPasses; restir_i++)`, from sub-sample
`restir_i` on, `remaining` sub-samples being left. -/
def subSampleLoop (frame : PTFrame) (skipTemporalReuse : Bool) (numPasses : Nat) :
    Nat → Nat → ReSTIRPTPass → Except String (ReSTIRPTPass × List PTCommand)
  | 0, _, s => pure (s, [])
  | remaining + 1, restir_i, s => do
    let r ← subSample frame skipTemporalReuse numPasses restir_i s
    let r' ← subSampleLoop frame skipTemporalReuse numPasses remaining (restir_i + 1) r.1
    pure (r'.1, r.2 ++ r'.2)

/-- The value of `numPasses` in `execute`. -/
def numPasses (s : ReSTIRPTPass) : Nat :=
  if s.mStaticParams.pathSamplingMode = .PathTracing then 1 else s.mStaticParams.samplesPerPixel

/-- The method `execute`: the pass afterwards and the commands recorded, or the exception
thrown on the way. -/
def execute (s : ReSTIRPTPass) (frame : PTFrame) :
    Except String (ReSTIRPTPass × List PTCommand) :=
  let b := s.beginFrame frame
  if !b.2.2 then pure (b.1, b.2.1)
  else do
    let skipTemporalReuse : Bool := b.1.mReservoirFrameCount == 0
    let s := adjustOptions b.1
    let r ← subSampleLoop frame skipTemporalReuse s.numPasses s.numPasses 0 s
    pure (r.1, b.2.1 ++ r.2)

end ReSTIRPTPass

/-- The commands of a call that returns, none for a call that throws. -/
def commandsOf (r : Except String (ReSTIRPTPass × List PTCommand)) : List PTCommand :=
  match r with
  | .ok p => p.2
  | .error _ => []

/-- The commands that the body of the loop of `execute` records for sub-sample `restir_i` when
it does not throw, written out in one expression. -/
def subSampleCommands (frame : PTFrame) (skipTemporalReuse : Bool) (numPasses restir_i : Nat)
    (s : ReSTIRPTPass) : List PTCommand :=
  (if frame.hasOutputTime then [PTCommand.clearUAV .kOutputTime] else []) ++
  [PTCommand.clearUAV .mpCounters] ++
  (if restir_i = 0 then [PTCommand.generatePaths 0] else []) ++
  [PTCommand.tracePass restir_i (!s.mEnableSpatialReuse && !s.mEnableTemporalReuse)] ++
  (if s.mStaticParams.pathSamplingMode ≠ .PathTracing then
    s.temporalStage skipTemporalReuse restir_i ++ s.spatialStage restir_i ++
      s.temporalCopies numPasses restir_i
   else [])

/-- The kinds of dispatch that `execute` records. -/
inductive PassKind where
  | generatePaths | trace | temporalRetrace | temporalReuse | spatialRetrace | spatialReuse
  | misWeights
  deriving DecidableEq, Repr

/-- The kind of dispatch of a command, `none` for a clear or a copy. -/
def PTCommand.kind? : PTCommand → Option PassKind
  | .generatePaths _ => some .generatePaths
  | .tracePass _ _ => some .trace
  | .pathRetrace true _ _ _ _ => some .temporalRetrace
  | .pathRetrace false _ _ _ _ => some .spatialRetrace
  | .pathReuse .temporalReuse _ _ _ _ _ => some .temporalReuse
  | .pathReuse .spatialReuse _ _ _ _ _ => some .spatialReuse
  | .pathReuse .computePathReuseMISWeights _ _ _ _ _ => some .misWeights
  | _ => none

/-- The dispatch kinds of a list of commands, in recording order. -/
def dispatchKinds (cmds : List PTCommand) : List PassKind :=
  cmds.filterMap PTCommand.kind?

/-- Whether a command is a resource copy. -/
def PTCommand.isCopy : PTCommand → Bool
  | .copyResource _ _ => true
  | _ => false

/-- The resource copies among a list of commands, in recording order. -/
def copiesOf (cmds : List PTCommand) : List PTCommand :=
  cmds.filter PTCommand.isCopy

/-- The dispatch sequence of sub-sample `i` as the specification words it: `generatePaths` if
and only if `i = 0`; one trace pass; if temporal reuse is enabled and there is reservoir history
(`mReservoirFrameCount` nonzero after `beginFrame`), a temporal retrace (only with the Hybrid
shift) and one temporal reuse pass; if spatial reuse is enabled, `numSpatialRounds` times a
spatial retrace (only with the Hybrid shift) and one spatial reuse pass. -/
def specSubSampleKinds (enableTemporalReuse enableSpatialReuse hybrid history : Bool)
    (numSpatialRounds : Nat) (i : Nat) : List PassKind :=
  (if i = 0 then [PassKind.generatePaths] else []) ++ [PassKind.trace] ++
  (if enableTemporalReuse && history then
    (if hybrid then [PassKind.temporalRetrace] else []) ++ [PassKind.temporalReuse]
   else []) ++
  (if enableSpatialReuse then
    (List.replicate numSpatialRounds
      ((if hybrid then [PassKind.spatialRetrace] else []) ++ [PassKind.spatialReuse])).flatten
   else [])

/-- The dispatch sequence of a whole frame in ReSTIR mode as the specification words it, for
the pass as `beginFrame` leaves it: the sequences of the sub-samples `0`, ...,
`samplesPerPixel - 1` one after the other. -/
def specFrameKinds (s : ReSTIRPTPass) : List PassKind :=
  (List.range s.mStaticParams.samplesPerPixel).flatMap
    (specSubSampleKinds s.mEnableTemporalReuse s.mEnableSpatialReuse
      (decide (s.mStaticParams.shiftStrategy = .Hybrid)) (decide (s.mReservoirFrameCount ≠ 0))
      s.mNumSpatialRounds.toNat)

/-- A pass at its member initialisers (ReSTIR mode, Hybrid shift, temporal and spatial reuse
enabled, one spatial round, one sample per pixel) with three frames of reservoir history. -/
def passWithHistory : ReSTIRPTPass := { mReservoirFrameCount := 3 }

/-- A pass with reservoir history, two samples per pixel and two spatial rounds. -/
def passTwoByTwo : ReSTIRPTPass :=
  { mStaticParams := { samplesPerPixel := 2 }, mNumSpatialRounds := 2, mReservoirFrameCount := 3 }

/-! ## Neighbor offsets (`createNeighborOffsetTexture`) -/

/-- The constant `phi2 = 1.f / 1.3247179572447f`, as an exact rational. -/
def phi2 : ℚ := 10000000000000 / 13247179572447

/-- The conversion `int8_t(x)` of a float: truncation toward zero, the result taken in the
range of `int8_t`. -/
def toInt8 (x : ℚ) : Int :=
  ((if 0 ≤ x then ⌊x⌋ else ⌈x⌉) + 128) % 256 - 128

/-- The first four statements of the loop body of `createNeighborOffsetTexture`: `u` and `v`
after `u += phi2; v += phi2 * phi2;` and the two conditional subtractions of 1. -/
def advanceUV (uv : ℚ × ℚ) : ℚ × ℚ :=
  let u := uv.1 + phi2
  let v := uv.2 + phi2 * phi2
  (if u ≥ 1 then u - 1 else u, if v ≥ 1 then v - 1 else v)

/-- The value `rSq` of the loop body. -/
def rSq (uv : ℚ × ℚ) : ℚ :=
  (uv.1 - 1 / 2) * (uv.1 - 1 / 2) + (uv.2 - 1 / 2) * (uv.2 - 1 / 2)

/-- The pair the loop body writes: `int8_t((u - 0.5f) * R)` and `int8_t((v - 0.5f) * R)` with
`R = 254`. -/
def offsetOf (uv : ℚ × ℚ) : Int × Int :=
  (toInt8 ((uv.1 - 1 / 2) * 254), toInt8 ((uv.2 - 1 / 2) * 254))

/-- The loop `for (uint32_t index = 0; index < sampleCount * 2;)` with `bound` the value of
`sampleCount * 2`.  The array written so far is the list of its (x, y) pairs, `index` being
twice its length; `fuel` bounds the number of iterations, and `none` means that it ran out. -/
def neighborOffsetLoop (bound : Nat) :
    Nat → ℚ × ℚ → List (Int × Int) → Option (List (Int × Int))
  | 0, _, offsets => if 2 * offsets.length < bound then none else some offsets
  | fuel + 1, uv, offsets =>
    if 2 * offsets.length < bound then
      if rSq (advanceUV uv) > 1 / 4 then neighborOffsetLoop bound fuel (advanceUV uv) offsets
      else neighborOffsetLoop bound fuel (advanceUV uv) (offsets ++ [offsetOf (advanceUV uv)])
    else some offsets

/-- The function `createNeighborOffsetTexture(sampleCount)` of `ScreenSpaceReSTIR` and, with
the same code, of `ReSTIRPTPass`: the pairs written into `offsets` when the loop ends within
`fuel` iterations.  `sampleCount * 2` is evaluated in `uint32_t`. -/
def createNeighborOffsetTexture (fuel sampleCount : Nat) : Option (List (Int × Int)) :=
  neighborOffsetLoop (mulU32 sampleCount 2) fuel (1 / 2, 1 / 2) []

/-- The values of `u` and `v` after `n` iterations of the loop. -/
def uvAfter (n : Nat) : ℚ × ℚ := advanceUV^[n] (1 / 2, 1 / 2)

/-- The bounds of the specification on a written pair. -/
def OffsetInDisk (p : Int × Int) : Prop :=
  -127 ≤ p.1 ∧ p.1 ≤ 127 ∧ -127 ≤ p.2 ∧ p.2 ≤ 127 ∧ p.1 * p.1 + p.2 * p.2 ≤ 127 * 127

/-! ## Buffers bound by the spatial passes -/

/-- The buffers the spatial-resampling dispatches of a list bind, in recording order: for each
dispatch the pair (`reservoirs`, `prevReservoirs`). -/
def spatialBindings (ds : List Dispatch) : List (Option Resource × Option Resource) :=
  ds.filterMap fun d =>
    match d with
    | .spatialResampling _ r p => some (r, p)
    | _ => none

/-! ## ReSTIR-GI buffer indices (`setShaderData`, `updateReSTIRGI`) -/

/-- What `setShaderData` binds on the shader variable it is given. -/
structure ShaderData where
  surfaceData : Option Resource
  normalDepth : Option (Resource × Nat × Nat)
  finalSamples : Option Resource
  frameDim : Nat × Nat
  initialSamples : Option Resource
  prevReservoirs : Option Resource
  reservoirs : Option Resource
  giReservoirCount : Nat
  deriving DecidableEq, Repr

namespace ScreenSpaceReSTIR

/-- The method `setShaderData`; the two GI reservoir buffers are picked by the same
`uint32_t` expressions as in `updateReSTIRGI`. -/
def setShaderData (s : ScreenSpaceReSTIR) : ShaderData :=
  { surfaceData := s.mpSurfaceData
    normalDepth := s.mpNormalDepthTexture
    finalSamples := s.mpFinalSamples
    frameDim := s.mFrameDim
    initialSamples := s.mpGIInitialSamples
    prevReservoirs := s.mpGIReservoirs
      (addU32 (subU32 s.mFrameIndex s.mReSTIRInstanceIndex / s.mNumReSTIRInstances) 0 % 2)
    reservoirs := s.mpGIReservoirs
      (addU32 (subU32 s.mFrameIndex s.mReSTIRInstanceIndex / s.mNumReSTIRInstances) 1 % 2)
    giReservoirCount := s.mOptions.reSTIRGIReservoirCount }

/-- The index `((mFrameIndex - mReSTIRInstanceIndex) / mNumReSTIRInstances + offset) % 2` that
`setShaderData` and `updateReSTIRGI` use into `mpGIReservoirs`, with `offset` 0 for
`prevReservoirs` and 1 for `reservoirs`. -/
def giReservoirIndex (s : ScreenSpaceReSTIR) (offset : Nat) : Nat :=
  addU32 (subU32 s.mFrameIndex s.mReSTIRInstanceIndex / s.mNumReSTIRInstances) offset % 2

end ScreenSpaceReSTIR

/-- Instance 0 of 7, at the last frame index of the form 7 k below 2^32. -/
def lastFrameBeforeWrap : ScreenSpaceReSTIR :=
  { ScreenSpaceReSTIR.create { useReSTIRGI := true } 7 0 with mFrameIndex := 613566756 * 7 }

/-- Instance 1 of 2 after three frames, with its two GI reservoir buffers. -/
def secondInstanceFrame3 : ScreenSpaceReSTIR :=
  { ScreenSpaceReSTIR.create { useReSTIRGI := true } 2 1 with
    mFrameIndex := 1 + 3 * 2
    mpGIReservoirs0 := some ⟨10, 1⟩
    mpGIReservoirs1 := some ⟨11, 1⟩ }

/-! ## Alignment of the frame index with the instance index -/

/-- The frame index of an instance is at least its instance index, and exceeds it by a multiple
of the instance count. -/
def FrameIndexAligned (s : ScreenSpaceReSTIR) : Prop :=
  s.mReSTIRInstanceIndex ≤ s.mFrameIndex ∧
  s.mNumReSTIRInstances ∣ (s.mFrameIndex - s.mReSTIRInstanceIndex)

instance (s : ScreenSpaceReSTIR) : Decidable (FrameIndexAligned s) := by
  unfold FrameIndexAligned
  exact inferInstance

/-! ## The command list of `prepareForDraw`, item by item -/

/-- The transitions requested for a list of optional resources, one per non-null entry, in
slot order. -/
def transitionsOf (l : List (Option Nat)) (state : ResourceState) : List ContextCommand :=
  l.filterMap fun r => r.map fun resource => ContextCommand.resourceBarrier resource state

/-- The commands of the item "vertex and index buffers": the transitions of the vertex buffers
and of the index buffer, then the two binding commands. -/
def vaoCommands (vao : Vao) : List ContextCommand :=
  transitionsOf vao.vertexBuffers .VertexBuffer ++ transitionsOf [vao.indexBuffer] .IndexBuffer
    ++ [.iaSetVertexBuffers vao.vertexBuffers, .iaSetIndexBuffer vao.indexBuffer]

/-- The commands of the item "render targets": the transitions of the attached textures, then
the binding command (with null views only when there is no Fbo). -/
def fboCommands (pFbo : Option Fbo) : List ContextCommand :=
  match pFbo with
  | some fbo =>
    transitionsOf fbo.colorTextures .RenderTarget
      ++ transitionsOf [fbo.depthStencilTexture] .DepthStencil
      ++ [.omSetRenderTargets fbo.colorTextures fbo.depthStencilTexture]
  | none => [.omSetRenderTargets [] none]

/-- The commands of the item "sample positions": one command when there is an Fbo and the
device supports programmable sample positions, none otherwise. -/
def samplePositionsCommands (featureSupported : Bool) (pFbo : Option Fbo) :
    List ContextCommand :=
  match pFbo with
  | some fbo =>
    if featureSupported then
      [if fbo.samplePositionCount ≠ 0 then
         .setSamplePositions fbo.sampleCount fbo.samplePositionsPixelCount
           fbo.samplePositionCount
       else .setSamplePositions 0 0 0]
    else []
  | none => []

/-- The commands of the item "shader variables / root signature": the empty root signature for
null variables, otherwise what `applyGraphicsVars` records (`applied`). -/
def varsCommands (pVars : Option Nat) (applied : List ContextCommand) : List ContextCommand :=
  match pVars with
  | some _ => applied
  | none => [.setGraphicsRootSignatureEmpty]

/-- The command list of a successful `prepareForDraw` as the specification words it: the
commands of the flagged items in the fixed order, then the blend factor when a blend state
exists, then the stencil reference. -/
def specPrepareForDrawCommands (flags : StateBindFlags) (featureSupported : Bool)
    (pState : GraphicsState) (pVars : Option Nat) (applied : List ContextCommand) :
    List ContextCommand :=
  (if flags.vars then varsCommands pVars applied else [])
    ++ (if flags.topology then [.iaSetPrimitiveTopology pState.vao.primitiveTopology] else [])
    ++ (if flags.vao then vaoCommands pState.vao else [])
    ++ (if flags.fbo then fboCommands pState.fbo else [])
    ++ (if flags.samplePositions then samplePositionsCommands featureSupported pState.fbo
        else [])
    ++ (if flags.viewports then [.rsSetViewports pState.viewport] else [])
    ++ (if flags.scissors then [.rsSetScissorRects pState.scissor] else [])
    ++ (if flags.pipelineState then [.setPipelineState pState.gso] else [])
    ++ (match pState.blendFactor with
        | some factor => [.omSetBlendFactor factor]
        | none => [])
    ++ [.omSetStencilRef (pState.stencilRef.getD 0)]

/-- A context whose bind flags leave out the render targets and the viewports. -/
def contextWithoutFboViewports : RenderContext :=
  { mBindFlags := { fbo := false, viewports := false } }

/-! ## Last-round flags of the dispatches of `execute` -/

/-- Whether a dispatch is flagged as the last round: `isLastRound` of the trace pass,
`gIsLastRound` of a reuse pass. -/
def PTCommand.isLastRound : PTCommand → Bool
  | .tracePass _ isLastRound => isLastRound
  | .pathReuse _ _ _ _ _ gIsLastRound => gIsLastRound
  | _ => false

/-- The number of dispatches of a list that are flagged as the last round. -/
def lastRoundCount (cmds : List PTCommand) : Nat :=
  cmds.countP PTCommand.isLastRound

/-- A pass at its member initialisers but with spatial reuse disabled: temporal reuse is
enabled, and there is no reservoir history. -/
def passTemporalOnly : ReSTIRPTPass := { mEnableSpatialReuse := false }

/-! ## Sequences of `blit` calls on the shared blit data -/

/-- The arguments of one call of the seven-argument `blit`. -/
structure BlitCall where
  pSrc : View
  pDst : View
  srcRect : UInt4
  dstRect : UInt4
  filter : Filter
  componentsReduction : Fin 4 → ReductionMode
  componentsTransform : Fin 4 → Float4

/-- The call `blit(pSrc, pDst, srcRect, dstRect, filter, componentsReduction,
componentsTransform)` on the shared blit data. -/
def BlitCall.blit (compareDesc : Texture → Texture → Bool) (blitData : BlitData)
    (c : BlitCall) : Except String BlitResult :=
  Falcor.blit compareDesc blitData c.pSrc c.pDst c.srcRect c.dstRect c.filter
    c.componentsReduction c.componentsTransform

/-- The value of `srcRectOffset` in a call. -/
def BlitCall.offset (c : BlitCall) : Float2 :=
  srcRectOffset (clampRect c.srcRect (viewSize c.pSrc)) (viewSize c.pSrc)

/-- The value of `srcRectScale` in a call. -/
def BlitCall.scale (c : BlitCall) : Float2 :=
  srcRectScale (clampRect c.srcRect (viewSize c.pSrc)) (viewSize c.pSrc)

/-- The shared blit data after a sequence of calls, made one after the other; a call that
throws leaves the data as it found them (every `throw` of `blit` precedes its first write). -/
def blitSequence (compareDesc : Texture → Texture → Bool) :
    List BlitCall → BlitData → BlitData
  | [], b => b
  | c :: rest, b =>
    match c.blit compareDesc b with
    | .ok r => blitSequence compareDesc rest r.blitData
    | .error _ => blitSequence compareDesc rest b

/-- The variables of the constant buffer `BlitParamsCB` that the blit shader reads. -/
structure BlitParams where
  gOffset : Float2
  gScale : Float2
  gCompTransform : Fin 4 → Float4

/-- The contents of the constant buffer of the blit pass. -/
def BlitData.params (b : BlitData) : BlitParams :=
  { gOffset := b.gOffset, gScale := b.gScale, gCompTransform := b.gCompTransform }

/-- The constant buffer after an implementation without cache, which writes all values on
every call: offset and scale, and on a complex blit the four component transforms. -/
def writeAllParams (c : BlitCall) (cb : BlitParams) : BlitParams :=
  { gOffset := c.offset
    gScale := c.scale
    gCompTransform :=
      if isComplexBlit c.componentsReduction c.componentsTransform then c.componentsTransform
      else cb.gCompTransform }

/-- The cached value of a constant-buffer variable (`prevSrcRectOffset`, `prevSrcReftScale`,
`prevComponentsTransform[i]`), component by component. -/
def BlitData.cached (b : BlitData) : BlitVar → List ℚ
  | .gOffset => [b.prevSrcRectOffset.x, b.prevSrcRectOffset.y]
  | .gScale => [b.prevSrcReftScale.x, b.prevSrcReftScale.y]
  | .gCompTransform i =>
    [(b.prevComponentsTransform i).x, (b.prevComponentsTransform i).y,
     (b.prevComponentsTransform i).z, (b.prevComponentsTransform i).w]

/-- The value a call wants in a constant-buffer variable, component by component. -/
def BlitCall.wanted (c : BlitCall) : BlitVar → List ℚ
  | .gOffset => [c.offset.x, c.offset.y]
  | .gScale => [c.scale.x, c.scale.y]
  | .gCompTransform i =>
    [(c.componentsTransform i).x, (c.componentsTransform i).y,
     (c.componentsTransform i).z, (c.componentsTransform i).w]

/-- The cache mirrors the constant buffer: each cached value is the value in the buffer, or,
for offset and scale, still the negative value that `init` stores and no call asks for. -/
def CacheCoherent (b : BlitData) : Prop :=
  (b.prevSrcRectOffset = b.gOffset ∨ b.prevSrcRectOffset.x < 0) ∧
  (b.prevSrcReftScale = b.gScale ∨ b.prevSrcReftScale.x < 0) ∧
  b.prevComponentsTransform = b.gCompTransform

/-- A blit of the left half of texture 1 onto texture 2. -/
def leftHalfBlit : BlitCall :=
  { pSrc := singleSubresourceView (floatTexture8 1)
    pDst := singleSubresourceView (floatTexture8 2)
    srcRect := ⟨0, 0, 4, 8⟩, dstRect := ⟨0, 0, 8, 8⟩, filter := .Linear
    componentsReduction := standardReduction, componentsTransform := identityTransform }

/-- A complex blit of the whole of texture 1 onto texture 2, the minimum in the red channel. -/
def minRedBlit : BlitCall :=
  { pSrc := singleSubresourceView (floatTexture8 1)
    pDst := singleSubresourceView (floatTexture8 2)
    srcRect := ⟨0, 0, 8, 8⟩, dstRect := ⟨0, 0, 8, 8⟩, filter := .Linear
    componentsReduction := minRedReduction, componentsTransform := identityTransform }

/-! ## The scripting dictionary of `ReSTIRPTPass` (`getScriptingDictionary`, `parseDictionary`) -/

/-- The members of `ColorFormat` that `ReSTIRPTPass.cpp` names. -/
inductive ColorFormat where
  | RGBA32F | LogLuvHDR
  deriving DecidableEq, Repr

/-- The members of `MISHeuristic` that `ReSTIRPTPass.cpp` names. -/
inductive MISHeuristic where
  | Balance | PowerTwo | PowerExp
  deriving DecidableEq, Repr

/-- The members of `EmissiveLightSamplerType` that `ReSTIRPTPass.cpp` names. -/
inductive EmissiveLightSamplerType where
  | Uniform | LightBVH | Power
  deriving DecidableEq, Repr

/-- The members of `SpatialReusePattern` that `ReSTIRPTPass.cpp` names. -/
inductive SpatialReusePattern where
  | Default | SmallWindow
  deriving DecidableEq, Repr

/-- The fields of `ReSTIRPTPass::StaticParams` that the scripting dictionary carries, with
their initialisers (that of `sampleGenerator` is a macro of another file). -/
structure ScriptedStaticParams where
  samplesPerPixel : Nat := 1
  maxSurfaceBounces : Nat := 9
  maxDiffuseBounces : Nat := 4294967295
  maxSpecularBounces : Nat := 4294967295
  maxTransmissionBounces : Nat := 4294967295
  adjustShadingNormals : Bool := false
  sampleGenerator : Nat
  useBSDFSampling : Bool := true
  useNEE : Bool := true
  useMIS : Bool := true
  useRussianRoulette : Bool := false
  useAlphaTest : Bool := true
  maxNestedMaterials : Nat := 2
  useLightsInDielectricVolumes : Bool := false
  limitTransmission : Bool := false
  maxTransmissionReflectionDepth : Nat := 0
  maxTransmissionRefractionDepth : Nat := 0
  disableCaustics : Bool := false
  disableDirectIllumination : Bool := true
  primaryLodMode : TexLODMode := .Mip0
  useNRDDemodulation : Bool := true
  colorFormat : ColorFormat := .LogLuvHDR
  misHeuristic : MISHeuristic := .Balance
  misPowerExponent : ℚ := 2
  emissiveSampler : EmissiveLightSamplerType := .Power
  spatialMisKind : ReSTIRMISKind := .Pairwise
  temporalMisKind : ReSTIRMISKind := .Talbot
  shiftStrategy : ShiftMapping := .Hybrid
  pathSamplingMode : PathSamplingMode := .ReSTIR
  separatePathBSDF : Bool := true
  candidateSamples : Nat := 1
  temporalUpdateForDynamicScene : Bool := false
  deriving DecidableEq

/-- The fields of `mParams` (a `RestirPathTracerParams`, declared in a shader header outside
these files) that the scripting dictionary touches. -/
structure ScriptedParams where
  lodBias : ℚ
  fixedSeed : Nat
  specularRoughnessThreshold : ℚ
  rejectShiftBasedOnJacobian : Bool
  jacobianRejectionThreshold : ℚ
  nearFieldDistance : ℚ
  localStrategyType : Nat
  useFixedSeed : Bool
  deriving DecidableEq

/-- The members of a `ReSTIRPTPass` that `getScriptingDictionary` and `parseDictionary` read
or write.  A `LightBVHSampler::Options` value is named by a number, 0 being the
default-constructed one; `lightBVHSampler` holds the options of `mpEmissiveSampler` when that
is a `LightBVHSampler`, and is `none` otherwise. -/
structure ScriptedPass where
  mStaticParams : ScriptedStaticParams
  mParams : ScriptedParams
  mLightBVHOptions : Nat := 0
  mTemporalHistoryLength : Int := 20
  mUseMaxHistory : Bool := true
  mSeedOffset : Int := 0
  mEnableTemporalReuse : Bool := true
  mEnableSpatialReuse : Bool := true
  mNumSpatialRounds : Int := 1
  mEnableTemporalReprojection : Bool := true
  mNoResamplingForTemporalReuse : Bool := false
  mSpatialNeighborCount : Int := 3
  mFeatureBasedRejection : Bool := true
  mSpatialReusePattern : SpatialReusePattern := .Default
  mSmallWindowRestirWindowRadius : Nat := 2
  mSpatialReuseRadius : ℚ := 20
  mUseDirectLighting : Bool := true
  mEnableRayStats : Bool := false
  lightBVHSampler : Option Nat := none
  deriving DecidableEq

/-- An entry of a `Dictionary` handed to the pass: one of the keys that `parseDictionary`
knows, with a value of the type of the member it is assigned to (the conversion of a value of
another type throws inside the dictionary class and is not modelled), one of the three
deprecated keys, or any other key. -/
inductive DictEntry where
  | samplesPerPixel (value : Nat)
  | maxSurfaceBounces (value : Nat)
  | maxDiffuseBounces (value : Nat)
  | maxSpecularBounces (value : Nat)
  | maxTransmissionBounces (value : Nat)
  | adjustShadingNormals (value : Bool)
  | lodBias (value : ℚ)
  | sampleGenerator (value : Nat)
  | fixedSeed (value : Nat)
  | useBSDFSampling (value : Bool)
  | useNEE (value : Bool)
  | useMIS (value : Bool)
  | useRussianRoulette (value : Bool)
  | useAlphaTest (value : Bool)
  | maxNestedMaterials (value : Nat)
  | useLightsInDielectricVolumes (value : Bool)
  | limitTransmission (value : Bool)
  | maxTransmissionReflectionDepth (value : Nat)
  | maxTransmissionRefractionDepth (value : Nat)
  | disableCaustics (value : Bool)
  | specularRoughnessThreshold (value : ℚ)
  | disableDirectIllumination (value : Bool)
  | primaryLodMode (value : TexLODMode)
  | useNRDDemodulation (value : Bool)
  | colorFormat (value : ColorFormat)
  | misHeuristic (value : MISHeuristic)
  | misPowerExponent (value : ℚ)
  | emissiveSampler (value : EmissiveLightSamplerType)
  | lightBVHOptions (value : Nat)
  | spatialMisKind (value : ReSTIRMISKind)
  | temporalMisKind (value : ReSTIRMISKind)
  | shiftStrategy (value : ShiftMapping)
  | rejectShiftBasedOnJacobian (value : Bool)
  | jacobianRejectionThreshold (value : ℚ)
  | nearFieldDistance (value : ℚ)
  | temporalHistoryLength (value : Int)
  | useMaxHistory (value : Bool)
  | seedOffset (value : Int)
  | enableTemporalReuse (value : Bool)
  | enableSpatialReuse (value : Bool)
  | numSpatialRounds (value : Int)
  | pathSamplingMode (value : PathSamplingMode)
  | localStrategyType (value : Nat)
  | enableTemporalReprojection (value : Bool)
  | noResamplingForTemporalReuse (value : Bool)
  | spatialNeighborCount (value : Int)
  | featureBasedRejection (value : Bool)
  | spatialReusePattern (value : SpatialReusePattern)
  | smallWindowRestirWindowRadius (value : Nat)
  | spatialReuseRadius (value : ℚ)
  | useDirectLighting (value : Bool)
  | separatePathBSDF (value : Bool)
  | candidateSamples (value : Nat)
  | temporalUpdateForDynamicScene (value : Bool)
  | enableRayStats (value : Bool)
  | maxBounces (value : Nat)
  | maxNonSpecularBounces (value : Nat)
  | useNestedDielectrics (value : Bool)
  | unknown (key : String)

namespace ScriptedPass

/-- One iteration of the loop of `parseDictionary` over the entries: the chain of
`if (key == ...) member = value;`, an unknown key (the deprecated ones included) being only
logged. -/
def parseEntry (s : ScriptedPass) : DictEntry → ScriptedPass
  | .samplesPerPixel value =>
    { s with mStaticParams := { s.mStaticParams with samplesPerPixel := value } }
  | .maxSurfaceBounces value =>
    { s with mStaticParams := { s.mStaticParams with maxSurfaceBounces := value } }
  | .maxDiffuseBounces value =>
    { s with mStaticParams := { s.mStaticParams with maxDiffuseBounces := value } }
  | .maxSpecularBounces value =>
    { s with mStaticParams := { s.mStaticParams with maxSpecularBounces := value } }
  | .maxTransmissionBounces value =>
    { s with mStaticParams := { s.mStaticParams with maxTransmissionBounces := value } }
  | .adjustShadingNormals value =>
    { s with mStaticParams := { s.mStaticParams with adjustShadingNormals := value } }
  | .lodBias value => { s with mParams := { s.mParams with lodBias := value } }
  | .sampleGenerator value =>
    { s with mStaticParams := { s.mStaticParams with sampleGenerator := value } }
  | .fixedSeed value =>
    { s with mParams := { s.mParams with fixedSeed := value, useFixedSeed := true } }
  | .useBSDFSampling value =>
    { s with mStaticParams := { s.mStaticParams with useBSDFSampling := value } }
  | .useNEE value => { s with mStaticParams := { s.mStaticParams with useNEE := value } }
  | .useMIS value => { s with mStaticParams := { s.mStaticParams with useMIS := value } }
  | .useRussianRoulette value =>
    { s with mStaticParams := { s.mStaticParams with useRussianRoulette := value } }
  | .useAlphaTest value =>
    { s with mStaticParams := { s.mStaticParams with useAlphaTest := value } }
  | .maxNestedMaterials value =>
    { s with mStaticParams := { s.mStaticParams with maxNestedMaterials := value } }
  | .useLightsInDielectricVolumes value =>
    { s with mStaticParams := { s.mStaticParams with useLightsInDielectricVolumes := value } }
  | .limitTransmission value =>
    { s with mStaticParams := { s.mStaticParams with limitTransmission := value } }
  | .maxTransmissionReflectionDepth value =>
    { s with mStaticParams := { s.mStaticParams with maxTransmissionReflectionDepth := value } }
  | .maxTransmissionRefractionDepth value =>
    { s with mStaticParams := { s.mStaticParams with maxTransmissionRefractionDepth := value } }
  | .disableCaustics value =>
    { s with mStaticParams := { s.mStaticParams with disableCaustics := value } }
  | .specularRoughnessThreshold value =>
    { s with mParams := { s.mParams with specularRoughnessThreshold := value } }
  | .disableDirectIllumination value =>
    { s with mStaticParams := { s.mStaticParams with disableDirectIllumination := value } }
  | .primaryLodMode value =>
    { s with mStaticParams := { s.mStaticParams with primaryLodMode := value } }
  | .useNRDDemodulation value =>
    { s with mStaticParams := { s.mStaticParams with useNRDDemodulation := value } }
  | .colorFormat value => { s with mStaticParams := { s.mStaticParams with colorFormat := value } }
  | .misHeuristic value =>
    { s with mStaticParams := { s.mStaticParams with misHeuristic := value } }
  | .misPowerExponent value =>
    { s with mStaticParams := { s.mStaticParams with misPowerExponent := value } }
  | .emissiveSampler value =>
    { s with mStaticParams := { s.mStaticParams with emissiveSampler := value } }
  | .lightBVHOptions value => { s with mLightBVHOptions := value }
  | .spatialMisKind value =>
    { s with mStaticParams := { s.mStaticParams with spatialMisKind := value } }
  | .temporalMisKind value =>
    { s with mStaticParams := { s.mStaticParams with temporalMisKind := value } }
  | .shiftStrategy value =>
    { s with mStaticParams := { s.mStaticParams with shiftStrategy := value } }
  | .rejectShiftBasedOnJacobian value =>
    { s with mParams := { s.mParams with rejectShiftBasedOnJacobian := value } }
  | .jacobianRejectionThreshold value =>
    { s with mParams := { s.mParams with jacobianRejectionThreshold := value } }
  | .nearFieldDistance value => { s with mParams := { s.mParams with nearFieldDistance := value } }
  | .temporalHistoryLength value => { s with mTemporalHistoryLength := value }
  | .useMaxHistory value => { s with mUseMaxHistory := value }
  | .seedOffset value => { s with mSeedOffset := value }
  | .enableTemporalReuse value => { s with mEnableTemporalReuse := value }
  | .enableSpatialReuse value => { s with mEnableSpatialReuse := value }
  | .numSpatialRounds value => { s with mNumSpatialRounds := value }
  | .pathSamplingMode value =>
    { s with mStaticParams := { s.mStaticParams with pathSamplingMode := value } }
  | .localStrategyType value => { s with mParams := { s.mParams with localStrategyType := value } }
  | .enableTemporalReprojection value => { s with mEnableTemporalReprojection := value }
  | .noResamplingForTemporalReuse value => { s with mNoResamplingForTemporalReuse := value }
  | .spatialNeighborCount value => { s with mSpatialNeighborCount := value }
  | .featureBasedRejection value => { s with mFeatureBasedRejection := value }
  | .spatialReusePattern value => { s with mSpatialReusePattern := value }
  | .smallWindowRestirWindowRadius value => { s with mSmallWindowRestirWindowRadius := value }
  | .spatialReuseRadius value => { s with mSpatialReuseRadius := value }
  | .useDirectLighting value => { s with mUseDirectLighting := value }
  | .separatePathBSDF value =>
    { s with mStaticParams := { s.mStaticParams with separatePathBSDF := value } }
  | .candidateSamples value =>
    { s with mStaticParams := { s.mStaticParams with candidateSamples := value } }
  | .temporalUpdateForDynamicScene value =>
    { s with mStaticParams := { s.mStaticParams with temporalUpdateForDynamicScene := value } }
  | .enableRayStats value => { s with mEnableRayStats := value }
  | _ => s

/-- Whether the dictionary holds the deprecated key `maxBounces`, and its value. -/
def maxBounces? : List DictEntry → Option Nat
  | [] => none
  | .maxBounces value :: _ => some value
  | _ :: rest => maxBounces? rest

/-- Whether the dictionary holds the deprecated key `maxNonSpecularBounces`, and its value. -/
def maxNonSpecularBounces? : List DictEntry → Option Nat
  | [] => none
  | .maxNonSpecularBounces value :: _ => some value
  | _ :: rest => maxNonSpecularBounces? rest

/-- The test `dict.keyExists(kMaxSurfaceBounces)`. -/
def hasMaxSurfaceBounces : List DictEntry → Bool
  | [] => false
  | .maxSurfaceBounces _ :: _ => true
  | _ :: rest => hasMaxSurfaceBounces rest

/-- The test `dict.keyExists(kMaxDiffuseBounces)`. -/
def hasMaxDiffuseBounces : List DictEntry → Bool
  | [] => false
  | .maxDiffuseBounces _ :: _ => true
  | _ :: rest => hasMaxDiffuseBounces rest

/-- The block "Check for deprecated bounces configuration" of `parseDictionary`. -/
def applyDeprecatedBounces (dict : List DictEntry) (s : ScriptedPass) : ScriptedPass :=
  let s := match maxBounces? dict with
    | some value =>
      if !hasMaxSurfaceBounces dict then
        { s with mStaticParams := { s.mStaticParams with maxSurfaceBounces := value } }
      else s
    | none => s
  match maxNonSpecularBounces? dict with
  | some value =>
    if !hasMaxDiffuseBounces dict then
      { s with mStaticParams := { s.mStaticParams with maxDiffuseBounces := value } }
    else s
  | none => s

/-- The block "Initialize the other bounce counts to 'maxSurfaceBounces' if they weren't
explicitly set" of `parseDictionary`; `-1` is 4294967295 in `uint32_t`. -/
def initializeBounces (s : ScriptedPass) : ScriptedPass :=
  let p := s.mStaticParams
  let p := if p.maxDiffuseBounces = 4294967295 then
      { p with maxDiffuseBounces := p.maxSurfaceBounces } else p
  let p := if p.maxSpecularBounces = 4294967295 then
      { p with maxSpecularBounces := p.maxSurfaceBounces } else p
  let p := if p.maxTransmissionBounces = 4294967295 then
      { p with maxTransmissionBounces := p.maxSurfaceBounces } else p
  { s with mStaticParams := p }

/-- The method `parseDictionary(dict)`: the pass afterwards (the result is always `true`, and
the warnings are only logged). -/
def parseDictionary (dict : List DictEntry) (s : ScriptedPass) : ScriptedPass :=
  initializeBounces (applyDeprecatedBounces dict (dict.foldl parseEntry s))

/-- The method `getScriptingDictionary()`: the pass afterwards (`mLightBVHOptions` is first
refreshed from a light BVH sampler) and the dictionary, in insertion order. -/
def getScriptingDictionary (s : ScriptedPass) : ScriptedPass × List DictEntry :=
  let s := match s.lightBVHSampler with
    | some options => { s with mLightBVHOptions := options }
    | none => s
  (s,
    [DictEntry.samplesPerPixel s.mStaticParams.samplesPerPixel,
      DictEntry.maxSurfaceBounces s.mStaticParams.maxSurfaceBounces,
      DictEntry.maxDiffuseBounces s.mStaticParams.maxDiffuseBounces,
      DictEntry.maxSpecularBounces s.mStaticParams.maxSpecularBounces,
      DictEntry.maxTransmissionBounces s.mStaticParams.maxTransmissionBounces,
      DictEntry.adjustShadingNormals s.mStaticParams.adjustShadingNormals,
      DictEntry.lodBias s.mParams.lodBias,
      DictEntry.sampleGenerator s.mStaticParams.sampleGenerator]
    ++ (if s.mParams.useFixedSeed then [DictEntry.fixedSeed s.mParams.fixedSeed] else [])
    ++ [DictEntry.useBSDFSampling s.mStaticParams.useBSDFSampling,
      DictEntry.useNEE s.mStaticParams.useNEE,
      DictEntry.useMIS s.mStaticParams.useMIS,
      DictEntry.useRussianRoulette s.mStaticParams.useRussianRoulette,
      DictEntry.useAlphaTest s.mStaticParams.useAlphaTest,
      DictEntry.maxNestedMaterials s.mStaticParams.maxNestedMaterials,
      DictEntry.useLightsInDielectricVolumes s.mStaticParams.useLightsInDielectricVolumes,
      DictEntry.limitTransmission s.mStaticParams.limitTransmission,
      DictEntry.maxTransmissionReflectionDepth s.mStaticParams.maxTransmissionReflectionDepth,
      DictEntry.maxTransmissionRefractionDepth s.mStaticParams.maxTransmissionRefractionDepth,
      DictEntry.disableCaustics s.mStaticParams.disableCaustics,
      DictEntry.specularRoughnessThreshold s.mParams.specularRoughnessThreshold,
      DictEntry.disableDirectIllumination s.mStaticParams.disableDirectIllumination,
      DictEntry.primaryLodMode s.mStaticParams.primaryLodMode,
      DictEntry.colorFormat s.mStaticParams.colorFormat,
      DictEntry.misHeuristic s.mStaticParams.misHeuristic,
      DictEntry.misPowerExponent s.mStaticParams.misPowerExponent,
      DictEntry.emissiveSampler s.mStaticParams.emissiveSampler]
    ++ (if s.mStaticParams.emissiveSampler = .LightBVH then
          [DictEntry.lightBVHOptions s.mLightBVHOptions]
        else [])
    ++ [DictEntry.spatialMisKind s.mStaticParams.spatialMisKind,
      DictEntry.temporalMisKind s.mStaticParams.temporalMisKind,
      DictEntry.shiftStrategy s.mStaticParams.shiftStrategy,
      DictEntry.rejectShiftBasedOnJacobian s.mParams.rejectShiftBasedOnJacobian,
      DictEntry.jacobianRejectionThreshold s.mParams.jacobianRejectionThreshold,
      DictEntry.nearFieldDistance s.mParams.nearFieldDistance,
      DictEntry.temporalHistoryLength s.mTemporalHistoryLength,
      DictEntry.useMaxHistory s.mUseMaxHistory,
      DictEntry.seedOffset s.mSeedOffset,
      DictEntry.enableTemporalReuse s.mEnableSpatialReuse,
      DictEntry.enableSpatialReuse s.mEnableTemporalReuse,
      DictEntry.numSpatialRounds s.mNumSpatialRounds,
      DictEntry.pathSamplingMode s.mStaticParams.pathSamplingMode,
      DictEntry.localStrategyType s.mParams.localStrategyType,
      DictEntry.enableTemporalReprojection s.mEnableTemporalReprojection,
      DictEntry.noResamplingForTemporalReuse s.mNoResamplingForTemporalReuse,
      DictEntry.spatialNeighborCount s.mSpatialNeighborCount,
      DictEntry.featureBasedRejection s.mFeatureBasedRejection,
      DictEntry.spatialReusePattern s.mSpatialReusePattern,
      DictEntry.smallWindowRestirWindowRadius s.mSmallWindowRestirWindowRadius,
      DictEntry.spatialReuseRadius s.mSpatialReuseRadius,
      DictEntry.useDirectLighting s.mUseDirectLighting,
      DictEntry.separatePathBSDF s.mStaticParams.separatePathBSDF,
      DictEntry.candidateSamples s.mStaticParams.candidateSamples,
      DictEntry.temporalUpdateForDynamicScene s.mStaticParams.temporalUpdateForDynamicScene,
      DictEntry.enableRayStats s.mEnableRayStats,
      DictEntry.useNRDDemodulation s.mStaticParams.useNRDDemodulation])

end ScriptedPass

/-- A pass at the member initialisers of the header, but with spatial reuse disabled (so that
the two reuse flags differ), `sampleGenerator` 0 and some values in `mParams`. -/
def scriptedTemporalOnly : ScriptedPass :=
  { mStaticParams := { sampleGenerator := 0 }
    mParams := { lodBias := 0, fixedSeed := 1, specularRoughnessThreshold := 1 / 4
                 rejectShiftBasedOnJacobian := false, jacobianRejectionThreshold := 10
                 nearFieldDistance := 1 / 10, localStrategyType := 3, useFixedSeed := false }
    mEnableSpatialReuse := false }

/-! ## `ScreenSpaceReSTIRPass` (`ScreenSpaceReSTIRPass.{h,cpp}`) -/

/-- An entry of a `Dictionary` handed to `ScreenSpaceReSTIRPass`: the key `options` with an
options value, the key `NumReSTIRInstances` with a number, or any other key. -/
inductive PassDictEntry where
  | options (value : Options)
  | numReSTIRInstances (value : Int)
  | unknown (key : String)

/-- A `ScreenSpaceReSTIR` instance as the pass holds it.  `mOptions` is the shared pointer of
the instance, given by the identity of the `Options` object it points to; `members` are the
other members (its `mOptions` field is the content read through the pointer when the instance
was created). -/
structure PassInstance where
  mOptions : Nat
  members : ScreenSpaceReSTIR

/-- The members of a `ScreenSpaceReSTIRPass` that `parseDictionary`, `setScene` and
`updateDict` read or write.  `optionsObjects` are the `Options` objects created so far, the
identity of an object being its position; `mOptions` points to one of them, or is null;
`hasScene` tells whether `mpScene` is non-null; the elements of `mpScreenSpaceReSTIR` are never
null. -/
structure ScreenSpaceReSTIRPass where
  optionsObjects : List Options := []
  mOptions : Option Nat := none
  mOptionsChanged : Bool := false
  mNumReSTIRInstances : Int := 1
  hasScene : Bool := false
  mpScreenSpaceReSTIR : List PassInstance := []

namespace ScreenSpaceReSTIRPass

/-- One iteration of the loop of `parseDictionary`: the local `options` and the pass
afterwards. -/
def parseEntry (r : Options × ScreenSpaceReSTIRPass) : PassDictEntry →
    Options × ScreenSpaceReSTIRPass
  | .options value => (value, r.2)
  | .numReSTIRInstances value => (r.1, { r.2 with mNumReSTIRInstances := value })
  | .unknown _ => r

/-- The statement `mpScreenSpaceReSTIR[0]->mOptions = mOptions` under its test. -/
def repointFirstInstance (mOptions : Nat) : List PassInstance → List PassInstance
  | [] => []
  | first :: rest => { first with mOptions := mOptions } :: rest

/-- The method `parseDictionary(dict)`: the entries are read into a default-constructed
`Options` and into `mNumReSTIRInstances`, `Options::create(options)` makes a new object, which
becomes `mOptions` of the pass and of `mpScreenSpaceReSTIR[0]`. -/
def parseDictionary (dict : List PassDictEntry) (p : ScreenSpaceReSTIRPass) :
    ScreenSpaceReSTIRPass :=
  let r := dict.foldl parseEntry (({} : Options), p)
  let p := r.2
  let created := p.optionsObjects.length
  { p with
    optionsObjects := p.optionsObjects ++ [r.1]
    mOptions := some created
    mpScreenSpaceReSTIR := repointFirstInstance created p.mpScreenSpaceReSTIR }

/-- The constructor `ScreenSpaceReSTIRPass(dict)`. -/
def create (dict : List PassDictEntry) : ScreenSpaceReSTIRPass :=
  parseDictionary dict {}

/-- The `Options` object behind a pointer. -/
def optionsAt (p : ScreenSpaceReSTIRPass) (pointer : Nat) : Options :=
  p.optionsObjects.getD pointer {}

/-- The method `setScene(pRenderContext, pScene)`, `pScene` being null or not: the instances
are dropped and, with a scene, `mNumReSTIRInstances` new ones are created, each with the
`mOptions` pointer of the pass (which is not null: the constructor set it). -/
def setScene (p : ScreenSpaceReSTIRPass) (pScene : Bool) : ScreenSpaceReSTIRPass :=
  let p := { p with hasScene := pScene, mpScreenSpaceReSTIR := [] }
  if pScene then
    { p with mpScreenSpaceReSTIR :=
        (List.range p.mNumReSTIRInstances.toNat).map fun i =>
          { mOptions := p.mOptions.getD 0
            members := ScreenSpaceReSTIR.create (p.optionsAt (p.mOptions.getD 0))
              p.mNumReSTIRInstances.toNat i } }
  else p

/-- The call `mpScreenSpaceReSTIR[0]->resetReservoirCount()` under its test. -/
def resetFirstInstance : List PassInstance → List PassInstance
  | [] => []
  | first :: rest => { first with members := first.members.resetReservoirCount } :: rest

/-- The method `updateDict(dict)`. -/
def updateDict (p : ScreenSpaceReSTIRPass) (dict : List PassDictEntry) :
    ScreenSpaceReSTIRPass :=
  let p := parseDictionary dict p
  let p := { p with mOptionsChanged := true }
  { p with mpScreenSpaceReSTIR := resetFirstInstance p.mpScreenSpaceReSTIR }

end ScreenSpaceReSTIRPass

/-- A pass created for two ReSTIR instances, with its scene set. -/
def passOfTwoInstances : ScreenSpaceReSTIRPass :=
  (ScreenSpaceReSTIRPass.create [.numReSTIRInstances 2]).setScene true

/-! ## `NDSDFGrid::setValuesInternal` (`NDSDFGrid.cpp`) -/

/-- The shift `a << b` of `uint32_t` (and of a non-negative `int` that stays below 2^31). -/
def shlU32 (a b : Nat) : Nat := (a <<< b) % u32

/-- The members of an `NDSDFGrid` that `setValuesInternal` reads or writes; `mValues` holds,
per level of detail, the formatted values (each an `int8_t` stored in a byte). -/
structure NDSDFGrid where
  mGridWidth : Nat
  mCoarsestLODGridWidth : Nat := 0
  mValues : List (List Int) := []

namespace NDSDFGrid

/-- The method `std::vector::resize(count)`: the first `count` elements are kept, new elements
are zero. -/
def resize (values : List Int) (count : Nat) : List Int :=
  (values ++ List.replicate (count - values.length) 0).take count

/-- The index `writeLocation` of the innermost loop, in `uint32_t`. -/
def writeLocation (lodWidthInValues x y z : Nat) : Nat :=
  addU32 x (mulU32 lodWidthInValues (addU32 y (mulU32 lodWidthInValues z)))

/-- The index `readLocation` of the innermost loop, in `uint32_t`. -/
def readLocation (lodReadStride gridWidthInValues x y z : Nat) : Nat :=
  mulU32 lodReadStride
    (addU32 x (mulU32 gridWidthInValues (addU32 y (mulU32 gridWidthInValues z))))

/-- The body of the innermost loop: `cornerValues[readLocation]` is read, formatted and stored
at `lodFormattedValues[writeLocation]`; `none` when one of the two indices is out of range.
`format lod value` is the `int8_t` that the floating-point statements of the body compute from
the corner value (division by the normalization factor of the level, clamping to [-1, 1],
scaling by 127 and rounding). -/
def formatValue (format : Nat → ℚ → Int) (cornerValues : List ℚ)
    (lod lodWidthInValues gridWidthInValues lodReadStride z y : Nat)
    (lodFormattedValues : List Int) (x : Nat) : Option (List Int) :=
  match cornerValues[readLocation lodReadStride gridWidthInValues x y z]? with
  | none => none
  | some value =>
    if writeLocation lodWidthInValues x y z < lodFormattedValues.length then
      some (lodFormattedValues.set (writeLocation lodWidthInValues x y z) (format lod value))
    else none

/-- The loop over `x`. -/
def formatRow (format : Nat → ℚ → Int) (cornerValues : List ℚ)
    (lod lodWidthInValues gridWidthInValues lodReadStride z : Nat)
    (lodFormattedValues : List Int) (y : Nat) : Option (List Int) :=
  (List.range lodWidthInValues).foldlM
    (formatValue format cornerValues lod lodWidthInValues gridWidthInValues lodReadStride z y)
    lodFormattedValues

/-- The loop over `y`. -/
def formatSlice (format : Nat → ℚ → Int) (cornerValues : List ℚ)
    (lod lodWidthInValues gridWidthInValues lodReadStride : Nat)
    (lodFormattedValues : List Int) (z : Nat) : Option (List Int) :=
  (List.range lodWidthInValues).foldlM
    (formatRow format cornerValues lod lodWidthInValues gridWidthInValues lodReadStride z)
    lodFormattedValues

/-- The value of `lodWidthInValues` for level `lod`: `1 + (mCoarsestLODGridWidth << lod)`. -/
def lodWidthInValues (coarsestLODGridWidth lod : Nat) : Nat :=
  addU32 1 (shlU32 coarsestLODGridWidth lod)

/-- The value of `lodReadStride` for level `lod`: `1 << (lodCount - lod - 1)`. -/
def lodReadStride (lodCount lod : Nat) : Nat :=
  shlU32 1 (subU32 (subU32 lodCount lod) 1)

/-- The size given to the vector of level `lod`:
`lodWidthInValues * lodWidthInValues * lodWidthInValues`, in `uint32_t`. -/
def lodValueCount (coarsestLODGridWidth lod : Nat) : Nat :=
  mulU32 (mulU32 (lodWidthInValues coarsestLODGridWidth lod)
    (lodWidthInValues coarsestLODGridWidth lod)) (lodWidthInValues coarsestLODGridWidth lod)

/-- The body of the loop over the levels of detail, for level `lod`: the vector of the level
is resized, then filled by the loops over `z`, `y` and `x`. -/
def formatLod (format : Nat → ℚ → Int) (cornerValues : List ℚ) (g : NDSDFGrid)
    (lodCount coarsestLODGridWidth lod : Nat) : Option (List Int) :=
  let gridWidthInValues := addU32 g.mGridWidth 1
  let lodFormattedValues := resize (g.mValues.getD lod [])
    (lodValueCount coarsestLODGridWidth lod)
  (List.range (lodWidthInValues coarsestLODGridWidth lod)).foldlM
    (formatSlice format cornerValues lod (lodWidthInValues coarsestLODGridWidth lod)
      gridWidthInValues (lodReadStride lodCount lod))
    lodFormattedValues

/-- The method `setValuesInternal(cornerValues)`: the result and the grid afterwards, `none`
when an index runs out of its vector.  `bitScanReverse` is the helper of that name (its body is
outside these files), which returns the position of the highest set bit. -/
def setValuesInternal (bitScanReverse : Nat → Nat) (format : Nat → ℚ → Int)
    (cornerValues : List ℚ) (g : NDSDFGrid) : Option (Bool × NDSDFGrid) :=
  let kCoarsestAllowedGridWidth := 8
  if kCoarsestAllowedGridWidth > g.mGridWidth then some (false, g)
  else
    let lodCount := addU32 (bitScanReverse (g.mGridWidth / kCoarsestAllowedGridWidth)) 1
    let coarsestLODGridWidth := g.mGridWidth >>> subU32 lodCount 1
    match (List.range lodCount).mapM
        (formatLod format cornerValues g lodCount coarsestLODGridWidth) with
    | none => none
    | some values =>
      some (true, { g with mCoarsestLODGridWidth := coarsestLODGridWidth, mValues := values })

end NDSDFGrid

/-- A format that stores the corner value, rounded down, whatever the level. -/
def floorFormat (_lod : Nat) (value : ℚ) : Int := ⌊value⌋

/-- A grid of width 8 before its values are set. -/
def gridOfWidth8 : NDSDFGrid := { mGridWidth := 8 }

/-! # Theorems -/

/-! ## Lemmas on machine integers and floors -/

theorem subU32_eq_sub {a b : Nat} (hb : b ≤ a) (ha : a < 2 ^ 32) : subU32 a b = a - b := by
  unfold subU32 u32
  have hb' : b % 2 ^ 32 = b := Nat.mod_eq_of_lt (by omega)
  have ha' : a % 2 ^ 32 = a := Nat.mod_eq_of_lt ha
  rw [hb', ha']
  omega

theorem floorU32_eq {x : ℚ} (hx : x < 2 ^ 32) : floorU32 x = ⌊x⌋.toNat := by
  unfold floorU32
  have h2 : Rat.floor x = ⌊x⌋ := rfl
  rw [h2, if_pos]
  have : ⌊x⌋ < ((2 ^ 32 : ℕ) : ℤ) := Int.floor_lt.mpr (by push_cast; exact hx)
  exact_mod_cast this

theorem floorU32_zero : floorU32 0 = 0 := by
  rw [floorU32_eq (by norm_num)]
  simp

/-! ## Lemmas on single-precision rounding -/

theorem roundToEven_intCast (k : ℤ) : roundToEven (k : ℚ) = k := by
  unfold roundToEven
  rw [Int.floor_intCast, sub_self, if_pos (by norm_num)]

/-- A rational within less than one half of an integer rounds to it. -/
theorem roundToEven_of_near (m : ℚ) (k : ℤ) (h : |m - k| < 1 / 2) : roundToEven m = k := by
  obtain ⟨h1, h2⟩ := abs_lt.mp h
  unfold roundToEven
  by_cases hk : (k : ℚ) ≤ m
  · have hf : ⌊m⌋ = k := Int.floor_eq_iff.mpr ⟨hk, by linarith⟩
    rw [hf, if_pos (by linarith)]
  · have hf : ⌊m⌋ = k - 1 := Int.floor_eq_iff.mpr ⟨by push_cast; linarith, by push_cast; linarith⟩
    rw [hf, if_neg (by push_cast; linarith), if_pos (by push_cast; linarith)]
    ring

/-- A tie goes to the even neighbour. -/
theorem roundToEven_tie (k : ℤ) :
    roundToEven ((k : ℚ) + 1 / 2) = if k % 2 = 0 then k else k + 1 := by
  have hf : ⌊(k : ℚ) + 1 / 2⌋ = k :=
    Int.floor_eq_iff.mpr ⟨by linarith, by linarith⟩
  unfold roundToEven
  rw [hf, if_neg (by norm_num), if_neg (by norm_num)]

theorem exponentF32_eq (x : ℚ) (e : ℤ) (he : -126 ≤ e) (h1 : (2 : ℚ) ^ e ≤ |x|)
    (h2 : |x| < (2 : ℚ) ^ (e + 1)) : exponentF32 x = e := by
  have hpos : 0 < |x| := lt_of_lt_of_le (zpow_pos (by norm_num) e) h1
  have a1 : e ≤ Int.log 2 |x| :=
    (Int.zpow_le_iff_le_log (by decide : 1 < 2) hpos).mp (by exact_mod_cast h1)
  have a2 : Int.log 2 |x| < e + 1 :=
    (Int.lt_zpow_iff_log_lt (by decide : 1 < 2) hpos).mp (by exact_mod_cast h2)
  unfold exponentF32
  rw [max_eq_left (by omega)]
  omega

/-- Rounding to binary32 at a known exponent. -/
theorem roundF32_eq (x : ℚ) (e : ℤ) (he : -126 ≤ e) (h1 : (2 : ℚ) ^ e ≤ |x|)
    (h2 : |x| < (2 : ℚ) ^ (e + 1)) :
    roundF32 x = roundToEven (x / 2 ^ (e - 23)) * 2 ^ (e - 23) := by
  unfold roundF32
  rw [exponentF32_eq x e he h1 h2]

theorem roundF32_zero : roundF32 0 = 0 := by
  unfold roundF32
  rw [zero_div]
  have : roundToEven 0 = 0 := by simpa using roundToEven_intCast 0
  rw [this]; simp

/-- A number `k * 2 ^ (e - 23)` with `2 ^ 23 <= |k| < 2 ^ 24` and a normal exponent is a
binary32 value: rounding leaves it. -/
theorem roundF32_exact (k e : ℤ) (he : -126 ≤ e) (hk1 : 2 ^ 23 ≤ |k|) (hk2 : |k| < 2 ^ 24) :
    roundF32 ((k : ℚ) * 2 ^ (e - 23)) = (k : ℚ) * 2 ^ (e - 23) := by
  have hq : (0 : ℚ) < 2 ^ (e - 23) := zpow_pos (by norm_num) _
  have habs : |(k : ℚ) * 2 ^ (e - 23)| = (|k| : ℤ) * 2 ^ (e - 23) := by
    rw [abs_mul, abs_of_pos hq, Int.cast_abs]
  have e1 : (2 : ℚ) ^ e = (2 ^ 23 : ℤ) * 2 ^ (e - 23) := by
    have : (2 : ℚ) ^ e = 2 ^ (23 : ℤ) * 2 ^ (e - 23) := by
      rw [← zpow_add₀ (by norm_num : (2 : ℚ) ≠ 0)]; congr 1; ring
    rw [this]; norm_num
  have e2 : (2 : ℚ) ^ (e + 1) = (2 ^ 24 : ℤ) * 2 ^ (e - 23) := by
    have : (2 : ℚ) ^ (e + 1) = 2 ^ (24 : ℤ) * 2 ^ (e - 23) := by
      rw [← zpow_add₀ (by norm_num : (2 : ℚ) ≠ 0)]; congr 1; ring
    rw [this]; norm_num
  rw [roundF32_eq _ e he, mul_div_assoc, div_self (ne_of_gt hq), mul_one, roundToEven_intCast]
  · rw [habs, e1]
    exact mul_le_mul_of_nonneg_right (by exact_mod_cast hk1) (le_of_lt hq)
  · rw [habs, e2]
    exact mul_lt_mul_of_pos_right (by exact_mod_cast hk2) hq

theorem roundF32_near (x : ℚ) (e k : ℤ) (he : -126 ≤ e) (hx : 0 < x) (h1 : (2 : ℚ) ^ e ≤ x)
    (h2 : x < (2 : ℚ) ^ (e + 1)) (hk : |x / 2 ^ (e - 23) - k| < 1 / 2) :
    roundF32 x = (k : ℚ) * 2 ^ (e - 23) := by
  rw [roundF32_eq x e he (by rwa [abs_of_pos hx]) (by rwa [abs_of_pos hx]),
    roundToEven_of_near _ k hk]

theorem roundF32_tie (x : ℚ) (e k : ℤ) (he : -126 ≤ e) (hx : 0 < x) (h1 : (2 : ℚ) ^ e ≤ x)
    (h2 : x < (2 : ℚ) ^ (e + 1)) (hk : x / 2 ^ (e - 23) = (k : ℚ) + 1 / 2) (heven : k % 2 = 0) :
    roundF32 x = (k : ℚ) * 2 ^ (e - 23) := by
  rw [roundF32_eq x e he (by rwa [abs_of_pos hx]) (by rwa [abs_of_pos hx]), hk,
    roundToEven_tie, if_pos heven]

theorem roundF32_one : roundF32 1 = 1 := by
  have h := roundF32_exact (2 ^ 23) 0 (by norm_num) (by norm_num) (by norm_num)
  norm_num at h
  exact h

theorem roundF32_two : roundF32 2 = 2 := by
  have h := roundF32_exact (2 ^ 23) 1 (by norm_num) (by norm_num) (by norm_num)
  norm_num at h
  exact h

theorem roundF32_three : roundF32 3 = 3 := by
  have h := roundF32_exact (3 * 2 ^ 22) 1 (by norm_num) (by norm_num) (by norm_num)
  norm_num at h
  exact h

theorem roundF32_half : roundF32 (1 / 2) = 1 / 2 := by
  have h := roundF32_exact (2 ^ 23) (-1) (by norm_num) (by norm_num) (by norm_num)
  norm_num at h
  exact h

theorem roundF32_ten : roundF32 10 = 10 := by
  have h := roundF32_exact (5 * 2 ^ 21) 3 (by norm_num) (by norm_num) (by norm_num)
  norm_num at h
  exact h

theorem roundF32_1024 : roundF32 1024 = 1024 := by
  have h := roundF32_exact (2 ^ 23) 10 (by norm_num) (by norm_num) (by norm_num)
  norm_num at h
  exact h

/-- The binary32 quotient `1.0f / 3.0f`. -/
theorem roundF32_third : roundF32 (1 / 3) = 11184811 / 33554432 := by
  rw [roundF32_near (1 / 3) (-2) 11184811 (by norm_num) (by norm_num) (by norm_num)
    (by norm_num) (by rw [abs_lt]; norm_num)]
  norm_num

theorem roundF32_third_mul_1024 :
    roundF32 (11184811 / 33554432 * 1024) = 11184811 / 32768 := by
  have h := roundF32_exact 11184811 8 (by norm_num) (by norm_num) (by norm_num)
  norm_num at h
  rw [show (11184811 : ℚ) / 33554432 * 1024 = 11184811 / 32768 by norm_num]
  exact h

/-- The binary32 product `0.3f * 10.0f` is a tie that rounds to 3. -/
theorem roundF32_three_tenths_mul_ten : roundF32 (5033165 / 16777216 * 10) = 3 := by
  rw [roundF32_tie (5033165 / 16777216 * 10) 1 12582912 (by norm_num) (by norm_num)
    (by norm_num) (by norm_num) (by norm_num) (by norm_num)]
  norm_num

/-- The binary32 product `0.7f * 10.0f` rounds up to 7. -/
theorem roundF32_seven_tenths_mul_ten : roundF32 (11744051 / 16777216 * 10) = 7 := by
  rw [roundF32_near (11744051 / 16777216 * 10) 2 14680064 (by norm_num) (by norm_num)
    (by norm_num) (by norm_num) (by rw [abs_lt]; norm_num)]
  norm_num

theorem countBits_eq (count : Nat) : ∀ indexBits : Nat,
    countBits count indexBits = if count = 0 then indexBits else indexBits + (Nat.log 2 count + 1) := by
  induction count using Nat.strong_induction_on with
  | _ count ih =>
    intro indexBits
    rw [countBits]
    by_cases hc : 0 < count
    · have hne : count ≠ 0 := by omega
      simp only [hc, if_true, hne, if_false]
      have hlt : count >>> 1 < count := by
        simp only [Nat.shiftRight_eq_div_pow, pow_one]; omega
      rw [ih _ hlt]
      have hshift : count >>> 1 = count / 2 := by
        simp [Nat.shiftRight_eq_div_pow]
      rw [hshift]
      by_cases h2 : count < 2
      · have : count / 2 = 0 := by omega
        simp only [this, if_true]
        rw [Nat.log_of_lt h2]
      · have hdiv : count / 2 ≠ 0 := by omega
        simp only [hdiv, if_false]
        rw [Nat.log_of_one_lt_of_le (by decide) (by omega : 2 ≤ count)]
        omega
    · have : count = 0 := by omega
      simp [this]

theorem land_one_ne_zero_iff (n : Nat) : n &&& 1 ≠ 0 ↔ n % 2 = 1 := by
  rw [Nat.and_one_is_mod]
  omega

theorem computeIndexPositionBits_some (count i p : Nat) (hc : 1 ≤ count) :
    computeIndexPositionBits (some count) i p =
      if roundUpEven (Nat.log 2 count + 1) ≥ 30 then
        .error "Count too large to be represented in 30 bits"
      else .ok (roundUpEven (Nat.log 2 count + 1), 30 - roundUpEven (Nat.log 2 count + 1)) := by
  have hne : count ≠ 0 := by omega
  simp only [computeIndexPositionBits, countBits_eq, hne, if_false, Nat.zero_add, roundUpEven,
    land_one_ne_zero_iff]

/-! ## Light selection: C1, C2 -/

theorem computeLightSelectionProbabilities_env_emissive :
    computeLightSelectionProbabilities true true false 1 1 1
      = { envLight := 1 / 2, emissiveLights := 1 / 2, analyticLights := 0 } := by
  unfold computeLightSelectionProbabilities addF32 divF32
  norm_num [roundF32_two, roundF32_half, roundF32_zero]

theorem computeLightSelectionProbabilities_defaults :
    computeLightSelectionProbabilities true true true 1 1 1
      = { envLight := 11184811 / 33554432, emissiveLights := 11184811 / 33554432,
          analyticLights := 11184811 / 33554432 } := by
  unfold computeLightSelectionProbabilities addF32 divF32
  norm_num [roundF32_two, roundF32_three, roundF32_third]

/-- C1. With the environment map and emissive lights present at their default weights (so the
probabilities are 1/2, 1/2, 0) and a light tile of one sample, `getSampleCount` returns
`(0, 0, 0)`: all three floors are zero, no branch assigns the remainder, and the counts sum to
0 instead of 1. -/
theorem getSampleCount_drops_every_sample :
    getSampleCount (computeLightSelectionProbabilities true true false 1 1 1) 1 = (0, 0, 0) ∧
    (getSampleCount (computeLightSelectionProbabilities true true false 1 1 1) 1).1 +
      (getSampleCount (computeLightSelectionProbabilities true true false 1 1 1) 1).2.1 +
      (getSampleCount (computeLightSelectionProbabilities true true false 1 1 1) 1).2.2 ≠ 1 := by
  have h : getSampleCount (computeLightSelectionProbabilities true true false 1 1 1) 1
      = (0, 0, 0) := by
    rw [computeLightSelectionProbabilities_env_emissive]
    have hf : floorU32 (1 / 2) = 0 := by
      rw [floorU32_eq (by norm_num)]
      norm_num [Int.floor_eq_iff]
    unfold getSampleCount mulF32 floatOfU32
    norm_num [roundF32_one, roundF32_half, roundF32_zero, hf, floorU32_zero]
  rw [h]
  exact ⟨rfl, by decide⟩

/-- C2, counterexample. With all three light kinds present at their default weights (each
probability is the `float` quotient of 1 by 3, 11184811 / 2^25) and the default tile size 1024,
the code gives the remainder to the environment map, `(342, 341, 341)`, whereas the rule of the
claim (last nonzero category absorbs) gives `(341, 341, 342)`. -/
theorem getSampleCount_differs_from_last_nonzero_rule :
    getSampleCount (computeLightSelectionProbabilities true true true 1 1 1) 1024
      = (342, 341, 341) ∧
    specSampleCount (computeLightSelectionProbabilities true true true 1 1 1) 1024
      = (341, 341, 342) ∧
    getSampleCount (computeLightSelectionProbabilities true true true 1 1 1) 1024 ≠
      specSampleCount (computeLightSelectionProbabilities true true true 1 1 1) 1024 := by
  have hf : floorU32 (11184811 / 32768) = 341 := by
    rw [floorU32_eq (by norm_num)]
    have : ⌊(11184811 / 32768 : ℚ)⌋ = 341 := by
      rw [Int.floor_eq_iff]; norm_num
    rw [this]; rfl
  have h1 : getSampleCount (computeLightSelectionProbabilities true true true 1 1 1) 1024
      = (342, 341, 341) := by
    rw [computeLightSelectionProbabilities_defaults]
    unfold getSampleCount mulF32 floatOfU32
    simp only [Nat.cast_ofNat, roundF32_1024, roundF32_third_mul_1024, hf]
    decide
  have h2 : specSampleCount (computeLightSelectionProbabilities true true true 1 1 1) 1024
      = (341, 341, 342) := by
    rw [computeLightSelectionProbabilities_defaults]
    have e : (11184811 / 33554432 : ℚ) * ((1024 : ℕ) : ℚ) = 11184811 / 32768 := by norm_num
    unfold specSampleCount
    simp only [e, hf]
    norm_num
  rw [h1, h2]
  exact ⟨rfl, rfl, by decide⟩

/-- C2, amended. For every probability triple and every `totalCount` whose three `float`
products `probability * totalCount` are below 2^32 (so that their conversion to `uint32_t` is
defined) and at least one of whose floors is positive: the first category in the order env,
emissive, analytic whose floor is positive receives `totalCount` minus the floors of the other
two, in `uint32_t` arithmetic, and the other two receive their floors.  The floors are those of
the products as the code computes them, `totalCount` converted to `float` and the product
rounded to the nearest `float`.  The three counts sum to `totalCount` modulo 2^32, and to
`totalCount` itself when it is a 32-bit value and the three floors sum to at most it. -/
theorem getSampleCount_first_positive_absorbs (p : LightSelectionProbabilities) (totalCount : Nat)
    (henv : mulF32 p.envLight (floatOfU32 totalCount) < 2 ^ 32)
    (hemissive : mulF32 p.emissiveLights (floatOfU32 totalCount) < 2 ^ 32)
    (hanalytic : mulF32 p.analyticLights (floatOfU32 totalCount) < 2 ^ 32)
    (hpos : 0 < ⌊mulF32 p.envLight (floatOfU32 totalCount)⌋.toNat ∨
      0 < ⌊mulF32 p.emissiveLights (floatOfU32 totalCount)⌋.toNat ∨
      0 < ⌊mulF32 p.analyticLights (floatOfU32 totalCount)⌋.toNat) :
    getSampleCount p totalCount =
      (if 0 < ⌊mulF32 p.envLight (floatOfU32 totalCount)⌋.toNat then
        (subU32 (subU32 totalCount ⌊mulF32 p.emissiveLights (floatOfU32 totalCount)⌋.toNat)
            ⌊mulF32 p.analyticLights (floatOfU32 totalCount)⌋.toNat,
          ⌊mulF32 p.emissiveLights (floatOfU32 totalCount)⌋.toNat,
          ⌊mulF32 p.analyticLights (floatOfU32 totalCount)⌋.toNat)
      else if 0 < ⌊mulF32 p.emissiveLights (floatOfU32 totalCount)⌋.toNat then
        (⌊mulF32 p.envLight (floatOfU32 totalCount)⌋.toNat,
          subU32 (subU32 totalCount ⌊mulF32 p.envLight (floatOfU32 totalCount)⌋.toNat)
            ⌊mulF32 p.analyticLights (floatOfU32 totalCount)⌋.toNat,
          ⌊mulF32 p.analyticLights (floatOfU32 totalCount)⌋.toNat)
      else
        (⌊mulF32 p.envLight (floatOfU32 totalCount)⌋.toNat,
          ⌊mulF32 p.emissiveLights (floatOfU32 totalCount)⌋.toNat,
          subU32 (subU32 totalCount ⌊mulF32 p.envLight (floatOfU32 totalCount)⌋.toNat)
            ⌊mulF32 p.emissiveLights (floatOfU32 totalCount)⌋.toNat)) ∧
    ((getSampleCount p totalCount).1 + (getSampleCount p totalCount).2.1 +
        (getSampleCount p totalCount).2.2) % 2 ^ 32 = totalCount % 2 ^ 32 ∧
    (totalCount < 2 ^ 32 →
      ⌊mulF32 p.envLight (floatOfU32 totalCount)⌋.toNat +
        ⌊mulF32 p.emissiveLights (floatOfU32 totalCount)⌋.toNat +
        ⌊mulF32 p.analyticLights (floatOfU32 totalCount)⌋.toNat ≤ totalCount →
      (getSampleCount p totalCount).1 + (getSampleCount p totalCount).2.1 +
        (getSampleCount p totalCount).2.2 = totalCount) := by
  have e1 := floorU32_eq henv
  have e2 := floorU32_eq hemissive
  have e3 := floorU32_eq hanalytic
  have b1 : ⌊mulF32 p.envLight (floatOfU32 totalCount)⌋.toNat < 2 ^ 32 := by
    have : ⌊mulF32 p.envLight (floatOfU32 totalCount)⌋ < ((2 ^ 32 : ℕ) : ℤ) :=
      Int.floor_lt.mpr (by push_cast; exact henv)
    omega
  have b2 : ⌊mulF32 p.emissiveLights (floatOfU32 totalCount)⌋.toNat < 2 ^ 32 := by
    have : ⌊mulF32 p.emissiveLights (floatOfU32 totalCount)⌋ < ((2 ^ 32 : ℕ) : ℤ) :=
      Int.floor_lt.mpr (by push_cast; exact hemissive)
    omega
  have b3 : ⌊mulF32 p.analyticLights (floatOfU32 totalCount)⌋.toNat < 2 ^ 32 := by
    have : ⌊mulF32 p.analyticLights (floatOfU32 totalCount)⌋ < ((2 ^ 32 : ℕ) : ℤ) :=
      Int.floor_lt.mpr (by push_cast; exact hanalytic)
    omega
  unfold getSampleCount
  simp only [e1, e2, e3]
  generalize ⌊mulF32 p.envLight (floatOfU32 totalCount)⌋.toNat = E at *
  generalize ⌊mulF32 p.emissiveLights (floatOfU32 totalCount)⌋.toNat = M at *
  generalize ⌊mulF32 p.analyticLights (floatOfU32 totalCount)⌋.toNat = A at *
  by_cases hE : 0 < E
  · simp only [gt_iff_lt, hE, if_true]
    refine ⟨trivial, ?_, ?_⟩
    · unfold subU32 u32; omega
    · intro ht hs; unfold subU32 u32; omega
  · by_cases hM : 0 < M
    · simp only [gt_iff_lt, hE, hM, if_true, if_false]
      refine ⟨trivial, ?_, ?_⟩
      · unfold subU32 u32; omega
      · intro ht hs; unfold subU32 u32; omega
    · have hA : 0 < A := by omega
      simp only [gt_iff_lt, hE, hM, hA, if_true, if_false]
      refine ⟨trivial, ?_, ?_⟩
      · unfold subU32 u32; omega
      · intro ht hs; unfold subU32 u32; omega

/-- C2 amended on the probabilities 0.3 and 0.7 of `float` and ten samples: the products round
to 3 (a tie) and to 7 (rounded up; the exact product is below 7 and has floor 6), the
environment map has the first positive floor and receives 10 - 7 - 0 = 3. -/
theorem getSampleCount_first_positive_absorbs_witness :
    getSampleCount threeAndSevenTenths 10 = (3, 7, 0) ∧
      ⌊threeAndSevenTenths.emissiveLights * 10⌋ = 6 := by
  have m1 : mulF32 threeAndSevenTenths.envLight (floatOfU32 10) = 3 := by
    unfold mulF32 floatOfU32 threeAndSevenTenths
    simp only [Nat.cast_ofNat, roundF32_ten, roundF32_three_tenths_mul_ten]
  have m2 : mulF32 threeAndSevenTenths.emissiveLights (floatOfU32 10) = 7 := by
    unfold mulF32 floatOfU32 threeAndSevenTenths
    simp only [Nat.cast_ofNat, roundF32_ten, roundF32_seven_tenths_mul_ten]
  have m3 : mulF32 threeAndSevenTenths.analyticLights (floatOfU32 10) = 0 := by
    unfold mulF32 floatOfU32 threeAndSevenTenths
    simp only [zero_mul, roundF32_zero]
  have h := (getSampleCount_first_positive_absorbs threeAndSevenTenths 10
    (by rw [m1]; norm_num) (by rw [m2]; norm_num) (by rw [m3]; norm_num)
    (by left; rw [m1]; norm_num)).1
  rw [m1, m2, m3] at h
  refine ⟨by rw [h]; norm_num; decide, ?_⟩
  unfold threeAndSevenTenths
  rw [Int.floor_eq_iff]
  norm_num

/-! ## Light-sample bit layout: C9, C10 -/

theorem getLightsDefines_ok_iff (env em an : Option Nat) (d : LightsDefines) :
    getLightsDefines env em an = .ok d ↔
      computeIndexPositionBits env 26 4 = .ok (d.envIndexBits, d.envPositionBits) ∧
      computeIndexPositionBits em 22 8 = .ok (d.emissiveIndexBits, d.emissivePositionBits) ∧
      computeIndexPositionBits an 14 16 = .ok (d.analyticIndexBits, d.analyticPositionBits) := by
  unfold getLightsDefines
  cases h1 : computeIndexPositionBits env 26 4 with
  | error e => simp [bind, Except.bind]
  | ok r1 =>
    cases h2 : computeIndexPositionBits em 22 8 with
    | error e => simp [bind, Except.bind]
    | ok r2 =>
      cases h3 : computeIndexPositionBits an 14 16 with
      | error e => simp [bind, Except.bind]
      | ok r3 =>
        obtain ⟨a1, b1⟩ := r1
        obtain ⟨a2, b2⟩ := r2
        obtain ⟨a3, b3⟩ := r3
        cases d
        simp [bind, Except.bind, pure, Except.pure]
        tauto

theorem computeIndexPositionBits_ok_some {count i p ib pb : Nat} (hc : 1 ≤ count)
    (h : computeIndexPositionBits (some count) i p = .ok (ib, pb)) :
    ib = roundUpEven (Nat.log 2 count + 1) ∧ pb = 30 - ib := by
  rw [computeIndexPositionBits_some count i p hc] at h
  split at h
  · cases h
  · simp only [Except.ok.injEq, Prod.mk.injEq] at h
    obtain ⟨h1, h2⟩ := h
    subst h1
    exact ⟨rfl, h2.symm⟩

/-- C9, counterexample. For an environment alias table of 4 entries `getLightsDefines` emits an
index width of 4 bits (and 26 position bits), whereas `ceil(log2(4))` rounded up to an even
number is 2. -/
theorem getLightsDefines_index_bits_not_clog :
    getLightsDefines (some 4) none none =
      .ok { envIndexBits := 4, envPositionBits := 26, emissiveIndexBits := 22
            emissivePositionBits := 8, analyticIndexBits := 14, analyticPositionBits := 16 } ∧
    roundUpEven (Nat.clog 2 4) = 2 := by
  constructor
  · simp [getLightsDefines, computeIndexPositionBits, countBits, bind, Except.bind, pure,
      Except.pure]
  · have : Nat.clog 2 4 = 2 := by
      have h := Nat.clog_pow 2 2 (by decide)
      simpa using h
    rw [this]
    decide

/-- C9, amended. Whenever `getLightsDefines` does not throw, for each light category whose alias
table is present with `count >= 1` entries the emitted index width is the bit length of
`count`, that is `floor(log2(count)) + 1`, rounded up to the next even number, and the emitted
position width is 30 minus the index width. -/
theorem getLightsDefines_index_bits (env em an : Option Nat) (d : LightsDefines)
    (h : getLightsDefines env em an = .ok d) :
    (∀ count, env = some count → 1 ≤ count →
      d.envIndexBits = roundUpEven (Nat.log 2 count + 1) ∧
      d.envPositionBits = 30 - d.envIndexBits) ∧
    (∀ count, em = some count → 1 ≤ count →
      d.emissiveIndexBits = roundUpEven (Nat.log 2 count + 1) ∧
      d.emissivePositionBits = 30 - d.emissiveIndexBits) ∧
    (∀ count, an = some count → 1 ≤ count →
      d.analyticIndexBits = roundUpEven (Nat.log 2 count + 1) ∧
      d.analyticPositionBits = 30 - d.analyticIndexBits) := by
  obtain ⟨h1, h2, h3⟩ := (getLightsDefines_ok_iff env em an d).mp h
  refine ⟨?_, ?_, ?_⟩
  · intro count hs hc
    subst hs
    exact computeIndexPositionBits_ok_some hc h1
  · intro count hs hc
    subst hs
    exact computeIndexPositionBits_ok_some hc h2
  · intro count hs hc
    subst hs
    exact computeIndexPositionBits_ok_some hc h3

/-- Witness for C9 amended: tables of 4 environment texels and 100 analytic lights, no emissive
table; the widths are 4/26 and 8/22, the emissive defaults stay 22/8. -/
theorem getLightsDefines_index_bits_witness :
    getLightsDefines (some 4) none (some 100) =
      .ok { envIndexBits := 4, envPositionBits := 26, emissiveIndexBits := 22
            emissivePositionBits := 8, analyticIndexBits := 8, analyticPositionBits := 22 } ∧
    (4 = roundUpEven (Nat.log 2 4 + 1) ∧ 26 = 30 - 4) ∧
    (8 = roundUpEven (Nat.log 2 100 + 1) ∧ 22 = 30 - 8) := by
  have h0 : getLightsDefines (some 4) none (some 100) =
      .ok { envIndexBits := 4, envPositionBits := 26, emissiveIndexBits := 22
            emissivePositionBits := 8, analyticIndexBits := 8, analyticPositionBits := 22 } := by
    simp [getLightsDefines, computeIndexPositionBits, countBits, bind, Except.bind, pure,
      Except.pure]
  have h := getLightsDefines_index_bits (some 4) none (some 100) _ h0
  exact ⟨h0, h.1 4 rfl (by decide), h.2.2 100 rfl (by decide)⟩

/-- C10, counterexample. A count of `2 ^ 28` needs 29 bits, fewer than 30, yet
`computeIndexPositionBits` throws for it: the 29 bits are rounded up to 30 before the test. -/
theorem computeIndexPositionBits_throws_below_30_bits :
    (2 : Nat) ^ 28 < 2 ^ 29 ∧
    computeIndexPositionBits (some (2 ^ 28)) 26 4 =
      .error "Count too large to be represented in 30 bits" := by
  constructor
  · decide
  · rw [computeIndexPositionBits_some _ _ _ (by decide)]
    have hlog : Nat.log 2 (2 ^ 28) = 28 := Nat.log_pow (by decide) 28
    have hround : roundUpEven (28 + 1) = 30 := by decide
    rw [hlog, hround]
    rfl

/-- C10, amended. `computeIndexPositionBits` throws if and only if the alias table is present
and its count is at least `2 ^ 28`, that is, needs 29 or more bits; for a null table and for
every smaller count it returns normally. -/
theorem computeIndexPositionBits_throws_iff (aliasTable : Option Nat) (indexBits positionBits : Nat) :
    (∃ msg, computeIndexPositionBits aliasTable indexBits positionBits = .error msg) ↔
      ∃ count, aliasTable = some count ∧ 2 ^ 28 ≤ count := by
  cases aliasTable with
  | none => simp [computeIndexPositionBits]
  | some count =>
    by_cases hc : 1 ≤ count
    · rw [computeIndexPositionBits_some count _ _ hc]
      have hne : count ≠ 0 := by omega
      have hlog : 2 ^ 28 ≤ count ↔ 28 ≤ Nat.log 2 count :=
        Nat.pow_le_iff_le_log (by decide) hne
      have hround : roundUpEven (Nat.log 2 count + 1) ≥ 30 ↔ 28 ≤ Nat.log 2 count := by
        unfold roundUpEven
        split <;> omega
      by_cases h30 : roundUpEven (Nat.log 2 count + 1) ≥ 30
      · simp only [h30, if_true]
        constructor
        · intro _
          exact ⟨count, rfl, hlog.mpr (hround.mp h30)⟩
        · intro _
          exact ⟨_, rfl⟩
      · simp only [h30, if_false]
        constructor
        · rintro ⟨msg, hmsg⟩
          cases hmsg
        · rintro ⟨c, hcs, hle⟩
          cases hcs
          exact absurd (hround.mpr (hlog.mp hle)) h30
    · have h0 : count = 0 := by omega
      subst h0
      simp [computeIndexPositionBits, countBits]

/-! ## The ReSTIR-DI frame: C3, C4 -/

namespace ScreenSpaceReSTIR

theorem prepareEnvLight_ok {scene : Scene} {s s' : ScreenSpaceReSTIR}
    (h : prepareEnvLight scene s = .ok s') :
    Keeps s s' ∧ s'.mCurRISPass = s.mCurRISPass ∧
      s'.mResetTemporalReservoirs = s.mResetTemporalReservoirs ∧
      (s.mRecompile = true → s'.mRecompile = true) := by
  unfold prepareEnvLight at h
  unfold Keeps
  split at h
  · split at h
    · split at h
      · cases h; simp
      · cases h
    · cases h; simp
  · split at h
    · cases h; simp
    · cases h; simp

theorem prepareEmissiveLights_keeps (scene : Scene) (s : ScreenSpaceReSTIR) :
    Keeps s (prepareEmissiveLights scene s) ∧
      (prepareEmissiveLights scene s).mCurRISPass = s.mCurRISPass ∧
      (prepareEmissiveLights scene s).mResetTemporalReservoirs = s.mResetTemporalReservoirs ∧
      (s.mRecompile = true → (prepareEmissiveLights scene s).mRecompile = true) := by
  unfold prepareEmissiveLights Keeps
  split_ifs <;> simp

theorem prepareAnalyticLights_keeps (scene : Scene) (s : ScreenSpaceReSTIR) :
    Keeps s (prepareAnalyticLights scene s) ∧
      (prepareAnalyticLights scene s).mCurRISPass = s.mCurRISPass ∧
      (prepareAnalyticLights scene s).mResetTemporalReservoirs = s.mResetTemporalReservoirs ∧
      (s.mRecompile = true → (prepareAnalyticLights scene s).mRecompile = true) := by
  unfold prepareAnalyticLights Keeps
  simp only
  split_ifs <;> simp

theorem prepareLighting_ok {scene : Scene} {s s' : ScreenSpaceReSTIR}
    (h : prepareLighting scene s = .ok s') :
    Keeps s s' ∧ s'.mCurRISPass = s.mCurRISPass ∧
      s'.mResetTemporalReservoirs = s.mResetTemporalReservoirs ∧
      (s.mRecompile = true → s'.mRecompile = true) := by
  unfold prepareLighting at h
  simp only [bind, Except.bind, pure, Except.pure] at h
  split at h
  · cases h
  · rename_i s1 h1
    cases h
    have e := prepareEnvLight_ok h1
    have m := prepareEmissiveLights_keeps scene s1
    have a := prepareAnalyticLights_keeps scene (prepareEmissiveLights scene s1)
    unfold Keeps at *
    simp only [prepareLightSelection]
    obtain ⟨⟨e1, e2, e3, e4⟩, e5, e6, e7⟩ := e
    obtain ⟨⟨m1, m2, m3, m4⟩, m5, m6, m7⟩ := m
    obtain ⟨⟨a1, a2, a3, a4⟩, a5, a6, a7⟩ := a
    refine ⟨⟨?_, ?_, ?_, ?_⟩, ?_, ?_, ?_⟩
    · rw [a1, m1, e1]; split <;> rfl
    · rw [a2, m2, e2]; split <;> rfl
    · rw [a3, m3, e3]; split <;> rfl
    · rw [a4, m4, e4]; split <;> rfl
    · rw [a5, m5, e5]; split <;> rfl
    · rw [a6, m6, e6]; split <;> rfl
    · intro hr
      apply a7; apply m7; apply e7
      split
      · rfl
      · exact hr

theorem updatePrograms_ok {s s' : ScreenSpaceReSTIR} (h : updatePrograms s = .ok s') :
    Keeps s s' ∧ s'.mCurRISPass = s.mCurRISPass ∧
      (s.mRecompile = true → s'.mResetTemporalReservoirs = true) := by
  unfold updatePrograms at h
  unfold Keeps
  split at h
  · rename_i hr
    cases h
    simp at hr
    simp [hr]
  · simp only [bind, Except.bind, pure, Except.pure] at h
    split at h
    · cases h
    · cases h
      simp

end ScreenSpaceReSTIR

theorem Keeps.refl (s : ScreenSpaceReSTIR) : Keeps s s := ⟨rfl, rfl, rfl, rfl⟩

theorem Keeps.trans {a b c : ScreenSpaceReSTIR} (h1 : Keeps a b) (h2 : Keeps b c) : Keeps a c := by
  obtain ⟨x1, x2, x3, x4⟩ := h1
  obtain ⟨y1, y2, y3, y4⟩ := h2
  exact ⟨y1.trans x1, y2.trans x2, y3.trans x3, y4.trans x4⟩

theorem InWindow.nil (s : ScreenSpaceReSTIR) : InWindow s (s, []) :=
  ⟨Keeps.refl s, le_refl _, List.Pairwise.nil, by intro u hu; cases hu⟩

theorem InWindow.append {s : ScreenSpaceReSTIR} {r1 r2 : ScreenSpaceReSTIR × List Dispatch}
    (h1 : InWindow s r1) (h2 : InWindow r1.1 r2) : InWindow s (r2.1, r1.2 ++ r2.2) := by
  obtain ⟨k1, c1, p1, b1⟩ := h1
  obtain ⟨k2, c2, p2, b2⟩ := h2
  have eT : r1.1.mTotalRISPasses = s.mTotalRISPasses := k1.2.2.2
  have eF : r1.1.mFrameIndex = s.mFrameIndex := k1.2.1
  rw [eT, eF] at b2
  refine ⟨k1.trans k2, le_trans c1 c2, ?_, ?_⟩
  · simp only [frameIndexUniforms, List.filterMap_append]
    rw [List.pairwise_append]
    refine ⟨p1, p2, ?_⟩
    intro a ha b hb
    have ha' := b1 a ha
    have hb' := b2 b hb
    omega
  · intro u hu
    simp only [frameIndexUniforms, List.filterMap_append, List.mem_append] at hu
    rcases hu with hu | hu
    · have := b1 u hu
      simp only at c2 ⊢
      omega
    · have := b2 u hu
      simp only at c1 ⊢
      omega

namespace ScreenSpaceReSTIR

theorem frameIndexUniform_eq (s : ScreenSpaceReSTIR)
    (h : s.mTotalRISPasses * s.mFrameIndex + s.mCurRISPass < 2 ^ 32) :
    s.frameIndexUniform = s.mTotalRISPasses * s.mFrameIndex + s.mCurRISPass := by
  unfold frameIndexUniform addU32 mulU32 u32
  have h1 : s.mTotalRISPasses * s.mFrameIndex % 2 ^ 32 = s.mTotalRISPasses * s.mFrameIndex :=
    Nat.mod_eq_of_lt (by omega)
  rw [h1]
  exact Nat.mod_eq_of_lt h

theorem reSTIRGIClearPass_inWindow (s : ScreenSpaceReSTIR) : InWindow s (reSTIRGIClearPass s) := by
  refine ⟨Keeps.refl s, le_refl _, ?_, ?_⟩
  · simp [reSTIRGIClearPass, frameIndexUniforms, Dispatch.frameIndex?]
  · simp [reSTIRGIClearPass, frameIndexUniforms, Dispatch.frameIndex?]

theorem updateEmissiveTriangles_inWindow (s : ScreenSpaceReSTIR) :
    InWindow s (updateEmissiveTriangles s) := by
  unfold updateEmissiveTriangles
  split
  · exact InWindow.nil s
  · split
    · exact InWindow.nil s
    · refine ⟨Keeps.refl s, le_refl _, ?_, ?_⟩
      · simp [frameIndexUniforms, Dispatch.frameIndex?]
      · simp [frameIndexUniforms, Dispatch.frameIndex?]

theorem generateLightTiles_inWindow (s : ScreenSpaceReSTIR)
    (h : s.mTotalRISPasses * s.mFrameIndex + s.mCurRISPass < 2 ^ 32) :
    InWindow s (generateLightTiles s) := by
  refine ⟨⟨rfl, rfl, rfl, rfl⟩, ?_, ?_, ?_⟩
  · simp [generateLightTiles]
  · simp [generateLightTiles, frameIndexUniforms, Dispatch.frameIndex?]
  · simp [generateLightTiles, frameIndexUniforms, Dispatch.frameIndex?, frameIndexUniform_eq s h]

theorem initialResampling_inWindow (s : ScreenSpaceReSTIR)
    (h : s.mTotalRISPasses * s.mFrameIndex + s.mCurRISPass < 2 ^ 32) :
    InWindow s (initialResampling s) := by
  refine ⟨⟨rfl, rfl, rfl, rfl⟩, ?_, ?_, ?_⟩
  · simp [initialResampling]
  · simp [initialResampling, frameIndexUniforms, Dispatch.frameIndex?]
  · simp [initialResampling, frameIndexUniforms, Dispatch.frameIndex?, frameIndexUniform_eq s h]

theorem temporalResampling_inWindow (s : ScreenSpaceReSTIR)
    (h : s.mTotalRISPasses * s.mFrameIndex + s.mCurRISPass < 2 ^ 32) :
    InWindow s (temporalResampling s) := by
  unfold temporalResampling
  split
  · refine ⟨⟨rfl, rfl, rfl, rfl⟩, le_refl _, ?_, ?_⟩
    · simp [frameIndexUniforms]
    · simp [frameIndexUniforms]
  · split
    · exact InWindow.nil s
    · refine ⟨⟨rfl, rfl, rfl, rfl⟩, ?_, ?_, ?_⟩
      · simp
      · simp [frameIndexUniforms, Dispatch.frameIndex?]
      · simp [frameIndexUniforms, Dispatch.frameIndex?, frameIndexUniform_eq s h]

theorem temporalResampling_curRISPass_le (s : ScreenSpaceReSTIR) :
    (temporalResampling s).1.mCurRISPass ≤ s.mCurRISPass + 1 := by
  unfold temporalResampling
  split_ifs <;> simp

theorem spatialResamplingLoop_inWindow (n : Nat) : ∀ s : ScreenSpaceReSTIR,
    s.mTotalRISPasses * s.mFrameIndex + s.mCurRISPass + n ≤ 2 ^ 32 →
    InWindow s (spatialResamplingLoop n s) ∧
      (spatialResamplingLoop n s).1.mCurRISPass = s.mCurRISPass + n := by
  induction n with
  | zero => intro s _; exact ⟨InWindow.nil s, rfl⟩
  | succ n ih =>
    intro s h
    let s1 : ScreenSpaceReSTIR :=
      { s with mpReservoirs := s.mpPrevReservoirs, mpPrevReservoirs := s.mpReservoirs }
    let s2 : ScreenSpaceReSTIR := { s1 with mCurRISPass := s1.mCurRISPass + 1 }
    have hstep : InWindow s
        (s2, [Dispatch.spatialResampling s1.frameIndexUniform s1.mpReservoirs
          s1.mpPrevReservoirs]) := by
      have hu : s1.frameIndexUniform = s.mTotalRISPasses * s.mFrameIndex + s.mCurRISPass :=
        frameIndexUniform_eq s1 (by show s.mTotalRISPasses * s.mFrameIndex + s.mCurRISPass < 2 ^ 32; omega)
      refine ⟨⟨rfl, rfl, rfl, rfl⟩, ?_, ?_, ?_⟩
      · show s.mCurRISPass ≤ s.mCurRISPass + 1
        omega
      · simp [frameIndexUniforms, Dispatch.frameIndex?]
      · intro u hu'
        simp only [frameIndexUniforms, List.filterMap_cons, Dispatch.frameIndex?,
          List.filterMap_nil, List.mem_singleton] at hu'
        rw [hu] at hu'
        subst hu'
        show _ ∧ _ < s.mTotalRISPasses * s.mFrameIndex + (s.mCurRISPass + 1)
        omega
    have hrest := ih s2 (by
      show s.mTotalRISPasses * s.mFrameIndex + (s.mCurRISPass + 1) + n ≤ 2 ^ 32
      omega)
    have happ := InWindow.append hstep hrest.1
    have heq : spatialResamplingLoop (n + 1) s =
        ((spatialResamplingLoop n s2).1,
          [Dispatch.spatialResampling s1.frameIndexUniform s1.mpReservoirs s1.mpPrevReservoirs]
            ++ (spatialResamplingLoop n s2).2) := rfl
    rw [heq]
    refine ⟨happ, ?_⟩
    show (spatialResamplingLoop n s2).1.mCurRISPass = s.mCurRISPass + (n + 1)
    rw [hrest.2]
    show s.mCurRISPass + 1 + n = s.mCurRISPass + (n + 1)
    omega

theorem spatialResampling_inWindow (s : ScreenSpaceReSTIR)
    (h : s.mTotalRISPasses * s.mFrameIndex + s.mCurRISPass + s.mOptions.spatialIterations
      ≤ 2 ^ 32) :
    InWindow s (spatialResampling s) ∧
      (spatialResampling s).1.mCurRISPass ≤ s.mCurRISPass + s.mOptions.spatialIterations := by
  unfold spatialResampling
  split
  · exact ⟨InWindow.nil s, by simp⟩
  · have := spatialResamplingLoop_inWindow s.mOptions.spatialIterations s h
    exact ⟨this.1, le_of_eq this.2⟩

theorem evaluateFinalSamples_inWindow (s : ScreenSpaceReSTIR) :
    InWindow s (evaluateFinalSamples s) := by
  refine ⟨Keeps.refl s, le_refl _, ?_, ?_⟩
  · simp [evaluateFinalSamples, frameIndexUniforms, Dispatch.frameIndex?]
  · simp [evaluateFinalSamples, frameIndexUniforms, Dispatch.frameIndex?]

end ScreenSpaceReSTIR

namespace ScreenSpaceReSTIR

theorem recordPasses_eq (s : ScreenSpaceReSTIR) :
    recordPasses s =
      if s.mOptions.useReSTIRDI then
        let r0 := if s.mOptions.useReSTIRGI then reSTIRGIClearPass s else (s, [])
        let r1 := updateEmissiveTriangles r0.1
        let r2 := generateLightTiles r1.1
        let r3 := initialResampling r2.1
        let r4 := temporalResampling r3.1
        let r5 := spatialResampling r4.1
        let r6 := evaluateFinalSamples r5.1
        (r6.1, r0.2 ++ r1.2 ++ r2.2 ++ r3.2 ++ r4.2 ++ r5.2 ++ r6.2)
      else if s.mOptions.useReSTIRGI then reSTIRGIClearPass s else (s, []) := by
  unfold recordPasses
  cases hDI : s.mOptions.useReSTIRDI <;> cases hGI : s.mOptions.useReSTIRGI <;>
    simp [reSTIRGIClearPass, hDI]

theorem recordPasses_inWindow (s : ScreenSpaceReSTIR) (h0 : s.mCurRISPass = 0)
    (hw : s.mTotalRISPasses * s.mFrameIndex + 4 + s.mOptions.spatialIterations ≤ 2 ^ 32) :
    InWindow s (recordPasses s) ∧
      (recordPasses s).1.mCurRISPass ≤ 4 + s.mOptions.spatialIterations := by
  rw [recordPasses_eq]
  have hclear : InWindow s (if s.mOptions.useReSTIRGI then reSTIRGIClearPass s else (s, [])) ∧
      (if s.mOptions.useReSTIRGI then reSTIRGIClearPass s else (s, [])).1.mCurRISPass = 0 := by
    split
    · exact ⟨reSTIRGIClearPass_inWindow s, h0⟩
    · exact ⟨InWindow.nil s, h0⟩
  split
  · simp only
    generalize (if s.mOptions.useReSTIRGI then reSTIRGIClearPass s else (s, [])) = r0 at hclear ⊢
    obtain ⟨w0, c0⟩ := hclear
    have k0 := w0.1
    have w1 := updateEmissiveTriangles_inWindow r0.1
    have c1 : (updateEmissiveTriangles r0.1).1.mCurRISPass = 0 := by
      rw [← c0]; unfold updateEmissiveTriangles; split
      · rfl
      · split <;> rfl
    generalize updateEmissiveTriangles r0.1 = r1 at w1 c1 ⊢
    have k1 := k0.trans w1.1
    obtain ⟨kO, kF, kN, kT⟩ := k1
    have w2 := generateLightTiles_inWindow r1.1 (by rw [kT, kF, c1]; omega)
    have c2 : (generateLightTiles r1.1).1.mCurRISPass = 2 := by
      show r1.1.mCurRISPass + 2 = 2
      rw [c1]
    generalize generateLightTiles r1.1 = r2 at w2 c2 ⊢
    have k2 := w2.1
    have w3 := initialResampling_inWindow r2.1 (by
      rw [k2.2.2.2, k2.2.1, kT, kF, c2]; omega)
    have c3 : (initialResampling r2.1).1.mCurRISPass = 3 := by
      show r2.1.mCurRISPass + 1 = 3
      rw [c2]
    generalize initialResampling r2.1 = r3 at w3 c3 ⊢
    have k3 := w3.1
    have w4 := temporalResampling_inWindow r3.1 (by
      rw [k3.2.2.2, k3.2.1, k2.2.2.2, k2.2.1, kT, kF, c3]; omega)
    have c4 : (temporalResampling r3.1).1.mCurRISPass ≤ 4 := by
      have := temporalResampling_curRISPass_le r3.1
      omega
    generalize temporalResampling r3.1 = r4 at w4 c4 ⊢
    have k4 := w4.1
    have eO : r4.1.mOptions = s.mOptions := by
      rw [k4.1, k3.1, k2.1, kO]
    have w5 := spatialResampling_inWindow r4.1 (by
      rw [k4.2.2.2, k4.2.1, k3.2.2.2, k3.2.1, k2.2.2.2, k2.2.1, kT, kF, eO]; omega)
    obtain ⟨w5, c5⟩ := w5
    rw [eO] at c5
    generalize spatialResampling r4.1 = r5 at w5 c5 ⊢
    have w6 := evaluateFinalSamples_inWindow r5.1
    have c6 : (evaluateFinalSamples r5.1).1.mCurRISPass = r5.1.mCurRISPass := rfl
    generalize evaluateFinalSamples r5.1 = r6 at w6 c6 ⊢
    have w := InWindow.append (InWindow.append (InWindow.append (InWindow.append
      (InWindow.append (InWindow.append w0 w1) w2) w3) w4) w5) w6
    refine ⟨w, ?_⟩
    show r6.1.mCurRISPass ≤ _
    omega
  · exact ⟨hclear.1, by rw [hclear.2]; omega⟩

theorem spatialResamplingLoop_not_temporal (n : Nat) : ∀ s : ScreenSpaceReSTIR,
    ∀ d ∈ (spatialResamplingLoop n s).2, d.isTemporal = false := by
  induction n with
  | zero => intro s d hd; cases hd
  | succ n ih =>
    intro s d hd
    simp only [spatialResamplingLoop, List.mem_cons] at hd
    rcases hd with hd | hd
    · subst hd; rfl
    · exact ih _ d hd

theorem recordPasses_no_temporal (s : ScreenSpaceReSTIR)
    (h : s.mResetTemporalReservoirs = true) :
    ∀ d ∈ (recordPasses s).2, d.isTemporal = false := by
  intro d hd
  rw [recordPasses_eq] at hd
  have hclear : ∀ d ∈ (if s.mOptions.useReSTIRGI then reSTIRGIClearPass s else (s, [])).2,
      d.isTemporal = false := by
    intro d hd
    split at hd
    · simp only [reSTIRGIClearPass, List.mem_singleton] at hd
      subst hd; rfl
    · cases hd
  have hflag : ScreenSpaceReSTIR.mResetTemporalReservoirs
      (if s.mOptions.useReSTIRGI then reSTIRGIClearPass s else (s, [])).1 = true := by
    split
    · exact h
    · exact h
  split at hd
  · simp only at hd
    generalize (if s.mOptions.useReSTIRGI then reSTIRGIClearPass s else (s, [])) = r0
      at hclear hflag hd
    have hem : ∀ d ∈ (updateEmissiveTriangles r0.1).2, d.isTemporal = false := by
      intro d hd
      unfold updateEmissiveTriangles at hd
      split at hd
      · cases hd
      · split at hd
        · cases hd
        · simp only [List.mem_singleton] at hd
          subst hd; rfl
    have hflag1 : (updateEmissiveTriangles r0.1).1.mResetTemporalReservoirs = true := by
      rw [← hflag]; unfold updateEmissiveTriangles; split
      · rfl
      · split <;> rfl
    generalize updateEmissiveTriangles r0.1 = r1 at hem hflag1 hd
    have hflag3 : (initialResampling (generateLightTiles r1.1).1).1.mResetTemporalReservoirs
        = true := hflag1
    have htemp : (temporalResampling (initialResampling (generateLightTiles r1.1).1).1).2 = [] := by
      unfold temporalResampling
      rw [if_pos hflag3]
    rw [htemp] at hd
    simp only [List.mem_append, List.append_nil] at hd
    rcases hd with ((((hd | hd) | hd) | hd) | hd) | hd
    · exact hclear d hd
    · exact hem d hd
    · simp only [generateLightTiles, List.mem_singleton] at hd
      subst hd; rfl
    · simp only [initialResampling, List.mem_singleton] at hd
      subst hd; rfl
    · unfold spatialResampling at hd
      split at hd
      · cases hd
      · exact spatialResamplingLoop_not_temporal _ _ d hd
    · simp only [evaluateFinalSamples, List.mem_singleton] at hd
      subst hd; rfl
  · exact hclear d hd

end ScreenSpaceReSTIR

open ScreenSpaceReSTIR

theorem updateReSTIRDI_ok_enabled {scene : Scene} (s : ScreenSpaceReSTIR)
    {r : ScreenSpaceReSTIR × List Dispatch} (henabled : s.mOptions.enabled = true)
    (h : s.updateReSTIRDI scene = .ok r) :
    ∃ s1 s2,
      prepareLighting scene
        { s with mTotalRISPasses := addU32 (2 + 1 + 1) s.mOptions.spatialIterations
                 mCurRISPass := 0 } = .ok s1 ∧
      updatePrograms s1 = .ok s2 ∧ r = recordPasses s2 := by
  unfold updateReSTIRDI at h
  rw [if_pos henabled] at h
  simp only [bind, Except.bind, pure, Except.pure] at h
  split at h
  · cases h
  · rename_i s1 h1
    split at h
    · cases h
    · rename_i s2 h2
      cases h
      exact ⟨s1, s2, h1, h2, rfl⟩

theorem spatialResamplingLoop_keeps (n : Nat) : ∀ s : ScreenSpaceReSTIR,
    Keeps s (spatialResamplingLoop n s).1 := by
  induction n with
  | zero => intro s; exact Keeps.refl s
  | succ n ih =>
    intro s
    simp only [spatialResamplingLoop]
    exact Keeps.trans ⟨rfl, rfl, rfl, rfl⟩ (ih _)

theorem updateEmissiveTriangles_fst (s : ScreenSpaceReSTIR) :
    (updateEmissiveTriangles s).1 = s := by
  unfold updateEmissiveTriangles
  split
  · rfl
  · split <;> rfl

theorem recordPasses_keeps (s : ScreenSpaceReSTIR) : Keeps s (recordPasses s).1 := by
  rw [recordPasses_eq]
  have h0 : (if s.mOptions.useReSTIRGI then reSTIRGIClearPass s else (s, [])).1 = s := by
    split <;> rfl
  split
  · simp only [h0, updateEmissiveTriangles_fst]
    have k4 : Keeps s (temporalResampling (initialResampling (generateLightTiles s).1).1).1 := by
      unfold temporalResampling
      split
      · exact ⟨rfl, rfl, rfl, rfl⟩
      · split <;> exact ⟨rfl, rfl, rfl, rfl⟩
    generalize (temporalResampling (initialResampling (generateLightTiles s).1).1).1 = s4 at k4 ⊢
    have k5 : Keeps s4 (spatialResampling s4).1 := by
      unfold spatialResampling
      split
      · exact Keeps.refl s4
      · exact spatialResamplingLoop_keeps _ _
    exact k4.trans k5
  · rw [h0]
    exact Keeps.refl s

theorem recordPasses_generates_tiles (s : ScreenSpaceReSTIR)
    (hDI : s.mOptions.useReSTIRDI = true) :
    Dispatch.generateLightTiles s.frameIndexUniform ∈ (recordPasses s).2 := by
  rw [recordPasses_eq, if_pos hDI]
  have h0 : (if s.mOptions.useReSTIRGI then reSTIRGIClearPass s else (s, [])).1 = s := by
    split <;> rfl
  simp only [h0, updateEmissiveTriangles_fst, List.mem_append]
  left; left; left; left; right
  simp [generateLightTiles]

/-- An enabled instance with `useReSTIRDI` whose `mRecompile` is set and whose frame index is 0:
the update records no temporal dispatch, and when it returns the frame index is still 0 and the
light tiles were generated with frame-index uniform 0. -/
theorem updateReSTIRDI_of_recompile (s : ScreenSpaceReSTIR) (scene : Scene)
    (henabled : s.mOptions.enabled = true) (hDI : s.mOptions.useReSTIRDI = true)
    (hrec : s.mRecompile = true) (hzero : s.mFrameIndex = 0) :
    (∀ d ∈ dispatchesOf (s.updateReSTIRDI scene), d.isTemporal = false) ∧
    (∀ r, s.updateReSTIRDI scene = .ok r →
      r.1.mFrameIndex = 0 ∧ Dispatch.generateLightTiles 0 ∈ r.2) := by
  refine ⟨?_, ?_⟩
  · intro d hd
    cases hres : s.updateReSTIRDI scene with
    | error e => rw [hres] at hd; cases hd
    | ok r =>
      rw [hres] at hd
      obtain ⟨s1, s2, h1, h2, hr⟩ := updateReSTIRDI_ok_enabled s henabled hres
      have p1 := prepareLighting_ok h1
      have p2 := updatePrograms_ok h2
      have hflag : s2.mResetTemporalReservoirs = true := p2.2.2 (p1.2.2.2 hrec)
      subst hr
      exact recordPasses_no_temporal s2 hflag d hd
  · intro r hres
    obtain ⟨s1, s2, h1, h2, hr⟩ := updateReSTIRDI_ok_enabled s henabled hres
    have p1 := prepareLighting_ok h1
    have p2 := updatePrograms_ok h2
    have hF : s2.mFrameIndex = 0 := by rw [p2.1.2.1, p1.1.2.1]; exact hzero
    have hC : s2.mCurRISPass = 0 := by rw [p2.2.1, p1.2.1]
    have hO : s2.mOptions.useReSTIRDI = true := by rw [p2.1.1, p1.1.1]; exact hDI
    subst hr
    refine ⟨by rw [(recordPasses_keeps s2).2.1, hF], ?_⟩
    have hu : s2.frameIndexUniform = 0 := by
      unfold frameIndexUniform addU32 mulU32
      rw [hF, hC]
      rfl
    have := recordPasses_generates_tiles s2 hO
    rw [hu] at this
    exact this

theorem beginFrame_keeps (s : ScreenSpaceReSTIR) (frameDim : Nat × Nat) :
    Keeps s (s.beginFrame frameDim) := by
  unfold beginFrame
  split
  · exact ⟨rfl, rfl, rfl, rfl⟩
  · exact Keeps.refl s

theorem beginFrame_mRecompile (s : ScreenSpaceReSTIR) (frameDim : Nat × Nat) :
    (s.beginFrame frameDim).mRecompile = s.mRecompile := by
  unfold beginFrame
  split <;> rfl

/-- C3. After `resetReservoirCount()` on an enabled instance with `useReSTIRDI`, `mFrameIndex`
reads 0 (also after the `beginFrame` of the next frame), and the next `updateReSTIRDI`, called
directly or after `beginFrame`, records no temporal-resampling dispatch, for every value of
`useTemporalResampling` and every scene; when that call returns, the frame index is still 0
and the light tiles were generated with frame-index uniform 0. -/
theorem updateReSTIRDI_after_reset_skips_temporal (s : ScreenSpaceReSTIR) (scene : Scene)
    (frameDim : Nat × Nat)
    (henabled : s.mOptions.enabled = true) (hDI : s.mOptions.useReSTIRDI = true) :
    s.resetReservoirCount.mFrameIndex = 0 ∧
    (s.resetReservoirCount.beginFrame frameDim).mFrameIndex = 0 ∧
    (∀ d ∈ dispatchesOf (s.resetReservoirCount.updateReSTIRDI scene), d.isTemporal = false) ∧
    (∀ d ∈ dispatchesOf ((s.resetReservoirCount.beginFrame frameDim).updateReSTIRDI scene),
      d.isTemporal = false) ∧
    (∀ r, (s.resetReservoirCount.beginFrame frameDim).updateReSTIRDI scene = .ok r →
      r.1.mFrameIndex = 0 ∧ Dispatch.generateLightTiles 0 ∈ r.2) := by
  have kB := beginFrame_keeps s.resetReservoirCount frameDim
  have hB0 : (s.resetReservoirCount.beginFrame frameDim).mFrameIndex = 0 := kB.2.1
  have hBen : (s.resetReservoirCount.beginFrame frameDim).mOptions.enabled = true := by
    rw [kB.1]; exact henabled
  have hBDI : (s.resetReservoirCount.beginFrame frameDim).mOptions.useReSTIRDI = true := by
    rw [kB.1]; exact hDI
  have hBrec : (s.resetReservoirCount.beginFrame frameDim).mRecompile = true :=
    beginFrame_mRecompile s.resetReservoirCount frameDim
  have direct := updateReSTIRDI_of_recompile s.resetReservoirCount scene henabled hDI rfl rfl
  have viaBegin := updateReSTIRDI_of_recompile (s.resetReservoirCount.beginFrame frameDim) scene
    hBen hBDI hBrec hB0
  exact ⟨rfl, hB0, direct.1, viaBegin.1, viaBegin.2⟩

/-- Witness for C3: an instance in its eighth frame, with temporal resampling on and no reset
pending, records a temporal pass; once reset, its next frame (`beginFrame` on a 2x2 frame, then
`updateReSTIRDI`) records tiles, initial, spatial and final passes only. -/
theorem updateReSTIRDI_after_reset_skips_temporal_witness :
    (dispatchesOf (updateReSTIRDI {}
      { mRecompile := false, mResetTemporalReservoirs := false, mFrameIndex := 7 })).map
        Dispatch.isTemporal = [false, false, true, false, false] ∧
    (dispatchesOf (updateReSTIRDI {} (beginFrame (resetReservoirCount
      { mRecompile := false, mResetTemporalReservoirs := false, mFrameIndex := 7 }) (2, 2)))).map
        Dispatch.isTemporal = [false, false, false, false] ∧
    (∀ d ∈ dispatchesOf (updateReSTIRDI {} (beginFrame (resetReservoirCount
      { mRecompile := false, mResetTemporalReservoirs := false, mFrameIndex := 7 }) (2, 2))),
      d.isTemporal = false) :=
  ⟨by decide, by decide,
    (updateReSTIRDI_after_reset_skips_temporal
      { mRecompile := false, mResetTemporalReservoirs := false, mFrameIndex := 7 } {} (2, 2)
      rfl rfl).2.2.2.1⟩

/-- One frame with `k` spatial iterations, away from wrap-around: its uniforms increase
strictly and lie in the window of the frame index; the frame index then stays (no dispatch was
recorded) or advances by the instance count. -/
theorem runFrame_window {inp : FrameInput} {s s' : ScreenSpaceReSTIR} {ds : List Dispatch}
    {k : Nat} (hk : inp.options.spatialIterations = k)
    (hN : 1 ≤ s.mNumReSTIRInstances)
    (hw : (4 + k) * (s.mFrameIndex + s.mNumReSTIRInstances) < 2 ^ 32)
    (h : runFrame inp s = .ok (s', ds)) :
    (frameIndexUniforms ds).Pairwise (· < ·) ∧
    (∀ u ∈ frameIndexUniforms ds,
      (4 + k) * s.mFrameIndex ≤ u ∧ u < (4 + k) * (s.mFrameIndex + 1)) ∧
    s'.mNumReSTIRInstances = s.mNumReSTIRInstances ∧
    ((ds = [] ∧ s'.mFrameIndex = s.mFrameIndex) ∨
      s'.mFrameIndex = s.mFrameIndex + s.mNumReSTIRInstances) := by
  unfold runFrame at h
  simp only [bind, Except.bind, pure, Except.pure] at h
  split at h
  · cases h
  · rename_i r hr
    obtain ⟨sU, dsU⟩ := r
    simp only [Except.ok.injEq, Prod.mk.injEq] at h
    obtain ⟨hs', hds⟩ := h
    subst hds
    have kB := beginFrame_keeps { s with mOptions := inp.options } inp.frameDim
    generalize hsB : ScreenSpaceReSTIR.beginFrame { s with mOptions := inp.options }
      inp.frameDim = sB at hr kB
    obtain ⟨bO, bF, bN, _⟩ := kB
    simp only at bO bF bN
    -- arithmetic facts
    have hmul : (4 + k) * (s.mFrameIndex + s.mNumReSTIRInstances) =
        (4 + k) * s.mFrameIndex + (4 + k) * s.mNumReSTIRInstances := Nat.mul_add _ _ _
    have hmul1 : (4 + k) * (s.mFrameIndex + 1) = (4 + k) * s.mFrameIndex + (4 + k) := by
      rw [Nat.mul_add, Nat.mul_one]
    have hTN : 4 + k ≤ (4 + k) * s.mNumReSTIRInstances := Nat.le_mul_of_pos_right _ hN
    have hfN : s.mFrameIndex + s.mNumReSTIRInstances ≤
        (4 + k) * (s.mFrameIndex + s.mNumReSTIRInstances) :=
      Nat.le_mul_of_pos_left _ (by omega)
    by_cases hen : sB.mOptions.enabled = true
    · obtain ⟨s1, s2, h1, h2, hrec⟩ := updateReSTIRDI_ok_enabled sB hen hr
      have p1 := prepareLighting_ok h1
      have p2 := updatePrograms_ok h2
      obtain ⟨⟨aO, aF, aN, aT⟩, aC, _⟩ := p1
      obtain ⟨⟨cO, cF, cN, cT⟩, cC, _⟩ := p2
      simp only at aO aF aN aT aC
      have eO : s2.mOptions = inp.options := by rw [cO, aO, bO]
      have eF : s2.mFrameIndex = s.mFrameIndex := by rw [cF, aF, bF]
      have eN : s2.mNumReSTIRInstances = s.mNumReSTIRInstances := by rw [cN, aN, bN]
      have eC : s2.mCurRISPass = 0 := by rw [cC, aC]
      have eT : s2.mTotalRISPasses = 4 + k := by
        rw [cT, aT, bO, hk]
        unfold addU32 u32
        exact Nat.mod_eq_of_lt (by omega)
      have hwin := recordPasses_inWindow s2 eC (by rw [eT, eF, eO, hk]; omega)
      rw [← hrec] at hwin
      obtain ⟨⟨wK, _, wP, wB⟩, wC⟩ := hwin
      simp only at wK wP wB wC
      rw [eT, eF, eC] at wB
      rw [eO, hk] at wC
      refine ⟨wP, ?_, ?_, ?_⟩
      · intro u hu
        have := wB u hu
        omega
      · rw [← hs']
        have : sU.endFrame.mNumReSTIRInstances = sU.mNumReSTIRInstances := by
          unfold endFrame; split <;> rfl
        rw [this, wK.2.2.1, eN]
      · right
        rw [← hs']
        have hen' : sU.mOptions.enabled = true := by
          rw [wK.1, eO, ← bO]; exact hen
        unfold endFrame
        rw [if_pos hen']
        show addU32 sU.mFrameIndex sU.mNumReSTIRInstances = _
        rw [wK.2.1, wK.2.2.1, eF, eN]
        unfold addU32 u32
        exact Nat.mod_eq_of_lt (by omega)
    · unfold updateReSTIRDI at hr
      rw [if_neg hen] at hr
      simp only [pure, Except.pure, Except.ok.injEq, Prod.mk.injEq] at hr
      obtain ⟨hsU, hdsU⟩ := hr
      subst hdsU
      refine ⟨List.Pairwise.nil, (by intro u hu; cases hu), ?_, ?_⟩
      · rw [← hs', ← hsU]
        have : ∀ t : ScreenSpaceReSTIR, t.endFrame.mNumReSTIRInstances
            = t.mNumReSTIRInstances := by
          intro t; unfold endFrame; split <;> rfl
        rw [this]
        exact bN
      · left
        refine ⟨rfl, ?_⟩
        rw [← hs', ← hsU]
        unfold endFrame
        rw [if_neg (by simpa using hen)]
        exact bF

theorem runFrames_window (k : Nat) : ∀ (frames : List FrameInput) (s : ScreenSpaceReSTIR),
    1 ≤ s.mNumReSTIRInstances →
    (∀ inp ∈ frames, inp.options.spatialIterations = k) →
    (4 + k) * (s.mFrameIndex + s.mNumReSTIRInstances * frames.length) < 2 ^ 32 →
    (frameIndexUniforms (runFrames frames s).1).Pairwise (· < ·) ∧
    ∀ u ∈ frameIndexUniforms (runFrames frames s).1, (4 + k) * s.mFrameIndex ≤ u := by
  intro frames
  induction frames with
  | nil =>
    intro s _ _ _
    exact ⟨List.Pairwise.nil, by intro u hu; cases hu⟩
  | cons inp rest ih =>
    intro s hN hk hw
    simp only [List.length_cons] at hw
    have hmono : (4 + k) * (s.mFrameIndex + s.mNumReSTIRInstances) ≤
        (4 + k) * (s.mFrameIndex + s.mNumReSTIRInstances * (rest.length + 1)) := by
      apply Nat.mul_le_mul_left
      have : s.mNumReSTIRInstances ≤ s.mNumReSTIRInstances * (rest.length + 1) :=
        Nat.le_mul_of_pos_right _ (by omega)
      omega
    unfold runFrames
    cases hf : runFrame inp s with
    | error e => exact ⟨List.Pairwise.nil, by intro u hu; cases hu⟩
    | ok r =>
      obtain ⟨s', ds⟩ := r
      simp only
      obtain ⟨fP, fB, fN, fF⟩ := runFrame_window (hk inp (List.mem_cons_self _ _)) hN
        (lt_of_le_of_lt hmono hw) hf
      have hrestw : (4 + k) * (s'.mFrameIndex + s'.mNumReSTIRInstances * rest.length) < 2 ^ 32 := by
        refine lt_of_le_of_lt ?_ hw
        apply Nat.mul_le_mul_left
        rw [fN]
        have hexp : s.mNumReSTIRInstances * (rest.length + 1) =
            s.mNumReSTIRInstances * rest.length + s.mNumReSTIRInstances := by
          rw [Nat.mul_add, Nat.mul_one]
        rcases fF with ⟨_, hF⟩ | hF
        · rw [hF, hexp]; omega
        · rw [hF, hexp]; omega
      obtain ⟨rP, rB⟩ := ih s' (by rw [fN]; exact hN)
        (fun i hi => hk i (List.mem_cons_of_mem _ hi)) hrestw
      rcases fF with ⟨hnil, hF⟩ | hF
      · subst hnil
        simp only [List.nil_append]
        refine ⟨rP, ?_⟩
        intro u hu
        have := rB u hu
        rw [hF] at this
        exact this
      · have hstep : (4 + k) * (s.mFrameIndex + 1) ≤ (4 + k) * s'.mFrameIndex := by
          apply Nat.mul_le_mul_left
          rw [hF]; omega
        have hle : (4 + k) * s.mFrameIndex ≤ (4 + k) * s'.mFrameIndex := by
          apply Nat.mul_le_mul_left
          rw [hF]; omega
        constructor
        · simp only [frameIndexUniforms, List.filterMap_append]
          rw [List.pairwise_append]
          refine ⟨fP, rP, ?_⟩
          intro a ha b hb
          have h1 := (fB a ha).2
          have h2 := rB b hb
          omega
        · intro u hu
          simp only [frameIndexUniforms, List.filterMap_append, List.mem_append] at hu
          rcases hu with hu | hu
          · exact (fB u hu).1
          · have := rB u hu
            omega

/-- C4, counterexample. A fresh instance renders one frame with four spatial iterations and then
one frame with none: the second frame binds the uniforms 4 and 6 again, so the uniforms are
neither increasing nor distinct. -/
theorem frameIndex_uniforms_repeat_when_iterations_change :
    frameIndexUniforms (runFrames
      [{ options := { spatialIterations := 4 } }, { options := { spatialIterations := 0 } }]
      (ScreenSpaceReSTIR.create {} 1 0)).1 = [0, 2, 3, 4, 5, 6, 4, 6, 7] ∧
    ¬ ([0, 2, 3, 4, 5, 6, 4, 6, 7] : List Nat).Pairwise (· < ·) ∧
    ¬ ([0, 2, 3, 4, 5, 6, 4, 6, 7] : List Nat).Nodup := by
  refine ⟨by decide, by decide, by decide⟩

/-- C4, amended. For every run of frames of one instance in which `spatialIterations` has the
same value `k` in every frame (the enable flag, the ReSTIR-DI/GI flags and the temporal and
spatial toggles being free to differ from frame to frame), with at least one ReSTIR instance
and no 32-bit wrap-around, the frame-index uniforms bound by `generateLightTiles`,
`initialResampling`, `temporalResampling` and the spatial iterations are strictly increasing
in dispatch order, hence pairwise distinct. -/
theorem frameIndex_uniforms_strictly_increasing (frames : List FrameInput)
    (s : ScreenSpaceReSTIR) (k : Nat)
    (hN : 1 ≤ s.mNumReSTIRInstances)
    (hk : ∀ inp ∈ frames, inp.options.spatialIterations = k)
    (hwrap : (4 + k) * (s.mFrameIndex + s.mNumReSTIRInstances * frames.length) < 2 ^ 32) :
    (frameIndexUniforms (runFrames frames s).1).Pairwise (· < ·) ∧
    (frameIndexUniforms (runFrames frames s).1).Nodup := by
  have h := (runFrames_window k frames s hN hk hwrap).1
  exact ⟨h, h.imp (fun hab => Nat.ne_of_lt hab)⟩

/-- Witness for C4 amended: three frames of a fresh instance with two spatial iterations each,
the spatial and temporal toggles varying. -/
theorem frameIndex_uniforms_strictly_increasing_witness :
    frameIndexUniforms (runFrames
      [{ options := { spatialIterations := 2 } },
       { options := { spatialIterations := 2, useSpatialResampling := false } },
       { options := { spatialIterations := 2, useTemporalResampling := false } }]
      (ScreenSpaceReSTIR.create {} 1 0)).1 = [0, 2, 3, 4, 6, 8, 9, 12, 14, 15, 16] ∧
    (frameIndexUniforms (runFrames
      [{ options := { spatialIterations := 2 } },
       { options := { spatialIterations := 2, useSpatialResampling := false } },
       { options := { spatialIterations := 2, useTemporalResampling := false } }]
      (ScreenSpaceReSTIR.create {} 1 0)).1).Pairwise (· < ·) :=
  ⟨by decide,
    (frameIndex_uniforms_strictly_increasing _ (ScreenSpaceReSTIR.create {} 1 0) 2
      (by decide) (by decide) (by decide)).1⟩

/-! ## `blit`: C5, C6, C7, C8 -/


theorem isComplexBlit_eq_false {componentsReduction : Fin 4 → ReductionMode}
    {componentsTransform : Fin 4 → Float4}
    (hred : ∀ i, componentsReduction i = .Standard)
    (htrans : ∀ i, componentsTransform i = identityTransform i) :
    isComplexBlit componentsReduction componentsTransform = false := by
  simp [isComplexBlit, hred, htrans]

theorem updateComponentsTransform_commands (componentsTransform : Fin 4 → Float4)
    (l : List (Fin 4)) : ∀ b : BlitData,
    ∀ c ∈ (updateComponentsTransform componentsTransform l b).2,
      c.isCopy = false ∧ c.isExecute = false := by
  induction l with
  | nil => intro b c hc; cases hc
  | cons i rest ih =>
    intro b c hc
    unfold updateComponentsTransform at hc
    split at hc
    · simp only [List.mem_cons] at hc
      rcases hc with hc | hc
      · subst hc; exact ⟨rfl, rfl⟩
      · exact ih _ c hc
    · exact ih _ c hc

theorem bindSamplers_commands (b : BlitData) (sampleCount : Nat) (filter : Filter)
    (componentsReduction : Fin 4 → ReductionMode) (componentsTransform : Fin 4 → Float4) :
    ∀ c ∈ (bindSamplers b sampleCount filter componentsReduction componentsTransform).2.1,
      c.isCopy = false ∧ c.isExecute = false := by
  intro c hc
  unfold bindSamplers at hc
  split at hc
  · exact updateComponentsTransform_commands _ _ _ c hc
  · cases hc

theorem updateOffset_commands (offset : Float2) (b : BlitData) :
    ∀ c ∈ (updateOffset offset b).2, c.isCopy = false ∧ c.isExecute = false := by
  intro c hc
  unfold updateOffset at hc
  split at hc
  · simp only [List.mem_singleton] at hc
    subst hc; exact ⟨rfl, rfl⟩
  · cases hc

theorem updateScale_commands (scale : Float2) (b : BlitData) :
    ∀ c ∈ (updateScale scale b).2, c.isCopy = false ∧ c.isExecute = false := by
  intro c hc
  unfold updateScale at hc
  split at hc
  · simp only [List.mem_singleton] at hc
    subst hc; exact ⟨rfl, rfl⟩
  · cases hc

/-- The shader path records constant-buffer writes only, then exactly one pass execution. -/
theorem blitShaderPath_commands (blitData : BlitData) (pSrc pDst : View) (srcRect dstRect : UInt4)
    (filter : Filter) (componentsReduction : Fin 4 → ReductionMode)
    (componentsTransform : Fin 4 → Float4) :
    ∃ pre pass,
      (blitShaderPath blitData pSrc pDst srcRect dstRect filter componentsReduction
        componentsTransform).commands = pre ++ [BlitCommand.execute pass] ∧
      ∀ c ∈ pre, c.isCopy = false ∧ c.isExecute = false := by
  refine ⟨_, _, rfl, ?_⟩
  intro c hc
  simp only [List.mem_append] at hc
  rcases hc with (hc | hc) | hc
  · exact bindSamplers_commands _ _ _ _ _ c hc
  · exact updateOffset_commands _ _ c hc
  · exact updateScale_commands _ _ c hc

/-- C5. A blit between textures with all reductions `Standard`, the identity transforms, two
full views, two clamped rectangles that cover the whole (non-empty) mip-0 extent and equal
texture descriptions records exactly one command, `copyResource(dst, src)`, executes no shader
pass and returns the shared blit data unchanged, for every filter. -/
theorem blit_full_copy (compareDesc : Texture → Texture → Bool) (blitData : BlitData)
    (pSrc pDst : View) (srcRect dstRect : UInt4) (filter : Filter)
    (componentsReduction : Fin 4 → ReductionMode) (componentsTransform : Fin 4 → Float4)
    (hsrc : pSrc.resource.type ≠ .Buffer) (hdst : pDst.resource.type ≠ .Buffer)
    (hred : ∀ i, componentsReduction i = .Standard)
    (htrans : ∀ i, componentsTransform i = identityTransform i)
    (hsrcView : isFullView pSrc = true) (hdstView : isFullView pDst = true)
    (hsrcRect : isFullRect (clampRect srcRect (viewSize pSrc)) (viewSize pSrc) = true)
    (hdstRect : isFullRect (clampRect dstRect (viewSize pDst)) (viewSize pDst) = true)
    (hsrcSize : 0 < pSrc.resource.getWidth 0 ∧ 0 < pSrc.resource.getHeight 0)
    (hdstSize : 0 < pDst.resource.getWidth 0 ∧ 0 < pDst.resource.getHeight 0)
    (hdesc : compareDesc pSrc.resource pDst.resource = true) :
    blit compareDesc blitData pSrc pDst srcRect dstRect filter componentsReduction
        componentsTransform =
      .ok { blitData := blitData
            commands := [.copyResource pDst.resource.id pSrc.resource.id]
            assertsHold := true } := by
  have hsm : pSrc.viewInfo.mostDetailedMip = 0 := by
    simp only [isFullView, Bool.and_eq_true, beq_iff_eq] at hsrcView
    exact hsrcView.1.1.1
  have hdm : pDst.viewInfo.mostDetailedMip = 0 := by
    simp only [isFullView, Bool.and_eq_true, beq_iff_eq] at hdstView
    exact hdstView.1.1.1
  have hnd : isDegenerate (clampRect srcRect (viewSize pSrc))
      (clampRect dstRect (viewSize pDst)) = false := by
    simp only [isFullRect, Bool.and_eq_true, beq_iff_eq] at hsrcRect hdstRect
    obtain ⟨⟨⟨sx, sy⟩, sz⟩, sw⟩ := hsrcRect
    obtain ⟨⟨⟨dx, dy⟩, dz⟩, dw⟩ := hdstRect
    have v1 : (viewSize pSrc).1 = pSrc.resource.getWidth 0 := by simp [viewSize, hsm]
    have v2 : (viewSize pSrc).2 = pSrc.resource.getHeight 0 := by simp [viewSize, hsm]
    have v3 : (viewSize pDst).1 = pDst.resource.getWidth 0 := by simp [viewSize, hdm]
    have v4 : (viewSize pDst).2 = pDst.resource.getHeight 0 := by simp [viewSize, hdm]
    simp only [isDegenerate, Bool.or_eq_false_iff, decide_eq_false_iff_not, not_le, ge_iff_le]
    rw [sx, sy, sz, sw, dx, dy, dz, dw, v1, v2, v3, v4]
    exact ⟨⟨⟨hsrcSize.1, hsrcSize.2⟩, hdstSize.1⟩, hdstSize.2⟩
  have hfull : isFullCopy compareDesc pSrc pDst (clampRect srcRect (viewSize pSrc))
      (clampRect dstRect (viewSize pDst)) componentsReduction componentsTransform = true := by
    simp [isFullCopy, isComplexBlit_eq_false hred htrans, hsrcView, hdstView, hsrcRect, hdstRect,
      hdesc]
  unfold blit
  rw [if_neg (by simp [hsrc, hdst])]
  simp only [hnd, hfull, if_true, Bool.false_eq_true, if_false]
  rfl

/-- Witness for C5: an 8x8 float texture blitted onto another of the same description, with an
oversized source rectangle that clamping brings down to the full extent. -/
theorem blit_full_copy_witness :
    blit compareModelDesc BlitData.init (singleSubresourceView (floatTexture8 1))
        (singleSubresourceView (floatTexture8 2)) ⟨0, 0, 100, 100⟩ ⟨0, 0, 8, 8⟩ .Linear
        standardReduction identityTransform =
      .ok { blitData := BlitData.init, commands := [.copyResource 2 1], assertsHold := true } :=
  blit_full_copy compareModelDesc BlitData.init (singleSubresourceView (floatTexture8 1))
    (singleSubresourceView (floatTexture8 2)) ⟨0, 0, 100, 100⟩ ⟨0, 0, 8, 8⟩ .Linear
    standardReduction identityTransform (by decide) (by decide) (fun _ => rfl) (fun _ => rfl)
    (by decide) (by decide) (by decide) (by decide) (by decide) (by decide) (by decide)

/-- C6. A blit between textures whose clamped rectangles are degenerate (`x >= z` or `y >= w`
for the source or the destination) returns without throwing, records no command at all (no
resource copy, no shader pass, no constant-buffer write) and returns the shared blit data
unchanged, whatever the filter, the reductions, the transforms, the sample count, the source
format and the views. -/
theorem blit_degenerate_is_noop (compareDesc : Texture → Texture → Bool) (blitData : BlitData)
    (pSrc pDst : View) (srcRect dstRect : UInt4) (filter : Filter)
    (componentsReduction : Fin 4 → ReductionMode) (componentsTransform : Fin 4 → Float4)
    (hsrc : pSrc.resource.type ≠ .Buffer) (hdst : pDst.resource.type ≠ .Buffer)
    (hdeg : (clampRect srcRect (viewSize pSrc)).x ≥ (clampRect srcRect (viewSize pSrc)).z ∨
      (clampRect srcRect (viewSize pSrc)).y ≥ (clampRect srcRect (viewSize pSrc)).w ∨
      (clampRect dstRect (viewSize pDst)).x ≥ (clampRect dstRect (viewSize pDst)).z ∨
      (clampRect dstRect (viewSize pDst)).y ≥ (clampRect dstRect (viewSize pDst)).w) :
    blit compareDesc blitData pSrc pDst srcRect dstRect filter componentsReduction
        componentsTransform =
      .ok { blitData := blitData, commands := [], assertsHold := true } := by
  have hd : isDegenerate (clampRect srcRect (viewSize pSrc))
      (clampRect dstRect (viewSize pDst)) = true := by
    simp only [isDegenerate, Bool.or_eq_true, decide_eq_true_eq]
    tauto
  unfold blit
  rw [if_neg (by simp [hsrc, hdst])]
  simp only [hd, if_true]
  rfl

/-- Witness for C6: a four-sample integer source, a two-mip source view and a `Min` reduction
(each of which the shader path rejects), with a source rectangle that starts past the
texture. -/
theorem blit_degenerate_is_noop_witness :
    blit compareModelDesc BlitData.init
        { resource := multisampledIntegerTexture8 1
          viewInfo := { mostDetailedMip := 0, mipCount := 2, firstArraySlice := 0, arraySize := 1 } }
        (singleSubresourceView (floatTexture8 2)) ⟨8, 0, 16, 8⟩ ⟨0, 0, 8, 8⟩ .Linear
        minRedReduction identityTransform =
      .ok { blitData := BlitData.init, commands := [], assertsHold := true } :=
  blit_degenerate_is_noop compareModelDesc BlitData.init
    { resource := multisampledIntegerTexture8 1
      viewInfo := { mostDetailedMip := 0, mipCount := 2, firstArraySlice := 0, arraySize := 1 } }
    (singleSubresourceView (floatTexture8 2)) ⟨8, 0, 16, 8⟩ ⟨0, 0, 8, 8⟩ .Linear
    minRedReduction identityTransform (by decide) (by decide) (by decide)

/-- Past the buffer test, the degenerate-rectangle test and the full-copy test, `blit` is the
chain of the four `throw` tests followed by the shader path. -/
theorem blit_past_fast_path (compareDesc : Texture → Texture → Bool) (blitData : BlitData)
    (pSrc pDst : View) (srcRect dstRect : UInt4) (filter : Filter)
    (componentsReduction : Fin 4 → ReductionMode) (componentsTransform : Fin 4 → Float4)
    (hsrc : pSrc.resource.type ≠ .Buffer) (hdst : pDst.resource.type ≠ .Buffer)
    (hnondeg : isDegenerate (clampRect srcRect (viewSize pSrc))
      (clampRect dstRect (viewSize pDst)) = false)
    (hnotfull : isFullCopy compareDesc pSrc pDst (clampRect srcRect (viewSize pSrc))
      (clampRect dstRect (viewSize pDst)) componentsReduction componentsTransform = false) :
    blit compareDesc blitData pSrc pDst srcRect dstRect filter componentsReduction
        componentsTransform =
      if isComplexBlit componentsReduction componentsTransform &&
          decide (pSrc.resource.sampleCount > 1) then
        .error "RenderContext::blit() does not support sample count > 1 for complex blit"
      else if pSrc.resource.integerFormat && decide (pSrc.resource.sampleCount > 1) then
        .error
          "RenderContext::blit() requires non-integer source format for multi-sampled textures"
      else if pSrc.resource.integerFormat &&
          isComplexBlit componentsReduction componentsTransform then
        .error "RenderContext::blit() requires non-integer source format for complex blit"
      else if !(pSrc.viewInfo.arraySize == 1 && pSrc.viewInfo.mipCount == 1) ||
          !(pDst.viewInfo.arraySize == 1 && pDst.viewInfo.mipCount == 1) then
        .error "RenderContext::blit() does not support texture arrays or mip maps"
      else
        .ok (blitShaderPath blitData pSrc pDst (clampRect srcRect (viewSize pSrc))
          (clampRect dstRect (viewSize pDst)) filter componentsReduction componentsTransform) := by
  unfold blit
  rw [if_neg (by simp [hsrc, hdst])]
  simp only [hnondeg, hnotfull, Bool.false_eq_true, if_false]
  rfl

theorem isFullCopy_of_complex {compareDesc : Texture → Texture → Bool} {pSrc pDst : View}
    {srcRect dstRect : UInt4} {componentsReduction : Fin 4 → ReductionMode}
    {componentsTransform : Fin 4 → Float4}
    (h : isComplexBlit componentsReduction componentsTransform = true) :
    isFullCopy compareDesc pSrc pDst srcRect dstRect componentsReduction componentsTransform
      = false := by
  simp [isFullCopy, h]

/-- C7. For a complex blit between textures with non-degenerate clamped rectangles: `blit` throws
when the source sample count is greater than 1, or the source format is an integer format, or
either view spans more than one mip level or more than one array slice; and when none of these
holds (the views having at least one mip level and one array slice, as every view has) it
returns normally, having recorded constant-buffer writes only followed by one execution of the
shader pass. -/
theorem blit_complex_requirements (compareDesc : Texture → Texture → Bool) (blitData : BlitData)
    (pSrc pDst : View) (srcRect dstRect : UInt4) (filter : Filter)
    (componentsReduction : Fin 4 → ReductionMode) (componentsTransform : Fin 4 → Float4)
    (hsrc : pSrc.resource.type ≠ .Buffer) (hdst : pDst.resource.type ≠ .Buffer)
    (hnondeg : isDegenerate (clampRect srcRect (viewSize pSrc))
      (clampRect dstRect (viewSize pDst)) = false)
    (hcomplex : isComplexBlit componentsReduction componentsTransform = true) :
    ((pSrc.resource.sampleCount > 1 ∨ pSrc.resource.integerFormat = true ∨
        pSrc.viewInfo.mipCount > 1 ∨ pSrc.viewInfo.arraySize > 1 ∨
        pDst.viewInfo.mipCount > 1 ∨ pDst.viewInfo.arraySize > 1) →
      ∃ msg, blit compareDesc blitData pSrc pDst srcRect dstRect filter componentsReduction
        componentsTransform = .error msg) ∧
    (¬ (pSrc.resource.sampleCount > 1 ∨ pSrc.resource.integerFormat = true ∨
        pSrc.viewInfo.mipCount > 1 ∨ pSrc.viewInfo.arraySize > 1 ∨
        pDst.viewInfo.mipCount > 1 ∨ pDst.viewInfo.arraySize > 1) →
      (1 ≤ pSrc.viewInfo.mipCount ∧ 1 ≤ pSrc.viewInfo.arraySize ∧
        1 ≤ pDst.viewInfo.mipCount ∧ 1 ≤ pDst.viewInfo.arraySize) →
      ∃ r pre pass, blit compareDesc blitData pSrc pDst srcRect dstRect filter
          componentsReduction componentsTransform = .ok r ∧
        r.commands = pre ++ [BlitCommand.execute pass] ∧
        ∀ c ∈ pre, c.isCopy = false ∧ c.isExecute = false) := by
  rw [blit_past_fast_path compareDesc blitData pSrc pDst srcRect dstRect filter
    componentsReduction componentsTransform hsrc hdst hnondeg (isFullCopy_of_complex hcomplex)]
  simp only [hcomplex, Bool.true_and, Bool.and_true]
  constructor
  · intro h
    by_cases hs : pSrc.resource.sampleCount > 1
    · exact ⟨_, by rw [if_pos (by simpa using hs)]⟩
    · rw [if_neg (by simpa using hs)]
      by_cases hi : pSrc.resource.integerFormat = true
      · simp only [hi, Bool.true_and]
        rw [if_neg (by simpa using hs)]
        exact ⟨_, if_pos trivial⟩
      · simp only [Bool.not_eq_true] at hi
        simp only [hi, Bool.false_and, Bool.false_eq_true, if_false]
        have hv : (!(pSrc.viewInfo.arraySize == 1 && pSrc.viewInfo.mipCount == 1) ||
            !(pDst.viewInfo.arraySize == 1 && pDst.viewInfo.mipCount == 1)) = true := by
          rcases h with h | h | h | h | h | h
          · exact absurd h hs
          · rw [hi] at h; cases h
          · have : pSrc.viewInfo.mipCount ≠ 1 := by omega
            simp [this]
          · have : pSrc.viewInfo.arraySize ≠ 1 := by omega
            simp [this]
          · have : pDst.viewInfo.mipCount ≠ 1 := by omega
            simp [this]
          · have : pDst.viewInfo.arraySize ≠ 1 := by omega
            simp [this]
        rw [if_pos hv]
        exact ⟨_, rfl⟩
  · intro h hviews
    obtain ⟨v1, v2, v3, v4⟩ := hviews
    simp only [not_or, not_lt, Bool.not_eq_true] at h
    obtain ⟨hs, hi, m1, a1, m2, a2⟩ := h
    have e1 : pSrc.viewInfo.mipCount = 1 := by omega
    have e2 : pSrc.viewInfo.arraySize = 1 := by omega
    have e3 : pDst.viewInfo.mipCount = 1 := by omega
    have e4 : pDst.viewInfo.arraySize = 1 := by omega
    have hs' : ¬ pSrc.resource.sampleCount > 1 := by omega
    rw [if_neg (by simpa using hs')]
    simp only [hi, Bool.false_and, Bool.false_eq_true, if_false, e1, e2, e3, e4, beq_self_eq_true,
      Bool.and_self, Bool.not_true, Bool.or_self]
    obtain ⟨pre, pass, hc, hpre⟩ := blitShaderPath_commands blitData pSrc pDst
      (clampRect srcRect (viewSize pSrc)) (clampRect dstRect (viewSize pDst)) filter
      componentsReduction componentsTransform
    exact ⟨_, pre, pass, rfl, hc, hpre⟩

/-- Witness for C7: a `Min` reduction in the red channel, once with a four-sample integer source
(throws) and once between two single-sample float textures (reaches the shader pass). -/
theorem blit_complex_requirements_witness :
    (∃ msg, blit compareModelDesc BlitData.init
        (singleSubresourceView (multisampledIntegerTexture8 1))
        (singleSubresourceView (floatTexture8 2)) ⟨0, 0, 8, 8⟩ ⟨0, 0, 8, 8⟩ .Linear
        minRedReduction identityTransform = .error msg) ∧
    (∃ r pre pass, blit compareModelDesc BlitData.init
        (singleSubresourceView (floatTexture8 1))
        (singleSubresourceView (floatTexture8 2)) ⟨0, 0, 8, 8⟩ ⟨0, 0, 8, 8⟩ .Linear
        minRedReduction identityTransform = .ok r ∧
      r.commands = pre ++ [BlitCommand.execute pass] ∧
      ∀ c ∈ pre, c.isCopy = false ∧ c.isExecute = false) :=
  ⟨(blit_complex_requirements compareModelDesc BlitData.init
      (singleSubresourceView (multisampledIntegerTexture8 1))
      (singleSubresourceView (floatTexture8 2)) ⟨0, 0, 8, 8⟩ ⟨0, 0, 8, 8⟩ .Linear
      minRedReduction identityTransform (by decide) (by decide) (by decide)
      (by decide)).1 (Or.inl (by decide)),
    (blit_complex_requirements compareModelDesc BlitData.init
      (singleSubresourceView (floatTexture8 1))
      (singleSubresourceView (floatTexture8 2)) ⟨0, 0, 8, 8⟩ ⟨0, 0, 8, 8⟩ .Linear
      minRedReduction identityTransform (by decide) (by decide) (by decide)
      (by decide)).2 (by decide) (by decide)⟩

/-- C8, counterexample. A non-complex blit (all reductions `Standard`, identity transforms) from
a four-sample integer texture through single-mip, single-slice views, which is not a full copy
and not degenerate, throws. -/
theorem blit_basic_multisampled_integer_throws :
    isComplexBlit standardReduction identityTransform = false ∧
    isDegenerate
      (clampRect ⟨0, 0, 8, 8⟩ (viewSize (singleSubresourceView (multisampledIntegerTexture8 1))))
      (clampRect ⟨0, 0, 8, 8⟩ (viewSize (singleSubresourceView (floatTexture8 2)))) = false ∧
    isFullCopy compareModelDesc (singleSubresourceView (multisampledIntegerTexture8 1))
      (singleSubresourceView (floatTexture8 2))
      (clampRect ⟨0, 0, 8, 8⟩ (viewSize (singleSubresourceView (multisampledIntegerTexture8 1))))
      (clampRect ⟨0, 0, 8, 8⟩ (viewSize (singleSubresourceView (floatTexture8 2))))
      standardReduction identityTransform = false ∧
    blit compareModelDesc BlitData.init (singleSubresourceView (multisampledIntegerTexture8 1))
        (singleSubresourceView (floatTexture8 2)) ⟨0, 0, 8, 8⟩ ⟨0, 0, 8, 8⟩ .Point
        standardReduction identityTransform =
      .error
        "RenderContext::blit() requires non-integer source format for multi-sampled textures" :=
  ⟨by decide, by decide, by decide, rfl⟩

/-- C8, amended. A non-complex blit between textures that takes the shader path (clamped
rectangles not degenerate, no full copy) through single-mip, single-slice views throws when the
source format is an integer format and the source sample count is greater than 1; in every
other case (any sample count with a non-integer format, an integer format with at most one
sample) it returns normally, having recorded constant-buffer writes only followed by one
execution of the shader pass. -/
theorem blit_basic_shader_path (compareDesc : Texture → Texture → Bool) (blitData : BlitData)
    (pSrc pDst : View) (srcRect dstRect : UInt4) (filter : Filter)
    (componentsReduction : Fin 4 → ReductionMode) (componentsTransform : Fin 4 → Float4)
    (hsrc : pSrc.resource.type ≠ .Buffer) (hdst : pDst.resource.type ≠ .Buffer)
    (hnondeg : isDegenerate (clampRect srcRect (viewSize pSrc))
      (clampRect dstRect (viewSize pDst)) = false)
    (hbasic : isComplexBlit componentsReduction componentsTransform = false)
    (hnotfull : isFullCopy compareDesc pSrc pDst (clampRect srcRect (viewSize pSrc))
      (clampRect dstRect (viewSize pDst)) componentsReduction componentsTransform = false)
    (hviews : pSrc.viewInfo.mipCount = 1 ∧ pSrc.viewInfo.arraySize = 1 ∧
      pDst.viewInfo.mipCount = 1 ∧ pDst.viewInfo.arraySize = 1) :
    ((pSrc.resource.integerFormat = true ∧ pSrc.resource.sampleCount > 1) →
      blit compareDesc blitData pSrc pDst srcRect dstRect filter componentsReduction
        componentsTransform = .error
          "RenderContext::blit() requires non-integer source format for multi-sampled textures") ∧
    (¬ (pSrc.resource.integerFormat = true ∧ pSrc.resource.sampleCount > 1) →
      ∃ r pre pass, blit compareDesc blitData pSrc pDst srcRect dstRect filter
          componentsReduction componentsTransform = .ok r ∧
        r.commands = pre ++ [BlitCommand.execute pass] ∧
        ∀ c ∈ pre, c.isCopy = false ∧ c.isExecute = false) := by
  rw [blit_past_fast_path compareDesc blitData pSrc pDst srcRect dstRect filter
    componentsReduction componentsTransform hsrc hdst hnondeg hnotfull]
  obtain ⟨e1, e2, e3, e4⟩ := hviews
  simp only [hbasic, Bool.false_and, Bool.and_false, Bool.false_eq_true, if_false, e1, e2, e3,
    e4, beq_self_eq_true, Bool.and_self, Bool.not_true, Bool.or_self]
  constructor
  · rintro ⟨hi, hs⟩
    rw [if_pos (by simp [hi, hs])]
  · intro h
    rw [if_neg (by
      simp only [Bool.and_eq_true, decide_eq_true_eq]
      exact h)]
    obtain ⟨pre, pass, hc, hpre⟩ := blitShaderPath_commands blitData pSrc pDst
      (clampRect srcRect (viewSize pSrc)) (clampRect dstRect (viewSize pDst)) filter
      componentsReduction componentsTransform
    exact ⟨_, pre, pass, rfl, hc, hpre⟩

/-- Witness for C8 amended: a point-filtered blit of the left half of a single-sample float
texture reaches the shader pass. -/
theorem blit_basic_shader_path_witness :
    ∃ r pre pass, blit compareModelDesc BlitData.init (singleSubresourceView (floatTexture8 1))
        (singleSubresourceView (floatTexture8 2)) ⟨0, 0, 4, 8⟩ ⟨0, 0, 8, 8⟩ .Point
        standardReduction identityTransform = .ok r ∧
      r.commands = pre ++ [BlitCommand.execute pass] ∧
      ∀ c ∈ pre, c.isCopy = false ∧ c.isExecute = false :=
  (blit_basic_shader_path compareModelDesc BlitData.init (singleSubresourceView (floatTexture8 1))
    (singleSubresourceView (floatTexture8 2)) ⟨0, 0, 4, 8⟩ ⟨0, 0, 8, 8⟩ .Point
    standardReduction identityTransform (by decide) (by decide) (by decide) (by decide)
    (by decide) (by decide)).2 (by decide)

/-! ## The reservoir pair across frames: C11 -/

theorem KeepsReservoirs.keeps_refl (s : ScreenSpaceReSTIR) : KeepsReservoirs s s :=
  ⟨rfl, rfl, le_refl _⟩

theorem KeepsReservoirs.keeps_trans {a b c : ScreenSpaceReSTIR} (h1 : KeepsReservoirs a b)
    (h2 : KeepsReservoirs b c) : KeepsReservoirs a c :=
  ⟨h2.1.trans h1.1, h2.2.1.trans h1.2.1, le_trans h1.2.2 h2.2.2⟩

theorem ReservoirIdsValid.of_keeps {s s' : ScreenSpaceReSTIR} (h : ReservoirIdsValid s)
    (k : KeepsReservoirs s s') : ReservoirIdsValid s' := by
  obtain ⟨h1, h2, h3⟩ := h
  obtain ⟨k1, k2, k3⟩ := k
  refine ⟨?_, ?_, ?_⟩
  · intro r hr
    rw [k1] at hr
    exact lt_of_lt_of_le (h1 r hr) k3
  · intro r hr
    rw [k2] at hr
    exact lt_of_lt_of_le (h2 r hr) k3
  · intro r p hr hp
    rw [k1] at hr
    rw [k2] at hp
    exact h3 r p hr hp

theorem ReservoirIdsValid.of_keepsOrSwaps {s s' : ScreenSpaceReSTIR} (h : ReservoirIdsValid s)
    (k : KeepsOrSwapsReservoirs s s') : ReservoirIdsValid s' := by
  obtain ⟨h1, h2, h3⟩ := h
  obtain ⟨k1 | k1, k3⟩ := k
  · refine ⟨?_, ?_, ?_⟩
    · intro r hr
      rw [k1.1] at hr
      rw [k3]
      exact h1 r hr
    · intro r hr
      rw [k1.2] at hr
      rw [k3]
      exact h2 r hr
    · intro r p hr hp
      rw [k1.1] at hr
      rw [k1.2] at hp
      exact h3 r p hr hp
  · refine ⟨?_, ?_, ?_⟩
    · intro r hr
      rw [k1.1] at hr
      rw [k3]
      exact h2 r hr
    · intro r hr
      rw [k1.2] at hr
      rw [k3]
      exact h1 r hr
    · intro r p hr hp
      rw [k1.1] at hr
      rw [k1.2] at hp
      exact fun e => h3 p r hp hr e.symm

/-- Two existing reservoir buffers with valid identities are different objects. -/
theorem ReservoirIdsValid.ne {s : ScreenSpaceReSTIR} (h : ReservoirIdsValid s)
    (h1 : s.mpReservoirs.isSome = true) : s.mpReservoirs ≠ s.mpPrevReservoirs := by
  intro e
  cases hr : s.mpReservoirs with
  | none => rw [hr] at h1; cases h1
  | some r =>
    have hp : s.mpPrevReservoirs = some r := by rw [← e, hr]
    exact h.2.2 r r hr hp rfl

namespace ScreenSpaceReSTIR

theorem nextIdAfter_ge (needed : Bool) (s : ScreenSpaceReSTIR) :
    s.nextResourceId ≤ nextIdAfter needed s := by
  unfold nextIdAfter
  split <;> omega

theorem createLightTileData_keepsReservoirs (s : ScreenSpaceReSTIR) :
    KeepsReservoirs s (createLightTileData s) := ⟨rfl, rfl, nextIdAfter_ge _ _⟩

theorem createSurfaceData_keepsReservoirs (s : ScreenSpaceReSTIR) :
    KeepsReservoirs s (createSurfaceData s) := ⟨rfl, rfl, nextIdAfter_ge _ _⟩

theorem createPrevSurfaceData_keepsReservoirs (s : ScreenSpaceReSTIR) :
    KeepsReservoirs s (createPrevSurfaceData s) := ⟨rfl, rfl, nextIdAfter_ge _ _⟩

theorem createFinalSamples_keepsReservoirs (s : ScreenSpaceReSTIR) :
    KeepsReservoirs s (createFinalSamples s) := ⟨rfl, rfl, nextIdAfter_ge _ _⟩

theorem createGIInitialSamples_keepsReservoirs (s : ScreenSpaceReSTIR) :
    KeepsReservoirs s (createGIInitialSamples s) := ⟨rfl, rfl, nextIdAfter_ge _ _⟩

theorem createGIReservoirs0_keepsReservoirs (s : ScreenSpaceReSTIR) :
    KeepsReservoirs s (createGIReservoirs0 s) := ⟨rfl, rfl, nextIdAfter_ge _ _⟩

theorem createGIReservoirs1_keepsReservoirs (s : ScreenSpaceReSTIR) :
    KeepsReservoirs s (createGIReservoirs1 s) := ⟨rfl, rfl, nextIdAfter_ge _ _⟩

theorem createNormalDepthTexture_keepsReservoirs (s : ScreenSpaceReSTIR) :
    KeepsReservoirs s (createNormalDepthTexture s) := ⟨rfl, rfl, nextIdAfter_ge _ _⟩

theorem createPrevNormalDepthTexture_keepsReservoirs (s : ScreenSpaceReSTIR) :
    KeepsReservoirs s (createPrevNormalDepthTexture s) := ⟨rfl, rfl, nextIdAfter_ge _ _⟩

theorem createDebugOutputTexture_keepsReservoirs (s : ScreenSpaceReSTIR) :
    KeepsReservoirs s (createDebugOutputTexture s) := ⟨rfl, rfl, nextIdAfter_ge _ _⟩

theorem isSome_of_not_tooSmall {current : Option Resource} {elementCount : Nat} {b : Bool}
    (h : (tooSmall current elementCount || b) = false) : current.isSome = true := by
  cases current with
  | none => simp [tooSmall] at h
  | some r => rfl

theorem createReservoirs_valid (s : ScreenSpaceReSTIR) (h : ReservoirIdsValid s) :
    ReservoirIdsValid (createReservoirs s) ∧ (createReservoirs s).mpReservoirs.isSome = true ∧
      (createReservoirs s).mpPrevReservoirs = s.mpPrevReservoirs := by
  obtain ⟨h1, h2, h3⟩ := h
  unfold createReservoirs
  simp only
  cases hn : (tooSmall s.mpReservoirs (mulU32 s.mFrameDim.1 s.mFrameDim.2)
    || s.mRequestReallocate) with
  | true =>
    refine ⟨⟨?_, ?_, ?_⟩, ?_, trivial⟩
    · intro r hr
      simp only [createIf, nextIdAfter, if_true] at hr ⊢
      cases hr
      simp
    · intro r hr
      simp only [nextIdAfter, if_true]
      exact Nat.lt_succ_of_lt (h2 r hr)
    · intro r p hr hp
      simp only [createIf, if_true] at hr
      cases hr
      have := h2 p hp
      simp only
      omega
    · simp [createIf]
  | false =>
    refine ⟨⟨?_, ?_, ?_⟩, ?_, trivial⟩
    · intro r hr
      exact h1 r hr
    · intro r hr
      exact h2 r hr
    · intro r p hr hp
      exact h3 r p hr hp
    · exact isSome_of_not_tooSmall hn

theorem createPrevReservoirs_valid (s : ScreenSpaceReSTIR) (h : ReservoirIdsValid s) :
    ReservoirIdsValid (createPrevReservoirs s) ∧
      (createPrevReservoirs s).mpPrevReservoirs.isSome = true ∧
      (createPrevReservoirs s).mpReservoirs = s.mpReservoirs := by
  obtain ⟨h1, h2, h3⟩ := h
  unfold createPrevReservoirs
  simp only
  cases hn : (tooSmall s.mpPrevReservoirs (mulU32 s.mFrameDim.1 s.mFrameDim.2)
    || s.mRequestReallocate) with
  | true =>
    refine ⟨⟨?_, ?_, ?_⟩, ?_, trivial⟩
    · intro r hr
      simp only [nextIdAfter, if_true]
      exact Nat.lt_succ_of_lt (h1 r hr)
    · intro r hr
      simp only [createIf, nextIdAfter, if_true] at hr ⊢
      cases hr
      simp
    · intro r p hr hp
      simp only [createIf, if_true] at hp
      cases hp
      have := h1 r hr
      simp only
      omega
    · simp [createIf]
  | false =>
    refine ⟨⟨?_, ?_, ?_⟩, ?_, trivial⟩
    · intro r hr
      exact h1 r hr
    · intro r hr
      exact h2 r hr
    · intro r p hr hp
      exact h3 r p hr hp
    · exact isSome_of_not_tooSmall hn

/-- After `prepareResources` both reservoir buffers exist, with valid identities. -/
theorem prepareResources_valid (s : ScreenSpaceReSTIR) (h : ReservoirIdsValid s) :
    ReservoirIdsValid (prepareResources s) ∧ (prepareResources s).mpReservoirs.isSome = true ∧
      (prepareResources s).mpPrevReservoirs.isSome = true := by
  unfold prepareResources
  have v1 : ReservoirIdsValid (createPrevSurfaceData (createSurfaceData (createLightTileData s))) :=
    h.of_keeps (((createLightTileData_keepsReservoirs s).keeps_trans
      (createSurfaceData_keepsReservoirs _)).keeps_trans (createPrevSurfaceData_keepsReservoirs _))
  generalize createPrevSurfaceData (createSurfaceData (createLightTileData s)) = a at v1 ⊢
  obtain ⟨v2, s2, -⟩ := createReservoirs_valid a v1
  obtain ⟨v3, p3, e3⟩ := createPrevReservoirs_valid _ v2
  have s3 : (createPrevReservoirs (createReservoirs a)).mpReservoirs.isSome = true := by
    rw [e3]; exact s2
  have k : KeepsReservoirs (createPrevReservoirs (createReservoirs a))
      (createDebugOutputTexture (createPrevNormalDepthTexture (createNormalDepthTexture
        (createGIReservoirs1 (createGIReservoirs0 (createGIInitialSamples (createFinalSamples
          (createPrevReservoirs (createReservoirs a))))))))) :=
    ((((((createFinalSamples_keepsReservoirs _).keeps_trans
      (createGIInitialSamples_keepsReservoirs _)).keeps_trans
      (createGIReservoirs0_keepsReservoirs _)).keeps_trans
      (createGIReservoirs1_keepsReservoirs _)).keeps_trans
      (createNormalDepthTexture_keepsReservoirs _)).keeps_trans
      (createPrevNormalDepthTexture_keepsReservoirs _)).keeps_trans
      (createDebugOutputTexture_keepsReservoirs _)
  exact ⟨v3.of_keeps k, by rw [k.1]; exact s3, by rw [k.2.1]; exact p3⟩

theorem prepareLighting_keepsReservoirs {scene : Scene} {s s' : ScreenSpaceReSTIR}
    (h : prepareLighting scene s = .ok s') : KeepsReservoirs s s' := by
  unfold prepareLighting at h
  simp only [bind, Except.bind, pure, Except.pure] at h
  split at h
  · cases h
  · rename_i s1 h1
    cases h
    have e : KeepsReservoirs
        (if scene.renderSettingsChanged = true then { s with mRecompile := true } else s) s1 := by
      generalize (if scene.renderSettingsChanged = true then { s with mRecompile := true }
        else s) = s0 at h1
      unfold prepareEnvLight at h1
      split at h1
      · split at h1
        · split at h1
          · cases h1; exact ⟨rfl, rfl, Nat.le_succ _⟩
          · cases h1
        · cases h1; exact KeepsReservoirs.keeps_refl _
      · split at h1
        · cases h1; exact ⟨rfl, rfl, le_refl _⟩
        · cases h1; exact KeepsReservoirs.keeps_refl _
    have e0 : KeepsReservoirs s
        (if scene.renderSettingsChanged = true then { s with mRecompile := true } else s) := by
      split
      · exact ⟨rfl, rfl, le_refl _⟩
      · exact KeepsReservoirs.keeps_refl _
    have m : KeepsReservoirs s1 (prepareEmissiveLights scene s1) := by
      unfold prepareEmissiveLights
      split_ifs
      · exact ⟨rfl, rfl, Nat.le_succ _⟩
      · exact KeepsReservoirs.keeps_refl _
      · exact KeepsReservoirs.keeps_refl _
      · exact ⟨rfl, rfl, le_refl _⟩
      · exact KeepsReservoirs.keeps_refl _
    have a : ∀ x, KeepsReservoirs x (prepareAnalyticLights scene x) := by
      intro x
      unfold prepareAnalyticLights
      simp only
      split_ifs <;> exact ⟨rfl, rfl, le_refl _⟩
    have l : ∀ x, KeepsReservoirs x (prepareLightSelection x) := fun x => ⟨rfl, rfl, le_refl _⟩
    exact (((e0.keeps_trans e).keeps_trans m).keeps_trans (a _)).keeps_trans (l _)

theorem updatePrograms_keepsReservoirs {s s' : ScreenSpaceReSTIR}
    (h : updatePrograms s = .ok s') : KeepsReservoirs s s' := by
  unfold updatePrograms at h
  split at h
  · cases h
    exact KeepsReservoirs.keeps_refl _
  · simp only [bind, Except.bind, pure, Except.pure] at h
    split at h
    · cases h
    · cases h
      exact ⟨rfl, rfl, le_refl _⟩

theorem KeepsOrSwapsReservoirs.swaps_refl (s : ScreenSpaceReSTIR) : KeepsOrSwapsReservoirs s s :=
  ⟨Or.inl ⟨rfl, rfl⟩, rfl⟩

theorem KeepsOrSwapsReservoirs.swaps_trans {a b c : ScreenSpaceReSTIR}
    (h1 : KeepsOrSwapsReservoirs a b) (h2 : KeepsOrSwapsReservoirs b c) :
    KeepsOrSwapsReservoirs a c := by
  obtain ⟨x, xn⟩ := h1
  obtain ⟨y, yn⟩ := h2
  refine ⟨?_, yn.trans xn⟩
  rcases x with ⟨x1, x2⟩ | ⟨x1, x2⟩ <;> rcases y with ⟨y1, y2⟩ | ⟨y1, y2⟩
  · exact Or.inl ⟨y1.trans x1, y2.trans x2⟩
  · exact Or.inr ⟨y1.trans x2, y2.trans x1⟩
  · exact Or.inr ⟨y1.trans x1, y2.trans x2⟩
  · exact Or.inl ⟨y1.trans x2, y2.trans x1⟩

/-- The spatial loop exchanges the reservoir pointers once per iteration and records only
spatial-resampling dispatches. -/
theorem spatialResamplingLoop_reservoirs (n : Nat) : ∀ s : ScreenSpaceReSTIR,
    KeepsOrSwapsReservoirs s (spatialResamplingLoop n s).1 ∧
    ∀ d ∈ (spatialResamplingLoop n s).2, ∃ f r p, d = Dispatch.spatialResampling f r p := by
  induction n with
  | zero =>
    intro s
    exact ⟨KeepsOrSwapsReservoirs.swaps_refl s, by intro d hd; cases hd⟩
  | succ n ih =>
    intro s
    simp only [spatialResamplingLoop]
    refine ⟨?_, ?_⟩
    · refine KeepsOrSwapsReservoirs.swaps_trans ?_ (ih _).1
      exact ⟨Or.inr ⟨rfl, rfl⟩, rfl⟩
    · intro d hd
      rcases List.mem_cons.mp hd with h | h
      · exact ⟨_, _, _, h⟩
      · exact (ih _).2 d h

/-- What `recordPasses` binds: the temporal pass reads the two reservoir pointers as they are
on entry, the initial pass writes the entry `mpReservoirs`, the final evaluation reads the
`mpReservoirs` of the exit state, and the exit pair is the entry pair, possibly exchanged. -/
theorem recordPasses_reservoirs (s : ScreenSpaceReSTIR) :
    KeepsOrSwapsReservoirs s (recordPasses s).1 ∧
    (∀ f r p, Dispatch.temporalResampling f r p ∈ (recordPasses s).2 →
      r = s.mpReservoirs ∧ p = s.mpPrevReservoirs) ∧
    (∀ f r, Dispatch.initialResampling f r ∈ (recordPasses s).2 → r = s.mpReservoirs) ∧
    (∀ e, Dispatch.evaluateFinalSamples e ∈ (recordPasses s).2 →
      e = (recordPasses s).1.mpReservoirs) ∧
    (s.mOptions.useReSTIRDI = true →
      Dispatch.evaluateFinalSamples (recordPasses s).1.mpReservoirs ∈ (recordPasses s).2) := by
  rw [recordPasses_eq]
  have h0 : (if s.mOptions.useReSTIRGI then reSTIRGIClearPass s else (s, [])).1 = s := by
    split <;> rfl
  have h0d : ∀ d ∈ (if s.mOptions.useReSTIRGI then reSTIRGIClearPass s else (s, [])).2,
      ∃ c, d = Dispatch.giClearReservoirs c := by
    intro d hd
    split at hd
    · simp only [reSTIRGIClearPass, List.mem_singleton] at hd
      exact ⟨_, hd⟩
    · cases hd
  have hem : ∀ x : ScreenSpaceReSTIR, ∀ d ∈ (updateEmissiveTriangles x).2,
      ∃ c, d = Dispatch.updateEmissiveTriangles c := by
    intro x d hd
    unfold updateEmissiveTriangles at hd
    split at hd
    · cases hd
    · split at hd
      · cases hd
      · simp only [List.mem_singleton] at hd
        exact ⟨_, hd⟩
  have htemp : ∀ x : ScreenSpaceReSTIR, KeepsOrSwapsReservoirs x (temporalResampling x).1 ∧
      ∀ d ∈ (temporalResampling x).2, ∃ f,
        d = Dispatch.temporalResampling f x.mpReservoirs x.mpPrevReservoirs := by
    intro x
    unfold temporalResampling
    split
    · exact ⟨⟨Or.inl ⟨rfl, rfl⟩, rfl⟩, by intro d hd; cases hd⟩
    · split
      · exact ⟨⟨Or.inl ⟨rfl, rfl⟩, rfl⟩, by intro d hd; cases hd⟩
      · refine ⟨⟨Or.inl ⟨rfl, rfl⟩, rfl⟩, ?_⟩
        intro d hd
        simp only [List.mem_singleton] at hd
        exact ⟨_, hd⟩
  have hspat : ∀ x : ScreenSpaceReSTIR, KeepsOrSwapsReservoirs x (spatialResampling x).1 ∧
      ∀ d ∈ (spatialResampling x).2, ∃ f r p, d = Dispatch.spatialResampling f r p := by
    intro x
    unfold spatialResampling
    split
    · exact ⟨KeepsOrSwapsReservoirs.swaps_refl x, by intro d hd; cases hd⟩
    · exact spatialResamplingLoop_reservoirs _ _
  split
  · simp only [h0, updateEmissiveTriangles_fst]
    have hE := hem s
    have hT := htemp (initialResampling (generateLightTiles s).1).1
    have hS := hspat (temporalResampling (initialResampling (generateLightTiles s).1).1).1
    have hk : KeepsOrSwapsReservoirs s
        (spatialResampling (temporalResampling (initialResampling
          (generateLightTiles s).1).1).1).1 := by
      refine KeepsOrSwapsReservoirs.swaps_trans ?_ hS.1
      refine KeepsOrSwapsReservoirs.swaps_trans ?_ hT.1
      exact ⟨Or.inl ⟨rfl, rfl⟩, rfl⟩
    refine ⟨hk, ?_, ?_, ?_, ?_⟩
    · intro f r p hd
      simp only [List.mem_append] at hd
      rcases hd with (((((hd | hd) | hd) | hd) | hd) | hd) | hd
      · obtain ⟨c, hc⟩ := h0d _ hd; cases hc
      · obtain ⟨c, hc⟩ := hE _ hd; cases hc
      · simp [generateLightTiles] at hd
      · simp [initialResampling] at hd
      · obtain ⟨c, hc⟩ := hT.2 _ hd
        cases hc
        exact ⟨rfl, rfl⟩
      · obtain ⟨c, r, p, hc⟩ := hS.2 _ hd; cases hc
      · simp [evaluateFinalSamples] at hd
    · intro f r hd
      simp only [List.mem_append] at hd
      rcases hd with (((((hd | hd) | hd) | hd) | hd) | hd) | hd
      · obtain ⟨c, hc⟩ := h0d _ hd; cases hc
      · obtain ⟨c, hc⟩ := hE _ hd; cases hc
      · simp [generateLightTiles] at hd
      · simp only [initialResampling, List.mem_singleton] at hd
        cases hd
        rfl
      · obtain ⟨c, hc⟩ := hT.2 _ hd; cases hc
      · obtain ⟨c, r, p, hc⟩ := hS.2 _ hd; cases hc
      · simp [evaluateFinalSamples] at hd
    · intro e hd
      simp only [List.mem_append] at hd
      rcases hd with (((((hd | hd) | hd) | hd) | hd) | hd) | hd
      · obtain ⟨c, hc⟩ := h0d _ hd; cases hc
      · obtain ⟨c, hc⟩ := hE _ hd; cases hc
      · simp [generateLightTiles] at hd
      · simp [initialResampling] at hd
      · obtain ⟨c, hc⟩ := hT.2 _ hd; cases hc
      · obtain ⟨c, r, p, hc⟩ := hS.2 _ hd; cases hc
      · simp only [evaluateFinalSamples, List.mem_singleton] at hd
        cases hd
        rfl
    · intro _
      simp only [List.mem_append]
      right
      simp [evaluateFinalSamples]
  · rename_i hDI
    rw [h0]
    refine ⟨KeepsOrSwapsReservoirs.swaps_refl s, ?_, ?_, ?_, ?_⟩
    · intro f r p hd
      obtain ⟨c, hc⟩ := h0d _ hd; cases hc
    · intro f r hd
      obtain ⟨c, hc⟩ := h0d _ hd; cases hc
    · intro e hd
      obtain ⟨c, hc⟩ := h0d _ hd; cases hc
    · intro h
      exact absurd h hDI

end ScreenSpaceReSTIR
theorem create_reservoirIdsValid (options : Options) (n i : Nat) :
    ReservoirIdsValid (ScreenSpaceReSTIR.create options n i) :=
  ⟨(by intro r hr; cases hr), (by intro r hr; cases hr), (by intro r p hr; cases hr)⟩

/-- One enabled frame, seen from the reservoir pair: both buffers exist after `beginFrame`, the
passes bind the pair of that moment, and `endFrame` hands the buffer read by the final
evaluation over as `mpPrevReservoirs`. -/
theorem runFrame_reservoirs {inp : FrameInput} {s s1 : ScreenSpaceReSTIR} {ds : List Dispatch}
    (hv : ReservoirIdsValid s) (hen : inp.options.enabled = true)
    (h : runFrame inp s = .ok (s1, ds)) :
    ReservoirIdsValid s1 ∧ s1.mpReservoirs.isSome = true ∧ s1.mpReservoirs ≠ s1.mpPrevReservoirs ∧
    (∀ e, Dispatch.evaluateFinalSamples e ∈ ds → e = s1.mpPrevReservoirs) ∧
    (inp.options.useReSTIRDI = true → Dispatch.evaluateFinalSamples s1.mpPrevReservoirs ∈ ds) ∧
    (∀ f r p, Dispatch.temporalResampling f r p ∈ ds →
      r = (frameStart inp s).mpReservoirs ∧ p = (frameStart inp s).mpPrevReservoirs) ∧
    (∀ f r, Dispatch.initialResampling f r ∈ ds → r = (frameStart inp s).mpReservoirs) := by
  unfold runFrame at h
  simp only [bind, Except.bind, pure, Except.pure] at h
  split at h
  · cases h
  · rename_i r hr
    cases h
    have hbe : (ScreenSpaceReSTIR.beginFrame { s with mOptions := inp.options }
        inp.frameDim).mOptions.enabled = true := by
      rw [(beginFrame_keeps _ _).1]; exact hen
    have hbo : (ScreenSpaceReSTIR.beginFrame { s with mOptions := inp.options }
        inp.frameDim).mOptions = inp.options := (beginFrame_keeps _ _).1
    have hvb : ReservoirIdsValid (frameStart inp s) ∧
        (frameStart inp s).mpReservoirs.isSome = true ∧
        (frameStart inp s).mpPrevReservoirs.isSome = true := by
      unfold frameStart ScreenSpaceReSTIR.beginFrame
      rw [if_pos hen]
      exact prepareResources_valid _ ⟨hv.1, hv.2.1, hv.2.2⟩
    obtain ⟨sP, sU, hP, hU, hR⟩ := updateReSTIRDI_ok_enabled _ hbe hr
    have kP := prepareLighting_keepsReservoirs hP
    have kU := updatePrograms_keepsReservoirs hU
    have kPU : KeepsReservoirs (frameStart inp s) sU :=
      KeepsReservoirs.keeps_trans (KeepsReservoirs.keeps_trans ⟨rfl, rfl, le_refl _⟩ kP) kU
    have vU : ReservoirIdsValid sU := hvb.1.of_keeps kPU
    have oU : sU.mOptions = inp.options := by
      rw [(updatePrograms_ok hU).1.1, (prepareLighting_ok hP).1.1]
      exact hbo
    obtain ⟨rK, rT, rI, rE, rX⟩ := recordPasses_reservoirs sU
    rw [← hR] at rK rT rI rE rX
    have vR : ReservoirIdsValid r.1 := vU.of_keepsOrSwaps rK
    have eR : r.1.mOptions.enabled = true := by
      rw [hR, (recordPasses_keeps sU).1, oU]; exact hen
    have hend1 : r.1.endFrame.mpReservoirs = r.1.mpPrevReservoirs := by
      unfold ScreenSpaceReSTIR.endFrame; rw [if_pos eR]
    have hend2 : r.1.endFrame.mpPrevReservoirs = r.1.mpReservoirs := by
      unfold ScreenSpaceReSTIR.endFrame; rw [if_pos eR]
    have hend3 : r.1.endFrame.nextResourceId = r.1.nextResourceId := by
      unfold ScreenSpaceReSTIR.endFrame; rw [if_pos eR]
    have vE : ReservoirIdsValid r.1.endFrame :=
      vR.of_keepsOrSwaps ⟨Or.inr ⟨hend1, hend2⟩, hend3⟩
    have sE : r.1.endFrame.mpReservoirs.isSome = true := by
      rw [hend1]
      rcases rK.1 with ⟨_, k2⟩ | ⟨k1, k2⟩
      · rw [k2, kPU.2.1]; exact hvb.2.2
      · rw [k2, kPU.1]; exact hvb.2.1
    refine ⟨vE, sE, vE.ne sE, ?_, ?_, ?_, ?_⟩
    · intro e he
      rw [hend2]
      exact rE e he
    · intro hDI
      rw [hend2]
      exact rX (by rw [oU]; exact hDI)
    · intro f a p hd
      obtain ⟨x1, x2⟩ := rT f a p hd
      exact ⟨x1.trans kPU.1, x2.trans kPU.2.1⟩
    · intro f a hd
      exact (rI f a hd).trans kPU.1

/-- Every frame, enabled or not, leaves the reservoir identities valid. -/
theorem runFrame_reservoirIdsValid {inp : FrameInput} {s s1 : ScreenSpaceReSTIR}
    {ds : List Dispatch} (hv : ReservoirIdsValid s) (h : runFrame inp s = .ok (s1, ds)) :
    ReservoirIdsValid s1 := by
  cases hen : inp.options.enabled with
  | true => exact (runFrame_reservoirs hv hen h).1
  | false =>
    simp [runFrame, ScreenSpaceReSTIR.beginFrame, ScreenSpaceReSTIR.updateReSTIRDI,
      ScreenSpaceReSTIR.endFrame, hen, bind, Except.bind, pure, Except.pure] at h
    obtain ⟨h1, -⟩ := h
    subst h1
    exact ⟨hv.1, hv.2.1, hv.2.2⟩

/-- C11. Two consecutive enabled frames f and f+1 of an instance whose reservoir buffers carry
valid identities (as on a new instance, and after every frame), the `beginFrame` of frame f+1
creating no reservoir buffer: the buffer every temporal-resampling dispatch of frame f+1 binds
as `prevReservoirs` is the buffer that `evaluateFinalSamples` read as `reservoirs` in frame f
(it is recorded there whenever frame f ran with `useReSTIRDI`), and it is a different object
from the buffer that `initialResampling` writes in frame f+1, for every value of
`spatialIterations` and of the other options of both frames. -/
theorem temporal_prevReservoirs_is_last_frame_output (inp1 inp2 : FrameInput)
    (s s1 s2 : ScreenSpaceReSTIR) (ds1 ds2 : List Dispatch)
    (hvalid : ReservoirIdsValid s)
    (hen1 : inp1.options.enabled = true) (hen2 : inp2.options.enabled = true)
    (hframe1 : runFrame inp1 s = .ok (s1, ds1))
    (hframe2 : runFrame inp2 s1 = .ok (s2, ds2))
    (hkeep : (frameStart inp2 s1).mpReservoirs = s1.mpReservoirs ∧
      (frameStart inp2 s1).mpPrevReservoirs = s1.mpPrevReservoirs) :
    ∀ f r p, Dispatch.temporalResampling f r p ∈ ds2 →
      (∀ e, Dispatch.evaluateFinalSamples e ∈ ds1 → e = p) ∧
      (inp1.options.useReSTIRDI = true → Dispatch.evaluateFinalSamples p ∈ ds1) ∧
      (∀ f' r', Dispatch.initialResampling f' r' ∈ ds2 → p ≠ r') := by
  intro f r p hd
  obtain ⟨v1, -, n1, e1, x1, -, -⟩ := runFrame_reservoirs hvalid hen1 hframe1
  obtain ⟨-, -, -, -, -, t2, i2⟩ := runFrame_reservoirs v1 hen2 hframe2
  obtain ⟨-, hp⟩ := t2 f r p hd
  rw [hkeep.2] at hp
  refine ⟨?_, ?_, ?_⟩
  · intro e he
    rw [hp]
    exact e1 e he
  · intro hDI
    rw [hp]
    exact x1 hDI
  · intro f' r' hi
    have hr := i2 f' r' hi
    rw [hkeep.1] at hr
    rw [hp, hr]
    exact fun e => n1 e.symm
/-- C11 on the first two frames of a new instance with two spatial iterations: the temporal
pass of the second frame reads buffer 3, which the final evaluation of the first frame read,
while the initial pass of the second frame writes buffer 4. -/
theorem temporal_prevReservoirs_is_last_frame_output_witness :
    Dispatch.temporalResampling 9 (some ⟨4, 1⟩) (some ⟨3, 1⟩) ∈
        (frameResult twoIterationsFrame
          (frameResult twoIterationsFrame (ScreenSpaceReSTIR.create {} 1 0)).1).2 ∧
      Dispatch.evaluateFinalSamples (some ⟨3, 1⟩) ∈
        (frameResult twoIterationsFrame (ScreenSpaceReSTIR.create {} 1 0)).2 ∧
      Dispatch.initialResampling 8 (some ⟨4, 1⟩) ∈
        (frameResult twoIterationsFrame
          (frameResult twoIterationsFrame (ScreenSpaceReSTIR.create {} 1 0)).1).2 ∧
      (some ⟨3, 1⟩ : Option Resource) ≠ some ⟨4, 1⟩ :=
  ⟨by decide,
   ((temporal_prevReservoirs_is_last_frame_output twoIterationsFrame twoIterationsFrame
      (ScreenSpaceReSTIR.create {} 1 0)
      (frameResult twoIterationsFrame (ScreenSpaceReSTIR.create {} 1 0)).1
      (frameResult twoIterationsFrame
        (frameResult twoIterationsFrame (ScreenSpaceReSTIR.create {} 1 0)).1).1
      (frameResult twoIterationsFrame (ScreenSpaceReSTIR.create {} 1 0)).2
      (frameResult twoIterationsFrame
        (frameResult twoIterationsFrame (ScreenSpaceReSTIR.create {} 1 0)).1).2
      (create_reservoirIdsValid {} 1 0) rfl rfl rfl rfl ⟨by decide, by decide⟩
      9 (some ⟨4, 1⟩) (some ⟨3, 1⟩) (by decide)).2.1 rfl),
   by decide,
   (temporal_prevReservoirs_is_last_frame_output twoIterationsFrame twoIterationsFrame
      (ScreenSpaceReSTIR.create {} 1 0)
      (frameResult twoIterationsFrame (ScreenSpaceReSTIR.create {} 1 0)).1
      (frameResult twoIterationsFrame
        (frameResult twoIterationsFrame (ScreenSpaceReSTIR.create {} 1 0)).1).1
      (frameResult twoIterationsFrame (ScreenSpaceReSTIR.create {} 1 0)).2
      (frameResult twoIterationsFrame
        (frameResult twoIterationsFrame (ScreenSpaceReSTIR.create {} 1 0)).1).2
      (create_reservoirIdsValid {} 1 0) rfl rfl rfl rfl ⟨by decide, by decide⟩
      9 (some ⟨4, 1⟩) (some ⟨3, 1⟩) (by decide)).2.2 8 (some ⟨4, 1⟩) (by decide)⟩
/-! ## Normal/depth textures: C12 -/

/-- C12, counterexample. On the enabled instance that `beginFrame` has just given its buffers
for a first 4x2 frame, the two normal/depth textures are different objects and `endFrame` leaves both
pointers where they are: the current one is not the former previous one, although the
surface-data buffers have been exchanged. -/
theorem endFrame_does_not_swap_normal_depth :
    (firstFrameInstance {}).mOptions.enabled = true ∧
    (firstFrameInstance {}).endFrame.mpNormalDepthTexture ≠
      (firstFrameInstance {}).mpPrevNormalDepthTexture ∧
    (firstFrameInstance {}).endFrame.mpNormalDepthTexture =
      (firstFrameInstance {}).mpNormalDepthTexture ∧
    (firstFrameInstance {}).endFrame.mpSurfaceData =
      (firstFrameInstance {}).mpPrevSurfaceData ∧
    (firstFrameInstance {}).mpSurfaceData ≠
      (firstFrameInstance {}).mpPrevSurfaceData := by
  decide

/-- C12, amended. `endFrame` on an enabled instance exchanges the surface-data buffers and the
reservoir buffers and leaves both normal/depth texture pointers unchanged; the previous
normal/depth texture is refreshed by a copy instead: `updateReSTIRGI`, with `useReSTIRGI`,
records its dispatch followed by a blit of the current normal/depth texture into the previous
one, and changes no pointer; without `useReSTIRGI` it records nothing. -/
theorem endFrame_keeps_normal_depth_and_gi_update_copies (s : ScreenSpaceReSTIR)
    (henabled : s.mOptions.enabled = true) :
    s.endFrame.mpNormalDepthTexture = s.mpNormalDepthTexture ∧
    s.endFrame.mpPrevNormalDepthTexture = s.mpPrevNormalDepthTexture ∧
    s.endFrame.mpSurfaceData = s.mpPrevSurfaceData ∧
    s.endFrame.mpPrevSurfaceData = s.mpSurfaceData ∧
    s.endFrame.mpReservoirs = s.mpPrevReservoirs ∧
    s.endFrame.mpPrevReservoirs = s.mpReservoirs ∧
    s.updateReSTIRGI.1 = s ∧
    (s.mOptions.useReSTIRGI = true →
      ∃ g, s.updateReSTIRGI.2 =
        [g, GIRecord.blit s.mpNormalDepthTexture s.mpPrevNormalDepthTexture]) ∧
    (s.mOptions.useReSTIRGI = false → s.updateReSTIRGI.2 = []) := by
  unfold ScreenSpaceReSTIR.endFrame ScreenSpaceReSTIR.updateReSTIRGI
  rw [if_pos henabled]
  refine ⟨rfl, rfl, rfl, rfl, rfl, rfl, ?_, ?_, ?_⟩
  · cases s.mOptions.useReSTIRGI <;> simp [henabled]
  · intro h
    simp [h, henabled]
  · intro h
    simp [h]

/-- C12, amended, on the instance of the counterexample with `useReSTIRGI` switched on. -/
theorem endFrame_keeps_normal_depth_and_gi_update_copies_witness :
    (firstFrameInstance { useReSTIRGI := true }).endFrame.mpPrevNormalDepthTexture =
        (firstFrameInstance { useReSTIRGI := true }).mpPrevNormalDepthTexture ∧
      (firstFrameInstance { useReSTIRGI := true }).updateReSTIRGI.2 =
        [GIRecord.giResampling 0 (some (⟨9, 8⟩, 4, 2)) (some (⟨10, 8⟩, 4, 2))
           (some ⟨7, 16⟩) (some ⟨8, 16⟩),
         GIRecord.blit (some (⟨9, 8⟩, 4, 2)) (some (⟨10, 8⟩, 4, 2))] :=
  ⟨(endFrame_keeps_normal_depth_and_gi_update_copies
    (firstFrameInstance { useReSTIRGI := true }) (by decide)).2.1, by decide⟩
/-! ## Env-only light tiles: C19 -/

theorem Appends.appends_refl (ctx : RenderContext) : Appends ctx ctx [] :=
  ⟨(List.append_nil _).symm, rfl⟩

theorem Appends.appends_trans {a b c : RenderContext} {x y : List ContextCommand}
    (h1 : Appends a b x) (h2 : Appends b c y) : Appends a c (x ++ y) :=
  ⟨by rw [h2.1, h1.1, List.append_assoc], h2.2.trans h1.2⟩

namespace RenderContext

theorem record_appends (ctx : RenderContext) (c : ContextCommand) :
    Appends ctx (ctx.record c) [c] := ⟨rfl, rfl⟩

theorem resourceBarrier_appends (ctx : RenderContext) (r : Nat) (st : ResourceState) :
    Appends ctx (ctx.resourceBarrier r st) [.resourceBarrier r st] := ⟨rfl, rfl⟩

theorem vertexBufferBarriers_appends (l : List (Option Nat)) : ∀ ctx : RenderContext,
    ∃ cs, Appends ctx (vertexBufferBarriers l ctx) cs ∧
      ∀ b, some b ∈ l → ContextCommand.resourceBarrier b .VertexBuffer ∈ cs := by
  induction l with
  | nil =>
    intro ctx
    exact ⟨[], Appends.appends_refl ctx, by intro b hb; cases hb⟩
  | cons a rest ih =>
    intro ctx
    cases a with
    | none =>
      obtain ⟨cs, h1, h2⟩ := ih ctx
      refine ⟨cs, h1, ?_⟩
      intro b hb
      rcases List.mem_cons.mp hb with h | h
      · cases h
      · exact h2 b h
    | some pVB =>
      obtain ⟨cs, h1, h2⟩ := ih (ctx.resourceBarrier pVB .VertexBuffer)
      refine ⟨[ContextCommand.resourceBarrier pVB .VertexBuffer] ++ cs,
        (resourceBarrier_appends ctx pVB .VertexBuffer).appends_trans h1, ?_⟩
      intro b hb
      rcases List.mem_cons.mp hb with h | h
      · cases h
        simp
      · exact List.mem_append_right _ (h2 b h)

theorem colorTargetBarriers_appends (l : List (Option Nat)) : ∀ ctx : RenderContext,
    ∃ cs, Appends ctx (colorTargetBarriers l ctx) cs ∧
      ∀ t, some t ∈ l → ContextCommand.resourceBarrier t .RenderTarget ∈ cs := by
  induction l with
  | nil =>
    intro ctx
    exact ⟨[], Appends.appends_refl ctx, by intro b hb; cases hb⟩
  | cons a rest ih =>
    intro ctx
    cases a with
    | none =>
      obtain ⟨cs, h1, h2⟩ := ih ctx
      refine ⟨cs, h1, ?_⟩
      intro b hb
      rcases List.mem_cons.mp hb with h | h
      · cases h
      · exact h2 b h
    | some pTexture =>
      obtain ⟨cs, h1, h2⟩ := ih (ctx.resourceBarrier pTexture .RenderTarget)
      refine ⟨[ContextCommand.resourceBarrier pTexture .RenderTarget] ++ cs,
        (resourceBarrier_appends ctx pTexture .RenderTarget).appends_trans h1, ?_⟩
      intro b hb
      rcases List.mem_cons.mp hb with h | h
      · cases h
        simp
      · exact List.mem_append_right _ (h2 b h)

/-- `D3D12SetVao` on a Vao requests the transition of every non-null vertex buffer and of the
index buffer. -/
theorem D3D12SetVao_appends (ctx : RenderContext) (vao : Vao) :
    ∃ cs, Appends ctx (D3D12SetVao ctx (some vao)) cs ∧
      (∀ b, some b ∈ vao.vertexBuffers → ContextCommand.resourceBarrier b .VertexBuffer ∈ cs) ∧
      (∀ b, vao.indexBuffer = some b → ContextCommand.resourceBarrier b .IndexBuffer ∈ cs) := by
  obtain ⟨c1, a1, m1⟩ := vertexBufferBarriers_appends vao.vertexBuffers ctx
  unfold D3D12SetVao
  simp only
  cases hib : vao.indexBuffer with
  | none =>
    refine ⟨c1 ++ [ContextCommand.iaSetVertexBuffers vao.vertexBuffers]
        ++ [ContextCommand.iaSetIndexBuffer none],
      (a1.appends_trans (record_appends _ _)).appends_trans (record_appends _ _), ?_, ?_⟩
    · intro b hb
      exact List.mem_append_left _ (List.mem_append_left _ (m1 b hb))
    · intro b hb
      cases hb
  | some pIB =>
    refine ⟨c1 ++ [ContextCommand.resourceBarrier pIB .IndexBuffer]
        ++ [ContextCommand.iaSetVertexBuffers vao.vertexBuffers]
        ++ [ContextCommand.iaSetIndexBuffer (some pIB)],
      ((a1.appends_trans (resourceBarrier_appends _ _ _)).appends_trans (record_appends _ _)).appends_trans
        (record_appends _ _), ?_, ?_⟩
    · intro b hb
      simp only [List.mem_append]
      exact Or.inl (Or.inl (Or.inl (m1 b hb)))
    · intro b hb
      cases hb
      simp

/-- `D3D12SetFbo` on an Fbo requests the transition of every attached colour texture and of
the depth-stencil texture. -/
theorem D3D12SetFbo_appends (ctx : RenderContext) (pFbo : Option Fbo) :
    ∃ cs, Appends ctx (D3D12SetFbo ctx pFbo) cs ∧
      ∀ fbo, pFbo = some fbo →
        (∀ t, some t ∈ fbo.colorTextures →
          ContextCommand.resourceBarrier t .RenderTarget ∈ cs) ∧
        (∀ t, fbo.depthStencilTexture = some t →
          ContextCommand.resourceBarrier t .DepthStencil ∈ cs) := by
  cases pFbo with
  | none =>
    exact ⟨_, record_appends _ _, by intro fbo h; cases h⟩
  | some fbo =>
    obtain ⟨c1, a1, m1⟩ := colorTargetBarriers_appends fbo.colorTextures ctx
    unfold D3D12SetFbo
    simp only
    cases hds : fbo.depthStencilTexture with
    | none =>
      refine ⟨c1 ++ [ContextCommand.omSetRenderTargets fbo.colorTextures none],
        a1.appends_trans (record_appends _ _), ?_⟩
      intro f hf
      cases hf
      refine ⟨?_, ?_⟩
      · intro t ht
        exact List.mem_append_left _ (m1 t ht)
      · intro t ht
        rw [hds] at ht
        cases ht
    | some pTexture =>
      refine ⟨c1 ++ [ContextCommand.resourceBarrier pTexture .DepthStencil]
          ++ [ContextCommand.omSetRenderTargets fbo.colorTextures (some pTexture)],
        (a1.appends_trans (resourceBarrier_appends _ _ _)).appends_trans (record_appends _ _), ?_⟩
      intro f hf
      cases hf
      refine ⟨?_, ?_⟩
      · intro t ht
        exact List.mem_append_left _ (List.mem_append_left _ (m1 t ht))
      · intro t ht
        rw [hds] at ht
        cases ht
        simp

theorem D3D12SetSamplePositions_appends (featureSupported : Bool) (ctx : RenderContext)
    (pFbo : Option Fbo) :
    ∃ cs, Appends ctx (D3D12SetSamplePositions featureSupported ctx pFbo) cs := by
  unfold D3D12SetSamplePositions
  split
  · exact ⟨_, Appends.appends_refl _⟩
  · split
    · split
      · exact ⟨_, record_appends _ _⟩
      · exact ⟨_, record_appends _ _⟩
    · exact ⟨_, Appends.appends_refl _⟩

/-- The statements of `prepareForDraw` under the bind flags: with the `Vao` flag the vertex
and index buffers are transitioned, with the `Fbo` flag the attached textures. -/
theorem bindFlagged_appends (featureSupported : Bool) (ctx : RenderContext)
    (pState : GraphicsState) :
    ∃ cs, Appends ctx (bindFlagged featureSupported ctx pState) cs ∧
      (ctx.mBindFlags.vao = true →
        (∀ b, some b ∈ pState.vao.vertexBuffers →
          ContextCommand.resourceBarrier b .VertexBuffer ∈ cs) ∧
        (∀ b, pState.vao.indexBuffer = some b →
          ContextCommand.resourceBarrier b .IndexBuffer ∈ cs)) ∧
      (ctx.mBindFlags.fbo = true → ∀ fbo, pState.fbo = some fbo →
        (∀ t, some t ∈ fbo.colorTextures →
          ContextCommand.resourceBarrier t .RenderTarget ∈ cs) ∧
        (∀ t, fbo.depthStencilTexture = some t →
          ContextCommand.resourceBarrier t .DepthStencil ∈ cs)) := by
  unfold bindFlagged
  have h1 : ∃ cs, Appends ctx (bindTopology ctx pState) cs := by
    unfold bindTopology
    split
    · exact ⟨_, record_appends _ _⟩
    · exact ⟨_, Appends.appends_refl _⟩
  obtain ⟨c1, a1⟩ := h1
  have h2 : ∃ cs, Appends (bindTopology ctx pState) (bindVao (bindTopology ctx pState) pState) cs ∧
      (ctx.mBindFlags.vao = true →
        (∀ b, some b ∈ pState.vao.vertexBuffers →
          ContextCommand.resourceBarrier b .VertexBuffer ∈ cs) ∧
        (∀ b, pState.vao.indexBuffer = some b →
          ContextCommand.resourceBarrier b .IndexBuffer ∈ cs)) := by
    unfold bindVao
    rw [a1.2]
    split
    · obtain ⟨cs, a, m1, m2⟩ := D3D12SetVao_appends (bindTopology ctx pState) pState.vao
      exact ⟨cs, a, fun _ => ⟨m1, m2⟩⟩
    · rename_i hf
      exact ⟨_, Appends.appends_refl _, fun h => absurd h hf⟩
  obtain ⟨c2, a2, m2⟩ := h2
  generalize bindVao (bindTopology ctx pState) pState = x2 at a2 ⊢
  have a12 := a1.appends_trans a2
  have h3 : ∃ cs, Appends x2 (bindFbo x2 pState) cs ∧
      (ctx.mBindFlags.fbo = true → ∀ fbo, pState.fbo = some fbo →
        (∀ t, some t ∈ fbo.colorTextures →
          ContextCommand.resourceBarrier t .RenderTarget ∈ cs) ∧
        (∀ t, fbo.depthStencilTexture = some t →
          ContextCommand.resourceBarrier t .DepthStencil ∈ cs)) := by
    unfold bindFbo
    rw [a12.2]
    split
    · obtain ⟨cs, a, m⟩ := D3D12SetFbo_appends x2 pState.fbo
      exact ⟨cs, a, fun _ => m⟩
    · rename_i hf
      exact ⟨_, Appends.appends_refl _, fun h => absurd h hf⟩
  obtain ⟨c3, a3, m3⟩ := h3
  have h4 : ∀ x : RenderContext, ∃ cs,
      Appends x (bindSamplePositions featureSupported x pState) cs := by
    intro x
    unfold bindSamplePositions
    split
    · exact D3D12SetSamplePositions_appends _ _ _
    · exact ⟨_, Appends.appends_refl _⟩
  have h5 : ∀ x : RenderContext, ∃ cs, Appends x (bindViewports x pState) cs := by
    intro x
    unfold bindViewports
    split
    · exact ⟨_, record_appends _ _⟩
    · exact ⟨_, Appends.appends_refl _⟩
  have h6 : ∀ x : RenderContext, ∃ cs, Appends x (bindScissors x pState) cs := by
    intro x
    unfold bindScissors
    split
    · exact ⟨_, record_appends _ _⟩
    · exact ⟨_, Appends.appends_refl _⟩
  have h7 : ∀ x : RenderContext, ∃ cs, Appends x (bindPipelineState x pState) cs := by
    intro x
    unfold bindPipelineState
    split
    · exact ⟨_, record_appends _ _⟩
    · exact ⟨_, Appends.appends_refl _⟩
  obtain ⟨c4, a4⟩ := h4 (bindFbo x2 pState)
  obtain ⟨c5, a5⟩ := h5 (bindSamplePositions featureSupported (bindFbo x2 pState) pState)
  obtain ⟨c6, a6⟩ := h6 (bindViewports
    (bindSamplePositions featureSupported (bindFbo x2 pState) pState) pState)
  obtain ⟨c7, a7⟩ := h7 (bindScissors (bindViewports
    (bindSamplePositions featureSupported (bindFbo x2 pState) pState) pState) pState)
  refine ⟨c1 ++ c2 ++ c3 ++ c4 ++ c5 ++ c6 ++ c7,
    (((((a12.appends_trans a3).appends_trans a4).appends_trans a5).appends_trans a6).appends_trans a7), ?_, ?_⟩
  · intro hf
    obtain ⟨x, y⟩ := m2 hf
    refine ⟨?_, ?_⟩
    · intro b hb
      have := x b hb
      simp only [List.mem_append]
      tauto
    · intro b hb
      have := y b hb
      simp only [List.mem_append]
      tauto
  · intro hf fbo hfbo
    obtain ⟨x, y⟩ := m3 hf fbo hfbo
    refine ⟨?_, ?_⟩
    · intro b hb
      have := x b hb
      simp only [List.mem_append]
      tauto
    · intro b hb
      have := y b hb
      simp only [List.mem_append]
      tauto

theorem bindBlendStencil_appends (ctx : RenderContext) (pState : GraphicsState) :
    (∃ cs, Appends ctx (bindBlendStencil ctx pState) cs) ∧
      (bindBlendStencil ctx pState).mCommandsPending = true ∧
      (bindBlendStencil ctx pState).mpLastBoundGraphicsVars = ctx.mpLastBoundGraphicsVars := by
  unfold bindBlendStencil
  cases pState.blendFactor with
  | none => exact ⟨⟨_, record_appends _ _⟩, rfl, rfl⟩
  | some f =>
    exact ⟨⟨_, (record_appends _ _).appends_trans (record_appends _ _)⟩, rfl, rfl⟩

end RenderContext
namespace RenderContext

theorem applyVars_false_iff (applyGraphicsVars : RenderContext → Nat → Nat → RenderContext × Bool)
    (ctx : RenderContext) (pState : GraphicsState) (pVars : Option Nat) :
    (applyVars applyGraphicsVars ctx pState pVars).2 = false ↔
      ctx.mBindFlags.vars = true ∧
        ∃ vars, pVars = some vars ∧ (applyGraphicsVars ctx vars pState.gso).2 = false := by
  unfold applyVars
  cases hf : ctx.mBindFlags.vars with
  | false => simp
  | true =>
    cases pVars with
    | none => simp
    | some vars =>
      cases hr : (applyGraphicsVars ctx vars pState.gso).2 <;> simp [hr]

theorem applyVars_of_false (applyGraphicsVars : RenderContext → Nat → Nat → RenderContext × Bool)
    (ctx : RenderContext) (pState : GraphicsState) (vars : Nat)
    (hflag : ctx.mBindFlags.vars = true)
    (hfail : (applyGraphicsVars ctx vars pState.gso).2 = false) :
    applyVars applyGraphicsVars ctx pState (some vars) =
      ((applyGraphicsVars ctx vars pState.gso).1, false) := by
  unfold applyVars
  simp [hflag, hfail]

theorem prepareForDraw_snd (applyGraphicsVars : RenderContext → Nat → Nat → RenderContext × Bool)
    (featureSupported : Bool) (ctx : RenderContext) (pState : GraphicsState)
    (pVars : Option Nat) :
    (prepareForDraw applyGraphicsVars featureSupported ctx pState pVars).2 =
      (applyVars applyGraphicsVars ctx pState pVars).2 := by
  unfold prepareForDraw
  cases h : (applyVars applyGraphicsVars ctx pState pVars).2 <;> simp [h]

theorem prepareForDraw_of_true (applyGraphicsVars : RenderContext → Nat → Nat → RenderContext × Bool)
    (featureSupported : Bool) (ctx : RenderContext) (pState : GraphicsState)
    (pVars : Option Nat)
    (h : (prepareForDraw applyGraphicsVars featureSupported ctx pState pVars).2 = true) :
    (prepareForDraw applyGraphicsVars featureSupported ctx pState pVars).1 =
      bindBlendStencil (bindFlagged featureSupported
        (applyVars applyGraphicsVars ctx pState pVars).1 pState) pState := by
  rw [prepareForDraw_snd] at h
  unfold prepareForDraw
  simp [h]

theorem prepareForDraw_of_false (applyGraphicsVars : RenderContext → Nat → Nat → RenderContext × Bool)
    (featureSupported : Bool) (ctx : RenderContext) (pState : GraphicsState)
    (pVars : Option Nat)
    (h : (prepareForDraw applyGraphicsVars featureSupported ctx pState pVars).2 = false) :
    (prepareForDraw applyGraphicsVars featureSupported ctx pState pVars).1 =
      (applyVars applyGraphicsVars ctx pState pVars).1 := by
  rw [prepareForDraw_snd] at h
  unfold prepareForDraw
  simp [h]

/-- A draw entry point whose `prepareForDraw` fails leaves the context as `prepareForDraw`
left it. -/
theorem run_of_false (applyGraphicsVars : RenderContext → Nat → Nat → RenderContext × Bool)
    (featureSupported : Bool) (ctx : RenderContext) (pState : GraphicsState)
    (pVars : Option Nat) (c : DrawCall)
    (h : (prepareForDraw applyGraphicsVars featureSupported ctx pState pVars).2 = false) :
    c.run applyGraphicsVars featureSupported ctx pState pVars =
      (prepareForDraw applyGraphicsVars featureSupported ctx pState pVars).1 := by
  cases c <;>
    simp [DrawCall.run, draw, drawInstanced, drawIndexed, drawIndexedInstanced, drawIndirect,
      drawIndexedIndirect, h]

theorem drawIndirectCommon_appends (ctx : RenderContext) (indexed : Bool)
    (n a o : Nat) (cb : Option Nat) (co : Nat) :
    ∃ cs, (drawIndirectCommon ctx indexed n a o cb co).commandList =
        ctx.commandList ++ cs ++ [ContextCommand.executeIndirect indexed n a o cb co] ∧
      ContextCommand.resourceBarrier a .IndirectArg ∈ cs ∧
      ∀ k, cb = some k → k ≠ a → ContextCommand.resourceBarrier k .IndirectArg ∈ cs := by
  unfold drawIndirectCommon
  cases cb with
  | none =>
    refine ⟨[ContextCommand.resourceBarrier a .IndirectArg], ?_, by simp, ?_⟩
    · simp [record, resourceBarrier]
    · intro k hk; cases hk
  | some k =>
    by_cases hk : k = a
    · refine ⟨[ContextCommand.resourceBarrier a .IndirectArg], ?_, by simp, ?_⟩
      · simp [record, resourceBarrier, hk]
      · intro k' hk' hne
        cases hk'
        exact absurd hk hne
    · refine ⟨[ContextCommand.resourceBarrier a .IndirectArg,
          ContextCommand.resourceBarrier k .IndirectArg], ?_, by simp, ?_⟩
      · simp [record, resourceBarrier, hk]
      · intro k' hk' _
        cases hk'
        simp

/-- A draw entry point whose `prepareForDraw` succeeds records, after the commands of
`prepareForDraw`, at most the transitions of the indirect buffers and then its draw command. -/
theorem run_of_true (applyGraphicsVars : RenderContext → Nat → Nat → RenderContext × Bool)
    (featureSupported : Bool) (ctx : RenderContext) (pState : GraphicsState)
    (pVars : Option Nat) (c : DrawCall)
    (h : (prepareForDraw applyGraphicsVars featureSupported ctx pState pVars).2 = true) :
    ∃ cs, (c.run applyGraphicsVars featureSupported ctx pState pVars).commandList =
        (prepareForDraw applyGraphicsVars featureSupported ctx pState pVars).1.commandList
          ++ cs ++ [c.command] ∧
      ∀ n a o cb co, (c = .drawIndirect n a o cb co ∨ c = .drawIndexedIndirect n a o cb co) →
        ContextCommand.resourceBarrier a .IndirectArg ∈ cs ∧
        ∀ k, cb = some k → k ≠ a → ContextCommand.resourceBarrier k .IndirectArg ∈ cs := by
  cases c with
  | draw a b =>
    refine ⟨[], ?_, ?_⟩
    · simp [DrawCall.run, draw, drawInstanced, h, record, DrawCall.command]
    · intro n a o cb co hc
      rcases hc with hc | hc <;> cases hc
  | drawInstanced a b c d =>
    refine ⟨[], ?_, ?_⟩
    · simp [DrawCall.run, drawInstanced, h, record, DrawCall.command]
    · intro n a o cb co hc
      rcases hc with hc | hc <;> cases hc
  | drawIndexed a b c =>
    refine ⟨[], ?_, ?_⟩
    · simp [DrawCall.run, drawIndexed, drawIndexedInstanced, h, record, DrawCall.command]
    · intro n a o cb co hc
      rcases hc with hc | hc <;> cases hc
  | drawIndexedInstanced a b c d e =>
    refine ⟨[], ?_, ?_⟩
    · simp [DrawCall.run, drawIndexedInstanced, h, record, DrawCall.command]
    · intro n a o cb co hc
      rcases hc with hc | hc <;> cases hc
  | drawIndirect n a o cb co =>
    obtain ⟨cs, h1, h2, h3⟩ := drawIndirectCommon_appends
      (prepareForDraw applyGraphicsVars featureSupported ctx pState pVars).1 false n a o cb co
    refine ⟨cs, ?_, ?_⟩
    · simp only [DrawCall.run, drawIndirect, h, DrawCall.command]
      exact h1
    · intro n' a' o' cb' co' hc
      rcases hc with hc | hc <;> cases hc
      exact ⟨h2, h3⟩
  | drawIndexedIndirect n a o cb co =>
    obtain ⟨cs, h1, h2, h3⟩ := drawIndirectCommon_appends
      (prepareForDraw applyGraphicsVars featureSupported ctx pState pVars).1 true n a o cb co
    refine ⟨cs, ?_, ?_⟩
    · simp only [DrawCall.run, drawIndexedIndirect, h, DrawCall.command]
      exact h1
    · intro n' a' o' cb' co' hc
      rcases hc with hc | hc <;> cases hc
      exact ⟨h2, h3⟩

end RenderContext
theorem RenderContext.resolveLoop_commandList (pSrc pDst : Texture) (n : Nat) :
    ∀ (s : Nat) (ctx : RenderContext),
      (RenderContext.resolveLoop pSrc pDst n s ctx).commandList =
        ctx.commandList ++ (List.range' s n).map
          (fun k => ContextCommand.resolveSubresource pDst.id k pSrc.id k) := by
  induction n with
  | zero => intro s ctx; simp [RenderContext.resolveLoop]
  | succ n ih =>
    intro s ctx
    simp only [RenderContext.resolveLoop]
    rw [ih]
    simp [RenderContext.resolveSubresource, RenderContext.record, List.range'_succ]

/-- C13. The direct call `resolveSubresource(pSrc, i, pDst, j)` appends the
`ResolveSubresource` command and nothing else: on a new command list that command is the only
entry, so no transition of the source to `ResolveSource` or of the destination to `ResolveDest`
precedes it.  The sibling `resolveResource` does record both transitions before its
`ResolveSubresource` commands. -/
theorem resolveSubresource_direct_call_records_no_transition (ctx : RenderContext)
    (pSrc pDst : Texture) (i j : Nat) :
    (ctx.resolveSubresource pSrc i pDst j).commandList =
      ctx.commandList ++ [ContextCommand.resolveSubresource pDst.id j pSrc.id i] ∧
    (RenderContext.resolveSubresource {} pSrc i pDst j).commandList =
      [ContextCommand.resolveSubresource pDst.id j pSrc.id i] ∧
    ContextCommand.resourceBarrier pSrc.id .ResolveSource ∉
      (RenderContext.resolveSubresource {} pSrc i pDst j).commandList ∧
    ContextCommand.resourceBarrier pDst.id .ResolveDest ∉
      (RenderContext.resolveSubresource {} pSrc i pDst j).commandList ∧
    (ctx.resolveResource pSrc pDst).commandList =
      ctx.commandList ++
        [ContextCommand.resourceBarrier pSrc.id .ResolveSource,
         ContextCommand.resourceBarrier pDst.id .ResolveDest] ++
        (List.range' 0 (mulU32 pSrc.mipCount pSrc.arraySize)).map
          (fun k => ContextCommand.resolveSubresource pDst.id k pSrc.id k) := by
  refine ⟨rfl, rfl, ?_, ?_, ?_⟩
  · simp [RenderContext.resolveSubresource, RenderContext.record]
  · simp [RenderContext.resolveSubresource, RenderContext.record]
  · unfold RenderContext.resolveResource
    simp only
    rw [RenderContext.resolveLoop_commandList]
    simp [RenderContext.resourceBarrier, RenderContext.record]

/-- C14. A draw entry point whose `prepareForDraw` succeeds ends the command list with its draw
command, and between the commands of the variable binding and that draw command it has
recorded: for `drawIndirect` and `drawIndexedIndirect`, the transition of the argument buffer to
`IndirectArg` and of a count buffer that is non-null and not the argument buffer; with the `Vao`
bind flag, the transition of every non-null vertex buffer to `VertexBuffer` and of the index
buffer to `IndexBuffer`; with the `Fbo` bind flag, the transition of every attached colour
texture to `RenderTarget` and of the depth-stencil texture to `DepthStencil`.  (The flags are
those `prepareForDraw` reads, after the variables were applied.) -/
theorem draw_transitions_precede_draw_command
    (applyGraphicsVars : RenderContext → Nat → Nat → RenderContext × Bool)
    (featureSupported : Bool) (ctx : RenderContext) (pState : GraphicsState)
    (pVars : Option Nat) (c : DrawCall)
    (hok : (ctx.prepareForDraw applyGraphicsVars featureSupported pState pVars).2 = true) :
    ∃ body, (c.run applyGraphicsVars featureSupported ctx pState pVars).commandList =
        (ctx.applyVars applyGraphicsVars pState pVars).1.commandList ++ body ++ [c.command] ∧
      (∀ n a o cb co, (c = .drawIndirect n a o cb co ∨ c = .drawIndexedIndirect n a o cb co) →
        ContextCommand.resourceBarrier a .IndirectArg ∈ body ∧
        ∀ k, cb = some k → k ≠ a → ContextCommand.resourceBarrier k .IndirectArg ∈ body) ∧
      ((ctx.applyVars applyGraphicsVars pState pVars).1.mBindFlags.vao = true →
        (∀ b, some b ∈ pState.vao.vertexBuffers →
          ContextCommand.resourceBarrier b .VertexBuffer ∈ body) ∧
        (∀ b, pState.vao.indexBuffer = some b →
          ContextCommand.resourceBarrier b .IndexBuffer ∈ body)) ∧
      ((ctx.applyVars applyGraphicsVars pState pVars).1.mBindFlags.fbo = true →
        ∀ fbo, pState.fbo = some fbo →
          (∀ t, some t ∈ fbo.colorTextures →
            ContextCommand.resourceBarrier t .RenderTarget ∈ body) ∧
          (∀ t, fbo.depthStencilTexture = some t →
            ContextCommand.resourceBarrier t .DepthStencil ∈ body)) := by
  obtain ⟨cs, hrun, hind⟩ :=
    RenderContext.run_of_true applyGraphicsVars featureSupported ctx pState pVars c hok
  rw [RenderContext.prepareForDraw_of_true _ _ _ _ _ hok] at hrun
  obtain ⟨c1, a1, mv, mf⟩ := RenderContext.bindFlagged_appends featureSupported
    (ctx.applyVars applyGraphicsVars pState pVars).1 pState
  obtain ⟨⟨c2, a2⟩, -, -⟩ := RenderContext.bindBlendStencil_appends
    (RenderContext.bindFlagged featureSupported
      (ctx.applyVars applyGraphicsVars pState pVars).1 pState) pState
  have a12 := a1.appends_trans a2
  refine ⟨c1 ++ c2 ++ cs, ?_, ?_, ?_, ?_⟩
  · rw [hrun, a12.1]
    simp only [List.append_assoc]
  · intro n a o cb co hc
    obtain ⟨x, y⟩ := hind n a o cb co hc
    exact ⟨List.mem_append_right _ x, fun k hk hne => List.mem_append_right _ (y k hk hne)⟩
  · intro hf
    obtain ⟨x, y⟩ := mv hf
    exact ⟨fun b hb => List.mem_append_left _ (List.mem_append_left _ (x b hb)),
      fun b hb => List.mem_append_left _ (List.mem_append_left _ (y b hb))⟩
  · intro hf fbo hfbo
    obtain ⟨x, y⟩ := mf hf fbo hfbo
    exact ⟨fun b hb => List.mem_append_left _ (List.mem_append_left _ (x b hb)),
      fun b hb => List.mem_append_left _ (List.mem_append_left _ (y b hb))⟩

/-- C14 on `drawIndexedIndirect` with argument buffer 6 and count buffer 7, all bind flags
set: the command list from start to draw command. -/
theorem draw_transitions_precede_draw_command_witness :
    ((DrawCall.drawIndexedIndirect 10 6 0 (some 7) 0).run applyGraphicsVarsOk true {}
        exampleGraphicsState (some 0)).commandList =
      [ContextCommand.iaSetPrimitiveTopology 0,
       ContextCommand.resourceBarrier 1 .VertexBuffer,
       ContextCommand.resourceBarrier 2 .VertexBuffer,
       ContextCommand.resourceBarrier 3 .IndexBuffer,
       ContextCommand.iaSetVertexBuffers [some 1, none, some 2],
       ContextCommand.iaSetIndexBuffer (some 3),
       ContextCommand.resourceBarrier 4 .RenderTarget,
       ContextCommand.resourceBarrier 5 .DepthStencil,
       ContextCommand.omSetRenderTargets [some 4, none] (some 5),
       ContextCommand.setSamplePositions 0 0 0,
       ContextCommand.rsSetViewports ⟨0, 0, 0, 0⟩,
       ContextCommand.rsSetScissorRects ⟨0, 0, 0, 0⟩,
       ContextCommand.setPipelineState 0,
       ContextCommand.omSetStencilRef 0,
       ContextCommand.resourceBarrier 6 .IndirectArg,
       ContextCommand.resourceBarrier 7 .IndirectArg,
       ContextCommand.executeIndirect true 10 6 0 (some 7) 0] ∧
    ∃ body, ((DrawCall.drawIndexedIndirect 10 6 0 (some 7) 0).run applyGraphicsVarsOk true {}
        exampleGraphicsState (some 0)).commandList =
        (RenderContext.applyVars applyGraphicsVarsOk {} exampleGraphicsState
          (some 0)).1.commandList ++ body ++
          [(DrawCall.drawIndexedIndirect 10 6 0 (some 7) 0).command] ∧
      ContextCommand.resourceBarrier 6 .IndirectArg ∈ body ∧
      ContextCommand.resourceBarrier 7 .IndirectArg ∈ body ∧
      ContextCommand.resourceBarrier 2 .VertexBuffer ∈ body ∧
      ContextCommand.resourceBarrier 5 .DepthStencil ∈ body := by
  refine ⟨by decide, ?_⟩
  obtain ⟨body, h1, h2, h3, h4⟩ := draw_transitions_precede_draw_command applyGraphicsVarsOk
    true {} exampleGraphicsState (some 0) (DrawCall.drawIndexedIndirect 10 6 0 (some 7) 0) rfl
  obtain ⟨i1, i2⟩ := h2 10 6 0 (some 7) 0 (Or.inr rfl)
  exact ⟨body, h1, i1, i2 7 rfl (by decide), (h3 rfl).1 2 (by decide),
    (h4 rfl _ rfl).2 5 rfl⟩

/-- C15. `prepareForDraw` returns false exactly when the `Vars` bind flag is set, `pVars` is
non-null and `applyGraphicsVars` returns false.  Then the context is the one
`applyGraphicsVars` left: `prepareForDraw` has recorded no command after it and has assigned
neither `mCommandsPending` nor `mpLastBoundGraphicsVars`, and each of the six draw entry points
returns with that same context, so without a draw command.  Whenever `prepareForDraw` returns
true, `mCommandsPending` is set. -/
theorem prepareForDraw_false_iff_applyGraphicsVars_fails
    (applyGraphicsVars : RenderContext → Nat → Nat → RenderContext × Bool)
    (featureSupported : Bool) (ctx : RenderContext) (pState : GraphicsState)
    (pVars : Option Nat) :
    ((ctx.prepareForDraw applyGraphicsVars featureSupported pState pVars).2 = false ↔
      ctx.mBindFlags.vars = true ∧
        ∃ vars, pVars = some vars ∧ (applyGraphicsVars ctx vars pState.gso).2 = false) ∧
    (∀ vars, ctx.mBindFlags.vars = true → pVars = some vars →
      (applyGraphicsVars ctx vars pState.gso).2 = false →
        (ctx.prepareForDraw applyGraphicsVars featureSupported pState pVars).1 =
          (applyGraphicsVars ctx vars pState.gso).1 ∧
        ∀ c : DrawCall, c.run applyGraphicsVars featureSupported ctx pState pVars =
          (applyGraphicsVars ctx vars pState.gso).1) ∧
    ((ctx.prepareForDraw applyGraphicsVars featureSupported pState pVars).2 = true →
      (ctx.prepareForDraw applyGraphicsVars featureSupported pState pVars).1.mCommandsPending
        = true) := by
  refine ⟨?_, ?_, ?_⟩
  · rw [RenderContext.prepareForDraw_snd]
    exact RenderContext.applyVars_false_iff _ _ _ _
  · intro vars hflag hv hfail
    subst hv
    have hA := RenderContext.applyVars_of_false applyGraphicsVars ctx pState vars hflag hfail
    have hP : (ctx.prepareForDraw applyGraphicsVars featureSupported pState (some vars)).2
        = false := by
      rw [RenderContext.prepareForDraw_snd, hA]
    have hS := RenderContext.prepareForDraw_of_false _ _ _ _ _ hP
    rw [hA] at hS
    refine ⟨hS, ?_⟩
    intro c
    rw [RenderContext.run_of_false _ _ _ _ _ c hP, hS]
  · intro hok
    rw [RenderContext.prepareForDraw_of_true _ _ _ _ _ hok]
    exact (RenderContext.bindBlendStencil_appends _ _).2.1

/-! ## `ReSTIRPTPass::validateOptions`: C16 -/

namespace ReSTIRPTPass

theorem clampBounces_le (k b : Nat) : clampBounces k b ≤ k := by
  unfold clampBounces
  split <;> omega

theorem clampBounces_le_self (k b : Nat) : clampBounces k b ≤ b := by
  unfold clampBounces
  split <;> omega

theorem clampBounces_of_le {k b : Nat} (h : b ≤ k) : clampBounces k b = b := by
  unfold clampBounces
  rw [if_neg (by omega)]

/-- The static parameters after `validateOptions`, field by field. -/
theorem validateOptions_staticParams (kS kB : Nat) (s : ReSTIRPTPass) :
    (validateOptions kS kB s).mStaticParams.samplesPerPixel =
      (if s.mStaticParams.samplesPerPixel < 1 then 1
       else if kS < s.mStaticParams.samplesPerPixel then kS
       else s.mStaticParams.samplesPerPixel) ∧
    (validateOptions kS kB s).mStaticParams.maxDiffuseBounces =
      clampBounces kB s.mStaticParams.maxDiffuseBounces ∧
    (validateOptions kS kB s).mStaticParams.maxSpecularBounces =
      clampBounces kB s.mStaticParams.maxSpecularBounces ∧
    (validateOptions kS kB s).mStaticParams.maxTransmissionBounces =
      clampBounces kB s.mStaticParams.maxTransmissionBounces ∧
    (validateOptions kS kB s).mStaticParams.maxSurfaceBounces =
      max (clampBounces kB s.mStaticParams.maxSurfaceBounces)
        (max (clampBounces kB s.mStaticParams.maxDiffuseBounces)
          (max (clampBounces kB s.mStaticParams.maxSpecularBounces)
            (clampBounces kB s.mStaticParams.maxTransmissionBounces))) ∧
    (validateOptions kS kB s).mStaticParams.maxTransmissionReflectionDepth =
      min s.mStaticParams.maxTransmissionReflectionDepth
        (clampBounces kB s.mStaticParams.maxTransmissionBounces) ∧
    (validateOptions kS kB s).mStaticParams.maxTransmissionRefractionDepth =
      min s.mStaticParams.maxTransmissionRefractionDepth
        (clampBounces kB s.mStaticParams.maxTransmissionBounces) := by
  have hr : (validateRoughness s).mStaticParams = s.mStaticParams := by
    unfold validateRoughness
    split <;> rfl
  have hl : ∀ x : ReSTIRPTPass,
      (validateLodMode x).mStaticParams.samplesPerPixel = x.mStaticParams.samplesPerPixel ∧
      (validateLodMode x).mStaticParams.maxDiffuseBounces = x.mStaticParams.maxDiffuseBounces ∧
      (validateLodMode x).mStaticParams.maxSpecularBounces = x.mStaticParams.maxSpecularBounces ∧
      (validateLodMode x).mStaticParams.maxTransmissionBounces =
        x.mStaticParams.maxTransmissionBounces ∧
      (validateLodMode x).mStaticParams.maxSurfaceBounces = x.mStaticParams.maxSurfaceBounces ∧
      (validateLodMode x).mStaticParams.maxTransmissionReflectionDepth =
        x.mStaticParams.maxTransmissionReflectionDepth ∧
      (validateLodMode x).mStaticParams.maxTransmissionRefractionDepth =
        x.mStaticParams.maxTransmissionRefractionDepth := by
    intro x
    unfold validateLodMode
    split <;> exact ⟨rfl, rfl, rfl, rfl, rfl, rfl, rfl⟩
  have hs : (validateSamplesPerPixel kS (validateRoughness s)).mStaticParams =
      { s.mStaticParams with samplesPerPixel :=
          (if s.mStaticParams.samplesPerPixel < 1 then 1
           else if kS < s.mStaticParams.samplesPerPixel then kS
           else s.mStaticParams.samplesPerPixel) } := by
    unfold validateSamplesPerPixel
    rw [hr]
    split
    · rfl
    · rename_i h
      have h1 : ¬ s.mStaticParams.samplesPerPixel < 1 := fun x => h (Or.inl x)
      have h2 : ¬ kS < s.mStaticParams.samplesPerPixel := fun x => h (Or.inr x)
      rw [if_neg h1, if_neg h2, hr]
  unfold validateOptions
  obtain ⟨l1, l2, l3, l4, l5, l6, l7⟩ := hl (validateTransmissionDepths (validateSurfaceBounces
    (validateBounces kB (validateSamplesPerPixel kS (validateRoughness s)))))
  rw [l1, l2, l3, l4, l5, l6, l7]
  simp only [validateTransmissionDepths, validateSurfaceBounces, validateBounces, hs]
  refine ⟨trivial, trivial, trivial, trivial, trivial, ?_, ?_⟩
  · split
    · rw [Nat.min_eq_right (by omega)]
    · rw [Nat.min_eq_left (by omega)]
  · split
    · rw [Nat.min_eq_right (by omega)]
    · rw [Nat.min_eq_left (by omega)]

/-- The roughness threshold after the first statement of `validateOptions`, by the kind of
value it had. -/
theorem validateRoughness_threshold (s : ReSTIRPTPass) :
    (validateRoughness s).specularRoughnessThreshold =
      match s.specularRoughnessThreshold with
      | .num x => .num (min (max x 0) 1)
      | .posInf => .num 1
      | .negInf => .num 0
      | .nan => .nan := by
  unfold validateRoughness
  cases h : s.specularRoughnessThreshold with
  | num x =>
    by_cases h0 : x < 0
    · have h1 : ¬ (1 : ℚ) < x := by linarith
      have h2 : ¬ (1 : ℚ) < 0 := by norm_num
      simp [FloatValue.lt, FloatValue.clamp, FloatValue.min, FloatValue.max, h0,
        max_eq_right (le_of_lt h0)]
    · by_cases h1 : (1 : ℚ) < x
      · simp [FloatValue.lt, FloatValue.clamp, FloatValue.min, FloatValue.max, h0, h1,
          max_eq_left (not_lt.mp h0), min_eq_right (le_of_lt h1)]
      · simp [FloatValue.lt, h0, h1, h, max_eq_left (not_lt.mp h0), min_eq_left (not_lt.mp h1)]
  | posInf => simp [FloatValue.lt, FloatValue.clamp, FloatValue.min, FloatValue.max]
  | negInf => simp [FloatValue.lt, FloatValue.clamp, FloatValue.min, FloatValue.max]
  | nan => simp [FloatValue.lt, h]

theorem validateRoughness_inUnitInterval (s : ReSTIRPTPass)
    (h : s.specularRoughnessThreshold ≠ .nan) :
    (validateRoughness s).specularRoughnessThreshold.InUnitInterval := by
  rw [validateRoughness_threshold]
  cases hx : s.specularRoughnessThreshold with
  | num x => exact ⟨le_min (le_max_right _ _) zero_le_one, min_le_right _ _⟩
  | posInf => exact ⟨zero_le_one, le_refl _⟩
  | negInf => exact ⟨le_refl _, zero_le_one⟩
  | nan => exact absurd hx h

theorem validateRoughness_of_inUnitInterval (s : ReSTIRPTPass)
    (h : s.specularRoughnessThreshold.InUnitInterval) : validateRoughness s = s := by
  unfold validateRoughness
  cases hx : s.specularRoughnessThreshold with
  | num x =>
    rw [hx] at h
    obtain ⟨h0, h1⟩ := h
    simp [FloatValue.lt, not_lt.mpr h0, not_lt.mpr h1]
  | posInf => rw [hx] at h; exact absurd h id
  | negInf => rw [hx] at h; exact absurd h id
  | nan => rw [hx] at h; exact absurd h id

theorem validateRoughness_of_nan (s : ReSTIRPTPass) (h : s.specularRoughnessThreshold = .nan) :
    validateRoughness s = s := by
  unfold validateRoughness
  rw [h]
  rfl
theorem validateOptions_roughness (kS kB : Nat) (s : ReSTIRPTPass) :
    (validateOptions kS kB s).specularRoughnessThreshold =
      (validateRoughness s).specularRoughnessThreshold := by
  have hl : ∀ x : ReSTIRPTPass,
      (validateLodMode x).specularRoughnessThreshold = x.specularRoughnessThreshold := by
    intro x
    unfold validateLodMode
    split <;> rfl
  have hs : ∀ x : ReSTIRPTPass,
      (validateSamplesPerPixel kS x).specularRoughnessThreshold =
        x.specularRoughnessThreshold := by
    intro x
    unfold validateSamplesPerPixel
    split <;> rfl
  unfold validateOptions
  rw [hl]
  simp only [validateTransmissionDepths, validateSurfaceBounces, validateBounces]
  rw [hs]

end ReSTIRPTPass
namespace ReSTIRPTPass

/-- On an option set within the bounds, `validateOptions` does what its last statement does:
it changes at most the texture LOD mode. -/
theorem validateOptions_of_valid (kS kB : Nat) (s : ReSTIRPTPass) (h : OptionsValid kS kB s) :
    validateOptions kS kB s = validateLodMode s := by
  obtain ⟨h1, h2, h3, h4, h5, h6, h7, h8, h9, h10⟩ := h
  have e1 : validateRoughness s = s := validateRoughness_of_inUnitInterval s h10
  have e2 : validateSamplesPerPixel kS s = s := by
    unfold validateSamplesPerPixel
    rw [if_neg]
    omega
  have e3 : validateBounces kB s = s := by
    unfold validateBounces
    rw [clampBounces_of_le h3, clampBounces_of_le h4, clampBounces_of_le h5,
      clampBounces_of_le h6]
  have e4 : validateSurfaceBounces s = s := by
    unfold validateSurfaceBounces
    simp only
    rw [max_eq_left h7]
  have e5 : validateTransmissionDepths s = s := by
    unfold validateTransmissionDepths
    rw [if_neg (by omega), if_neg (by omega)]
  unfold validateOptions
  rw [e1, e2, e3, e4, e5]

end ReSTIRPTPass

/-- The bounds in every other state: for every option set whose roughness threshold is not NaN
and every `kMaxSamplesPerPixel >= 1`, after `validateOptions`:
`1 <= samplesPerPixel <= kMaxSamplesPerPixel`; the four bounce limits are at most `kMaxBounces`;
`maxSurfaceBounces` is at least the largest of the diffuse, specular and transmission limits;
both transmission depths are at most `maxTransmissionBounces`; the roughness threshold lies in
[0, 1].  An option set that met all these bounds keeps every one of these values (only the LOD
mode can change), and option by option: a value that met its own bound is unchanged, the two
transmission depths being measured against the validated `maxTransmissionBounces`. -/
theorem validateOptions_establishes_bounds_and_keeps_valid_values
    (kMaxSamplesPerPixel kMaxBounces : Nat) (s : ReSTIRPTPass)
    (hk : 1 ≤ kMaxSamplesPerPixel) (hnan : s.specularRoughnessThreshold ≠ .nan) :
    OptionsValid kMaxSamplesPerPixel kMaxBounces
      (s.validateOptions kMaxSamplesPerPixel kMaxBounces) ∧
    (OptionsValid kMaxSamplesPerPixel kMaxBounces s →
      s.validateOptions kMaxSamplesPerPixel kMaxBounces = s.validateLodMode ∧
      s.validateLodMode.specularRoughnessThreshold = s.specularRoughnessThreshold ∧
      s.validateLodMode.mStaticParams = { s.mStaticParams with
        primaryLodMode := s.validateLodMode.mStaticParams.primaryLodMode }) ∧
    (1 ≤ s.mStaticParams.samplesPerPixel → s.mStaticParams.samplesPerPixel ≤ kMaxSamplesPerPixel →
      (s.validateOptions kMaxSamplesPerPixel kMaxBounces).mStaticParams.samplesPerPixel =
        s.mStaticParams.samplesPerPixel) ∧
    (s.mStaticParams.maxDiffuseBounces ≤ kMaxBounces →
      (s.validateOptions kMaxSamplesPerPixel kMaxBounces).mStaticParams.maxDiffuseBounces =
        s.mStaticParams.maxDiffuseBounces) ∧
    (s.mStaticParams.maxSpecularBounces ≤ kMaxBounces →
      (s.validateOptions kMaxSamplesPerPixel kMaxBounces).mStaticParams.maxSpecularBounces =
        s.mStaticParams.maxSpecularBounces) ∧
    (s.mStaticParams.maxTransmissionBounces ≤ kMaxBounces →
      (s.validateOptions kMaxSamplesPerPixel kMaxBounces).mStaticParams.maxTransmissionBounces =
        s.mStaticParams.maxTransmissionBounces) ∧
    (s.mStaticParams.maxSurfaceBounces ≤ kMaxBounces →
      max s.mStaticParams.maxDiffuseBounces
        (max s.mStaticParams.maxSpecularBounces s.mStaticParams.maxTransmissionBounces)
          ≤ s.mStaticParams.maxSurfaceBounces →
      (s.validateOptions kMaxSamplesPerPixel kMaxBounces).mStaticParams.maxSurfaceBounces =
        s.mStaticParams.maxSurfaceBounces) ∧
    (s.mStaticParams.maxTransmissionReflectionDepth ≤
        (s.validateOptions kMaxSamplesPerPixel kMaxBounces).mStaticParams.maxTransmissionBounces →
      StaticParams.maxTransmissionReflectionDepth
          (s.validateOptions kMaxSamplesPerPixel kMaxBounces).mStaticParams =
        s.mStaticParams.maxTransmissionReflectionDepth) ∧
    (s.mStaticParams.maxTransmissionRefractionDepth ≤
        (s.validateOptions kMaxSamplesPerPixel kMaxBounces).mStaticParams.maxTransmissionBounces →
      StaticParams.maxTransmissionRefractionDepth
          (s.validateOptions kMaxSamplesPerPixel kMaxBounces).mStaticParams =
        s.mStaticParams.maxTransmissionRefractionDepth) ∧
    (s.specularRoughnessThreshold.InUnitInterval →
      (s.validateOptions kMaxSamplesPerPixel kMaxBounces).specularRoughnessThreshold =
        s.specularRoughnessThreshold) := by
  obtain ⟨p1, p2, p3, p4, p5, p6, p7⟩ :=
    ReSTIRPTPass.validateOptions_staticParams kMaxSamplesPerPixel kMaxBounces s
  have pr := ReSTIRPTPass.validateOptions_roughness kMaxSamplesPerPixel kMaxBounces s
  have c1 := ReSTIRPTPass.clampBounces_le kMaxBounces s.mStaticParams.maxSurfaceBounces
  have c2 := ReSTIRPTPass.clampBounces_le kMaxBounces s.mStaticParams.maxDiffuseBounces
  have c3 := ReSTIRPTPass.clampBounces_le kMaxBounces s.mStaticParams.maxSpecularBounces
  have c4 := ReSTIRPTPass.clampBounces_le kMaxBounces s.mStaticParams.maxTransmissionBounces
  have d2 := ReSTIRPTPass.clampBounces_le_self kMaxBounces s.mStaticParams.maxDiffuseBounces
  have d3 := ReSTIRPTPass.clampBounces_le_self kMaxBounces s.mStaticParams.maxSpecularBounces
  have d4 := ReSTIRPTPass.clampBounces_le_self kMaxBounces s.mStaticParams.maxTransmissionBounces
  refine ⟨?_, ?_, ?_, ?_, ?_, ?_, ?_, ?_, ?_, ?_⟩
  · unfold OptionsValid
    rw [p1, p2, p3, p4, p5, p6, p7, pr]
    refine ⟨?_, ?_, ?_, ?_, ?_, ?_, ?_, ?_, ?_, ?_⟩
    · split_ifs <;> omega
    · split_ifs <;> omega
    · simp only [Nat.max_def]
      split_ifs <;> omega
    · exact c2
    · exact c3
    · exact c4
    · exact le_max_right _ _
    · exact min_le_right _ _
    · exact min_le_right _ _
    · exact ReSTIRPTPass.validateRoughness_inUnitInterval s hnan
  · intro hv
    refine ⟨ReSTIRPTPass.validateOptions_of_valid _ _ s hv, ?_, ?_⟩
    · unfold ReSTIRPTPass.validateLodMode
      split <;> rfl
    · unfold ReSTIRPTPass.validateLodMode
      split <;> rfl
  · intro h1 h2
    rw [p1, if_neg (by omega), if_neg (by omega)]
  · intro h
    rw [p2, ReSTIRPTPass.clampBounces_of_le h]
  · intro h
    rw [p3, ReSTIRPTPass.clampBounces_of_le h]
  · intro h
    rw [p4, ReSTIRPTPass.clampBounces_of_le h]
  · intro h1 h2
    rw [p5, ReSTIRPTPass.clampBounces_of_le h1]
    simp only [Nat.max_def] at h2 ⊢
    split_ifs at h2 ⊢ <;> omega
  · intro h
    rw [p4] at h
    rw [p6]
    exact min_eq_left h
  · intro h
    rw [p4] at h
    rw [p7]
    exact min_eq_left h
  · intro h
    rw [pr, ReSTIRPTPass.validateRoughness_of_inUnitInterval s h]

/-- An out-of-range option set with `kMaxSamplesPerPixel = 16`, `kMaxBounces = 254`: the
validated set is within the bounds, and the reflection depth 7, which was within its bound,
is unchanged. -/
theorem validateOptions_establishes_bounds_and_keeps_valid_values_witness :
    1 ≤ 16 ∧
    OptionsValid 16 254 (outOfRangeOptions.validateOptions 16 254) ∧
    (outOfRangeOptions.validateOptions 16 254).mStaticParams.maxTransmissionReflectionDepth = 7 ∧
    (outOfRangeOptions.validateOptions 16 254).mStaticParams.maxTransmissionRefractionDepth
      = 254 :=
  ⟨by decide,
   (validateOptions_establishes_bounds_and_keeps_valid_values 16 254 outOfRangeOptions
     (by decide) (fun h => FloatValue.noConfusion h)).1,
   (validateOptions_establishes_bounds_and_keeps_valid_values 16 254 outOfRangeOptions
     (by decide) (fun h => FloatValue.noConfusion h)).2.2.2.2.2.2.2.1
     (by rw [(ReSTIRPTPass.validateOptions_staticParams 16 254 outOfRangeOptions).2.2.2.1]
         decide),
   by rw [(ReSTIRPTPass.validateOptions_staticParams 16 254 outOfRangeOptions).2.2.2.2.2.2]
      decide⟩

/-- C16. The code on a roughness threshold that is NaN, which a script can store through the
key `specularRoughnessThreshold`: both comparisons of the first statement of `validateOptions`
are false, nothing is clamped, and the threshold is NaN afterwards, so it does not lie in
[0, 1], where the claim asks for a threshold in [0, 1] after every prior option state.  This
is so whatever the other options and the two constants are. -/
theorem validateOptions_leaves_nan_roughness_threshold
    (kMaxSamplesPerPixel kMaxBounces : Nat) (s : ReSTIRPTPass) :
    (ReSTIRPTPass.validateOptions kMaxSamplesPerPixel kMaxBounces
      { s with specularRoughnessThreshold := .nan }).specularRoughnessThreshold = .nan ∧
    ¬ (ReSTIRPTPass.validateOptions kMaxSamplesPerPixel kMaxBounces
      { s with specularRoughnessThreshold := .nan }).specularRoughnessThreshold.InUnitInterval ∧
    ¬ OptionsValid kMaxSamplesPerPixel kMaxBounces
      (ReSTIRPTPass.validateOptions kMaxSamplesPerPixel kMaxBounces
        { s with specularRoughnessThreshold := .nan }) ∧
    (nanRoughnessOptions.validateOptions 16 254).specularRoughnessThreshold = .nan := by
  have key : ∀ x : ReSTIRPTPass, x.specularRoughnessThreshold = .nan →
      (ReSTIRPTPass.validateOptions kMaxSamplesPerPixel kMaxBounces
        x).specularRoughnessThreshold = .nan := by
    intro x hx
    rw [ReSTIRPTPass.validateOptions_roughness, ReSTIRPTPass.validateRoughness_of_nan x hx, hx]
  have h1 := key { s with specularRoughnessThreshold := .nan } rfl
  refine ⟨h1, ?_, ?_, ?_⟩
  · rw [h1]
    exact id
  · intro hv
    have h2 := hv.2.2.2.2.2.2.2.2.2
    rw [h1] at h2
    exact h2
  · rw [ReSTIRPTPass.validateOptions_roughness,
      ReSTIRPTPass.validateRoughness_of_nan nanRoughnessOptions rfl]
    rfl
/-! ## `ReSTIRPTPass::execute`: C17, C20 -/

theorem dispatchKinds_append (a b : List PTCommand) :
    dispatchKinds (a ++ b) = dispatchKinds a ++ dispatchKinds b := by
  unfold dispatchKinds
  exact List.filterMap_append _ _ _

theorem flatMap_const_eq_replicate {α β : Type} (c : List β) (l : List α) :
    l.flatMap (fun _ => c) = (List.replicate l.length c).flatten := by
  induction l with
  | nil => rfl
  | cons a rest ih =>
    simp only [List.flatMap_cons, List.length_cons, List.replicate_succ, List.flatten_cons, ih]

theorem dispatchKinds_flatMap {α : Type} (f : α → List PTCommand) (l : List α) :
    dispatchKinds (l.flatMap f) = l.flatMap (fun a => dispatchKinds (f a)) := by
  induction l with
  | nil => rfl
  | cons a rest ih =>
    simp only [List.flatMap_cons, dispatchKinds_append, ih]

namespace ReSTIRPTPass

theorem PathReusePass_kind_temporal (s : ReSTIRPTPass) (i : Nat) (b : Bool) :
    (s.PathReusePass i true 0 b).kind? = some .temporalReuse := by
  simp [PathReusePass, PTCommand.kind?]

theorem PathReusePass_kind_spatial (s : ReSTIRPTPass) (i r : Nat) (b : Bool) :
    (s.PathReusePass i false (r : Int) b).kind? = some .spatialReuse := by
  have h : ((r : Int) == -1) = false := by
    rw [beq_eq_false_iff_ne]
    omega
  simp [PathReusePass, PTCommand.kind?, h]

theorem dispatchKinds_temporalStage (s : ReSTIRPTPass) (skip : Bool) (i : Nat)
    (hmode : s.mStaticParams.pathSamplingMode = .ReSTIR) :
    dispatchKinds (s.temporalStage skip i) =
      if s.mEnableTemporalReuse && !skip then
        (if decide (s.mStaticParams.shiftStrategy = .Hybrid) then [PassKind.temporalRetrace]
         else []) ++ [PassKind.temporalReuse]
      else [] := by
  unfold temporalStage
  rw [if_pos hmode]
  split
  · rw [dispatchKinds_append]
    have h2 : dispatchKinds [s.PathReusePass i true 0 (!s.mEnableSpatialReuse)] =
        [PassKind.temporalReuse] := by
      simp [dispatchKinds, PathReusePass_kind_temporal]
    rw [h2]
    by_cases hh : s.mStaticParams.shiftStrategy = .Hybrid
    · simp [hh, dispatchKinds, PathRetracePass, PTCommand.kind?]
    · simp [hh, dispatchKinds]
  · rfl

theorem dispatchKinds_spatialRound (s : ReSTIRPTPass) (i r : Nat) :
    dispatchKinds (s.spatialRound i r) =
      (if decide (s.mStaticParams.shiftStrategy = .Hybrid) then [PassKind.spatialRetrace]
       else []) ++ [PassKind.spatialReuse] := by
  unfold spatialRound
  rw [dispatchKinds_append]
  have h2 : dispatchKinds [s.PathReusePass i false (r : Int)
      (decide ((r : Int) = s.mNumSpatialRounds - 1))] = [PassKind.spatialReuse] := by
    simp [dispatchKinds, PathReusePass_kind_spatial]
  rw [h2]
  by_cases hh : s.mStaticParams.shiftStrategy = .Hybrid
  · simp [hh, dispatchKinds, PathRetracePass, PTCommand.kind?]
  · simp [hh, dispatchKinds]

theorem dispatchKinds_spatialStage (s : ReSTIRPTPass) (i : Nat) :
    dispatchKinds (s.spatialStage i) =
      if s.mEnableSpatialReuse then
        (List.replicate s.mNumSpatialRounds.toNat
          ((if decide (s.mStaticParams.shiftStrategy = .Hybrid) then [PassKind.spatialRetrace]
            else []) ++ [PassKind.spatialReuse])).flatten
      else [] := by
  unfold spatialStage
  split
  · rw [dispatchKinds_flatMap]
    simp only [dispatchKinds_spatialRound]
    rw [flatMap_const_eq_replicate, List.length_range]
  · rfl

theorem dispatchKinds_temporalCopies (s : ReSTIRPTPass) (n i : Nat) :
    dispatchKinds (s.temporalCopies n i) = [] := by
  unfold temporalCopies
  split
  · split <;> split <;> rfl
  · rfl

end ReSTIRPTPass
namespace ReSTIRPTPass

/-- The body of the loop when the emissive sampler binds: the commands of `subSampleCommands`,
and the reservoir frame count raised by one on the last sub-sample of a mode other than
`PathTracing`. -/
theorem subSample_ok (frame : PTFrame) (skip : Bool) (n i : Nat) (x : ReSTIRPTPass)
    (hbind : frame.emissiveSamplerBinds = true) :
    subSample frame skip n i x =
      .ok ({ x with mReservoirFrameCount := x.mReservoirFrameCount +
              (if x.mStaticParams.pathSamplingMode ≠ .PathTracing ∧ i = n - 1 then 1 else 0) },
           subSampleCommands frame skip n i x) := by
  unfold subSample subSampleCommands preparePathTracer
  simp only [hbind, if_true, bind, Except.bind, pure, Except.pure]
  by_cases hm : x.mStaticParams.pathSamplingMode = .PathTracing
  · simp [hm]
  · by_cases hi : i = n - 1
    · simp [hm, hi, temporalCopies]
    · simp [hm, hi, temporalCopies]

theorem subSampleCommands_frameCount (frame : PTFrame) (skip : Bool) (n i : Nat)
    (x : ReSTIRPTPass) (c : Int) :
    subSampleCommands frame skip n i { x with mReservoirFrameCount := c } =
      subSampleCommands frame skip n i x := rfl

/-- The loop of `execute` when the emissive sampler binds, in a mode other than `PathTracing`
(so that `numPasses` is `samplesPerPixel`): the commands of the sub-samples one after the other,
and the frame count raised by one if the last sub-sample is among them. -/
theorem subSampleLoop_ok (frame : PTFrame) (skip : Bool) (n : Nat)
    (hbind : frame.emissiveSamplerBinds = true) :
    ∀ (remaining i : Nat) (x : ReSTIRPTPass),
      x.mStaticParams.pathSamplingMode ≠ .PathTracing →
      subSampleLoop frame skip n remaining i x =
        .ok ({ x with mReservoirFrameCount := x.mReservoirFrameCount +
                (if i ≤ n - 1 ∧ n - 1 < i + remaining then 1 else 0) },
             (List.range' i remaining).flatMap (fun j => subSampleCommands frame skip n j x)) := by
  intro remaining
  induction remaining with
  | zero =>
    intro i x _
    have h : ¬ (i ≤ n - 1 ∧ n - 1 < i) := by omega
    cases x
    simp [subSampleLoop, h, pure, Except.pure]
  | succ rem ih =>
    intro i x hm
    simp only [subSampleLoop, bind, Except.bind, pure, Except.pure]
    rw [subSample_ok frame skip n i x hbind]
    simp only
    rw [ih (i + 1) { x with mReservoirFrameCount := x.mReservoirFrameCount +
      (if x.mStaticParams.pathSamplingMode ≠ .PathTracing ∧ i = n - 1 then 1 else 0) } hm]
    simp only [subSampleCommands_frameCount, List.range'_succ, List.flatMap_cons]
    congr 2
    by_cases h1 : i = n - 1
    · have h2 : ¬ (i + 1 ≤ n - 1 ∧ n - 1 < i + 1 + rem) := by omega
      have h3 : i ≤ n - 1 ∧ n - 1 < i + (rem + 1) := by omega
      simp [hm, h1, h2, h3]
    · by_cases h2 : i + 1 ≤ n - 1 ∧ n - 1 < i + 1 + rem
      · have h3 : i ≤ n - 1 ∧ n - 1 < i + (rem + 1) := by omega
        simp [hm, h1, h2, h3]
      · have h3 : ¬ (i ≤ n - 1 ∧ n - 1 < i + (rem + 1)) := by omega
        simp [hm, h1, h2, h3]

end ReSTIRPTPass
namespace ReSTIRPTPass

theorem beginFrame_of_scene (s : ReSTIRPTPass) (frame : PTFrame) (hscene : s.hasScene = true) :
    (s.beginFrame frame).2.2 = true ∧
    (s.beginFrame frame).2.1 =
      (if frame.hasOutputDebug then [PTCommand.clearUAV .kOutputDebug] else []) ∧
    (s.beginFrame frame).1.mStaticParams = s.mStaticParams ∧
    (s.beginFrame frame).1.mEnableTemporalReuse = s.mEnableTemporalReuse ∧
    (s.beginFrame frame).1.mEnableSpatialReuse = s.mEnableSpatialReuse ∧
    (s.beginFrame frame).1.mNumSpatialRounds = s.mNumSpatialRounds ∧
    (s.beginFrame frame).1.mReservoirFrameCount =
      (if s.mOptionsChanged then 0 else s.mReservoirFrameCount) := by
  unfold beginFrame
  cases ho : s.mOptionsChanged <;> cases hl : frame.lightingChanged <;> simp [hscene, ho, hl]

theorem adjustOptions_restir (s : ReSTIRPTPass)
    (hmode : s.mStaticParams.pathSamplingMode = .ReSTIR) :
    (adjustOptions s).mStaticParams.pathSamplingMode = .ReSTIR ∧
    (adjustOptions s).mStaticParams.samplesPerPixel = s.mStaticParams.samplesPerPixel ∧
    (adjustOptions s).mStaticParams.shiftStrategy = s.mStaticParams.shiftStrategy ∧
    (adjustOptions s).mEnableTemporalReuse = s.mEnableTemporalReuse ∧
    (adjustOptions s).mEnableSpatialReuse = s.mEnableSpatialReuse ∧
    (adjustOptions s).mNumSpatialRounds = s.mNumSpatialRounds ∧
    (adjustOptions s).mReservoirFrameCount = s.mReservoirFrameCount := by
  unfold adjustOptions
  by_cases hh : s.mStaticParams.shiftStrategy = .Hybrid <;> simp [hmode, hh]

/-- `execute` in ReSTIR mode with a scene, the emissive sampler binding: it returns, with the
commands of `beginFrame` followed by those of the sub-samples `0`, ..., `samplesPerPixel - 1`,
and the reservoir frame count of `beginFrame` raised by one when there is a sub-sample. -/
theorem execute_restir (s : ReSTIRPTPass) (frame : PTFrame)
    (hmode : s.mStaticParams.pathSamplingMode = .ReSTIR) (hscene : s.hasScene = true)
    (hbind : frame.emissiveSamplerBinds = true) :
    s.execute frame =
      .ok ({ adjustOptions (s.beginFrame frame).1 with
              mReservoirFrameCount := (s.beginFrame frame).1.mReservoirFrameCount +
                (if 1 ≤ s.mStaticParams.samplesPerPixel then 1 else 0) },
           (if frame.hasOutputDebug then [PTCommand.clearUAV .kOutputDebug] else []) ++
           (List.range s.mStaticParams.samplesPerPixel).flatMap (fun j =>
             subSampleCommands frame (decide ((s.beginFrame frame).1.mReservoirFrameCount = 0))
               s.mStaticParams.samplesPerPixel j (adjustOptions (s.beginFrame frame).1))) := by
  obtain ⟨b1, b2, b3, b4, b5, b6, b7⟩ := beginFrame_of_scene s frame hscene
  have hmb : (s.beginFrame frame).1.mStaticParams.pathSamplingMode = .ReSTIR := by
    rw [b3]; exact hmode
  obtain ⟨a1, a2, a3, a4, a5, a6, a7⟩ := adjustOptions_restir _ hmb
  have hn : (adjustOptions (s.beginFrame frame).1).numPasses = s.mStaticParams.samplesPerPixel := by
    unfold numPasses
    rw [a1, a2, b3]
    simp
  have hne : (adjustOptions (s.beginFrame frame).1).mStaticParams.pathSamplingMode
      ≠ .PathTracing := by
    rw [a1]; decide
  unfold execute
  simp only [b1, b2, Bool.not_true, Bool.false_eq_true, if_false, bind, Except.bind, pure,
    Except.pure, hn]
  rw [subSampleLoop_ok frame _ _ hbind _ _ _ hne]
  simp only [a7, List.range_eq_range']
  have hc : (0 ≤ s.mStaticParams.samplesPerPixel - 1 ∧
      s.mStaticParams.samplesPerPixel - 1 < 0 + s.mStaticParams.samplesPerPixel) ↔
      1 ≤ s.mStaticParams.samplesPerPixel := by omega
  simp only [hc]
  rfl

end ReSTIRPTPass
namespace ReSTIRPTPass

theorem dispatchKinds_subSampleCommands (frame : PTFrame) (skip : Bool) (n j : Nat)
    (x : ReSTIRPTPass) (hmode : x.mStaticParams.pathSamplingMode = .ReSTIR) :
    dispatchKinds (subSampleCommands frame skip n j x) =
      specSubSampleKinds x.mEnableTemporalReuse x.mEnableSpatialReuse
        (decide (x.mStaticParams.shiftStrategy = .Hybrid)) (!skip) x.mNumSpatialRounds.toNat j := by
  have hne : x.mStaticParams.pathSamplingMode ≠ .PathTracing := by rw [hmode]; decide
  unfold subSampleCommands specSubSampleKinds
  rw [if_pos hne]
  simp only [dispatchKinds_append, dispatchKinds_temporalStage x skip j hmode,
    dispatchKinds_spatialStage, dispatchKinds_temporalCopies, List.append_nil]
  have h1 : dispatchKinds (if frame.hasOutputTime = true then [PTCommand.clearUAV .kOutputTime]
      else []) = [] := by
    split <;> rfl
  have h2 : dispatchKinds [PTCommand.clearUAV .mpCounters] = [] := rfl
  have h3 : dispatchKinds (if j = 0 then [PTCommand.generatePaths 0] else []) =
      if j = 0 then [PassKind.generatePaths] else [] := by
    split <;> rfl
  have h4 : dispatchKinds [PTCommand.tracePass j
      (!x.mEnableSpatialReuse && !x.mEnableTemporalReuse)] = [PassKind.trace] := rfl
  rw [h1, h2, h3, h4]
  simp only [List.nil_append, List.append_assoc]

end ReSTIRPTPass

/-- C20. `execute` in ReSTIR mode, with a scene and the emissive sampler binding, returns, and
the dispatches it recorded are, sub-sample after sub-sample for `i = 0`, ...,
`samplesPerPixel - 1`, the sequence of the specification: `generatePaths` if and only if
`i = 0`; one trace pass; if and only if temporal reuse is enabled and `mReservoirFrameCount` is
nonzero after `beginFrame`, a temporal retrace (only with the Hybrid shift) and one temporal
reuse pass; if and only if spatial reuse is enabled, `mNumSpatialRounds` times a spatial retrace
(only with the Hybrid shift) and one spatial reuse pass.  The body of the loop raises
`mReservoirFrameCount` by one on the sub-sample `samplesPerPixel - 1` and on no other, so a
frame with at least one sub-sample ends with the count of `beginFrame` plus one. -/
theorem execute_restir_dispatch_sequence (s : ReSTIRPTPass) (frame : PTFrame)
    (hmode : s.mStaticParams.pathSamplingMode = .ReSTIR) (hscene : s.hasScene = true)
    (hbind : frame.emissiveSamplerBinds = true) :
    ∃ s' cmds, s.execute frame = .ok (s', cmds) ∧
      dispatchKinds cmds = specFrameKinds (s.beginFrame frame).1 ∧
      (∀ (skip : Bool) (i : Nat) (x : ReSTIRPTPass),
        x.mStaticParams.pathSamplingMode = .ReSTIR →
        ∃ r, ReSTIRPTPass.subSample frame skip s.mStaticParams.samplesPerPixel i x = .ok r ∧
          dispatchKinds r.2 = specSubSampleKinds x.mEnableTemporalReuse x.mEnableSpatialReuse
            (decide (x.mStaticParams.shiftStrategy = .Hybrid)) (!skip)
            x.mNumSpatialRounds.toNat i ∧
          r.1.mReservoirFrameCount = x.mReservoirFrameCount +
            (if i = s.mStaticParams.samplesPerPixel - 1 then 1 else 0)) ∧
      s'.mReservoirFrameCount = (s.beginFrame frame).1.mReservoirFrameCount +
        (if 1 ≤ s.mStaticParams.samplesPerPixel then 1 else 0) := by
  obtain ⟨b1, b2, b3, b4, b5, b6, b7⟩ := ReSTIRPTPass.beginFrame_of_scene s frame hscene
  have hmb : (s.beginFrame frame).1.mStaticParams.pathSamplingMode = .ReSTIR := by
    rw [b3]; exact hmode
  obtain ⟨a1, a2, a3, a4, a5, a6, a7⟩ := ReSTIRPTPass.adjustOptions_restir _ hmb
  refine ⟨_, _, ReSTIRPTPass.execute_restir s frame hmode hscene hbind, ?_, ?_, rfl⟩
  · rw [dispatchKinds_append, dispatchKinds_flatMap]
    have h1 : dispatchKinds (if frame.hasOutputDebug = true then
        [PTCommand.clearUAV .kOutputDebug] else []) = [] := by
      split <;> rfl
    rw [h1, List.nil_append]
    unfold specFrameKinds
    rw [b3]
    congr 1
    funext j
    rw [ReSTIRPTPass.dispatchKinds_subSampleCommands _ _ _ _ _ a1, a3, a4, a5, a6, b3]
    congr 1
    by_cases hz : (s.beginFrame frame).1.mReservoirFrameCount = 0 <;> simp [hz]
  · intro skip i x hx
    rw [ReSTIRPTPass.subSample_ok frame skip _ i x hbind]
    refine ⟨_, rfl, ReSTIRPTPass.dispatchKinds_subSampleCommands _ _ _ _ _ hx, ?_⟩
    have hne : x.mStaticParams.pathSamplingMode ≠ .PathTracing := by rw [hx]; decide
    simp [hne]
/-- C20 on a pass with reservoir history, two samples per pixel and two spatial rounds: the
fifteen dispatches of the frame, and the frame count going from 3 to 4. -/
theorem execute_restir_dispatch_sequence_witness :
    ∃ s' cmds, passTwoByTwo.execute {} = .ok (s', cmds) ∧
      dispatchKinds cmds =
        [.generatePaths, .trace, .temporalRetrace, .temporalReuse,
         .spatialRetrace, .spatialReuse, .spatialRetrace, .spatialReuse,
         .trace, .temporalRetrace, .temporalReuse,
         .spatialRetrace, .spatialReuse, .spatialRetrace, .spatialReuse] ∧
      s'.mReservoirFrameCount = 4 := by
  obtain ⟨s', cmds, h1, h2, -, h4⟩ :=
    execute_restir_dispatch_sequence passTwoByTwo {} rfl rfl rfl
  refine ⟨s', cmds, h1, ?_, ?_⟩
  · rw [h2]
    decide
  · rw [h4]
    decide

theorem copiesOf_append (a b : List PTCommand) : copiesOf (a ++ b) = copiesOf a ++ copiesOf b := by
  unfold copiesOf
  exact List.filter_append _ _

theorem copiesOf_flatMap {α : Type} (f : α → List PTCommand) (l : List α) :
    copiesOf (l.flatMap f) = l.flatMap (fun a => copiesOf (f a)) := by
  induction l with
  | nil => rfl
  | cons a rest ih =>
    simp only [List.flatMap_cons, copiesOf_append, ih]

theorem mem_copiesOf (c : PTCommand) (l : List PTCommand) (hc : c.isCopy = true) :
    c ∈ l ↔ c ∈ copiesOf l := by
  unfold copiesOf
  rw [List.mem_filter]
  exact ⟨fun h => ⟨h, hc⟩, fun h => h.1⟩

namespace ReSTIRPTPass

theorem copiesOf_temporalStage (s : ReSTIRPTPass) (skip : Bool) (i : Nat) :
    copiesOf (s.temporalStage skip i) = [] := by
  unfold temporalStage
  split
  · split
    · split <;> rfl
    · rfl
  · split <;> rfl

theorem copiesOf_spatialStage (s : ReSTIRPTPass) (i : Nat) :
    copiesOf (s.spatialStage i) = [] := by
  unfold spatialStage
  split
  · rw [copiesOf_flatMap]
    have h : ∀ r, copiesOf (s.spatialRound i r) = [] := by
      intro r
      unfold spatialRound
      split <;> rfl
    simp only [h]
    induction (List.range s.mNumSpatialRounds.toNat) with
    | nil => rfl
    | cons a rest ih => simp
  · rfl

/-- The copies of a sub-sample in ReSTIR mode with temporal reuse: the reservoir copy when
spatial reuse is off or the number of spatial rounds is even, then the visibility-buffer copy
on the last sub-sample. -/
theorem copiesOf_subSampleCommands (frame : PTFrame) (skip : Bool) (n j : Nat)
    (x : ReSTIRPTPass) (hmode : x.mStaticParams.pathSamplingMode = .ReSTIR)
    (htemporal : x.mEnableTemporalReuse = true) :
    copiesOf (subSampleCommands frame skip n j x) =
      (if !x.mEnableSpatialReuse || x.mNumSpatialRounds % 2 == 0 then
        [PTCommand.copyResource (.mpTemporalReservoirs j) .mpOutputReservoirs] else []) ++
      (if j = n - 1 then [PTCommand.copyResource .mpTemporalVBuffer .kInputVBuffer] else []) := by
  have hne : x.mStaticParams.pathSamplingMode ≠ .PathTracing := by rw [hmode]; decide
  unfold subSampleCommands
  rw [if_pos hne]
  simp only [copiesOf_append, copiesOf_temporalStage, copiesOf_spatialStage]
  have h1 : copiesOf (if frame.hasOutputTime = true then [PTCommand.clearUAV .kOutputTime]
      else []) = [] := by
    split <;> rfl
  have h2 : copiesOf [PTCommand.clearUAV .mpCounters] = [] := rfl
  have h3 : copiesOf (if j = 0 then [PTCommand.generatePaths 0] else []) = [] := by
    split <;> rfl
  have h4 : copiesOf [PTCommand.tracePass j
      (!x.mEnableSpatialReuse && !x.mEnableTemporalReuse)] = [] := rfl
  rw [h1, h2, h3, h4]
  simp only [List.nil_append, List.append_nil]
  unfold temporalCopies
  simp only [htemporal, hmode, Bool.true_and, beq_self_eq_true, if_true]
  rw [copiesOf_append]
  congr 1
  · split <;> rfl
  · split <;> rfl

end ReSTIRPTPass
/-- C17, counterexample. A pass at its member initialisers (ReSTIR mode, temporal reuse and
spatial reuse enabled, one spatial round) with reservoir history runs a frame with one sample
per pixel: the commands of the frame hold the copy of the input visibility buffer into the
temporal visibility buffer, but no copy of the output reservoirs into temporal slot 0. -/
theorem execute_omits_reservoir_copy_for_one_spatial_round :
    passWithHistory.mStaticParams.pathSamplingMode = .ReSTIR ∧
    passWithHistory.mEnableTemporalReuse = true ∧
    passWithHistory.mStaticParams.samplesPerPixel - 1 = 0 ∧
    commandsOf (passWithHistory.execute {}) =
      [PTCommand.clearUAV .mpCounters,
       PTCommand.generatePaths 0,
       PTCommand.tracePass 0 false,
       PTCommand.pathRetrace true 0 0 .mpOutputReservoirs (.mpTemporalReservoirs 0),
       PTCommand.pathReuse .temporalReuse 0 0 .mpOutputReservoirs
         (some (.mpTemporalReservoirs 0)) false,
       PTCommand.pathRetrace false 0 0 .mpOutputReservoirs (.mpTemporalReservoirs 0),
       PTCommand.pathReuse .spatialReuse 0 0 .mpOutputReservoirs
         (some (.mpTemporalReservoirs 0)) true,
       PTCommand.copyResource .mpTemporalVBuffer .kInputVBuffer] ∧
    PTCommand.copyResource (.mpTemporalReservoirs 0) .mpOutputReservoirs ∉
      commandsOf (passWithHistory.execute {}) := by
  decide

/-- C17, amended. `execute` in ReSTIR mode with temporal reuse enabled (a scene, the emissive
sampler binding) returns, and the copies it recorded are, sub-sample after sub-sample: the copy
of the output reservoirs into the temporal slot of the sub-sample, only when spatial reuse is
disabled or `mNumSpatialRounds` is even, and then on every sub-sample; followed, on the last
sub-sample only, by the copy of the input visibility buffer into the temporal visibility
buffer.  So the visibility-buffer copy is recorded in every frame with a sub-sample, and the
reservoir copy of the last sub-sample exactly when spatial reuse is disabled or the number of
spatial rounds is even. -/
theorem execute_temporal_copies (s : ReSTIRPTPass) (frame : PTFrame)
    (hmode : s.mStaticParams.pathSamplingMode = .ReSTIR)
    (htemporal : s.mEnableTemporalReuse = true) (hscene : s.hasScene = true)
    (hbind : frame.emissiveSamplerBinds = true) :
    ∃ s' cmds, s.execute frame = .ok (s', cmds) ∧
      copiesOf cmds =
        (List.range s.mStaticParams.samplesPerPixel).flatMap (fun i =>
          (if !s.mEnableSpatialReuse || s.mNumSpatialRounds % 2 == 0 then
            [PTCommand.copyResource (.mpTemporalReservoirs i) .mpOutputReservoirs] else []) ++
          (if i = s.mStaticParams.samplesPerPixel - 1 then
            [PTCommand.copyResource .mpTemporalVBuffer .kInputVBuffer] else [])) ∧
      (1 ≤ s.mStaticParams.samplesPerPixel →
        PTCommand.copyResource .mpTemporalVBuffer .kInputVBuffer ∈ cmds) ∧
      (PTCommand.copyResource (.mpTemporalReservoirs (s.mStaticParams.samplesPerPixel - 1))
          .mpOutputReservoirs ∈ cmds ↔
        1 ≤ s.mStaticParams.samplesPerPixel ∧
          (s.mEnableSpatialReuse = false ∨ s.mNumSpatialRounds % 2 = 0)) := by
  obtain ⟨b1, b2, b3, b4, b5, b6, b7⟩ := ReSTIRPTPass.beginFrame_of_scene s frame hscene
  have hmb : (s.beginFrame frame).1.mStaticParams.pathSamplingMode = .ReSTIR := by
    rw [b3]; exact hmode
  obtain ⟨a1, a2, a3, a4, a5, a6, a7⟩ := ReSTIRPTPass.adjustOptions_restir _ hmb
  have hcopies : copiesOf
      ((if frame.hasOutputDebug then [PTCommand.clearUAV .kOutputDebug] else []) ++
        (List.range s.mStaticParams.samplesPerPixel).flatMap (fun j =>
          subSampleCommands frame
            (decide ((s.beginFrame frame).1.mReservoirFrameCount = 0))
            s.mStaticParams.samplesPerPixel j (ReSTIRPTPass.adjustOptions (s.beginFrame frame).1)))
      = (List.range s.mStaticParams.samplesPerPixel).flatMap (fun i =>
          (if !s.mEnableSpatialReuse || s.mNumSpatialRounds % 2 == 0 then
            [PTCommand.copyResource (.mpTemporalReservoirs i) .mpOutputReservoirs] else []) ++
          (if i = s.mStaticParams.samplesPerPixel - 1 then
            [PTCommand.copyResource .mpTemporalVBuffer .kInputVBuffer] else [])) := by
    rw [copiesOf_append, copiesOf_flatMap]
    have h1 : copiesOf (if frame.hasOutputDebug = true then
        [PTCommand.clearUAV .kOutputDebug] else []) = [] := by
      split <;> rfl
    rw [h1, List.nil_append]
    congr 1
    funext j
    rw [ReSTIRPTPass.copiesOf_subSampleCommands _ _ _ _ _ a1 (by rw [a4, b4]; exact htemporal),
      a5, a6, b5, b6]
  refine ⟨_, _, ReSTIRPTPass.execute_restir s frame hmode hscene hbind, hcopies, ?_, ?_⟩
  · intro hspp
    rw [mem_copiesOf (PTCommand.copyResource .mpTemporalVBuffer .kInputVBuffer) _ rfl, hcopies,
      List.mem_flatMap]
    refine ⟨s.mStaticParams.samplesPerPixel - 1, List.mem_range.mpr (by omega), ?_⟩
    simp
  · rw [mem_copiesOf (PTCommand.copyResource
        (.mpTemporalReservoirs (s.mStaticParams.samplesPerPixel - 1)) .mpOutputReservoirs) _ rfl,
      hcopies, List.mem_flatMap]
    constructor
    · rintro ⟨i, hi, hc⟩
      rw [List.mem_range] at hi
      refine ⟨by omega, ?_⟩
      rw [List.mem_append] at hc
      rcases hc with hc | hc
      · by_cases hcond : (!s.mEnableSpatialReuse || s.mNumSpatialRounds % 2 == 0) = true
        · simpa using hcond
        · rw [if_neg hcond] at hc
          cases hc
      · split at hc
        · simp at hc
        · cases hc
    · rintro ⟨hspp, hcond⟩
      refine ⟨s.mStaticParams.samplesPerPixel - 1, List.mem_range.mpr (by omega), ?_⟩
      have hcond' : (!s.mEnableSpatialReuse || s.mNumSpatialRounds % 2 == 0) = true := by
        rcases hcond with h | h <;> simp [h]
      rw [if_pos hcond']
      simp

/-- C17, amended, on a pass with reservoir history, two samples per pixel and two spatial
rounds: both sub-samples copy their reservoirs, the last one also the visibility buffer. -/
theorem execute_temporal_copies_witness :
    ∃ s' cmds, passTwoByTwo.execute {} = .ok (s', cmds) ∧
      copiesOf cmds =
        [PTCommand.copyResource (.mpTemporalReservoirs 0) .mpOutputReservoirs,
         PTCommand.copyResource (.mpTemporalReservoirs 1) .mpOutputReservoirs,
         PTCommand.copyResource .mpTemporalVBuffer .kInputVBuffer] := by
  obtain ⟨s', cmds, h1, h2, -, -⟩ := execute_temporal_copies passTwoByTwo {} rfl rfl rfl rfl
  refine ⟨s', cmds, h1, ?_⟩
  rw [h2]
  decide

/-! ## Neighbor offsets: C18 -/

theorem phi2_pos : 0 < phi2 := by
  unfold phi2
  norm_num

theorem phi2_lt_one : phi2 < 1 := by
  unfold phi2
  norm_num

theorem phi2_sq_pos : 0 < phi2 * phi2 := mul_pos phi2_pos phi2_pos

theorem phi2_sq_lt_one : phi2 * phi2 < 1 := by
  unfold phi2
  norm_num

/-- One conditional subtraction brings `x + c` back into [0, 1): it is the fractional part. -/
theorem wrap_eq_fract (a c : ℚ) (hc0 : 0 ≤ c) (hc1 : c < 1) :
    (if Int.fract a + c ≥ 1 then Int.fract a + c - 1 else Int.fract a + c) =
      Int.fract (a + c) := by
  have h0 := Int.fract_nonneg a
  have h1 := Int.fract_lt_one a
  symm
  rw [Int.fract_eq_iff]
  split
  · rename_i h
    refine ⟨by linarith, by linarith, ⌊a⌋ + 1, ?_⟩
    have := Int.self_sub_floor a
    push_cast
    linarith
  · rename_i h
    refine ⟨by linarith, by linarith [not_le.mp h], ⌊a⌋, ?_⟩
    have := Int.self_sub_floor a
    linarith

theorem uvAfter_succ (n : Nat) : uvAfter (n + 1) = advanceUV (uvAfter n) := by
  unfold uvAfter
  rw [Function.iterate_succ_apply']

/-- Closed form of the loop state: the fractional parts of `1/2 + n * phi2` and of
`1/2 + n * phi2^2`. -/
theorem uvAfter_eq (n : Nat) :
    uvAfter n = (Int.fract (1 / 2 + n * phi2), Int.fract (1 / 2 + n * (phi2 * phi2))) := by
  induction n with
  | zero =>
    unfold uvAfter
    simp only [Function.iterate_zero, id_eq, Nat.cast_zero, zero_mul, add_zero]
    have : Int.fract (1 / 2 : ℚ) = 1 / 2 := by
      rw [Int.fract_eq_iff]
      exact ⟨by norm_num, by norm_num, 0, by norm_num⟩
    rw [this]
  | succ n ih =>
    rw [uvAfter_succ, ih]
    unfold advanceUV
    simp only
    rw [wrap_eq_fract _ _ (le_of_lt phi2_pos) phi2_lt_one,
      wrap_eq_fract _ _ (le_of_lt phi2_sq_pos) phi2_sq_lt_one]
    congr 2
    · push_cast; ring
    · push_cast; ring
/-- The loop state is back at the centre after every multiple of `13247179572447^2`
iterations. -/
theorem uvAfter_period (k : Nat) :
    uvAfter (13247179572447 ^ 2 * k) = (1 / 2, 1 / 2) := by
  rw [uvAfter_eq]
  have half : ∀ z : ℤ, Int.fract ((1 / 2 : ℚ) + z) = 1 / 2 := by
    intro z
    rw [Int.fract_add_int, Int.fract_eq_iff]
    exact ⟨by norm_num, by norm_num, 0, by norm_num⟩
  have e1 : (((13247179572447 ^ 2 * k : Nat) : ℚ)) * phi2 =
      ((13247179572447 * 10000000000000 * (k : ℤ) : ℤ) : ℚ) := by
    unfold phi2
    push_cast
    field_simp
    ring
  have e2 : (((13247179572447 ^ 2 * k : Nat) : ℚ)) * (phi2 * phi2) =
      ((10000000000000 * 10000000000000 * (k : ℤ) : ℤ) : ℚ) := by
    unfold phi2
    push_cast
    field_simp
    ring
  rw [e1, e2, half, half]

theorem rSq_centre : rSq (1 / 2, 1 / 2) = 0 := by
  unfold rSq
  norm_num

theorem uvAfter_range (n : Nat) :
    0 ≤ (uvAfter n).1 ∧ (uvAfter n).1 < 1 ∧ 0 ≤ (uvAfter n).2 ∧ (uvAfter n).2 < 1 := by
  rw [uvAfter_eq]
  exact ⟨Int.fract_nonneg _, Int.fract_lt_one _, Int.fract_nonneg _, Int.fract_lt_one _⟩

/-- Truncation toward zero of a value in [-127, 127): the result is in the range of `int8_t`,
between -127 and 126, and not larger in absolute value than the value. -/
theorem toInt8_bounds (a : ℚ) (h0 : -127 ≤ a) (h1 : a < 127) :
    -127 ≤ toInt8 a ∧ toInt8 a ≤ 126 ∧ ((toInt8 a : ℤ) : ℚ) * (toInt8 a : ℤ) ≤ a * a := by
  unfold toInt8
  by_cases ha : 0 ≤ a
  · rw [if_pos ha]
    have f0 : 0 ≤ ⌊a⌋ := Int.floor_nonneg.mpr ha
    have f1 : ⌊a⌋ < 127 := by
      rw [Int.floor_lt]
      exact_mod_cast h1
    have fa : ((⌊a⌋ : ℤ) : ℚ) ≤ a := Int.floor_le a
    have hm : (⌊a⌋ + 128) % 256 - 128 = ⌊a⌋ := by omega
    rw [hm]
    refine ⟨by omega, by omega, ?_⟩
    have f0' : (0 : ℚ) ≤ ((⌊a⌋ : ℤ) : ℚ) := by exact_mod_cast f0
    exact mul_le_mul fa fa f0' ha
  · rw [if_neg ha]
    have ha' : a < 0 := not_le.mp ha
    have c0 : ⌈a⌉ ≤ 0 := by
      rw [Int.ceil_le]
      exact_mod_cast le_of_lt ha'
    have c1 : -127 ≤ ⌈a⌉ := by
      rw [Int.le_ceil_iff]
      push_cast
      linarith
    have ca : a ≤ ((⌈a⌉ : ℤ) : ℚ) := Int.le_ceil a
    have hm : (⌈a⌉ + 128) % 256 - 128 = ⌈a⌉ := by omega
    rw [hm]
    refine ⟨by omega, by omega, ?_⟩
    have c0' : ((⌈a⌉ : ℤ) : ℚ) ≤ 0 := by exact_mod_cast c0
    nlinarith

/-- A state in the unit square that the loop accepts yields a pair within the bounds. -/
theorem offsetOf_inDisk (uv : ℚ × ℚ) (hu0 : 0 ≤ uv.1) (hu1 : uv.1 < 1) (hv0 : 0 ≤ uv.2)
    (hv1 : uv.2 < 1) (hr : ¬ rSq uv > 1 / 4) : OffsetInDisk (offsetOf uv) := by
  obtain ⟨x0, x1, x2⟩ := toInt8_bounds ((uv.1 - 1 / 2) * 254) (by linarith) (by linarith)
  obtain ⟨y0, y1, y2⟩ := toInt8_bounds ((uv.2 - 1 / 2) * 254) (by linarith) (by linarith)
  unfold OffsetInDisk offsetOf
  refine ⟨x0, by omega, y0, by omega, ?_⟩
  have hr' : rSq uv ≤ 1 / 4 := not_lt.mp hr
  unfold rSq at hr'
  have hq : (((toInt8 ((uv.1 - 1 / 2) * 254) * toInt8 ((uv.1 - 1 / 2) * 254) +
      toInt8 ((uv.2 - 1 / 2) * 254) * toInt8 ((uv.2 - 1 / 2) * 254) : ℤ)) : ℚ) ≤
      ((127 * 127 : ℤ) : ℚ) := by
    push_cast
    nlinarith
  exact_mod_cast hq
theorem neighborOffsetLoop_succ (bound fuel : Nat) : ∀ (uv : ℚ × ℚ) (offsets r : List (Int × Int)),
    neighborOffsetLoop bound fuel uv offsets = some r →
      neighborOffsetLoop bound (fuel + 1) uv offsets = some r := by
  induction fuel with
  | zero =>
    intro uv offsets r h
    simp only [neighborOffsetLoop] at h ⊢
    split at h
    · cases h
    · rename_i hc
      rw [if_neg hc]
      exact h
  | succ fuel ih =>
    intro uv offsets r h
    rw [neighborOffsetLoop] at h ⊢
    split at h
    · rename_i hc
      rw [if_pos hc]
      split at h
      · rename_i hr
        rw [if_pos hr]
        exact ih _ _ _ h
      · rename_i hr
        rw [if_neg hr]
        exact ih _ _ _ h
    · rename_i hc
      rw [if_neg hc]
      exact h

/-- More fuel does not change the result of a loop that ended. -/
theorem neighborOffsetLoop_mono (bound fuel : Nat) (uv : ℚ × ℚ) (offsets r : List (Int × Int))
    (h : neighborOffsetLoop bound fuel uv offsets = some r) :
    ∀ fuel', fuel ≤ fuel' → neighborOffsetLoop bound fuel' uv offsets = some r := by
  intro fuel' hle
  induction fuel' with
  | zero =>
    have : fuel = 0 := by omega
    rw [← this]
    exact h
  | succ k ih =>
    by_cases hk : fuel ≤ k
    · exact neighborOffsetLoop_succ bound k uv offsets r (ih hk)
    · have : fuel = k + 1 := by omega
      rw [← this]
      exact h

/-- From every loop state reached, the loop ends: it writes the pairs still missing, all of
them within the bounds. -/
theorem neighborOffsetLoop_ends (B : Nat) : ∀ (need n : Nat) (offsets : List (Int × Int)),
    offsets.length + need = B → (∀ p ∈ offsets, OffsetInDisk p) →
    ∃ fuel r, neighborOffsetLoop (2 * B) fuel (uvAfter n) offsets = some r ∧
      r.length = B ∧ ∀ p ∈ r, OffsetInDisk p := by
  intro need
  induction need with
  | zero =>
    intro n offsets hlen hval
    refine ⟨0, offsets, ?_, by omega, hval⟩
    simp only [neighborOffsetLoop]
    rw [if_neg (by omega)]
  | succ need ih =>
    intro n offsets hlen hval
    have hc : 2 * offsets.length < 2 * B := by omega
    have inner : ∀ (d n : Nat), ¬ rSq (uvAfter (n + d + 1)) > 1 / 4 →
        ∃ fuel r, neighborOffsetLoop (2 * B) fuel (uvAfter n) offsets = some r ∧
          r.length = B ∧ ∀ p ∈ r, OffsetInDisk p := by
      intro d
      induction d with
      | zero =>
        intro n hacc
        rw [Nat.add_zero] at hacc
        obtain ⟨r0, r1, r2, r3⟩ := uvAfter_range (n + 1)
        obtain ⟨fuel, r, h1, h2, h3⟩ := ih (n + 1) (offsets ++ [offsetOf (uvAfter (n + 1))])
          (by simp only [List.length_append, List.length_singleton]; omega)
          (by
            intro p hp
            rcases List.mem_append.mp hp with hp | hp
            · exact hval p hp
            · rw [List.mem_singleton] at hp
              rw [hp]
              exact offsetOf_inDisk _ r0 r1 r2 r3 hacc)
        refine ⟨fuel + 1, r, ?_, h2, h3⟩
        rw [neighborOffsetLoop, if_pos hc, ← uvAfter_succ, if_neg hacc]
        exact h1
      | succ d ihd =>
        intro n hacc
        by_cases hnext : rSq (uvAfter (n + 1)) > 1 / 4
        · have hacc' : ¬ rSq (uvAfter (n + 1 + d + 1)) > 1 / 4 := by
            have e : n + 1 + d + 1 = n + (d + 1) + 1 := by omega
            rw [e]
            exact hacc
          obtain ⟨fuel, r, h1, h2, h3⟩ := ihd (n + 1) hacc'
          refine ⟨fuel + 1, r, ?_, h2, h3⟩
          rw [neighborOffsetLoop, if_pos hc, ← uvAfter_succ, if_pos hnext]
          exact h1
        · obtain ⟨r0, r1, r2, r3⟩ := uvAfter_range (n + 1)
          obtain ⟨fuel, r, h1, h2, h3⟩ := ih (n + 1) (offsets ++ [offsetOf (uvAfter (n + 1))])
            (by simp only [List.length_append, List.length_singleton]; omega)
            (by
              intro p hp
              rcases List.mem_append.mp hp with hp | hp
              · exact hval p hp
              · rw [List.mem_singleton] at hp
                rw [hp]
                exact offsetOf_inDisk _ r0 r1 r2 r3 hnext)
          refine ⟨fuel + 1, r, ?_, h2, h3⟩
          rw [neighborOffsetLoop, if_pos hc, ← uvAfter_succ, if_neg hnext]
          exact h1
    have hP : 0 < 13247179572447 ^ 2 := by norm_num
    have hlt : n < 13247179572447 ^ 2 * (n / 13247179572447 ^ 2 + 1) :=
      Nat.lt_mul_div_succ n hP
    have hd : n + (13247179572447 ^ 2 * (n / 13247179572447 ^ 2 + 1) - n - 1) + 1 =
        13247179572447 ^ 2 * (n / 13247179572447 ^ 2 + 1) := by omega
    apply inner (13247179572447 ^ 2 * (n / 13247179572447 ^ 2 + 1) - n - 1) n
    rw [hd, uvAfter_period, rSq_centre]
    norm_num

/-- C18, counterexample. For `sampleCount = 2^31` the loop bound `sampleCount * 2` is 0 in
`uint32_t`: the loop ends at once, without fuel, and no pair has been written. -/
theorem createNeighborOffsetTexture_writes_nothing_for_two_pow_31 :
    mulU32 2147483648 2 = 0 ∧
    createNeighborOffsetTexture 0 2147483648 = some [] ∧
    createNeighborOffsetTexture 1000 2147483648 = some [] ∧
    ([] : List (Int × Int)).length ≠ 2147483648 := by
  have h : mulU32 2147483648 2 = 0 := by decide
  refine ⟨h, ?_, ?_, by decide⟩
  · unfold createNeighborOffsetTexture
    rw [h]
    rfl
  · unfold createNeighborOffsetTexture
    rw [h]
    rfl

/-- C18, amended. For every `sampleCount` below `2^31` (so that `sampleCount * 2` does not wrap
in `uint32_t`), `createNeighborOffsetTexture` finishes: with enough iterations, and then with
any larger number, the loop ends having written exactly `sampleCount` pairs (x, y), each with x
and y in [-127, 127] and `x*x + y*y <= 127*127`; no number of iterations gives another result
(`u`, `v` and `phi2` exact rationals, `int8_t` conversion truncating toward zero). -/
theorem createNeighborOffsetTexture_writes_sampleCount_pairs (sampleCount : Nat)
    (h : sampleCount < 2 ^ 31) :
    ∃ fuel offsets,
      (∀ fuel', fuel ≤ fuel' → createNeighborOffsetTexture fuel' sampleCount = some offsets) ∧
      (∀ fuel' r, createNeighborOffsetTexture fuel' sampleCount = some r → r = offsets) ∧
      offsets.length = sampleCount ∧ ∀ p ∈ offsets, OffsetInDisk p := by
  have hb : mulU32 sampleCount 2 = 2 * sampleCount := by
    unfold mulU32 u32
    rw [Nat.mod_eq_of_lt (by omega)]
    omega
  obtain ⟨fuel, r, h1, h2, h3⟩ := neighborOffsetLoop_ends sampleCount sampleCount 0 []
    (by simp) (by intro p hp; cases hp)
  have h0 : uvAfter 0 = (1 / 2, 1 / 2) := rfl
  rw [h0] at h1
  refine ⟨fuel, r, ?_, ?_, h2, h3⟩
  · intro fuel' hle
    unfold createNeighborOffsetTexture
    rw [hb]
    exact neighborOffsetLoop_mono _ _ _ _ _ h1 fuel' hle
  · intro fuel' r' hr'
    unfold createNeighborOffsetTexture at hr'
    rw [hb] at hr'
    have e1 := neighborOffsetLoop_mono _ _ _ _ _ h1 (fuel + fuel') (by omega)
    have e2 := neighborOffsetLoop_mono _ _ _ _ _ hr' (fuel + fuel') (by omega)
    rw [e1] at e2
    cases e2
    rfl

/-- C18, amended, at the `sampleCount` 8192 that both classes pass. -/
theorem createNeighborOffsetTexture_writes_sampleCount_pairs_witness :
    8192 < 2 ^ 31 ∧
    ∃ fuel offsets,
      (∀ fuel', fuel ≤ fuel' → createNeighborOffsetTexture fuel' 8192 = some offsets) ∧
      (∀ fuel' r, createNeighborOffsetTexture fuel' 8192 = some r → r = offsets) ∧
      offsets.length = 8192 ∧ ∀ p ∈ offsets, OffsetInDisk p :=
  ⟨by decide, createNeighborOffsetTexture_writes_sampleCount_pairs 8192 (by decide)⟩

/-! ## Ping-pong of the spatial iterations: C21 -/

namespace ScreenSpaceReSTIR

theorem spatialResamplingLoop_bindings (n : Nat) : ∀ s : ScreenSpaceReSTIR,
    spatialBindings (spatialResamplingLoop n s).2 =
      (List.range n).map (fun k =>
        if k % 2 = 0 then (s.mpPrevReservoirs, s.mpReservoirs)
        else (s.mpReservoirs, s.mpPrevReservoirs)) ∧
    (spatialResamplingLoop n s).1.mpReservoirs =
      (if n % 2 = 0 then s.mpReservoirs else s.mpPrevReservoirs) := by
  induction n with
  | zero => intro s; exact ⟨rfl, rfl⟩
  | succ n ih =>
    intro s
    obtain ⟨h1, h2⟩ := ih { s with mpReservoirs := s.mpPrevReservoirs,
                                   mpPrevReservoirs := s.mpReservoirs,
                                   mCurRISPass := s.mCurRISPass + 1 }
    refine ⟨?_, ?_⟩
    · rw [List.range_succ_eq_map, List.map_cons, List.map_map]
      show (s.mpPrevReservoirs, s.mpReservoirs) :: spatialBindings _ = _
      rw [h1]
      refine congrArg₂ List.cons rfl (List.map_congr_left ?_)
      intro k _
      simp only [Function.comp, Nat.succ_eq_add_one]
      rcases Nat.mod_two_eq_zero_or_one k with h | h
      · have : (k + 1) % 2 = 1 := by omega
        simp [h, this]
      · have : (k + 1) % 2 = 0 := by omega
        simp [h, this]
    · show (spatialResamplingLoop n _).1.mpReservoirs = _
      rw [h2]
      rcases Nat.mod_two_eq_zero_or_one n with h | h
      · have : (n + 1) % 2 = 1 := by omega
        simp [h, this]
      · have : (n + 1) % 2 = 0 := by omega
        simp [h, this]

end ScreenSpaceReSTIR
namespace ScreenSpaceReSTIR

theorem spatialBindings_append (a b : List Dispatch) :
    spatialBindings (a ++ b) = spatialBindings a ++ spatialBindings b :=
  List.filterMap_append _ _ _

theorem temporalResampling_bindings (x : ScreenSpaceReSTIR) :
    spatialBindings (temporalResampling x).2 = [] ∧
    (temporalResampling x).1.mpReservoirs = x.mpReservoirs ∧
    (temporalResampling x).1.mpPrevReservoirs = x.mpPrevReservoirs ∧
    (temporalResampling x).1.mOptions = x.mOptions := by
  unfold temporalResampling
  split
  · exact ⟨rfl, rfl, rfl, rfl⟩
  · split <;> exact ⟨rfl, rfl, rfl, rfl⟩

theorem updateEmissiveTriangles_bindings (x : ScreenSpaceReSTIR) :
    spatialBindings (updateEmissiveTriangles x).2 = [] := by
  unfold updateEmissiveTriangles
  split
  · rfl
  · split <;> rfl

/-- The spatial iterations inside `recordPasses`: iteration `k` binds the entry
`mpPrevReservoirs` as `reservoirs` and the entry `mpReservoirs` as `prevReservoirs` when `k` is
even, the other way round when `k` is odd; the list of dispatches ends with the final
evaluation, which reads the `reservoirs` of the last iteration. -/
theorem recordPasses_spatialBindings (s : ScreenSpaceReSTIR)
    (hDI : s.mOptions.useReSTIRDI = true) (hsp : s.mOptions.useSpatialResampling = true) :
    spatialBindings (recordPasses s).2 =
      (List.range s.mOptions.spatialIterations).map (fun k =>
        if k % 2 = 0 then (s.mpPrevReservoirs, s.mpReservoirs)
        else (s.mpReservoirs, s.mpPrevReservoirs)) ∧
    (recordPasses s).2.getLast? = some (Dispatch.evaluateFinalSamples
      (if s.mOptions.spatialIterations % 2 = 0 then s.mpReservoirs else s.mpPrevReservoirs)) := by
  rw [recordPasses_eq, if_pos hDI]
  have h0 : (if s.mOptions.useReSTIRGI then reSTIRGIClearPass s else (s, [])).1 = s := by
    split <;> rfl
  have h0d : spatialBindings
      (if s.mOptions.useReSTIRGI then reSTIRGIClearPass s else (s, [])).2 = [] := by
    split <;> rfl
  simp only [h0, updateEmissiveTriangles_fst]
  obtain ⟨t1, t2, t3, t4⟩ := temporalResampling_bindings (initialResampling (generateLightTiles s).1).1
  generalize temporalResampling (initialResampling (generateLightTiles s).1).1 = r4 at t1 t2 t3 t4 ⊢
  have e2 : r4.1.mpReservoirs = s.mpReservoirs := t2
  have e3 : r4.1.mpPrevReservoirs = s.mpPrevReservoirs := t3
  have e4 : r4.1.mOptions = s.mOptions := t4
  have hS : spatialResampling r4.1 = spatialResamplingLoop s.mOptions.spatialIterations r4.1 := by
    unfold spatialResampling
    rw [e4, hsp]
    rfl
  obtain ⟨b1, b2⟩ := spatialResamplingLoop_bindings s.mOptions.spatialIterations r4.1
  rw [e2, e3] at b1 b2
  rw [hS]
  refine ⟨?_, ?_⟩
  · simp only [spatialBindings_append, h0d, updateEmissiveTriangles_bindings, t1, b1,
      List.nil_append, List.append_nil]
    have g1 : spatialBindings (generateLightTiles s).2 = [] := rfl
    have g2 : spatialBindings (initialResampling (generateLightTiles s).1).2 = [] := rfl
    have g3 : spatialBindings (evaluateFinalSamples
        (spatialResamplingLoop s.mOptions.spatialIterations r4.1).1).2 = [] := rfl
    rw [g1, g2, g3, List.nil_append, List.nil_append, List.append_nil]
  · rw [List.getLast?_append]
    simp only [evaluateFinalSamples, b2]
    rfl

end ScreenSpaceReSTIR
/-- C21. The DI stages of a frame (`recordPasses`) with `useReSTIRDI` and
`useSpatialResampling` on, the two reservoir pointers being different buffers on entry: there
is one spatial dispatch per iteration; iteration k+1 binds as `prevReservoirs` the buffer that
iteration k bound as `reservoirs`; iteration 0 binds as `prevReservoirs` the buffer that the
initial pass (always recorded) and the temporal pass (when recorded) bound as `reservoirs`;
the two buffers bound by an iteration differ; and the list of dispatches ends with the final
evaluation, which reads the `reservoirs` of the last iteration. -/
theorem spatialResampling_ping_pong (s : ScreenSpaceReSTIR)
    (hDI : s.mOptions.useReSTIRDI = true) (hsp : s.mOptions.useSpatialResampling = true)
    (hne : s.mpReservoirs ≠ s.mpPrevReservoirs) :
    (spatialBindings (recordPasses s).2).length = s.mOptions.spatialIterations ∧
    (∀ k r p r' p', (spatialBindings (recordPasses s).2)[k]? = some (r, p) →
      (spatialBindings (recordPasses s).2)[k + 1]? = some (r', p') → p' = r) ∧
    (∀ r p, (spatialBindings (recordPasses s).2)[0]? = some (r, p) →
      (∃ f, Dispatch.initialResampling f p ∈ (recordPasses s).2) ∧
      (∀ f w, Dispatch.initialResampling f w ∈ (recordPasses s).2 → w = p) ∧
      (∀ f w q, Dispatch.temporalResampling f w q ∈ (recordPasses s).2 → w = p)) ∧
    (∀ r p, (r, p) ∈ spatialBindings (recordPasses s).2 → r ≠ p) ∧
    (∀ r p, (spatialBindings (recordPasses s).2).getLast? = some (r, p) →
      (recordPasses s).2.getLast? = some (Dispatch.evaluateFinalSamples r)) := by
  obtain ⟨hb, hl⟩ := recordPasses_spatialBindings s hDI hsp
  obtain ⟨-, hT, hI, -, -⟩ := recordPasses_reservoirs s
  have hget : ∀ k r p, (spatialBindings (recordPasses s).2)[k]? = some (r, p) →
      k < s.mOptions.spatialIterations ∧
      (r, p) = (if k % 2 = 0 then (s.mpPrevReservoirs, s.mpReservoirs)
                else (s.mpReservoirs, s.mpPrevReservoirs)) := by
    intro k r p h
    rw [hb, List.getElem?_map] at h
    by_cases hk : k < s.mOptions.spatialIterations
    · rw [List.getElem?_range hk] at h
      simp only [Option.map_some', Option.some.injEq] at h
      exact ⟨hk, h.symm⟩
    · rw [List.getElem?_eq_none (by simpa using hk)] at h
      cases h
  refine ⟨?_, ?_, ?_, ?_, ?_⟩
  · rw [hb, List.length_map, List.length_range]
  · intro k r p r' p' h1 h2
    obtain ⟨-, e1⟩ := hget k r p h1
    obtain ⟨-, e2⟩ := hget (k + 1) r' p' h2
    rcases Nat.mod_two_eq_zero_or_one k with h | h
    · have h' : (k + 1) % 2 = 1 := by omega
      simp only [h, h', if_true, one_ne_zero, if_false, Prod.mk.injEq] at e1 e2
      rw [e1.1, e2.2]
    · have h' : (k + 1) % 2 = 0 := by omega
      simp only [h, h', if_true, one_ne_zero, if_false, Prod.mk.injEq] at e1 e2
      rw [e1.1, e2.2]
  · intro r p h
    obtain ⟨-, e⟩ := hget 0 r p h
    simp only [Nat.zero_mod, if_true, Prod.mk.injEq] at e
    rw [e.2]
    refine ⟨?_, ?_, ?_⟩
    · have h0 : (if s.mOptions.useReSTIRGI then reSTIRGIClearPass s else (s, [])).1 = s := by
        split <;> rfl
      rw [recordPasses_eq, if_pos hDI]
      simp only [h0, updateEmissiveTriangles_fst]
      refine ⟨(generateLightTiles s).1.frameIndexUniform, ?_⟩
      simp only [List.mem_append]
      left; left; left; right
      exact List.mem_singleton.mpr rfl
    · intro f w hw
      exact hI f w hw
    · intro f w q hw
      exact (hT f w q hw).1
  · intro r p h
    obtain ⟨k, hk⟩ := List.getElem?_of_mem h
    obtain ⟨-, e⟩ := hget k r p hk
    rcases Nat.mod_two_eq_zero_or_one k with h | h
    · simp only [h, if_true, Prod.mk.injEq] at e
      rw [e.1, e.2]
      exact fun x => hne x.symm
    · simp only [h, one_ne_zero, if_false, Prod.mk.injEq] at e
      rw [e.1, e.2]
      exact hne
  · intro r p h
    rw [hl]
    rw [hb, List.getLast?_map] at h
    cases hn : s.mOptions.spatialIterations with
    | zero => rw [hn] at h; cases h
    | succ n =>
      rw [hn, List.range_succ, List.getLast?_append] at h
      have hor : (some n).or (List.range n).getLast? = some n := rfl
      rw [List.getLast?_singleton, hor] at h
      simp only [Option.map_some', Option.some.injEq] at h
      rcases Nat.mod_two_eq_zero_or_one n with h2 | h2
      · have h' : (n + 1) % 2 = 1 := by omega
        simp only [h2, h', if_true, one_ne_zero, if_false, Prod.mk.injEq] at h ⊢
        rw [h.1]
      · have h' : (n + 1) % 2 = 0 := by omega
        simp only [h2, h', if_true, one_ne_zero, if_false, Prod.mk.injEq] at h ⊢
        rw [h.1]
/-- C21 on the first frame of a new instance with two spatial iterations: the initial pass
writes buffer 3, iteration 0 reads it and writes buffer 4, iteration 1 reads buffer 4 and
writes buffer 3, which the final evaluation reads. -/
theorem spatialResampling_ping_pong_witness :
    (frameStart twoIterationsFrame (ScreenSpaceReSTIR.create {} 1 0)).mOptions.useReSTIRDI
        = true ∧
      (frameStart twoIterationsFrame
        (ScreenSpaceReSTIR.create {} 1 0)).mOptions.useSpatialResampling = true ∧
      (frameStart twoIterationsFrame (ScreenSpaceReSTIR.create {} 1 0)).mpReservoirs ≠
        (frameStart twoIterationsFrame (ScreenSpaceReSTIR.create {} 1 0)).mpPrevReservoirs ∧
      spatialBindings
          (recordPasses (frameStart twoIterationsFrame (ScreenSpaceReSTIR.create {} 1 0))).2 =
        [(some ⟨4, 1⟩, some ⟨3, 1⟩), (some ⟨3, 1⟩, some ⟨4, 1⟩)] ∧
      (recordPasses (frameStart twoIterationsFrame
          (ScreenSpaceReSTIR.create {} 1 0))).2.getLast? =
        some (Dispatch.evaluateFinalSamples (some ⟨3, 1⟩)) :=
  ⟨rfl, rfl, by decide, by decide,
   (spatialResampling_ping_pong
      (frameStart twoIterationsFrame (ScreenSpaceReSTIR.create {} 1 0)) rfl rfl
      (by decide)).2.2.2.2 (some ⟨3, 1⟩) (some ⟨4, 1⟩) (by decide)⟩

/-! ## ReSTIR-GI buffer indices: C22 -/

namespace ScreenSpaceReSTIR

theorem giRound_eq (s : ScreenSpaceReSTIR) (k : Nat)
    (hidx : s.mReSTIRInstanceIndex < s.mNumReSTIRInstances)
    (hF : s.mFrameIndex = s.mReSTIRInstanceIndex + k * s.mNumReSTIRInstances)
    (hu : s.mFrameIndex < 2 ^ 32) :
    subU32 s.mFrameIndex s.mReSTIRInstanceIndex / s.mNumReSTIRInstances = k := by
  rw [subU32_eq_sub (by omega) hu, hF, Nat.add_sub_cancel_left]
  exact Nat.mul_div_cancel k (by omega)

theorem addU32_mod_two (a b : Nat) : addU32 a b % 2 = (a + b) % 2 := by
  unfold addU32 u32
  exact Nat.mod_mod_of_dvd _ (by decide)

theorem giReservoirIndex_eq (s : ScreenSpaceReSTIR) (k offset : Nat)
    (hidx : s.mReSTIRInstanceIndex < s.mNumReSTIRInstances)
    (hF : s.mFrameIndex = s.mReSTIRInstanceIndex + k * s.mNumReSTIRInstances)
    (hu : s.mFrameIndex < 2 ^ 32) :
    s.giReservoirIndex offset = (k + offset) % 2 := by
  unfold giReservoirIndex
  rw [giRound_eq s k hidx hF hu, addU32_mod_two]

end ScreenSpaceReSTIR

/-- C22, the frame at which it fails: instance 0 of 7 at `mFrameIndex` = 613566756 * 7 =
4294967292 binds `mpGIReservoirs[1]` as `reservoirs`; `endFrame` adds 7 in `uint32_t`, which
wraps to 3, and the next frame binds `mpGIReservoirs[0]` as `prevReservoirs`. -/
theorem giReservoirIndex_differs_after_wrap :
    lastFrameBeforeWrap.mReSTIRInstanceIndex < lastFrameBeforeWrap.mNumReSTIRInstances ∧
      lastFrameBeforeWrap.mFrameIndex = lastFrameBeforeWrap.mReSTIRInstanceIndex
        + 613566756 * lastFrameBeforeWrap.mNumReSTIRInstances ∧
      lastFrameBeforeWrap.mFrameIndex < 2 ^ 32 ∧
      lastFrameBeforeWrap.giReservoirIndex 1 = 1 ∧
      lastFrameBeforeWrap.endFrame.mFrameIndex = 3 ∧
      lastFrameBeforeWrap.endFrame.giReservoirIndex 0 = 0 ∧
      (∃ f nd pnd p, (lastFrameBeforeWrap.updateReSTIRGI).2.head? =
        some (GIRecord.giResampling f nd pnd p lastFrameBeforeWrap.mpGIReservoirs1)) ∧
      (∃ f nd pnd r, (lastFrameBeforeWrap.endFrame.updateReSTIRGI).2.head? =
        some (GIRecord.giResampling f nd pnd lastFrameBeforeWrap.mpGIReservoirs0 r)) := by
  refine ⟨by decide, by decide, by decide, by decide, by decide, by decide, ?_, ?_⟩
  · exact ⟨_, _, _, _, rfl⟩
  · exact ⟨_, _, _, _, rfl⟩

/-- C22, amended. An enabled instance with index idx < N = `mNumReSTIRInstances` at
`mFrameIndex` = idx + k N, the next frame index idx + (k + 1) N being below 2^32: the index
into `mpGIReservoirs` used for `prevReservoirs` is k % 2 and the one used for `reservoirs` is
(k + 1) % 2, by `setShaderData` and by the dispatch of `updateReSTIRGI` alike; they are
different members of {0, 1}; `endFrame` moves the frame index to idx + (k + 1) N, and the index
used for `prevReservoirs` after it is the one used for `reservoirs` before it. -/
theorem giReservoirIndex_alternates (s : ScreenSpaceReSTIR) (k : Nat)
    (hidx : s.mReSTIRInstanceIndex < s.mNumReSTIRInstances)
    (hF : s.mFrameIndex = s.mReSTIRInstanceIndex + k * s.mNumReSTIRInstances)
    (hen : s.mOptions.enabled = true)
    (hnext : s.mReSTIRInstanceIndex + (k + 1) * s.mNumReSTIRInstances < 2 ^ 32) :
    (s.giReservoirIndex 0 = k % 2 ∧ s.giReservoirIndex 1 = (k + 1) % 2) ∧
    (s.giReservoirIndex 0 < 2 ∧ s.giReservoirIndex 1 < 2 ∧
      s.giReservoirIndex 0 ≠ s.giReservoirIndex 1) ∧
    (s.setShaderData.prevReservoirs = s.mpGIReservoirs (s.giReservoirIndex 0) ∧
      s.setShaderData.reservoirs = s.mpGIReservoirs (s.giReservoirIndex 1)) ∧
    (s.mOptions.useReSTIRGI = true →
      s.updateReSTIRGI.2 =
        [GIRecord.giResampling s.mFrameIndex s.mpNormalDepthTexture s.mpPrevNormalDepthTexture
           (s.mpGIReservoirs (s.giReservoirIndex 0)) (s.mpGIReservoirs (s.giReservoirIndex 1)),
         GIRecord.blit s.mpNormalDepthTexture s.mpPrevNormalDepthTexture]) ∧
    s.endFrame.mFrameIndex = s.mReSTIRInstanceIndex + (k + 1) * s.mNumReSTIRInstances ∧
    s.endFrame.giReservoirIndex 0 = s.giReservoirIndex 1 := by
  have hu : s.mFrameIndex < 2 ^ 32 := by
    rw [hF]
    have : k * s.mNumReSTIRInstances ≤ (k + 1) * s.mNumReSTIRInstances :=
      Nat.mul_le_mul_right _ (by omega)
    omega
  have i0 := giReservoirIndex_eq s k 0 hidx hF hu
  have i1 := giReservoirIndex_eq s k 1 hidx hF hu
  have hend : s.endFrame = { s with
      mFrameIndex := addU32 s.mFrameIndex s.mNumReSTIRInstances
      mpSurfaceData := s.mpPrevSurfaceData
      mpPrevSurfaceData := s.mpSurfaceData
      mpReservoirs := s.mpPrevReservoirs
      mpPrevReservoirs := s.mpReservoirs } := by
    unfold endFrame
    rw [if_pos hen]
  have hFe : s.endFrame.mFrameIndex =
      s.mReSTIRInstanceIndex + (k + 1) * s.mNumReSTIRInstances := by
    rw [hend]
    show addU32 s.mFrameIndex s.mNumReSTIRInstances = _
    unfold addU32 u32
    rw [hF, Nat.mod_eq_of_lt (by rw [Nat.add_mul] at hnext; omega)]
    rw [Nat.add_mul]
    omega
  have hIe : s.endFrame.mReSTIRInstanceIndex = s.mReSTIRInstanceIndex := by rw [hend]
  have hNe : s.endFrame.mNumReSTIRInstances = s.mNumReSTIRInstances := by rw [hend]
  have j0 := giReservoirIndex_eq s.endFrame (k + 1) 0 (by rw [hIe, hNe]; exact hidx)
    (by rw [hFe, hIe, hNe]) (by rw [hFe]; exact hnext)
  refine ⟨⟨i0, i1⟩, ⟨?_, ?_, ?_⟩, ⟨rfl, rfl⟩, ?_, hFe, ?_⟩
  · rw [i0]; omega
  · rw [i1]; omega
  · rw [i0, i1]; omega
  · intro hGI
    unfold updateReSTIRGI
    simp only [hGI, hen, Bool.not_true, if_true]
    rfl
  · rw [j0, i1]

/-- C22 on instance 1 of 2 at `mFrameIndex` 7 (k = 3): `prevReservoirs` is `mpGIReservoirs[1]`
(buffer 11), `reservoirs` is `mpGIReservoirs[0]` (buffer 10), and after `endFrame` the frame
index is 9 and `prevReservoirs` is buffer 10. -/
theorem giReservoirIndex_alternates_witness :
    secondInstanceFrame3.giReservoirIndex 0 = 1 ∧ secondInstanceFrame3.giReservoirIndex 1 = 0 ∧
      secondInstanceFrame3.endFrame.mFrameIndex = 9 ∧
      secondInstanceFrame3.endFrame.giReservoirIndex 0 = secondInstanceFrame3.giReservoirIndex 1 ∧
      secondInstanceFrame3.setShaderData.reservoirs = some ⟨10, 1⟩ ∧
      secondInstanceFrame3.endFrame.setShaderData.prevReservoirs = some ⟨10, 1⟩ :=
  ⟨(giReservoirIndex_alternates secondInstanceFrame3 3 (by decide) (by decide) rfl
      (by decide)).1.1,
   by decide,
   by decide,
   (giReservoirIndex_alternates secondInstanceFrame3 3 (by decide) (by decide) rfl
      (by decide)).2.2.2.2.2,
   by decide, by decide⟩

/-! ## Alignment of the frame index: C27 -/

namespace ScreenSpaceReSTIR

theorem beginFrame_instanceIndex (s : ScreenSpaceReSTIR) (frameDim : Nat × Nat) :
    (s.beginFrame frameDim).mReSTIRInstanceIndex = s.mReSTIRInstanceIndex := by
  unfold beginFrame
  split <;> rfl

theorem prepareEnvLight_instanceIndex {scene : Scene} {s s' : ScreenSpaceReSTIR}
    (h : prepareEnvLight scene s = .ok s') :
    s'.mReSTIRInstanceIndex = s.mReSTIRInstanceIndex := by
  unfold prepareEnvLight at h
  split at h
  · split at h
    · split at h
      · cases h; rfl
      · cases h
    · cases h; rfl
  · split at h
    · cases h; rfl
    · cases h; rfl

theorem prepareLighting_instanceIndex {scene : Scene} {s s' : ScreenSpaceReSTIR}
    (h : prepareLighting scene s = .ok s') :
    s'.mReSTIRInstanceIndex = s.mReSTIRInstanceIndex := by
  unfold prepareLighting at h
  simp only [bind, Except.bind, pure, Except.pure] at h
  split at h
  · cases h
  · rename_i s1 h1
    cases h
    have e := prepareEnvLight_instanceIndex h1
    have m : (prepareEmissiveLights scene s1).mReSTIRInstanceIndex
        = s1.mReSTIRInstanceIndex := by
      unfold prepareEmissiveLights
      split_ifs <;> rfl
    have a : (prepareAnalyticLights scene (prepareEmissiveLights scene s1)).mReSTIRInstanceIndex
        = (prepareEmissiveLights scene s1).mReSTIRInstanceIndex := by
      unfold prepareAnalyticLights
      simp only
      split_ifs <;> rfl
    show (prepareAnalyticLights scene (prepareEmissiveLights scene s1)).mReSTIRInstanceIndex = _
    rw [a, m, e]
    split <;> rfl

theorem updatePrograms_instanceIndex {s s' : ScreenSpaceReSTIR}
    (h : updatePrograms s = .ok s') :
    s'.mReSTIRInstanceIndex = s.mReSTIRInstanceIndex := by
  unfold updatePrograms at h
  split at h
  · cases h; rfl
  · simp only [bind, Except.bind, pure, Except.pure] at h
    split at h
    · cases h
    · cases h; rfl

theorem spatialResamplingLoop_instanceIndex (n : Nat) : ∀ s : ScreenSpaceReSTIR,
    (spatialResamplingLoop n s).1.mReSTIRInstanceIndex = s.mReSTIRInstanceIndex := by
  induction n with
  | zero => intro s; rfl
  | succ n ih =>
    intro s
    simp only [spatialResamplingLoop]
    rw [ih]

theorem recordPasses_instanceIndex (s : ScreenSpaceReSTIR) :
    (recordPasses s).1.mReSTIRInstanceIndex = s.mReSTIRInstanceIndex := by
  rw [recordPasses_eq]
  have h0 : (if s.mOptions.useReSTIRGI then reSTIRGIClearPass s else (s, [])).1 = s := by
    split <;> rfl
  split
  · simp only [h0, updateEmissiveTriangles_fst]
    have k4 : (temporalResampling (initialResampling
        (generateLightTiles s).1).1).1.mReSTIRInstanceIndex = s.mReSTIRInstanceIndex := by
      unfold temporalResampling
      split
      · rfl
      · split <;> rfl
    generalize (temporalResampling (initialResampling (generateLightTiles s).1).1).1 = s4 at k4 ⊢
    have k5 : (spatialResampling s4).1.mReSTIRInstanceIndex = s4.mReSTIRInstanceIndex := by
      unfold spatialResampling
      split
      · rfl
      · exact spatialResamplingLoop_instanceIndex _ _
    show (spatialResampling s4).1.mReSTIRInstanceIndex = _
    rw [k5, k4]
  · rw [h0]

/-- What `updateReSTIRDI` leaves in place when it returns: the frame index, the instance index
and the instance count. -/
theorem updateReSTIRDI_frameIndex {scene : Scene} {s : ScreenSpaceReSTIR}
    {r : ScreenSpaceReSTIR × List Dispatch} (h : s.updateReSTIRDI scene = .ok r) :
    r.1.mFrameIndex = s.mFrameIndex ∧ r.1.mReSTIRInstanceIndex = s.mReSTIRInstanceIndex ∧
      r.1.mNumReSTIRInstances = s.mNumReSTIRInstances := by
  by_cases hen : s.mOptions.enabled = true
  · obtain ⟨s1, s2, h1, h2, hr⟩ := updateReSTIRDI_ok_enabled s hen h
    have p1 := prepareLighting_ok h1
    have p2 := updatePrograms_ok h2
    have q1 := prepareLighting_instanceIndex h1
    have q2 := updatePrograms_instanceIndex h2
    have k := recordPasses_keeps s2
    subst hr
    refine ⟨?_, ?_, ?_⟩
    · rw [k.2.1, p2.1.2.1, p1.1.2.1]
    · rw [recordPasses_instanceIndex, q2, q1]
    · rw [k.2.2.1, p2.1.2.2.1, p1.1.2.2.1]
  · unfold updateReSTIRDI at h
    rw [if_neg hen] at h
    cases h
    exact ⟨rfl, rfl, rfl⟩

theorem updateReSTIRGI_fst (s : ScreenSpaceReSTIR) : s.updateReSTIRGI.1 = s := by
  unfold updateReSTIRGI
  split
  · rfl
  · split <;> rfl

end ScreenSpaceReSTIR

/-- C27, the operation that breaks it: instance 1 of 2 is aligned after construction
(`mFrameIndex` = 1); `resetReservoirCount` leaves `mFrameIndex` = 0, below the instance index,
and `mFrameIndex - mReSTIRInstanceIndex` wraps around to 2^32 - 1. -/
theorem resetReservoirCount_breaks_frameIndex_alignment :
    FrameIndexAligned (ScreenSpaceReSTIR.create {} 2 1) ∧
      ¬ FrameIndexAligned (ScreenSpaceReSTIR.create {} 2 1).resetReservoirCount ∧
      (ScreenSpaceReSTIR.create {} 2 1).resetReservoirCount.mFrameIndex = 0 ∧
      (ScreenSpaceReSTIR.create {} 2 1).resetReservoirCount.mReSTIRInstanceIndex = 1 ∧
      subU32 (ScreenSpaceReSTIR.create {} 2 1).resetReservoirCount.mFrameIndex
        (ScreenSpaceReSTIR.create {} 2 1).resetReservoirCount.mReSTIRInstanceIndex
          = 2 ^ 32 - 1 := by
  refine ⟨by decide, by decide, rfl, rfl, by decide⟩

/-- C27, amended. The alignment of the frame index holds after construction; on an aligned
instance whose frame index is a `uint32_t` value the subtraction
`mFrameIndex - mReSTIRInstanceIndex` does not wrap; `beginFrame`, a returning `updateReSTIRDI`
and `updateReSTIRGI` keep the alignment; `endFrame` keeps it when the pass is disabled or
`mFrameIndex + mNumReSTIRInstances` stays below 2^32; `resetReservoirCount` keeps it exactly on
instance 0. -/
theorem frameIndex_alignment_preserved (s : ScreenSpaceReSTIR)
    (h : FrameIndexAligned s) (hu : s.mFrameIndex < 2 ^ 32) :
    (∀ (options : Options) (n i : Nat), FrameIndexAligned (ScreenSpaceReSTIR.create options n i)) ∧
    subU32 s.mFrameIndex s.mReSTIRInstanceIndex = s.mFrameIndex - s.mReSTIRInstanceIndex ∧
    (∀ frameDim, FrameIndexAligned (s.beginFrame frameDim)) ∧
    (∀ scene r, s.updateReSTIRDI scene = .ok r → FrameIndexAligned r.1) ∧
    FrameIndexAligned s.updateReSTIRGI.1 ∧
    ((s.mOptions.enabled = true → s.mFrameIndex + s.mNumReSTIRInstances < 2 ^ 32) →
      FrameIndexAligned s.endFrame) ∧
    (FrameIndexAligned s.resetReservoirCount ↔ s.mReSTIRInstanceIndex = 0) := by
  refine ⟨?_, subU32_eq_sub h.1 hu, ?_, ?_, ?_, ?_, ?_⟩
  · intro options n i
    refine ⟨Nat.le_refl _, ?_⟩
    show n % u32 ∣ i % u32 - i % u32
    rw [Nat.sub_self]
    exact Nat.dvd_zero _
  · intro frameDim
    have k := beginFrame_keeps s frameDim
    unfold FrameIndexAligned
    rw [beginFrame_instanceIndex, k.2.1, k.2.2.1]
    exact h
  · intro scene r hr
    obtain ⟨e1, e2, e3⟩ := updateReSTIRDI_frameIndex hr
    unfold FrameIndexAligned
    rw [e1, e2, e3]
    exact h
  · rw [updateReSTIRGI_fst]
    exact h
  · intro hw
    unfold endFrame
    split
    · rename_i hen
      have hlt := hw hen
      refine ⟨?_, ?_⟩
      · show s.mReSTIRInstanceIndex ≤ addU32 s.mFrameIndex s.mNumReSTIRInstances
        unfold addU32 u32
        rw [Nat.mod_eq_of_lt hlt]
        have := h.1
        omega
      · show s.mNumReSTIRInstances ∣
          addU32 s.mFrameIndex s.mNumReSTIRInstances - s.mReSTIRInstanceIndex
        unfold addU32 u32
        rw [Nat.mod_eq_of_lt hlt]
        have e : s.mFrameIndex + s.mNumReSTIRInstances - s.mReSTIRInstanceIndex
            = (s.mFrameIndex - s.mReSTIRInstanceIndex) + s.mNumReSTIRInstances := by
          have := h.1
          omega
        rw [e]
        exact Nat.dvd_add h.2 (Nat.dvd_refl _)
    · exact h
  · constructor
    · intro hr
      have : s.mReSTIRInstanceIndex ≤ 0 := hr.1
      omega
    · intro h0
      refine ⟨?_, ?_⟩
      · show s.mReSTIRInstanceIndex ≤ 0
        omega
      · show s.mNumReSTIRInstances ∣ 0 - s.mReSTIRInstanceIndex
        rw [Nat.zero_sub]
        exact Nat.dvd_zero _

/-- C27 on instance 1 of 2 after construction: `endFrame` moves the frame index from 1 to 3,
which is aligned, and the subtraction gives 0 before and 2 after. -/
theorem frameIndex_alignment_preserved_witness :
    FrameIndexAligned (ScreenSpaceReSTIR.create {} 2 1) ∧
      FrameIndexAligned (ScreenSpaceReSTIR.create {} 2 1).endFrame ∧
      (ScreenSpaceReSTIR.create {} 2 1).endFrame.mFrameIndex = 3 ∧
      subU32 (ScreenSpaceReSTIR.create {} 2 1).mFrameIndex
        (ScreenSpaceReSTIR.create {} 2 1).mReSTIRInstanceIndex = 0 :=
  ⟨by decide,
   (frameIndex_alignment_preserved (ScreenSpaceReSTIR.create {} 2 1) (by decide)
      (by decide)).2.2.2.2.2.1 (fun _ => by decide),
   by decide, by decide⟩

/-! ## Light-sample bit layout: C29 -/

theorem computeIndexPositionBits_ok_layout {aliasTable : Option Nat} {i p ib pb : Nat}
    (hsum : i + p = 30)
    (h : computeIndexPositionBits aliasTable i p = .ok (ib, pb)) : ib + pb = 30 := by
  cases aliasTable with
  | none =>
    simp only [computeIndexPositionBits, Except.ok.injEq, Prod.mk.injEq] at h
    omega
  | some count =>
    simp only [computeIndexPositionBits] at h
    generalize (if countBits count 0 &&& 1 ≠ 0 then countBits count 0 + 1
      else countBits count 0) = b at h
    by_cases hb : b ≥ 30
    · rw [if_pos hb] at h
      cases h
    · rw [if_neg hb] at h
      simp only [Except.ok.injEq, Prod.mk.injEq] at h
      omega

/-- C29. Whenever `computeIndexPositionBits` returns for an alias table of `count` entries, the
index width is even, every index in [0, count) fits in it (`count < 2 ^ indexBits`), the
position width is at least 2, and the two widths sum to 30; and whenever `getLightsDefines`
returns, the two widths of each of the three categories sum to 30, for present and absent
tables alike, the widths of absent tables being the defaults 26/4, 22/8 and 14/16. -/
theorem computeIndexPositionBits_fits_30_bits (count i p ib pb : Nat)
    (h : computeIndexPositionBits (some count) i p = .ok (ib, pb)) :
    (ib % 2 = 0 ∧ count < 2 ^ ib ∧ 2 ≤ pb ∧ ib + pb = 30) ∧
    (∀ env em an d, getLightsDefines env em an = .ok d →
      d.envIndexBits + d.envPositionBits = 30 ∧
      d.emissiveIndexBits + d.emissivePositionBits = 30 ∧
      d.analyticIndexBits + d.analyticPositionBits = 30) ∧
    getLightsDefines none none none =
      .ok { envIndexBits := 26, envPositionBits := 4, emissiveIndexBits := 22
            emissivePositionBits := 8, analyticIndexBits := 14, analyticPositionBits := 16 } := by
  refine ⟨?_, ?_, rfl⟩
  · by_cases hc : 1 ≤ count
    · have hne : count ≠ 0 := by omega
      obtain ⟨e1, e2⟩ := computeIndexPositionBits_ok_some hc h
      have hlt30 : ib < 30 := by
        rw [computeIndexPositionBits_some count i p hc] at h
        split at h
        · cases h
        · rename_i hlt
          rw [e1]
          omega
      have heven : ib % 2 = 0 := by
        rw [e1]
        unfold roundUpEven
        split <;> omega
      have hge : Nat.log 2 count + 1 ≤ ib := by
        rw [e1]
        unfold roundUpEven
        split <;> omega
      have hfit : count < 2 ^ ib :=
        Nat.lt_of_lt_of_le (Nat.lt_pow_succ_log_self (by decide) count)
          (Nat.pow_le_pow_right (by decide) hge)
      refine ⟨heven, hfit, ?_, ?_⟩ <;> omega
    · have h0 : count = 0 := by omega
      subst h0
      have hz : computeIndexPositionBits (some 0) i p = .ok (0, 30) := by
        simp [computeIndexPositionBits, countBits]
      rw [hz] at h
      simp only [Except.ok.injEq, Prod.mk.injEq] at h
      obtain ⟨h1, h2⟩ := h
      subst h1
      subst h2
      exact ⟨rfl, by decide, by decide, rfl⟩
  · intro env em an d hd
    obtain ⟨h1, h2, h3⟩ := (getLightsDefines_ok_iff env em an d).mp hd
    exact ⟨computeIndexPositionBits_ok_layout rfl h1, computeIndexPositionBits_ok_layout rfl h2,
      computeIndexPositionBits_ok_layout rfl h3⟩

/-- C29 on a table of 100 entries: 8 index bits (100 < 256) and 22 position bits. -/
theorem computeIndexPositionBits_fits_30_bits_witness :
    computeIndexPositionBits (some 100) 14 16 = .ok (8, 22) ∧
      (8 % 2 = 0 ∧ 100 < 2 ^ 8 ∧ 2 ≤ 22 ∧ 8 + 22 = 30) :=
  ⟨by simp [computeIndexPositionBits, countBits],
   (computeIndexPositionBits_fits_30_bits 100 14 16 8 22
      (by simp [computeIndexPositionBits, countBits])).1⟩

/-! ## The command list of `prepareForDraw`: C23 -/

namespace RenderContext

theorem vertexBufferBarriers_exact (l : List (Option Nat)) : ∀ ctx : RenderContext,
    Appends ctx (vertexBufferBarriers l ctx) (transitionsOf l .VertexBuffer) := by
  induction l with
  | nil => intro ctx; exact Appends.appends_refl ctx
  | cons a rest ih =>
    intro ctx
    cases a with
    | none => exact ih ctx
    | some pVB =>
      exact (resourceBarrier_appends ctx pVB .VertexBuffer).appends_trans
        (ih (ctx.resourceBarrier pVB .VertexBuffer))

theorem colorTargetBarriers_exact (l : List (Option Nat)) : ∀ ctx : RenderContext,
    Appends ctx (colorTargetBarriers l ctx) (transitionsOf l .RenderTarget) := by
  induction l with
  | nil => intro ctx; exact Appends.appends_refl ctx
  | cons a rest ih =>
    intro ctx
    cases a with
    | none => exact ih ctx
    | some pTexture =>
      exact (resourceBarrier_appends ctx pTexture .RenderTarget).appends_trans
        (ih (ctx.resourceBarrier pTexture .RenderTarget))

theorem D3D12SetVao_exact (ctx : RenderContext) (vao : Vao) :
    Appends ctx (D3D12SetVao ctx (some vao)) (vaoCommands vao) := by
  have a1 := vertexBufferBarriers_exact vao.vertexBuffers ctx
  unfold D3D12SetVao vaoCommands
  simp only
  cases hib : vao.indexBuffer with
  | none =>
    have := (a1.appends_trans (record_appends _ (.iaSetVertexBuffers vao.vertexBuffers))).appends_trans
      (record_appends _ (.iaSetIndexBuffer none))
    simpa [transitionsOf] using this
  | some pIB =>
    have := ((a1.appends_trans (resourceBarrier_appends _ pIB .IndexBuffer)).appends_trans
      (record_appends _ (.iaSetVertexBuffers vao.vertexBuffers))).appends_trans
      (record_appends _ (.iaSetIndexBuffer (some pIB)))
    simpa [transitionsOf] using this

theorem D3D12SetFbo_exact (ctx : RenderContext) (pFbo : Option Fbo) :
    Appends ctx (D3D12SetFbo ctx pFbo) (fboCommands pFbo) := by
  cases pFbo with
  | none => exact record_appends _ _
  | some fbo =>
    have a1 := colorTargetBarriers_exact fbo.colorTextures ctx
    unfold D3D12SetFbo fboCommands
    simp only
    cases hds : fbo.depthStencilTexture with
    | none =>
      have := a1.appends_trans (record_appends _ (.omSetRenderTargets fbo.colorTextures none))
      simpa [transitionsOf] using this
    | some pTexture =>
      have := (a1.appends_trans (resourceBarrier_appends _ pTexture .DepthStencil)).appends_trans
        (record_appends _ (.omSetRenderTargets fbo.colorTextures (some pTexture)))
      simpa [transitionsOf] using this

theorem D3D12SetSamplePositions_exact (featureSupported : Bool) (ctx : RenderContext)
    (pFbo : Option Fbo) :
    Appends ctx (D3D12SetSamplePositions featureSupported ctx pFbo)
      (samplePositionsCommands featureSupported pFbo) := by
  unfold D3D12SetSamplePositions samplePositionsCommands
  cases pFbo with
  | none => exact Appends.appends_refl _
  | some fbo =>
    simp only
    cases featureSupported with
    | false => exact Appends.appends_refl _
    | true =>
      simp only [if_true]
      split
      · exact record_appends _ _
      · exact record_appends _ _

/-- The statements of `prepareForDraw` from the topology to the pipeline state record the
commands of the flagged items, in order. -/
theorem bindFlagged_exact (featureSupported : Bool) (ctx : RenderContext)
    (pState : GraphicsState) :
    Appends ctx (bindFlagged featureSupported ctx pState)
      ((if ctx.mBindFlags.topology then
          [ContextCommand.iaSetPrimitiveTopology pState.vao.primitiveTopology] else [])
        ++ (if ctx.mBindFlags.vao then vaoCommands pState.vao else [])
        ++ (if ctx.mBindFlags.fbo then fboCommands pState.fbo else [])
        ++ (if ctx.mBindFlags.samplePositions then
              samplePositionsCommands featureSupported pState.fbo else [])
        ++ (if ctx.mBindFlags.viewports then [ContextCommand.rsSetViewports pState.viewport]
            else [])
        ++ (if ctx.mBindFlags.scissors then [ContextCommand.rsSetScissorRects pState.scissor]
            else [])
        ++ (if ctx.mBindFlags.pipelineState then [ContextCommand.setPipelineState pState.gso]
            else [])) := by
  unfold bindFlagged
  have h1 : Appends ctx (bindTopology ctx pState)
      (if ctx.mBindFlags.topology then
        [ContextCommand.iaSetPrimitiveTopology pState.vao.primitiveTopology] else []) := by
    unfold bindTopology
    split
    · exact record_appends _ _
    · exact Appends.appends_refl _
  generalize bindTopology ctx pState = x1 at h1 ⊢
  have h2 : Appends x1 (bindVao x1 pState)
      (if ctx.mBindFlags.vao then vaoCommands pState.vao else []) := by
    unfold bindVao
    rw [h1.2]
    split
    · exact D3D12SetVao_exact _ _
    · exact Appends.appends_refl _
  have a2 := h1.appends_trans h2
  generalize bindVao x1 pState = x2 at a2 ⊢
  have h3 : Appends x2 (bindFbo x2 pState)
      (if ctx.mBindFlags.fbo then fboCommands pState.fbo else []) := by
    unfold bindFbo
    rw [a2.2]
    split
    · exact D3D12SetFbo_exact _ _
    · exact Appends.appends_refl _
  have a3 := a2.appends_trans h3
  generalize bindFbo x2 pState = x3 at a3 ⊢
  have h4 : Appends x3 (bindSamplePositions featureSupported x3 pState)
      (if ctx.mBindFlags.samplePositions then
        samplePositionsCommands featureSupported pState.fbo else []) := by
    unfold bindSamplePositions
    rw [a3.2]
    split
    · exact D3D12SetSamplePositions_exact _ _ _
    · exact Appends.appends_refl _
  have a4 := a3.appends_trans h4
  generalize bindSamplePositions featureSupported x3 pState = x4 at a4 ⊢
  have h5 : Appends x4 (bindViewports x4 pState)
      (if ctx.mBindFlags.viewports then [ContextCommand.rsSetViewports pState.viewport]
        else []) := by
    unfold bindViewports
    rw [a4.2]
    split
    · exact record_appends _ _
    · exact Appends.appends_refl _
  have a5 := a4.appends_trans h5
  generalize bindViewports x4 pState = x5 at a5 ⊢
  have h6 : Appends x5 (bindScissors x5 pState)
      (if ctx.mBindFlags.scissors then [ContextCommand.rsSetScissorRects pState.scissor]
        else []) := by
    unfold bindScissors
    rw [a5.2]
    split
    · exact record_appends _ _
    · exact Appends.appends_refl _
  have a6 := a5.appends_trans h6
  generalize bindScissors x5 pState = x6 at a6 ⊢
  have h7 : Appends x6 (bindPipelineState x6 pState)
      (if ctx.mBindFlags.pipelineState then [ContextCommand.setPipelineState pState.gso]
        else []) := by
    unfold bindPipelineState
    rw [a6.2]
    split
    · exact record_appends _ _
    · exact Appends.appends_refl _
  exact a6.appends_trans h7

theorem bindBlendStencil_exact (ctx : RenderContext) (pState : GraphicsState) :
    Appends ctx (bindBlendStencil ctx pState)
      ((match pState.blendFactor with
        | some factor => [ContextCommand.omSetBlendFactor factor]
        | none => [])
        ++ [ContextCommand.omSetStencilRef (pState.stencilRef.getD 0)]) := by
  unfold bindBlendStencil
  cases pState.blendFactor with
  | none => exact record_appends _ _
  | some f => exact (record_appends _ _).appends_trans (record_appends _ _)

/-- The block of `prepareForDraw` under the `Vars` flag, when it does not end in
`return false`, records the commands of the item "shader variables / root signature". -/
theorem applyVars_exact (applyGraphicsVars : RenderContext → Nat → Nat → RenderContext × Bool)
    (ctx : RenderContext) (pState : GraphicsState) (pVars : Option Nat)
    (applied : List ContextCommand)
    (happly : ∀ vars, pVars = some vars →
      Appends ctx (applyGraphicsVars ctx vars pState.gso).1 applied)
    (hok : (applyVars applyGraphicsVars ctx pState pVars).2 = true) :
    Appends ctx (applyVars applyGraphicsVars ctx pState pVars).1
      (if ctx.mBindFlags.vars then varsCommands pVars applied else []) := by
  unfold applyVars at hok ⊢
  cases hf : ctx.mBindFlags.vars with
  | false =>
    simp only [Bool.false_eq_true, if_false]
    exact Appends.appends_refl _
  | true =>
    simp only [hf, if_true] at hok ⊢
    cases pVars with
    | none => exact ⟨rfl, rfl⟩
    | some vars =>
      have ha := happly vars rfl
      cases hr : (applyGraphicsVars ctx vars pState.gso).2 with
      | false => simp [hr] at hok
      | true =>
        simp only [hr, varsCommands]
        exact ⟨ha.1, ha.2⟩

end RenderContext

/-- C23. For every context (every set of bind flags), graphics state and variable block, the
commands `applyGraphicsVars` records being `applied`: a `prepareForDraw` that returns true
appends to the command list exactly the commands of the flagged items, in the order shader
variables / root signature, primitive topology, vertex and index buffers, render targets,
sample positions, viewports, scissors, pipeline state, then the blend factor when a blend
state exists and the stencil reference (0 without depth-stencil state), whatever the flags;
the bind flags are left as they were. -/
theorem prepareForDraw_records_flagged_items_in_order
    (applyGraphicsVars : RenderContext → Nat → Nat → RenderContext × Bool)
    (featureSupported : Bool) (ctx : RenderContext) (pState : GraphicsState)
    (pVars : Option Nat) (applied : List ContextCommand)
    (happly : ∀ vars, pVars = some vars →
      Appends ctx (applyGraphicsVars ctx vars pState.gso).1 applied)
    (hok : (RenderContext.prepareForDraw applyGraphicsVars featureSupported ctx pState
      pVars).2 = true) :
    (RenderContext.prepareForDraw applyGraphicsVars featureSupported ctx pState
        pVars).1.commandList =
      ctx.commandList ++
        specPrepareForDrawCommands ctx.mBindFlags featureSupported pState pVars applied ∧
    (RenderContext.prepareForDraw applyGraphicsVars featureSupported ctx pState
        pVars).1.mBindFlags = ctx.mBindFlags := by
  have e := RenderContext.prepareForDraw_of_true applyGraphicsVars featureSupported ctx pState
    pVars hok
  rw [RenderContext.prepareForDraw_snd] at hok
  have a1 := RenderContext.applyVars_exact applyGraphicsVars ctx pState pVars applied happly hok
  generalize (RenderContext.applyVars applyGraphicsVars ctx pState pVars).1 = x1 at a1 e
  have a2 := RenderContext.bindFlagged_exact featureSupported x1 pState
  rw [a1.2] at a2
  have a3 := RenderContext.bindBlendStencil_exact
    (RenderContext.bindFlagged featureSupported x1 pState) pState
  have a := (a1.appends_trans a2).appends_trans a3
  rw [e]
  refine ⟨?_, a.2⟩
  rw [a.1]
  simp only [specPrepareForDrawCommands, List.append_assoc]

/-- C23 on a context that leaves out the render targets and the viewports, without blend or
depth-stencil state: with null variables eleven commands, the empty root signature first and
none for the two items left out; with a variable block that `applyGraphicsVars` binds without
recording, the same list without the root signature. -/
theorem prepareForDraw_records_flagged_items_in_order_witness :
    (RenderContext.prepareForDraw applyGraphicsVarsOk true contextWithoutFboViewports
        exampleGraphicsState none).1.commandList =
      [.setGraphicsRootSignatureEmpty, .iaSetPrimitiveTopology 0,
       .resourceBarrier 1 .VertexBuffer, .resourceBarrier 2 .VertexBuffer,
       .resourceBarrier 3 .IndexBuffer, .iaSetVertexBuffers [some 1, none, some 2],
       .iaSetIndexBuffer (some 3), .setSamplePositions 0 0 0,
       .rsSetScissorRects ⟨0, 0, 0, 0⟩, .setPipelineState 0, .omSetStencilRef 0] ∧
    (RenderContext.prepareForDraw applyGraphicsVarsOk true contextWithoutFboViewports
        exampleGraphicsState (some 7)).1.commandList =
      [.iaSetPrimitiveTopology 0,
       .resourceBarrier 1 .VertexBuffer, .resourceBarrier 2 .VertexBuffer,
       .resourceBarrier 3 .IndexBuffer, .iaSetVertexBuffers [some 1, none, some 2],
       .iaSetIndexBuffer (some 3), .setSamplePositions 0 0 0,
       .rsSetScissorRects ⟨0, 0, 0, 0⟩, .setPipelineState 0, .omSetStencilRef 0] :=
  ⟨(prepareForDraw_records_flagged_items_in_order applyGraphicsVarsOk true
      contextWithoutFboViewports exampleGraphicsState none []
      (by intro vars h; cases h) rfl).1,
   (prepareForDraw_records_flagged_items_in_order applyGraphicsVarsOk true
      contextWithoutFboViewports exampleGraphicsState (some 7) []
      (fun _ _ => Appends.appends_refl _) rfl).1⟩

/-! ## Last-round flags: C26 -/

theorem lastRoundCount_append (a b : List PTCommand) :
    lastRoundCount (a ++ b) = lastRoundCount a + lastRoundCount b :=
  List.countP_append _ _ _

namespace ReSTIRPTPass

theorem lastRoundCount_temporalStage (x : ReSTIRPTPass) (skip : Bool) (i : Nat)
    (hmode : x.mStaticParams.pathSamplingMode = .ReSTIR) :
    lastRoundCount (x.temporalStage skip i) =
      if x.mEnableTemporalReuse && !skip && !x.mEnableSpatialReuse then 1 else 0 := by
  unfold temporalStage
  rw [if_pos hmode]
  cases x.mEnableTemporalReuse <;> cases skip <;> cases hS : x.mEnableSpatialReuse <;>
    by_cases hh : x.mStaticParams.shiftStrategy = .Hybrid <;>
    simp [hh, hmode, lastRoundCount, PathReusePass, PathRetracePass, PTCommand.isLastRound]

theorem lastRoundCount_spatialRound (x : ReSTIRPTPass) (i r : Nat)
    (hmode : x.mStaticParams.pathSamplingMode = .ReSTIR) :
    lastRoundCount (x.spatialRound i r) =
      if (r : Int) = x.mNumSpatialRounds - 1 then 1 else 0 := by
  unfold spatialRound
  by_cases hh : x.mStaticParams.shiftStrategy = .Hybrid <;>
    by_cases hr : (r : Int) = x.mNumSpatialRounds - 1 <;>
    simp [hh, hr, hmode, lastRoundCount, PathReusePass, PathRetracePass,
      PTCommand.isLastRound]

theorem lastRoundCount_spatialRounds (x : ReSTIRPTPass) (i : Nat)
    (hmode : x.mStaticParams.pathSamplingMode = .ReSTIR) : ∀ m : Nat,
    lastRoundCount ((List.range m).flatMap (x.spatialRound i)) =
      if 0 ≤ x.mNumSpatialRounds - 1 ∧ x.mNumSpatialRounds - 1 < m then 1 else 0 := by
  intro m
  induction m with
  | zero =>
    have : ¬ (0 ≤ x.mNumSpatialRounds - 1 ∧ x.mNumSpatialRounds - 1 < ((0 : Nat) : Int)) := by
      omega
    rw [if_neg this]
    rfl
  | succ m ih =>
    rw [List.range_succ, List.flatMap_append, lastRoundCount_append, ih]
    simp only [List.flatMap_cons, List.flatMap_nil, List.append_nil]
    rw [lastRoundCount_spatialRound x i m hmode]
    by_cases h1 : (m : Int) = x.mNumSpatialRounds - 1
    · have h2 : ¬ (0 ≤ x.mNumSpatialRounds - 1 ∧ x.mNumSpatialRounds - 1 < (m : Int)) := by
        omega
      have h3 : 0 ≤ x.mNumSpatialRounds - 1 ∧
          x.mNumSpatialRounds - 1 < ((m + 1 : Nat) : Int) := by
        push_cast
        omega
      rw [if_pos h1, if_neg h2, if_pos h3]
    · by_cases h2 : 0 ≤ x.mNumSpatialRounds - 1 ∧ x.mNumSpatialRounds - 1 < (m : Int)
      · have h3 : 0 ≤ x.mNumSpatialRounds - 1 ∧
            x.mNumSpatialRounds - 1 < ((m + 1 : Nat) : Int) := by
          push_cast
          omega
        rw [if_neg h1, if_pos h2, if_pos h3]
      · have h3 : ¬ (0 ≤ x.mNumSpatialRounds - 1 ∧
            x.mNumSpatialRounds - 1 < ((m + 1 : Nat) : Int)) := by
          push_cast
          omega
        rw [if_neg h1, if_neg h2, if_neg h3]

theorem lastRoundCount_spatialStage (x : ReSTIRPTPass) (i : Nat)
    (hmode : x.mStaticParams.pathSamplingMode = .ReSTIR) :
    lastRoundCount (x.spatialStage i) =
      if x.mEnableSpatialReuse = true ∧ 1 ≤ x.mNumSpatialRounds then 1 else 0 := by
  unfold spatialStage
  cases hS : x.mEnableSpatialReuse with
  | false => simp [lastRoundCount]
  | true =>
    simp only [if_true, true_and]
    rw [lastRoundCount_spatialRounds x i hmode]
    by_cases hn : 1 ≤ x.mNumSpatialRounds
    · have : 0 ≤ x.mNumSpatialRounds - 1 ∧
          x.mNumSpatialRounds - 1 < (x.mNumSpatialRounds.toNat : Int) := by
        rw [Int.toNat_of_nonneg (by omega)]
        omega
      rw [if_pos this, if_pos hn]
    · have : ¬ (0 ≤ x.mNumSpatialRounds - 1 ∧
          x.mNumSpatialRounds - 1 < (x.mNumSpatialRounds.toNat : Int)) := by
        omega
      rw [if_neg this, if_neg hn]

theorem lastRoundCount_temporalCopies (x : ReSTIRPTPass) (n i : Nat) :
    lastRoundCount (x.temporalCopies n i) = 0 := by
  unfold temporalCopies
  split
  · split <;> split <;> rfl
  · rfl

/-- The number of dispatches flagged as the last round in a sub-sample in ReSTIR mode: with
spatial reuse, one when there is at least one spatial round and none otherwise; without spatial
reuse, none when temporal reuse is enabled but skipped, and one otherwise. -/
theorem lastRoundCount_subSampleCommands (frame : PTFrame) (skip : Bool) (n j : Nat)
    (x : ReSTIRPTPass) (hmode : x.mStaticParams.pathSamplingMode = .ReSTIR) :
    lastRoundCount (subSampleCommands frame skip n j x) =
      if x.mEnableSpatialReuse then (if 1 ≤ x.mNumSpatialRounds then 1 else 0)
      else if x.mEnableTemporalReuse && skip then 0 else 1 := by
  have hne : x.mStaticParams.pathSamplingMode ≠ .PathTracing := by rw [hmode]; decide
  unfold subSampleCommands
  rw [if_pos hne]
  simp only [lastRoundCount_append, lastRoundCount_temporalStage x skip j hmode,
    lastRoundCount_spatialStage x j hmode, lastRoundCount_temporalCopies]
  have h1 : lastRoundCount (if frame.hasOutputTime = true then
      [PTCommand.clearUAV .kOutputTime] else []) = 0 := by
    split <;> rfl
  have h2 : lastRoundCount [PTCommand.clearUAV .mpCounters] = 0 := rfl
  have h3 : lastRoundCount (if j = 0 then [PTCommand.generatePaths 0] else []) = 0 := by
    split <;> rfl
  have h4 : lastRoundCount [PTCommand.tracePass j
      (!x.mEnableSpatialReuse && !x.mEnableTemporalReuse)] =
      if !x.mEnableSpatialReuse && !x.mEnableTemporalReuse then 1 else 0 := by
    cases x.mEnableSpatialReuse <;> cases x.mEnableTemporalReuse <;> rfl
  rw [h1, h2, h3, h4]
  cases x.mEnableSpatialReuse <;> cases x.mEnableTemporalReuse <;> cases skip <;>
    by_cases hn : 1 ≤ x.mNumSpatialRounds <;> simp [hn]

end ReSTIRPTPass

/-- C26. The code on a frame without a last round: with temporal reuse enabled, spatial reuse
disabled and no reservoir history (the member initialisers otherwise), `execute` records the
path generation and the trace pass, the latter with `isLastRound` false, and skips the temporal
reuse pass: no dispatch of the sub-sample is flagged as the last round, where the claim asks for
exactly one. -/
theorem execute_flags_no_last_round_without_history :
    passTemporalOnly.mStaticParams.pathSamplingMode = .ReSTIR ∧
      passTemporalOnly.mEnableTemporalReuse = true ∧
      passTemporalOnly.mEnableSpatialReuse = false ∧
      passTemporalOnly.mReservoirFrameCount = 0 ∧
      commandsOf (passTemporalOnly.execute {}) =
        [.clearUAV .mpCounters, .generatePaths 0, .tracePass 0 false,
         .copyResource (.mpTemporalReservoirs 0) .mpOutputReservoirs,
         .copyResource .mpTemporalVBuffer .kInputVBuffer] ∧
      lastRoundCount (commandsOf (passTemporalOnly.execute {})) = 0 := by
  decide

/-- The number of last rounds in general: `execute` in ReSTIR mode, with a scene and the
emissive sampler binding, returns the commands of `beginFrame` followed by those of the
sub-samples; in every sub-sample at most one dispatch is flagged as the last round: with spatial reuse enabled exactly one when
`mNumSpatialRounds` is at least 1 and none otherwise; with spatial reuse disabled none when
temporal reuse is enabled but skipped for want of reservoir history (`mReservoirFrameCount`
zero after `beginFrame`), and exactly one otherwise.  The same holds for the body of the loop
run on any pass in ReSTIR mode. -/
theorem execute_last_round_flags (s : ReSTIRPTPass) (frame : PTFrame)
    (hmode : s.mStaticParams.pathSamplingMode = .ReSTIR) (hscene : s.hasScene = true)
    (hbind : frame.emissiveSamplerBinds = true) :
    (∃ (s' : ReSTIRPTPass) (subSamples : List (List PTCommand)), s.execute frame =
        .ok (s', (if frame.hasOutputDebug then [PTCommand.clearUAV .kOutputDebug] else [])
          ++ subSamples.flatten) ∧
      subSamples.length = s.mStaticParams.samplesPerPixel ∧
      ∀ cmds ∈ subSamples, lastRoundCount cmds =
        if s.mEnableSpatialReuse then (if 1 ≤ s.mNumSpatialRounds then 1 else 0)
        else if s.mEnableTemporalReuse &&
          decide ((s.beginFrame frame).1.mReservoirFrameCount = 0) then 0 else 1) ∧
    (∀ (skip : Bool) (i : Nat) (x : ReSTIRPTPass),
      x.mStaticParams.pathSamplingMode = .ReSTIR →
      ∃ r, ReSTIRPTPass.subSample frame skip s.mStaticParams.samplesPerPixel i x = .ok r ∧
        lastRoundCount r.2 =
          if x.mEnableSpatialReuse then (if 1 ≤ x.mNumSpatialRounds then 1 else 0)
          else if x.mEnableTemporalReuse && skip then 0 else 1) := by
  obtain ⟨b1, b2, b3, b4, b5, b6, b7⟩ := ReSTIRPTPass.beginFrame_of_scene s frame hscene
  have hmb : (s.beginFrame frame).1.mStaticParams.pathSamplingMode = .ReSTIR := by
    rw [b3]; exact hmode
  obtain ⟨a1, a2, a3, a4, a5, a6, a7⟩ := ReSTIRPTPass.adjustOptions_restir _ hmb
  refine ⟨⟨{ ReSTIRPTPass.adjustOptions (s.beginFrame frame).1 with
        mReservoirFrameCount := (s.beginFrame frame).1.mReservoirFrameCount +
          (if 1 ≤ s.mStaticParams.samplesPerPixel then 1 else 0) },
      (List.range s.mStaticParams.samplesPerPixel).map (fun j =>
      subSampleCommands frame (decide ((s.beginFrame frame).1.mReservoirFrameCount = 0))
        s.mStaticParams.samplesPerPixel j (ReSTIRPTPass.adjustOptions (s.beginFrame frame).1)),
      ?_, ?_, ?_⟩, ?_⟩
  · rw [ReSTIRPTPass.execute_restir s frame hmode hscene hbind, List.flatMap_def]
  · rw [List.length_map, List.length_range]
  · intro cmds hc
    obtain ⟨j, -, hj⟩ := List.mem_map.mp hc
    rw [← hj, ReSTIRPTPass.lastRoundCount_subSampleCommands _ _ _ _ _ a1, a4, a5, a6, b4, b5,
      b6]
  · intro skip i x hx
    rw [ReSTIRPTPass.subSample_ok frame skip _ i x hbind]
    exact ⟨_, rfl, ReSTIRPTPass.lastRoundCount_subSampleCommands _ _ _ _ _ hx⟩

/-- A pass with reservoir history, two samples per pixel and two spatial rounds: each of the
two sub-samples has one dispatch flagged as the last round. -/
theorem execute_last_round_flags_witness :
    ∃ (s' : ReSTIRPTPass) (subSamples : List (List PTCommand)), passTwoByTwo.execute {} = .ok (s', subSamples.flatten) ∧
      subSamples.length = 2 ∧ ∀ cmds ∈ subSamples, lastRoundCount cmds = 1 := by
  obtain ⟨s', subSamples, h1, h2, h3⟩ :=
    (execute_last_round_flags passTwoByTwo {} rfl rfl rfl).1
  exact ⟨s', subSamples, h1, h2, h3⟩

/-! ## The cache of the blit pass: C24 -/

theorem srcRectOffset_x_nonneg (srcRect : UInt4) (srcSize : Nat × Nat) :
    0 ≤ (srcRectOffset srcRect srcSize).x := by
  unfold srcRectOffset
  split
  · exact div_nonneg (Nat.cast_nonneg _) (Nat.cast_nonneg _)
  · exact le_refl _

theorem srcRectScale_x_nonneg (srcRect : UInt4) (srcSize : Nat × Nat) :
    0 ≤ (srcRectScale srcRect srcSize).x := by
  unfold srcRectScale
  split
  · exact div_nonneg (Nat.cast_nonneg _) (Nat.cast_nonneg _)
  · exact zero_le_one

theorem float2_list_ne {a b : Float2} (h : a ≠ b) : [a.x, a.y] ≠ [b.x, b.y] := by
  intro e
  apply h
  cases a
  cases b
  simp only [List.cons.injEq, and_true] at e
  simp only [Float2.mk.injEq]
  exact e

theorem float4_list_ne {a b : Float4} (h : a ≠ b) :
    [a.x, a.y, a.z, a.w] ≠ [b.x, b.y, b.z, b.w] := by
  intro e
  apply h
  cases a
  cases b
  simp only [List.cons.injEq, and_true] at e
  simp only [Float4.mk.injEq]
  exact e

/-- The loop over the component transforms on a coherent cache: the listed components hold
the wanted transform afterwards, in the buffer and in the cache, the others are untouched, and
a write is recorded only for a component whose cached transform differed on entry. -/
theorem updateComponentsTransform_coherent (t : Fin 4 → Float4) (l : List (Fin 4)) :
    ∀ b : BlitData, b.prevComponentsTransform = b.gCompTransform →
      (updateComponentsTransform t l b).1.prevComponentsTransform =
        (updateComponentsTransform t l b).1.gCompTransform ∧
      (∀ i, (updateComponentsTransform t l b).1.gCompTransform i =
        if i ∈ l then t i else b.gCompTransform i) ∧
      (updateComponentsTransform t l b).1.gOffset = b.gOffset ∧
      (updateComponentsTransform t l b).1.gScale = b.gScale ∧
      (updateComponentsTransform t l b).1.prevSrcRectOffset = b.prevSrcRectOffset ∧
      (updateComponentsTransform t l b).1.prevSrcReftScale = b.prevSrcReftScale ∧
      (∀ c ∈ (updateComponentsTransform t l b).2, ∃ i,
        c = BlitCommand.setVariable (.gCompTransform i) [(t i).x, (t i).y, (t i).z, (t i).w] ∧
        b.prevComponentsTransform i ≠ t i) := by
  induction l with
  | nil =>
    intro b hb
    refine ⟨hb, ?_, rfl, rfl, rfl, rfl, by intro c hc; cases hc⟩
    intro i
    rw [if_neg (List.not_mem_nil i)]
    rfl
  | cons j rest ih =>
    intro b hb
    unfold updateComponentsTransform
    by_cases hj : b.prevComponentsTransform j ≠ t j
    · rw [if_pos hj]
      simp only
      obtain ⟨h1, h2, h3, h4, h5, h6, h7⟩ := ih
        { b with gCompTransform := Function.update b.gCompTransform j (t j)
                 prevComponentsTransform := Function.update b.prevComponentsTransform j (t j) }
        (by show Function.update b.prevComponentsTransform j (t j) =
              Function.update b.gCompTransform j (t j)
            rw [hb])
      refine ⟨h1, ?_, h3, h4, h5, h6, ?_⟩
      · intro i
        rw [h2 i]
        show (if i ∈ rest then t i else Function.update b.gCompTransform j (t j) i) = _
        by_cases hr : i ∈ rest
        · simp [hr]
        · by_cases hij : i = j
          · subst hij
            simp [hr]
          · simp [hr, hij, Function.update_noteq hij]
      · intro c hc
        rcases List.mem_cons.mp hc with hc | hc
        · exact ⟨j, hc, hj⟩
        · obtain ⟨i, hi, hne⟩ := h7 c hc
          refine ⟨i, hi, ?_⟩
          have hne' : Function.update b.prevComponentsTransform j (t j) i ≠ t i := hne
          by_cases hij : i = j
          · subst hij
            simp at hne'
          · rw [Function.update_noteq hij] at hne'
            exact hne'
    · rw [if_neg hj]
      have hj' : b.prevComponentsTransform j = t j := not_not.mp hj
      obtain ⟨h1, h2, h3, h4, h5, h6, h7⟩ := ih b hb
      refine ⟨h1, ?_, h3, h4, h5, h6, h7⟩
      intro i
      rw [h2 i]
      by_cases hr : i ∈ rest
      · simp [hr]
      · by_cases hij : i = j
        · subst hij
          rw [← hb, hj']
          simp [hr]
        · simp [hr, hij]

/-- The shader path of a call on a coherent cache: the pass that executes has the offset, the
scale and, for a complex blit, the transforms of the call in its constant buffer; every write
recorded stores the value the call wants where the cached value differed; the cache is coherent
afterwards. -/
theorem blitShaderPath_coherent (b : BlitData) (c : BlitCall) (hb : CacheCoherent b) :
    CacheCoherent (blitShaderPath b c.pSrc c.pDst (clampRect c.srcRect (viewSize c.pSrc))
      (clampRect c.dstRect (viewSize c.pDst)) c.filter c.componentsReduction
      c.componentsTransform).blitData ∧
    (∀ pass, BlitCommand.execute pass ∈
        (blitShaderPath b c.pSrc c.pDst (clampRect c.srcRect (viewSize c.pSrc))
          (clampRect c.dstRect (viewSize c.pDst)) c.filter c.componentsReduction
          c.componentsTransform).commands →
      pass.gOffset = c.offset ∧ pass.gScale = c.scale ∧
      pass.gCompTransform =
        (if isComplexBlit c.componentsReduction c.componentsTransform then c.componentsTransform
         else b.gCompTransform)) ∧
    (∀ var value, BlitCommand.setVariable var value ∈
        (blitShaderPath b c.pSrc c.pDst (clampRect c.srcRect (viewSize c.pSrc))
          (clampRect c.dstRect (viewSize c.pDst)) c.filter c.componentsReduction
          c.componentsTransform).commands →
      value = c.wanted var ∧ value ≠ b.cached var) := by
  obtain ⟨hO, hS, hT⟩ := hb
  -- the sampler branch
  have hbind : ∀ b0 : BlitData, b0.prevComponentsTransform = b.prevComponentsTransform →
      b0.gCompTransform = b.gCompTransform → b0.gOffset = b.gOffset → b0.gScale = b.gScale →
      b0.prevSrcRectOffset = b.prevSrcRectOffset → b0.prevSrcReftScale = b.prevSrcReftScale →
      (bindSamplers b0 c.pSrc.resource.sampleCount c.filter c.componentsReduction
          c.componentsTransform).1.prevComponentsTransform =
        (bindSamplers b0 c.pSrc.resource.sampleCount c.filter c.componentsReduction
          c.componentsTransform).1.gCompTransform ∧
      (bindSamplers b0 c.pSrc.resource.sampleCount c.filter c.componentsReduction
          c.componentsTransform).1.gCompTransform =
        (if isComplexBlit c.componentsReduction c.componentsTransform then c.componentsTransform
         else b.gCompTransform) ∧
      (bindSamplers b0 c.pSrc.resource.sampleCount c.filter c.componentsReduction
          c.componentsTransform).1.gOffset = b.gOffset ∧
      (bindSamplers b0 c.pSrc.resource.sampleCount c.filter c.componentsReduction
          c.componentsTransform).1.gScale = b.gScale ∧
      (bindSamplers b0 c.pSrc.resource.sampleCount c.filter c.componentsReduction
          c.componentsTransform).1.prevSrcRectOffset = b.prevSrcRectOffset ∧
      (bindSamplers b0 c.pSrc.resource.sampleCount c.filter c.componentsReduction
          c.componentsTransform).1.prevSrcReftScale = b.prevSrcReftScale ∧
      (∀ cmd ∈ (bindSamplers b0 c.pSrc.resource.sampleCount c.filter c.componentsReduction
          c.componentsTransform).2.1, ∃ i,
        cmd = BlitCommand.setVariable (.gCompTransform i) (c.wanted (.gCompTransform i)) ∧
        b.prevComponentsTransform i ≠ c.componentsTransform i) := by
    intro b0 e1 e2 e3 e4 e5 e6
    unfold bindSamplers
    cases hcx : isComplexBlit c.componentsReduction c.componentsTransform with
    | false =>
      simp only [Bool.false_eq_true, if_false]
      exact ⟨by rw [e1, e2, hT], e2, e3, e4, e5, e6, by intro cmd h; cases h⟩
    | true =>
      simp only [if_true]
      obtain ⟨h1, h2, h3, h4, h5, h6, h7⟩ := updateComponentsTransform_coherent
        c.componentsTransform [0, 1, 2, 3]
        { b0 with gSamplerRGBA := fun i => some (usedSampler c.filter (c.componentsReduction i)) }
        (by show b0.prevComponentsTransform = b0.gCompTransform
            rw [e1, e2, hT])
      refine ⟨h1, ?_, h3.trans e3, h4.trans e4, h5.trans e5, h6.trans e6, ?_⟩
      · funext i
        rw [h2 i]
        have : i ∈ ([0, 1, 2, 3] : List (Fin 4)) := by
          fin_cases i <;> simp
        rw [if_pos this]
      · intro cmd hcmd
        obtain ⟨i, hi, hne⟩ := h7 cmd hcmd
        refine ⟨i, hi, ?_⟩
        have hne' : b0.prevComponentsTransform i ≠ c.componentsTransform i := hne
        rw [e1] at hne'
        exact hne'
  obtain ⟨k1, k2, k3, k4, k5, k6, k7⟩ := hbind
    { b with
      defineSampleCount := c.pSrc.resource.sampleCount
      defineComplexBlit := isComplexBlit c.componentsReduction c.componentsTransform
      defineSrcInt := c.pSrc.resource.integerFormat
      defineDstInt := c.pDst.resource.integerFormat } rfl rfl rfl rfl rfl rfl
  unfold blitShaderPath
  simp only
  generalize bindSamplers
    { b with
      defineSampleCount := c.pSrc.resource.sampleCount
      defineComplexBlit := isComplexBlit c.componentsReduction c.componentsTransform
      defineSrcInt := c.pSrc.resource.integerFormat
      defineDstInt := c.pDst.resource.integerFormat }
    c.pSrc.resource.sampleCount c.filter c.componentsReduction c.componentsTransform = r1
    at k1 k2 k3 k4 k5 k6 k7 ⊢
  -- the offset
  have hoff : (updateOffset c.offset r1.1).1.gOffset = c.offset ∧
      (updateOffset c.offset r1.1).1.prevSrcRectOffset = c.offset ∧
      (updateOffset c.offset r1.1).1.gScale = b.gScale ∧
      (updateOffset c.offset r1.1).1.prevSrcReftScale = b.prevSrcReftScale ∧
      (updateOffset c.offset r1.1).1.gCompTransform = r1.1.gCompTransform ∧
      (updateOffset c.offset r1.1).1.prevComponentsTransform = r1.1.prevComponentsTransform ∧
      (∀ cmd ∈ (updateOffset c.offset r1.1).2,
        cmd = BlitCommand.setVariable .gOffset (c.wanted .gOffset) ∧
        c.offset ≠ b.prevSrcRectOffset) := by
    unfold updateOffset
    by_cases hne : c.offset ≠ r1.1.prevSrcRectOffset
    · rw [if_pos hne]
      refine ⟨rfl, rfl, k4, k6, rfl, rfl, ?_⟩
      intro cmd hcmd
      rw [List.mem_singleton] at hcmd
      rw [k5] at hne
      exact ⟨hcmd, hne⟩
    · rw [if_neg hne]
      have heq : c.offset = r1.1.prevSrcRectOffset := not_not.mp hne
      refine ⟨?_, heq.symm, k4, k6, rfl, rfl, by intro cmd h; cases h⟩
      rw [k3]
      rw [k5] at heq
      rcases hO with h | h
      · rw [← h, heq]
      · exfalso
        have := srcRectOffset_x_nonneg (clampRect c.srcRect (viewSize c.pSrc)) (viewSize c.pSrc)
        have hx : c.offset.x = b.prevSrcRectOffset.x := by rw [heq]
        unfold BlitCall.offset at hx
        linarith
  obtain ⟨o1, o2, o3, o4, o5, o6, o7⟩ := hoff
  have hoffdef : updateOffset (srcRectOffset (clampRect c.srcRect (viewSize c.pSrc))
      (viewSize c.pSrc)) r1.1 = updateOffset c.offset r1.1 := rfl
  rw [hoffdef]
  generalize updateOffset c.offset r1.1 = r2 at o1 o2 o3 o4 o5 o6 o7 ⊢
  -- the scale
  have hsc : (updateScale c.scale r2.1).1.gScale = c.scale ∧
      (updateScale c.scale r2.1).1.prevSrcReftScale = c.scale ∧
      (updateScale c.scale r2.1).1.gOffset = r2.1.gOffset ∧
      (updateScale c.scale r2.1).1.prevSrcRectOffset = r2.1.prevSrcRectOffset ∧
      (updateScale c.scale r2.1).1.gCompTransform = r2.1.gCompTransform ∧
      (updateScale c.scale r2.1).1.prevComponentsTransform = r2.1.prevComponentsTransform ∧
      (∀ cmd ∈ (updateScale c.scale r2.1).2,
        cmd = BlitCommand.setVariable .gScale (c.wanted .gScale) ∧
        c.scale ≠ b.prevSrcReftScale) := by
    unfold updateScale
    by_cases hne : c.scale ≠ r2.1.prevSrcReftScale
    · rw [if_pos hne]
      refine ⟨rfl, rfl, rfl, rfl, rfl, rfl, ?_⟩
      intro cmd hcmd
      rw [List.mem_singleton] at hcmd
      rw [o4] at hne
      exact ⟨hcmd, hne⟩
    · rw [if_neg hne]
      have heq : c.scale = r2.1.prevSrcReftScale := not_not.mp hne
      refine ⟨?_, heq.symm, rfl, rfl, rfl, rfl, by intro cmd h; cases h⟩
      rw [o3]
      rw [o4] at heq
      rcases hS with h | h
      · rw [← h, heq]
      · exfalso
        have := srcRectScale_x_nonneg (clampRect c.srcRect (viewSize c.pSrc)) (viewSize c.pSrc)
        have hx : c.scale.x = b.prevSrcReftScale.x := by rw [heq]
        unfold BlitCall.scale at hx
        linarith
  obtain ⟨s1, s2, s3, s4, s5, s6, s7⟩ := hsc
  have hscdef : updateScale (srcRectScale (clampRect c.srcRect (viewSize c.pSrc))
      (viewSize c.pSrc)) r2.1 = updateScale c.scale r2.1 := rfl
  rw [hscdef]
  generalize updateScale c.scale r2.1 = r3 at s1 s2 s3 s4 s5 s6 s7 ⊢
  refine ⟨⟨?_, ?_, ?_⟩, ?_, ?_⟩
  · left
    show r3.1.prevSrcRectOffset = r3.1.gOffset
    rw [s4, s3, o2, o1]
  · left
    show r3.1.prevSrcReftScale = r3.1.gScale
    rw [s2, s1]
  · show r3.1.prevComponentsTransform = r3.1.gCompTransform
    rw [s6, s5, o6, o5, k1]
  · intro pass hpass
    simp only [List.mem_append, List.mem_singleton] at hpass
    rcases hpass with ((h | h) | h) | h
    · obtain ⟨i, hi, -⟩ := k7 _ h
      cases hi
    · obtain ⟨hi, -⟩ := o7 _ h
      cases hi
    · obtain ⟨hi, -⟩ := s7 _ h
      cases hi
    · cases h
      refine ⟨?_, ?_, ?_⟩
      · show r3.1.gOffset = _
        rw [s3, o1]
      · show r3.1.gScale = _
        rw [s1]
      · show r3.1.gCompTransform = _
        rw [s5, o5, k2]
  · intro var value hcmd
    simp only [List.mem_append, List.mem_singleton] at hcmd
    rcases hcmd with ((h | h) | h) | h
    · obtain ⟨i, hi, hne⟩ := k7 _ h
      cases hi
      exact ⟨rfl, float4_list_ne (Ne.symm hne)⟩
    · obtain ⟨hi, hne⟩ := o7 _ h
      cases hi
      exact ⟨rfl, float2_list_ne hne⟩
    · obtain ⟨hi, hne⟩ := s7 _ h
      cases hi
      exact ⟨rfl, float2_list_ne hne⟩
    · cases h

theorem init_cacheCoherent : CacheCoherent BlitData.init :=
  ⟨Or.inr (by show (-1 : ℚ) < 0; norm_num), Or.inr (by show (-1 : ℚ) < 0; norm_num), rfl⟩

/-- A call of `blit` that returns, on a coherent cache: what `blitShaderPath_coherent` says of
the shader path holds of the call, whichever path it takes. -/
theorem blit_coherent (compareDesc : Texture → Texture → Bool) (b : BlitData) (c : BlitCall)
    (r : BlitResult) (hb : CacheCoherent b) (h : c.blit compareDesc b = .ok r) :
    CacheCoherent r.blitData ∧
    (∀ pass, BlitCommand.execute pass ∈ r.commands →
      pass.gOffset = c.offset ∧ pass.gScale = c.scale ∧
      pass.gCompTransform =
        (if isComplexBlit c.componentsReduction c.componentsTransform then c.componentsTransform
         else b.gCompTransform)) ∧
    (∀ var value, BlitCommand.setVariable var value ∈ r.commands →
      value = c.wanted var ∧ value ≠ b.cached var) := by
  have hs := blitShaderPath_coherent b c hb
  unfold BlitCall.blit Falcor.blit at h
  simp only [pure, Except.pure, throw, throwThe, MonadExceptOf.throw] at h
  split at h
  · cases h
  · split at h
    · cases h
      exact ⟨hb, (by intro p hp; cases hp), (by intro v x hp; cases hp)⟩
    · split at h
      · cases h
        refine ⟨hb, ?_, ?_⟩
        · intro p hp
          simp only [List.mem_singleton] at hp
          cases hp
        · intro v x hp
          simp only [List.mem_singleton] at hp
          cases hp
      · split at h
        · cases h
        · split at h
          · cases h
          · split at h
            · cases h
            · split at h
              · cases h
              · cases h
                exact hs

theorem blitSequence_coherent (compareDesc : Texture → Texture → Bool)
    (calls : List BlitCall) : ∀ b : BlitData, CacheCoherent b →
    CacheCoherent (blitSequence compareDesc calls b) := by
  induction calls with
  | nil => intro b hb; exact hb
  | cons c rest ih =>
    intro b hb
    unfold blitSequence
    cases hr : c.blit compareDesc b with
    | error e => exact ih b hb
    | ok r => exact ih r.blitData (blit_coherent compareDesc b c r hb hr).1

/-- C24. After any sequence of `blit` calls on freshly initialised shared blit data, a further
call that returns: every pass it executes runs with a constant buffer whose `gOffset` and
`gScale` are the source-rectangle offset and scale of this call and whose four component
transforms are, on a complex blit, those of this call, which is the buffer an implementation
without cache leaves that writes all values on every call; and every constant-buffer write the
call records stores the value the call wants in a variable whose cached value differs from
it. -/
theorem blit_cache_is_transparent (compareDesc : Texture → Texture → Bool)
    (calls : List BlitCall) (c : BlitCall) (r : BlitResult)
    (h : c.blit compareDesc (blitSequence compareDesc calls BlitData.init) = .ok r) :
    (∀ pass, BlitCommand.execute pass ∈ r.commands →
      pass.gOffset = c.offset ∧ pass.gScale = c.scale ∧
      (isComplexBlit c.componentsReduction c.componentsTransform = true →
        pass.gCompTransform = c.componentsTransform) ∧
      pass.params = writeAllParams c (blitSequence compareDesc calls BlitData.init).params) ∧
    (∀ var value, BlitCommand.setVariable var value ∈ r.commands →
      value = c.wanted var ∧
      value ≠ (blitSequence compareDesc calls BlitData.init).cached var) := by
  obtain ⟨-, h2, h3⟩ := blit_coherent compareDesc _ c r
    (blitSequence_coherent compareDesc calls _ init_cacheCoherent) h
  refine ⟨?_, h3⟩
  intro pass hpass
  obtain ⟨e1, e2, e3⟩ := h2 pass hpass
  refine ⟨e1, e2, ?_, ?_⟩
  · intro hcx
    rw [e3, if_pos hcx]
  · unfold BlitData.params writeAllParams
    rw [e1, e2, e3]

/-- C24 on three calls from fresh blit data: the left half of texture 1, a complex blit of the
whole of it, the left half again.  The third call takes the shader path, and its pass runs with
offset (0, 0) and scale (1/2, 1) although the second call left scale (1, 1) in the buffer. -/
theorem blit_cache_is_transparent_witness :
    leftHalfBlit.blit compareModelDesc
        (blitSequence compareModelDesc [leftHalfBlit, minRedBlit] BlitData.init) =
      .ok (blitShaderPath (blitSequence compareModelDesc [leftHalfBlit, minRedBlit] BlitData.init)
        leftHalfBlit.pSrc leftHalfBlit.pDst ⟨0, 0, 4, 8⟩ ⟨0, 0, 8, 8⟩ .Linear
        standardReduction identityTransform) ∧
    ∀ pass, BlitCommand.execute pass ∈
        (blitShaderPath (blitSequence compareModelDesc [leftHalfBlit, minRedBlit] BlitData.init)
          leftHalfBlit.pSrc leftHalfBlit.pDst ⟨0, 0, 4, 8⟩ ⟨0, 0, 8, 8⟩ .Linear
          standardReduction identityTransform).commands →
      pass.gOffset = ⟨0, 0⟩ ∧ pass.gScale = ⟨1 / 2, 1⟩ :=
  ⟨rfl, fun pass hpass =>
    have h := (blit_cache_is_transparent compareModelDesc [leftHalfBlit, minRedBlit]
      leftHalfBlit
      (blitShaderPath (blitSequence compareModelDesc [leftHalfBlit, minRedBlit] BlitData.init)
        leftHalfBlit.pSrc leftHalfBlit.pDst ⟨0, 0, 4, 8⟩ ⟨0, 0, 8, 8⟩ .Linear
        standardReduction identityTransform) rfl).1 pass hpass
    ⟨h.1.trans (by
      unfold BlitCall.offset leftHalfBlit srcRectOffset
      norm_num [isFullRect, clampRect, viewSize, singleSubresourceView, floatTexture8]),
     h.2.1.trans (by
      unfold BlitCall.scale leftHalfBlit srcRectScale
      norm_num [isFullRect, clampRect, viewSize, singleSubresourceView, floatTexture8, subU32,
        u32])⟩⟩

/-! ## The scripting dictionary: C25 -/

/-- The round trip written out: `parseDictionary` of the dictionary of `s`, on `t`, is `s`
after its refresh of the light BVH options, with the two reuse flags exchanged, the conditional
entries taken from `t` when absent, and the bounce counts initialised. -/
theorem parseDictionary_of_getScriptingDictionary (s t : ScriptedPass) :
    ScriptedPass.parseDictionary s.getScriptingDictionary.2 t =
    ScriptedPass.initializeBounces
      { s.getScriptingDictionary.1 with
        mParams := { s.mParams with
          fixedSeed := if s.mParams.useFixedSeed then s.mParams.fixedSeed
            else t.mParams.fixedSeed
          useFixedSeed := s.mParams.useFixedSeed || t.mParams.useFixedSeed }
        mLightBVHOptions :=
          if s.mStaticParams.emissiveSampler = .LightBVH then
            s.getScriptingDictionary.1.mLightBVHOptions
          else t.mLightBVHOptions
        mEnableTemporalReuse := s.mEnableSpatialReuse
        mEnableSpatialReuse := s.mEnableTemporalReuse
        lightBVHSampler := t.lightBVHSampler } := by
  obtain ⟨sp, pp, a1, a2, a3, a4, a5, a6, a7, a8, a9, a10, a11, a12, a13, a14, a15, a16,
    sampler⟩ := s
  obtain ⟨lodBias, fixedSeed, srt, rej, jac, near, loc, useFixed⟩ := pp
  obtain ⟨e1, e2, e3, e4, e5, e6, e7, e8, e9, e10, e11, e12, e13, e14, e15, e16, e17, e18,
    e19, e20, e21, e22, e23, e24, emissiveSampler, e26, e27, e28, e29, e30, e31, e32⟩ := sp
  cases useFixed <;> cases sampler <;> cases emissiveSampler <;>
    simp [ScriptedPass.parseDictionary, ScriptedPass.getScriptingDictionary,
      ScriptedPass.parseEntry, ScriptedPass.applyDeprecatedBounces,
      ScriptedPass.maxBounces?, ScriptedPass.maxNonSpecularBounces?]

/-- C25. Feeding the dictionary of `getScriptingDictionary` of a pass `s` to `parseDictionary`,
on any pass `t`, exchanges the two reuse flags: `mEnableTemporalReuse` ends as the
`mEnableSpatialReuse` of `s` and `mEnableSpatialReuse` as its `mEnableTemporalReuse`, because
the dictionary holds each flag under the key of the other.  Every other serialised member ends
with its value in `s` (`fixedSeed` when `useFixedSeed` is on, the light BVH options when the
light BVH sampler is selected, a bounce count of `-1` being replaced by `maxSurfaceBounces`).
On a pass with temporal reuse enabled and spatial reuse disabled the round trip disables
temporal reuse and enables spatial reuse. -/
theorem parseDictionary_of_getScriptingDictionary_swaps_reuse_flags (s t : ScriptedPass) :
    (ScriptedPass.parseDictionary s.getScriptingDictionary.2 t).mEnableTemporalReuse
      = s.mEnableSpatialReuse ∧
    (ScriptedPass.parseDictionary s.getScriptingDictionary.2 t).mEnableSpatialReuse
      = s.mEnableTemporalReuse ∧
    ScriptedPass.parseDictionary s.getScriptingDictionary.2 t =
      ScriptedPass.initializeBounces
        { s.getScriptingDictionary.1 with
          mParams := { s.mParams with
            fixedSeed := if s.mParams.useFixedSeed then s.mParams.fixedSeed
              else t.mParams.fixedSeed
            useFixedSeed := s.mParams.useFixedSeed || t.mParams.useFixedSeed }
          mLightBVHOptions :=
            if s.mStaticParams.emissiveSampler = .LightBVH then
              s.getScriptingDictionary.1.mLightBVHOptions
            else t.mLightBVHOptions
          mEnableTemporalReuse := s.mEnableSpatialReuse
          mEnableSpatialReuse := s.mEnableTemporalReuse
          lightBVHSampler := t.lightBVHSampler } ∧
    (scriptedTemporalOnly.mEnableTemporalReuse = true ∧
      scriptedTemporalOnly.mEnableSpatialReuse = false ∧
      (ScriptedPass.parseDictionary scriptedTemporalOnly.getScriptingDictionary.2
        scriptedTemporalOnly).mEnableTemporalReuse = false ∧
      (ScriptedPass.parseDictionary scriptedTemporalOnly.getScriptingDictionary.2
        scriptedTemporalOnly).mEnableSpatialReuse = true) := by
  have key := parseDictionary_of_getScriptingDictionary s t
  have keyc := parseDictionary_of_getScriptingDictionary scriptedTemporalOnly
    scriptedTemporalOnly
  refine ⟨?_, ?_, key, rfl, rfl, ?_, ?_⟩
  · rw [key]; rfl
  · rw [key]; rfl
  · rw [keyc]; rfl
  · rw [keyc]; rfl

/-! ## Options of the instances of `ScreenSpaceReSTIRPass`: C28 -/

namespace ScreenSpaceReSTIRPass

theorem parseEntry_fold (dict : List PassDictEntry) : ∀ r : Options × ScreenSpaceReSTIRPass,
    (dict.foldl parseEntry r).2.optionsObjects = r.2.optionsObjects ∧
    (dict.foldl parseEntry r).2.mOptions = r.2.mOptions ∧
    (dict.foldl parseEntry r).2.mpScreenSpaceReSTIR = r.2.mpScreenSpaceReSTIR ∧
    (dict.foldl parseEntry r).2.hasScene = r.2.hasScene := by
  induction dict with
  | nil => intro r; exact ⟨rfl, rfl, rfl, rfl⟩
  | cons e rest ih =>
    intro r
    rw [List.foldl_cons]
    obtain ⟨h1, h2, h3, h4⟩ := ih (parseEntry r e)
    rw [h1, h2, h3, h4]
    cases e <;> exact ⟨rfl, rfl, rfl, rfl⟩

/-- What `parseDictionary` does to the pointers: the pass points to a new object, which no
pointer held before; the first instance is re-pointed to it, the others keep theirs. -/
theorem parseDictionary_pointers (dict : List PassDictEntry) (p : ScreenSpaceReSTIRPass) :
    (parseDictionary dict p).mOptions = some p.optionsObjects.length ∧
    (parseDictionary dict p).mpScreenSpaceReSTIR =
      repointFirstInstance p.optionsObjects.length p.mpScreenSpaceReSTIR ∧
    (parseDictionary dict p).optionsObjects.length = p.optionsObjects.length + 1 := by
  obtain ⟨h1, -, h3, -⟩ := parseEntry_fold dict (({} : Options), p)
  unfold parseDictionary
  simp only
  rw [h1, h3]
  refine ⟨rfl, rfl, ?_⟩
  rw [List.length_append]
  rfl

end ScreenSpaceReSTIRPass

/-- C28. A pass constructed from any dictionary, its scene set, then `updateDict` with any
dictionary.  Right after `setScene` every instance holds the `mOptions` pointer of the pass.
`updateDict` keeps the instances, points the pass and instance 0 to a new `Options` object, and
leaves every other instance pointing to the object of before, which is not the current
`mOptions` of the pass.  With two instances and a dictionary that sets three spatial
iterations, instance 1 still reads one spatial iteration through its pointer while the pass
and instance 0 read three. -/
theorem updateDict_repoints_only_first_instance (dict0 dict : List PassDictEntry) :
    (∀ inst ∈ ((ScreenSpaceReSTIRPass.create dict0).setScene true).mpScreenSpaceReSTIR,
      some inst.mOptions = ((ScreenSpaceReSTIRPass.create dict0).setScene true).mOptions) ∧
    ((((ScreenSpaceReSTIRPass.create dict0).setScene true).updateDict
        dict).mpScreenSpaceReSTIR.length =
      ((ScreenSpaceReSTIRPass.create dict0).setScene true).mpScreenSpaceReSTIR.length) ∧
    (∀ inst, (((ScreenSpaceReSTIRPass.create dict0).setScene true).updateDict
        dict).mpScreenSpaceReSTIR.head? = some inst →
      some inst.mOptions =
        (((ScreenSpaceReSTIRPass.create dict0).setScene true).updateDict dict).mOptions) ∧
    (∀ inst ∈ (((ScreenSpaceReSTIRPass.create dict0).setScene true).updateDict
        dict).mpScreenSpaceReSTIR.tail,
      some inst.mOptions = ((ScreenSpaceReSTIRPass.create dict0).setScene true).mOptions ∧
      some inst.mOptions ≠
        (((ScreenSpaceReSTIRPass.create dict0).setScene true).updateDict dict).mOptions) ∧
    ((passOfTwoInstances.updateDict
        [.options { spatialIterations := 3 }]).mpScreenSpaceReSTIR.map
          PassInstance.mOptions = [1, 0] ∧
      (passOfTwoInstances.updateDict [.options { spatialIterations := 3 }]).mOptions = some 1 ∧
      ((passOfTwoInstances.updateDict [.options { spatialIterations := 3 }]).optionsAt
        1).spatialIterations = 3 ∧
      ((passOfTwoInstances.updateDict [.options { spatialIterations := 3 }]).optionsAt
        0).spatialIterations = 1) := by
  obtain ⟨c1, c2, c3⟩ := ScreenSpaceReSTIRPass.parseDictionary_pointers dict0 {}
  have hcreate : (ScreenSpaceReSTIRPass.create dict0).mOptions = some 0 := c1
  have hlen : (ScreenSpaceReSTIRPass.create dict0).optionsObjects.length = 1 := c3
  have hset : ((ScreenSpaceReSTIRPass.create dict0).setScene true).mOptions = some 0 := by
    unfold ScreenSpaceReSTIRPass.setScene
    simp only [if_true]
    exact hcreate
  have hsetlen : ((ScreenSpaceReSTIRPass.create dict0).setScene true).optionsObjects.length
      = 1 := by
    unfold ScreenSpaceReSTIRPass.setScene
    simp only [if_true]
    exact hlen
  have hinst : ∀ inst ∈ ((ScreenSpaceReSTIRPass.create dict0).setScene true).mpScreenSpaceReSTIR,
      inst.mOptions = 0 := by
    intro inst hi
    unfold ScreenSpaceReSTIRPass.setScene at hi
    simp only [if_true, List.mem_map] at hi
    obtain ⟨i, -, hi⟩ := hi
    rw [← hi]
    show (ScreenSpaceReSTIRPass.create dict0).mOptions.getD 0 = 0
    rw [hcreate]
    rfl
  obtain ⟨u1, u2, -⟩ := ScreenSpaceReSTIRPass.parseDictionary_pointers dict
    ((ScreenSpaceReSTIRPass.create dict0).setScene true)
  have hupd : (((ScreenSpaceReSTIRPass.create dict0).setScene true).updateDict dict).mOptions
      = some 1 := by
    show (ScreenSpaceReSTIRPass.parseDictionary dict _).mOptions = some 1
    rw [u1, hsetlen]
  have hlist : (((ScreenSpaceReSTIRPass.create dict0).setScene true).updateDict
      dict).mpScreenSpaceReSTIR =
      ScreenSpaceReSTIRPass.resetFirstInstance (ScreenSpaceReSTIRPass.repointFirstInstance 1
        ((ScreenSpaceReSTIRPass.create dict0).setScene true).mpScreenSpaceReSTIR) := by
    show ScreenSpaceReSTIRPass.resetFirstInstance
      (ScreenSpaceReSTIRPass.parseDictionary dict _).mpScreenSpaceReSTIR = _
    rw [u2, hsetlen]
  rw [hlist, hupd, hset]
  generalize ((ScreenSpaceReSTIRPass.create dict0).setScene true).mpScreenSpaceReSTIR = l
    at hinst ⊢
  refine ⟨?_, ?_, ?_, ?_, ?_⟩
  · intro inst hi
    rw [hinst inst hi]
  · cases l <;> rfl
  · intro inst hi
    cases l with
    | nil => cases hi
    | cons a rest =>
      simp only [ScreenSpaceReSTIRPass.repointFirstInstance,
        ScreenSpaceReSTIRPass.resetFirstInstance, List.head?_cons, Option.some.injEq] at hi
      rw [← hi]
  · intro inst hi
    cases l with
    | nil => cases hi
    | cons a rest =>
      simp only [ScreenSpaceReSTIRPass.repointFirstInstance,
        ScreenSpaceReSTIRPass.resetFirstInstance, List.tail_cons] at hi
      rw [hinst inst (List.mem_cons_of_mem _ hi)]
      exact ⟨rfl, by decide⟩
  · exact ⟨rfl, rfl, rfl, rfl⟩

/-! ## Index ranges of `NDSDFGrid::setValuesInternal`: C30 -/

theorem foldlM_option_invariant {α β : Type} (f : β → α → Option β) (P : β → Prop) :
    ∀ (l : List α) (b : β), P b →
      (∀ a ∈ l, ∀ b, P b → ∃ b', f b a = some b' ∧ P b') →
      ∃ b', l.foldlM f b = some b' ∧ P b' := by
  intro l
  induction l with
  | nil => intro b hb _; exact ⟨b, rfl, hb⟩
  | cons a rest ih =>
    intro b hb hstep
    obtain ⟨b1, h1, hP1⟩ := hstep a (List.mem_cons_self _ _) b hb
    obtain ⟨b2, h2, hP2⟩ := ih b1 hP1 (fun a' ha' => hstep a' (List.mem_cons_of_mem _ ha'))
    refine ⟨b2, ?_, hP2⟩
    rw [List.foldlM_cons, h1]
    exact h2

theorem mapM_option_some {α β γ : Type} (f : α → Option β) (g : β → γ) (h : α → γ) :
    ∀ l : List α, (∀ a ∈ l, ∃ b, f a = some b ∧ g b = h a) →
      ∃ bs, l.mapM f = some bs ∧ bs.map g = l.map h := by
  intro l
  induction l with
  | nil => intro _; exact ⟨[], rfl, rfl⟩
  | cons a rest ih =>
    intro hall
    obtain ⟨b, hb, hg⟩ := hall a (List.mem_cons_self _ _)
    obtain ⟨bs, hbs, hmap⟩ := ih (fun a' ha' => hall a' (List.mem_cons_of_mem _ ha'))
    refine ⟨b :: bs, ?_, ?_⟩
    · rw [List.mapM_cons, hb, hbs]
      rfl
    · rw [List.map_cons, List.map_cons, hg, hmap]

namespace NDSDFGrid

theorem cube_identity (L : Nat) : L + (L + 1) * (L + (L + 1) * L) + 1 = (L + 1) * (L + 1) * (L + 1) := by
  ring

/-- The write index of a visited `(x, y, z)` is computed without wrap-around and lies in the
vector of the level. -/
theorem writeLocation_lt (w x y z : Nat) (hx : x < w) (hy : y < w) (hz : z < w)
    (hw : w * w * w < 2 ^ 32) :
    writeLocation w x y z = x + w * (y + w * z) ∧ x + w * (y + w * z) < w * w * w := by
  obtain ⟨L, rfl⟩ : ∃ L, w = L + 1 := ⟨w - 1, by omega⟩
  have hxL : x ≤ L := by omega
  have hyL : y ≤ L := by omega
  have hzL : z ≤ L := by omega
  have h1 : (L + 1) * z ≤ (L + 1) * L := Nat.mul_le_mul_left _ hzL
  have h2 : y + (L + 1) * z ≤ L + (L + 1) * L := Nat.add_le_add hyL h1
  have h3 : (L + 1) * (y + (L + 1) * z) ≤ (L + 1) * (L + (L + 1) * L) :=
    Nat.mul_le_mul_left _ h2
  have h4 : x + (L + 1) * (y + (L + 1) * z) ≤ L + (L + 1) * (L + (L + 1) * L) :=
    Nat.add_le_add hxL h3
  have hid := cube_identity L
  have hlt : x + (L + 1) * (y + (L + 1) * z) < (L + 1) * (L + 1) * (L + 1) := by omega
  have hle3 : (L + 1) * (y + (L + 1) * z) ≤ x + (L + 1) * (y + (L + 1) * z) :=
    Nat.le_add_left _ _
  have hle2 : y + (L + 1) * z ≤ (L + 1) * (y + (L + 1) * z) :=
    Nat.le_mul_of_pos_left _ (by omega)
  have hle1 : (L + 1) * z ≤ y + (L + 1) * z := Nat.le_add_left _ _
  refine ⟨?_, hlt⟩
  unfold writeLocation addU32 mulU32 u32
  rw [Nat.mod_eq_of_lt (by omega : (L + 1) * z < 2 ^ 32),
    Nat.mod_eq_of_lt (by omega : y + (L + 1) * z < 2 ^ 32),
    Nat.mod_eq_of_lt (by omega : (L + 1) * (y + (L + 1) * z) < 2 ^ 32),
    Nat.mod_eq_of_lt (by omega : x + (L + 1) * (y + (L + 1) * z) < 2 ^ 32)]

/-- The read index of a visited `(x, y, z)`, with `x`, `y`, `z` at most `L`, a stride `s` and
`s * L + 1` values along an edge of the grid, is computed without wrap-around and lies in the
corner values. -/
theorem readLocation_lt (s W L x y z : Nat) (hx : x ≤ L) (hy : y ≤ L) (hz : z ≤ L)
    (hs : 1 ≤ s) (hW : s * L + 1 = W) (hfit : W * W * W < 2 ^ 32) :
    readLocation s W x y z = s * (x + W * (y + W * z)) ∧
      s * (x + W * (y + W * z)) < W * W * W := by
  have h1 : W * z ≤ W * L := Nat.mul_le_mul_left _ hz
  have h2 : y + W * z ≤ L + W * L := Nat.add_le_add hy h1
  have h3 : W * (y + W * z) ≤ W * (L + W * L) := Nat.mul_le_mul_left _ h2
  have h4 : x + W * (y + W * z) ≤ L + W * (L + W * L) := Nat.add_le_add hx h3
  have h5 : s * (x + W * (y + W * z)) ≤ s * (L + W * (L + W * L)) := Nat.mul_le_mul_left _ h4
  have h6 : s * (L + W * (L + W * L)) = s * L + W * (s * L + W * (s * L)) := by ring
  have hid := cube_identity (s * L)
  rw [hW] at hid
  have hlt : s * (x + W * (y + W * z)) < W * W * W := by omega
  have hWpos : 1 ≤ W := by omega
  have g4 : x + W * (y + W * z) ≤ s * (x + W * (y + W * z)) := Nat.le_mul_of_pos_left _ hs
  have g3 : W * (y + W * z) ≤ x + W * (y + W * z) := Nat.le_add_left _ _
  have g2 : y + W * z ≤ W * (y + W * z) := Nat.le_mul_of_pos_left _ hWpos
  have g1 : W * z ≤ y + W * z := Nat.le_add_left _ _
  refine ⟨?_, hlt⟩
  unfold readLocation addU32 mulU32 u32
  rw [Nat.mod_eq_of_lt (by omega : W * z < 2 ^ 32),
    Nat.mod_eq_of_lt (by omega : y + W * z < 2 ^ 32),
    Nat.mod_eq_of_lt (by omega : W * (y + W * z) < 2 ^ 32),
    Nat.mod_eq_of_lt (by omega : x + W * (y + W * z) < 2 ^ 32),
    Nat.mod_eq_of_lt (by omega : s * (x + W * (y + W * z)) < 2 ^ 32)]

theorem length_resize (values : List Int) (count : Nat) : (resize values count).length = count := by
  unfold resize
  rw [List.length_take, List.length_append, List.length_replicate]
  omega

end NDSDFGrid

namespace NDSDFGrid

theorem subU32_of_le (a b : Nat) (hb : b ≤ a) (ha : a < 2 ^ 32) : subU32 a b = a - b := by
  unfold subU32 u32
  rw [Nat.mod_eq_of_lt ha, Nat.mod_eq_of_lt (by omega : b < 2 ^ 32)]
  omega

/-- The body of the innermost loop succeeds and keeps the size of the vector when both indices
are in range. -/
theorem formatValue_some (format : Nat → ℚ → Int) (cornerValues : List ℚ)
    (lod w W s z y : Nat) (buf : List Int) (x : Nat)
    (hr : readLocation s W x y z < cornerValues.length)
    (hwr : writeLocation w x y z < buf.length) :
    ∃ buf', formatValue format cornerValues lod w W s z y buf x = some buf' ∧
      buf'.length = buf.length := by
  unfold formatValue
  rw [List.getElem?_eq_getElem hr]
  simp only []
  rw [if_pos hwr]
  exact ⟨_, rfl, List.length_set _ _ _⟩

/-- The three loops of one level succeed and leave a vector of the size it was resized to, when
the indices of every visited `(x, y, z)` are in range. -/
theorem formatLod_some (format : Nat → ℚ → Int) (cornerValues : List ℚ) (g : NDSDFGrid)
    (lodCount c lod : Nat)
    (h : ∀ x y z, x < lodWidthInValues c lod → y < lodWidthInValues c lod →
      z < lodWidthInValues c lod →
      readLocation (lodReadStride lodCount lod) (addU32 g.mGridWidth 1) x y z
          < cornerValues.length ∧
        writeLocation (lodWidthInValues c lod) x y z < lodValueCount c lod) :
    ∃ buf, formatLod format cornerValues g lodCount c lod = some buf ∧
      buf.length = lodValueCount c lod := by
  unfold formatLod
  simp only []
  refine foldlM_option_invariant _ (fun buf : List Int => buf.length = lodValueCount c lod)
    _ _ (length_resize _ _) ?_
  intro z hz buf hbuf
  unfold formatSlice
  refine foldlM_option_invariant _ (fun buf : List Int => buf.length = lodValueCount c lod)
    _ _ hbuf ?_
  intro y hy buf hbuf
  unfold formatRow
  refine foldlM_option_invariant _ (fun buf : List Int => buf.length = lodValueCount c lod)
    _ _ hbuf ?_
  · intro x hx buf hbuf
    obtain ⟨hr, hwr⟩ := h x y z (List.mem_range.mp hx) (List.mem_range.mp hy)
      (List.mem_range.mp hz)
    obtain ⟨buf', h1, h2⟩ := formatValue_some format cornerValues lod
      (lodWidthInValues c lod) (addU32 g.mGridWidth 1) (lodReadStride lodCount lod) z y buf x
      hr (hbuf ▸ hwr)
    exact ⟨buf', h1, h2.trans hbuf⟩

/-- A helper that returns the position of the highest set bit returns `j` on `2 ^ j`. -/
theorem bitScanReverse_two_pow (bitScanReverse : Nat → Nat)
    (hbsr : ∀ n, 0 < n → 2 ^ bitScanReverse n ≤ n ∧ n < 2 ^ (bitScanReverse n + 1))
    (j : Nat) : bitScanReverse (2 ^ j) = j := by
  obtain ⟨h1, h2⟩ := hbsr (2 ^ j) (Nat.two_pow_pos j)
  have a1 := (Nat.pow_le_pow_iff_right (by decide : 1 < 2)).mp h1
  have a2 := (Nat.pow_lt_pow_iff_right (by decide : 1 < 2)).mp h2
  omega

/-- The values of one level of a grid of width `2 ^ (j + 3)` with `j + 1` levels: the width of
the level in values, the size of its vector, its read stride, and the ranges of both indices. -/
theorem lod_layout (j lod : Nat) (hlod : lod ≤ j)
    (hfit : (2 ^ (j + 3) + 1) ^ 3 < 2 ^ 32) :
    lodWidthInValues 8 lod = 1 + 8 * 2 ^ lod ∧
    lodValueCount 8 lod = (1 + 8 * 2 ^ lod) ^ 3 ∧
    lodReadStride (j + 1) lod = 2 ^ (j - lod) ∧
    ∀ x y z, x < 1 + 8 * 2 ^ lod → y < 1 + 8 * 2 ^ lod → z < 1 + 8 * 2 ^ lod →
      readLocation (2 ^ (j - lod)) (addU32 (2 ^ (j + 3)) 1) x y z
          = 2 ^ (j - lod) * (x + (2 ^ (j + 3) + 1) * (y + (2 ^ (j + 3) + 1) * z)) ∧
        readLocation (2 ^ (j - lod)) (addU32 (2 ^ (j + 3)) 1) x y z < (2 ^ (j + 3) + 1) ^ 3 ∧
        writeLocation (1 + 8 * 2 ^ lod) x y z < (1 + 8 * 2 ^ lod) ^ 3 := by
  obtain ⟨m, rfl⟩ : ∃ m, j = lod + m := ⟨j - lod, by omega⟩
  have hm : lod + m - lod = m := by omega
  rw [hm]
  have hG : 2 ^ (lod + m + 3) = 2 ^ m * (8 * 2 ^ lod) := by
    rw [pow_add, pow_add]; ring
  have hspos : 1 ≤ 2 ^ m := Nat.one_le_two_pow
  have hlpos : 1 ≤ 2 ^ lod := Nat.one_le_two_pow
  have hcube : (2 ^ (lod + m + 3) + 1) ^ 3
      = (2 ^ (lod + m + 3) + 1) * (2 ^ (lod + m + 3) + 1) * (2 ^ (lod + m + 3) + 1) := by ring
  have hW1 : 1 ≤ 2 ^ (lod + m + 3) + 1 := by omega
  have hWle : 2 ^ (lod + m + 3) + 1 ≤ (2 ^ (lod + m + 3) + 1) ^ 3 := by
    rw [hcube]
    calc 2 ^ (lod + m + 3) + 1 = 1 * 1 * (2 ^ (lod + m + 3) + 1) := by ring
      _ ≤ _ := Nat.mul_le_mul_right _ (Nat.mul_le_mul hW1 hW1)
  have hGlt : 2 ^ (lod + m + 3) + 1 < 2 ^ 32 := by omega
  have hwG : 8 * 2 ^ lod ≤ 2 ^ (lod + m + 3) := by
    rw [hG]; exact Nat.le_mul_of_pos_left _ (by omega)
  have hwidth : lodWidthInValues 8 lod = 1 + 8 * 2 ^ lod := by
    unfold lodWidthInValues shlU32 addU32 u32
    rw [Nat.shiftLeft_eq, Nat.mod_eq_of_lt (by omega : 8 * 2 ^ lod < 2 ^ 32),
      Nat.mod_eq_of_lt (by omega : 1 + 8 * 2 ^ lod < 2 ^ 32)]
  have hwW : 1 + 8 * 2 ^ lod ≤ 2 ^ (lod + m + 3) + 1 := by omega
  have hwcube : (1 + 8 * 2 ^ lod) ^ 3
      = (1 + 8 * 2 ^ lod) * (1 + 8 * 2 ^ lod) * (1 + 8 * 2 ^ lod) := by ring
  have hwfit : (1 + 8 * 2 ^ lod) * (1 + 8 * 2 ^ lod) * (1 + 8 * 2 ^ lod) < 2 ^ 32 := by
    have := Nat.pow_le_pow_left hwW 3
    omega
  have hww : (1 + 8 * 2 ^ lod) * (1 + 8 * 2 ^ lod) < 2 ^ 32 := by
    have : (1 + 8 * 2 ^ lod) * (1 + 8 * 2 ^ lod)
        ≤ (1 + 8 * 2 ^ lod) * (1 + 8 * 2 ^ lod) * (1 + 8 * 2 ^ lod) :=
      Nat.le_mul_of_pos_right _ (by omega)
    omega
  have hcount : lodValueCount 8 lod = (1 + 8 * 2 ^ lod) ^ 3 := by
    unfold lodValueCount mulU32 u32
    rw [hwidth, Nat.mod_eq_of_lt hww, Nat.mod_eq_of_lt hwfit, hwcube]
  have hmlt : m < 32 := by
    have h1 : 2 ^ m ≤ 2 ^ (lod + m + 3) := Nat.pow_le_pow_right (by decide) (by omega)
    exact (Nat.pow_lt_pow_iff_right (by decide : 1 < 2)).mp (by omega)
  have hstride : lodReadStride (lod + m + 1) lod = 2 ^ m := by
    unfold lodReadStride
    have hlm : lod + m + 1 < 2 ^ 32 := by
      have : lod + m + 3 < 32 :=
        (Nat.pow_lt_pow_iff_right (by decide : 1 < 2)).mp (by omega)
      omega
    rw [subU32_of_le _ _ (by omega) hlm, subU32_of_le _ _ (by omega) (by omega)]
    unfold shlU32 u32
    rw [Nat.shiftLeft_eq, Nat.one_mul, (by omega : lod + m + 1 - lod - 1 = m)]
    exact Nat.mod_eq_of_lt (Nat.pow_lt_pow_right (by decide) hmlt)
  refine ⟨hwidth, hcount, hstride, ?_⟩
  intro x y z hx hy hz
  have hadd : addU32 (2 ^ (lod + m + 3)) 1 = 2 ^ (lod + m + 3) + 1 := by
    unfold addU32 u32
    exact Nat.mod_eq_of_lt hGlt
  rw [hadd]
  obtain ⟨hr1, hr2⟩ := readLocation_lt (2 ^ m) (2 ^ (lod + m + 3) + 1) (8 * 2 ^ lod) x y z
    (by omega) (by omega) (by omega) hspos (by rw [hG]) (by rw [← hcube]; exact hfit)
  obtain ⟨_, hw2⟩ := writeLocation_lt (1 + 8 * 2 ^ lod) x y z hx hy hz hwfit
  refine ⟨hr1, ?_, ?_⟩
  · rw [hr1, hcube]; exact hr2
  · rw [(writeLocation_lt (1 + 8 * 2 ^ lod) x y z hx hy hz hwfit).1, hwcube]; exact hw2

end NDSDFGrid

/-- C30. When the grid width is a power of two that is at least 8, `cornerValues` has exactly
`(gridWidth + 1)^3` entries and that count fits 32 bits, `setValuesInternal` returns `true`
with a coarsest LOD width of 8 and one vector per level, of `(1 + 8 * 2^lod)^3` values; for
every level and every `(x, y, z)` it visits, the read index, which is
`lodReadStride * (x + (gridWidth+1) * (y + (gridWidth+1) * z))` without wrap-around, is less
than the size of `cornerValues`, and the write index is less than the size of the vector of
the level; the finest level reads with stride 1.  The helper `bitScanReverse` is taken as
returning the position of the highest set bit. -/
theorem setValuesInternal_indices_in_range (bitScanReverse : Nat → Nat)
    (format : Nat → ℚ → Int) (cornerValues : List ℚ) (g : NDSDFGrid) (k : Nat)
    (hbsr : ∀ n, 0 < n → 2 ^ bitScanReverse n ≤ n ∧ n < 2 ^ (bitScanReverse n + 1))
    (hk : 3 ≤ k) (hG : g.mGridWidth = 2 ^ k)
    (hsize : cornerValues.length = (g.mGridWidth + 1) ^ 3)
    (hfit : (g.mGridWidth + 1) ^ 3 < 2 ^ 32) :
    addU32 (bitScanReverse (g.mGridWidth / 8)) 1 = k - 2 ∧
    (∃ values,
      NDSDFGrid.setValuesInternal bitScanReverse format cornerValues g
        = some (true, { g with mCoarsestLODGridWidth := 8, mValues := values }) ∧
      values.map List.length = (List.range (k - 2)).map (fun lod => (1 + 8 * 2 ^ lod) ^ 3)) ∧
    (∀ lod x y z, lod < k - 2 →
      x < NDSDFGrid.lodWidthInValues 8 lod → y < NDSDFGrid.lodWidthInValues 8 lod →
      z < NDSDFGrid.lodWidthInValues 8 lod →
      NDSDFGrid.readLocation (NDSDFGrid.lodReadStride (k - 2) lod) (addU32 g.mGridWidth 1) x y z
          = NDSDFGrid.lodReadStride (k - 2) lod
            * (x + (g.mGridWidth + 1) * (y + (g.mGridWidth + 1) * z)) ∧
        NDSDFGrid.readLocation (NDSDFGrid.lodReadStride (k - 2) lod) (addU32 g.mGridWidth 1)
          x y z < cornerValues.length ∧
        NDSDFGrid.writeLocation (NDSDFGrid.lodWidthInValues 8 lod) x y z
          < NDSDFGrid.lodValueCount 8 lod) ∧
    NDSDFGrid.lodReadStride (k - 2) (k - 3) = 1 := by
  obtain ⟨j, rfl⟩ : ∃ j, k = j + 3 := ⟨k - 3, by omega⟩
  have hk2 : j + 3 - 2 = j + 1 := by omega
  have hk3 : j + 3 - 3 = j := by omega
  rw [hk2, hk3]
  rw [hG] at hfit
  have hj : j + 3 < 32 := by
    have h1 : 2 ^ (j + 3) + 1 ≤ (2 ^ (j + 3) + 1) ^ 3 := Nat.le_self_pow (by decide) _
    exact (Nat.pow_lt_pow_iff_right (by decide : 1 < 2)).mp (by omega)
  have hdiv : g.mGridWidth / 8 = 2 ^ j := by
    rw [hG, pow_add]
    exact Nat.mul_div_cancel _ (by decide)
  have hcount : addU32 (bitScanReverse (g.mGridWidth / 8)) 1 = j + 1 := by
    rw [hdiv, NDSDFGrid.bitScanReverse_two_pow bitScanReverse hbsr j]
    unfold addU32 u32
    exact Nat.mod_eq_of_lt (by omega)
  have hcoarse : g.mGridWidth >>> subU32 (j + 1) 1 = 8 := by
    rw [NDSDFGrid.subU32_of_le _ _ (by omega) (by omega), hG, Nat.shiftRight_eq_div_pow,
      Nat.add_sub_cancel, Nat.add_comm j 3, pow_add]
    exact Nat.mul_div_cancel _ (Nat.two_pow_pos j)
  have hidx : ∀ lod x y z, lod < j + 1 →
      x < NDSDFGrid.lodWidthInValues 8 lod → y < NDSDFGrid.lodWidthInValues 8 lod →
      z < NDSDFGrid.lodWidthInValues 8 lod →
      NDSDFGrid.readLocation (NDSDFGrid.lodReadStride (j + 1) lod) (addU32 g.mGridWidth 1) x y z
          = NDSDFGrid.lodReadStride (j + 1) lod
            * (x + (g.mGridWidth + 1) * (y + (g.mGridWidth + 1) * z)) ∧
        NDSDFGrid.readLocation (NDSDFGrid.lodReadStride (j + 1) lod) (addU32 g.mGridWidth 1)
          x y z < cornerValues.length ∧
        NDSDFGrid.writeLocation (NDSDFGrid.lodWidthInValues 8 lod) x y z
          < NDSDFGrid.lodValueCount 8 lod := by
    intro lod x y z hlod hx hy hz
    obtain ⟨hw, hc, hs, hall⟩ := NDSDFGrid.lod_layout j lod (by omega) hfit
    rw [hw] at hx hy hz
    rw [hw, hc, hs, hsize, hG]
    exact hall x y z hx hy hz
  refine ⟨hcount, ?_, hidx, ?_⟩
  · obtain ⟨values, hv, hlen⟩ := mapM_option_some
      (NDSDFGrid.formatLod format cornerValues g (j + 1) 8) List.length
      (fun lod => (1 + 8 * 2 ^ lod) ^ 3) (List.range (j + 1)) (by
        intro lod hlod
        have hlt := List.mem_range.mp hlod
        obtain ⟨buf, hb, hbl⟩ := NDSDFGrid.formatLod_some format cornerValues g (j + 1) 8 lod
          (fun x y z hx hy hz => (hidx lod x y z hlt hx hy hz).2)
        exact ⟨buf, hb, hbl.trans (NDSDFGrid.lod_layout j lod (by omega) hfit).2.1⟩)
    refine ⟨values, ?_, hlen⟩
    unfold NDSDFGrid.setValuesInternal
    simp only []
    rw [if_neg (by rw [hG]; have := Nat.pow_le_pow_right (by decide : 0 < 2) hk; omega),
      hcount, hcoarse, hv]
  · exact (NDSDFGrid.lod_layout j j (Nat.le_refl j) hfit).2.2.1.trans (by rw [Nat.sub_self]; rfl)

/-- C30 on a grid of width 8 whose 729 corner values are zero, with `Nat.log2` as the bit
scan: one level of 729 values is stored and the coarsest LOD width is 8. -/
theorem setValuesInternal_indices_in_range_witness :
    ∃ values,
      NDSDFGrid.setValuesInternal Nat.log2 floorFormat (List.replicate 729 0) gridOfWidth8
        = some (true, { gridOfWidth8 with mCoarsestLODGridWidth := 8, mValues := values }) ∧
      values.map List.length = [729] :=
  (setValuesInternal_indices_in_range Nat.log2 floorFormat (List.replicate 729 0) gridOfWidth8 3
    (fun _ hn => ⟨Nat.log2_self_le (Nat.pos_iff_ne_zero.mp hn), Nat.lt_log2_self⟩)
    (by decide) rfl (by rw [List.length_replicate]; rfl) (by decide)).2.1

end Falcor
